import Mathlib

/-!
# Area-effect spell resolution: `crawl-ref/source/spl-damage.cc`

A shallow embedding of the damage-dealing spell code.  Stateful C++ becomes
explicit state passing over `game_state`; every call into code that lives
outside `spl-damage.cc` either mutates the modelled state, is recorded in the
state's call log (`game_state.log`), or is answered by an oracle of `Ext`.
C++ `int` division is `Int.tdiv` (truncation towards zero).
-/

namespace Crawl

/-! ## Basic data -/

/-- Grid cell, `coord_def`. -/
structure coord_def where
  x : Int
  y : Int
deriving DecidableEq, Repr, Inhabited

/-- Modelled from the spec: the grid distance of `coord_def.h` (not among the
sources), the number of king moves between two cells; it is zero exactly for
co-located cells. -/
def grid_distance (a b : coord_def) : Int :=
  max ((a.x - b.x).natAbs : Int) ((a.y - b.y).natAbs : Int)

/-- Tri-state outcome of a cast, `spret`. -/
inductive spret
  | abort
  | fail
  | success
deriving DecidableEq, Repr, Inhabited

/-- The spells this file dispatches on; every other spell is `SPELL_OTHER n`. -/
inductive spell_type
  | SPELL_NO_SPELL
  | SPELL_OZOCUBUS_REFRIGERATION
  | SPELL_DRAIN_LIFE
  | SPELL_SONIC_WAVE
  | SPELL_CHAIN_LIGHTNING
  | SPELL_CHAIN_OF_CHAOS
  | SPELL_FIRE_STORM
  | SPELL_SHATTER
  | SPELL_SEARING_RAY
  | SPELL_MAXWELLS_COUPLING
  | SPELL_MIASMA_BREATH
  | SPELL_IGNITION
  | SPELL_OLGREBS_TOXIC_RADIANCE
  | SPELL_OTHER (n : Nat)
deriving DecidableEq, Repr, Inhabited

/-- Damage flavours named in this file; every other one is `BEAM_OTHER n`. -/
inductive beam_type
  | BEAM_NONE
  | BEAM_MMISSILE
  | BEAM_FIRE
  | BEAM_COLD
  | BEAM_ELECTRICITY
  | BEAM_NEG
  | BEAM_CHAOS
  | BEAM_VISUAL
  | BEAM_MIASMA
  | BEAM_FRAG
  | BEAM_ICE
  | BEAM_POISON
  | BEAM_OTHER (n : Nat)
deriving DecidableEq, Repr, Inhabited

/-- Who gets the blame for a kill, `killer_type`. -/
inductive killer_type
  | KILL_NONE
  | KILL_YOU
  | KILL_YOU_MISSILE
  | KILL_YOU_CONF
  | KILL_MON
  | KILL_MON_MISSILE
  | KILL_MISC
deriving DecidableEq, Repr, Inhabited

/-- The macro `YOU_KILL(x)`. -/
def YOU_KILL (k : killer_type) : Bool :=
  k == killer_type.KILL_YOU || k == killer_type.KILL_YOU_MISSILE
    || k == killer_type.KILL_YOU_CONF

/-- Zap identifiers; `NUM_ZAPS` is the "no zap" value of `spell_to_zap`. -/
inductive zap_type
  | ZAP_SEARING_RAY_I
  | ZAP_SEARING_RAY_II
  | ZAP_SEARING_RAY_III
  | ZAP_FIRE_STORM
  | ZAP_IGNITION
  | ZAP_OTHER (n : Int)
  | NUM_ZAPS
deriving DecidableEq, Repr, Inhabited

/-- Monster attitude towards the player. -/
inductive mon_attitude_type
  | ATT_HOSTILE
  | ATT_NEUTRAL
  | ATT_GOOD_NEUTRAL
  | ATT_STRICT_NEUTRAL
  | ATT_FRIENDLY
deriving DecidableEq, Repr, Inhabited

/-- Monster species the shatter code names; the rest is `MONS_OTHER n`. -/
inductive monster_type
  | MONS_NO_MONSTER
  | MONS_EARTH_ELEMENTAL
  | MONS_ROCKSLIME
  | MONS_USHABTI
  | MONS_STATUE
  | MONS_GARGOYLE
  | MONS_IRON_ELEMENTAL
  | MONS_IRON_GOLEM
  | MONS_PEACEKEEPER
  | MONS_WAR_GARGOYLE
  | MONS_SALTLING
  | MONS_CRYSTAL_GUARDIAN
  | MONS_OBSIDIAN_STATUE
  | MONS_ORANGE_STATUE
  | MONS_ROXANNE
  | MONS_ROYAL_JELLY
  | MONS_TOENAIL_GOLEM
  | MONS_OTHER (n : Nat)
deriving DecidableEq, Repr, Inhabited

/-- Monster enchantments read or removed here. -/
inductive enchant_type
  | ENCH_NONE
  | ENCH_POISON
  | ENCH_TOXIC_RADIANCE
  | ENCH_OTHER (n : Nat)
deriving DecidableEq, Repr, Inhabited

/-- One entry of a monster's status table. -/
structure mon_enchant where
  ench : enchant_type
  degree : Int
deriving DecidableEq, Repr, Inhabited

/-- Player durations used here. -/
inductive duration_type
  | DUR_NO_POTIONS
  | DUR_POISONING
  | DUR_DEATHS_DOOR
  | DUR_TOXIC_RADIANCE
  | DUR_OTHER (n : Nat)
deriving DecidableEq, Repr, Inhabited

/-- Player attributes used here. -/
inductive attribute_type
  | ATTR_SEARING_RAY
  | ATTR_OTHER (n : Nat)
deriving DecidableEq, Repr, Inhabited

/-- Player forms tested by the shatter code. -/
inductive transformation
  | none
  | statue
  | ice_beast
  | golem
  | other (n : Nat)
deriving DecidableEq, Repr, Inhabited

/-- Player species tested by the shatter code. -/
inductive species_type
  | SP_GARGOYLE
  | SP_OTHER (n : Nat)
deriving DecidableEq, Repr, Inhabited

/-- Commands recorded in `crawl_state.prev_cmd`. -/
inductive command_type
  | CMD_NO_CMD
  | CMD_WAIT
  | CMD_OTHER (n : Nat)
deriving DecidableEq, Repr, Inhabited

/-- Keys of the player's persistent property store used by this file. -/
inductive prop_key
  | searing_ray_target
  | searing_ray_aimed_at_spot
  | COUPLING_TIME_KEY
  | WALL_INVISIBLE_KEY
deriving DecidableEq, Repr, Inhabited

/-- A stored property value (`CrawlStoreValue`). -/
inductive prop_value
  | int (n : Int)
  | bool (b : Bool)
  | coord (c : coord_def)
deriving DecidableEq, Repr, Inhabited

/-- Cloud types the ignite code tests or creates. -/
inductive cloud_type
  | CLOUD_NONE
  | CLOUD_FIRE
  | CLOUD_MEPHITIC
  | CLOUD_POISON
  | CLOUD_OTHER (n : Nat)
deriving DecidableEq, Repr, Inhabited

/-- Whose kill a cloud's damage counts as, `kill_category`. -/
inductive kill_category
  | KC_YOU
  | KC_FRIENDLY
  | KC_OTHER
deriving DecidableEq, Repr, Inhabited

/-- Terrain features tested here; the rest is `DNGN_OTHER n`. -/
inductive dungeon_feature_type
  | DNGN_FLOOR
  | DNGN_TOXIC_BOG
  | DNGN_CLOSED_DOOR
  | DNGN_CLOSED_CLEAR_DOOR
  | DNGN_RUNED_DOOR
  | DNGN_RUNED_CLEAR_DOOR
  | DNGN_OPEN_DOOR
  | DNGN_OPEN_CLEAR_DOOR
  | DNGN_SEALED_DOOR
  | DNGN_SEALED_CLEAR_DOOR
  | DNGN_GRATE
  | DNGN_ORCISH_IDOL
  | DNGN_GRANITE_STATUE
  | DNGN_METAL_WALL
  | DNGN_CLEAR_STONE_WALL
  | DNGN_STONE_WALL
  | DNGN_CLEAR_ROCK_WALL
  | DNGN_ROCK_WALL
  | DNGN_SLIMY_WALL
  | DNGN_CRYSTAL_WALL
  | DNGN_TREE
  | DNGN_STONE_ARCH
  | DNGN_OTHER (n : Nat)
deriving DecidableEq, Repr, Inhabited

/-- Reference to an actor: the player, or the monster at an index of
`env.mons`. -/
inductive actor_ref
  | player
  | mons (idx : Nat)
deriving DecidableEq, Repr, Inhabited

/-- The method `actor::is_player`. -/
def actor_ref.is_player : actor_ref → Bool
  | actor_ref.player => true
  | actor_ref.mons _ => false

/-- The method `actor::as_monster`: the monster index, or nothing for the
player. -/
def actor_ref.as_monster : actor_ref → Option Nat
  | actor_ref.player => none
  | actor_ref.mons i => some i

/-- Dice formula `dice_def`: `num` dice of `size` sides. -/
structure dice_def where
  num : Int
  size : Int
deriving DecidableEq, Repr, Inhabited

/-- Tracer tally of a beam (`bolt::tracer_info`). -/
structure tracer_info where
  count : Int
  power : Int
  dont_stop : Bool := false
deriving DecidableEq, Repr, Inhabited

/-- The fields of `bolt` that the spell code sets or reads (glyph and colour
are presentation only and left out). -/
structure bolt where
  name : String
  aux_source : String
  source_name : String
  flavour : beam_type
  real_flavour : beam_type
  damage : dice_def
  thrower : killer_type
  source_id : Nat
  range : Int
  hit : Int
  ench_power : Int
  ex_size : Int
  obvious_effect : Bool
  pierce : Bool
  is_explosion : Bool
  is_tracer : Bool
  aimed_at_spot : Bool
  origin_spell : spell_type
  source : coord_def
  target : coord_def
  foe_ratio : Int
  friend_info : tracer_info
  foe_info : tracer_info
  beam_cancelled : Bool
  loudness : Int
  attitude : mon_attitude_type
  is_targeting : Bool
  dont_stop_player : Bool
  is_spread : Bool
  in_explosion_phase : Bool
  path_taken : List coord_def
deriving DecidableEq, Repr, Inhabited

/-- A monster: the attributes the spell code reads, and the hit points and
status table it mutates. -/
structure monster where
  mid : Nat
  type : monster_type
  pos : coord_def
  hit_points : Int
  max_hit_points : Int
  hit_dice : Int
  armour_class : Int
  attitude : mon_attitude_type
  wont_attack : Bool
  summoned : Bool
  res_cold : Int
  res_negative_energy : Int
  insubstantial : Bool
  petrifying : Bool
  petrified : Bool
  skeletal : Bool
  icy : Bool
  airborne : Bool
  slime : Bool
  enchantments : List mon_enchant
  submerged : Bool
  res_elec : Int
  res_poison : Int
deriving DecidableEq, Repr, Inhabited

/-- Modelled from the spec: `monster::alive` (`monster.cc` is not among the
sources): an actor whose hit points have reached zero is dead. -/
def monster.alive (m : monster) : Bool :=
  decide (0 < m.hit_points)

/-- The player (`you`): position, hit points, status tables and the channel
state kept between turns. -/
structure player where
  mid : Nat
  pos : coord_def
  hp : Int
  hp_max : Int
  magic_points : Int
  experience_level : Int
  armour_class : Int
  res_cold : Int
  res_negative_energy : Int
  wont_attack : Bool
  insubstantial : Bool
  petrifying : Bool
  petrified : Bool
  airborne : Bool
  confused : Bool
  berserk : Bool
  auto_spell : Bool
  form : transformation
  species : species_type
  time_taken : Int
  duration : duration_type → Int
  attributes : attribute_type → Int
  props : List (prop_key × prop_value)
  res_poison : Int
deriving Inhabited

/-- A cloud on the map, `cloud_struct`. -/
structure cloud_struct where
  pos : coord_def
  type : cloud_type
  decay : Int
  whose : kill_category
  killer : killer_type
  source : Nat
deriving DecidableEq, Repr, Inhabited

/-- Every call into code outside `spl-damage.cc` that the embedding records. -/
inductive Event
  | mpr (msg : String)
  | flash_view_delay
  | set_attack_conducts (target : Nat)
  | check_your_resists (hurted : Int) (flavour : beam_type) (doEffects : Bool)
  | mons_adjust_flavoured (target : Nat) (hurted : Int) (doFlavouredEffects : Bool)
  | ouch (dam : Int)
  | hurt (target : Nat) (amount : Int)
  | monster_die (target : Nat)
  | expose_to_element (target : actor_ref) (flavour : beam_type) (strength : Int)
  | increase_duration (dur : duration_type) (amount : Int) (cap : Int)
  | refrigerate_food (delta : Int)
  | remove_sanctuary
  | majin_bo_vampirism (target : Nat) (damage : Int)
  | behaviour_event (target : Nat)
  | print_wounds (target : Nat)
  | del_ench (target : Nat) (ench : enchant_type)
  | noisy (spell : spell_type) (pos : coord_def)
  | fire (beam : bolt)
  | dec_mp (n : Int)
  | place_cloud (cloud : cloud_type) (pos : coord_def) (decay : Int)
  | canned_msg (msg : String)
  | aim_battlesphere (spell : spell_type) (pow : Int) (beam : bolt)
  | trigger_battlesphere (beam : bolt)
  | trj_spawn (target : Nat)
  | destroy_item (target : Nat)
  | explode (beam : bolt)
  | apply_beam_conducts (beam : bolt)
  | viewwindow
  | destroy_wall (pos : coord_def)
  | run_animation
  | beam_draw (pos : coord_def)
  | explosion_draw_cell (pos : coord_def)
  | explosion_affect_cell (beam : bolt) (pos : coord_def)
  | update_screen
  | scaled_delay (n : Int)
  | poison_player (amount : Int)
  | poison_monster (target : Nat) (levels : Int)
  | add_ench (target : Nat) (ench : mon_enchant) (duration : Int)
deriving DecidableEq, Repr, Inhabited

/-- The mutable world: the player, the monster table `env.mons`, the last
command, the pending random draws and the log of outside calls. -/
structure game_state where
  you : player
  mons : List monster
  clouds : List cloud_struct
  grd : coord_def → dungeon_feature_type
  prev_cmd : command_type
  rng : List Nat
  log : List Event
deriving Inhabited

/-- Monster at an index of `env.mons`. -/
def game_state.mon (s : game_state) (i : Nat) : monster :=
  s.mons.getD i default

/-- Overwrite the monster at an index. -/
def game_state.set_mon (s : game_state) (i : Nat) (m : monster) : game_state :=
  { s with mons := s.mons.set i m }

/-- Record a call to outside code. -/
def game_state.emit (s : game_state) (e : Event) : game_state :=
  { s with log := s.log ++ [e] }

/-- Position of an actor, `actor::pos`. -/
def game_state.actor_pos (s : game_state) : actor_ref → coord_def
  | actor_ref.player => s.you.pos
  | actor_ref.mons i => (s.mon i).pos

/-- Identifier of an actor, `actor::mid`. -/
def game_state.actor_mid (s : game_state) : actor_ref → Nat
  | actor_ref.player => s.you.mid
  | actor_ref.mons i => (s.mon i).mid

/-- The value `MID_NOBODY`. -/
def MID_NOBODY : Nat := 0

/-! ## The pseudo-random source -/

/-- Modelled from the spec: `random2` of the pseudo-random source (`random.cc`
is not among the sources): a value in `[0, max)` taken from the next pending
draw, and `0` without a draw when `max <= 1`. -/
def random2 (max : Int) (r : List Nat) : Int × List Nat :=
  if max ≤ 1 then (0, r)
  else match r with
    | [] => (0, [])
    | d :: rest => ((d : Int) % max, rest)

/-- Modelled from the spec: the chance-in-y boolean test `x_chance_in_y` of
the pseudo-random source. -/
def x_chance_in_y (x y : Int) (r : List Nat) : Bool × List Nat :=
  if x ≤ 0 then (false, r)
  else if y ≤ x then (true, r)
  else let d := random2 y r; (decide (d.1 < x), d.2)

/-- Modelled from the spec: `one_chance_in(a)`, true with probability `1/a`. -/
def one_chance_in (a : Int) (r : List Nat) : Bool × List Nat :=
  x_chance_in_y 1 a r

/-- Sum of `n` further `random2(size)` draws added to `acc`. -/
def roll_dice_loop : Nat → Int → Int → List Nat → Int × List Nat
  | 0, _, acc, r => (acc, r)
  | n + 1, size, acc, r =>
    let d := random2 size r
    roll_dice_loop n size (acc + d.1 + 1) d.2

/-- Modelled from the spec: a dice roll `roll_dice(num, size)` of the
pseudo-random source: the sum of `num` values in `[1, size]`, and `0` when
either argument is not positive. -/
def roll_dice (num size : Int) (r : List Nat) : Int × List Nat :=
  if 0 < num ∧ 0 < size then roll_dice_loop num.toNat size 0 r else (0, r)

/-- The method `dice_def::roll`. -/
def dice_def.roll (d : dice_def) (r : List Nat) : Int × List Nat :=
  roll_dice d.num d.size r

/-- Modelled from the spec: `div_rand_round(num, den)` of the pseudo-random
source: the quotient, rounded up with probability remainder / den. -/
def div_rand_round (num den : Int) (r : List Nat) : Int × List Nat :=
  let rem := Int.tmod num den
  if rem ≠ 0 then
    let d := random2 den r
    (Int.tdiv num den + (if d.1 < (rem.natAbs : Int) then 1 else 0), d.2)
  else (Int.tdiv num den, r)

/-- Draw `random2(max)` from the state's pending draws. -/
def game_state.random2 (s : game_state) (max : Int) : Int × game_state :=
  let d := Crawl.random2 max s.rng
  (d.1, { s with rng := d.2 })

/-- Roll a dice formula from the state's pending draws. -/
def game_state.roll (s : game_state) (d : dice_def) : Int × game_state :=
  let v := d.roll s.rng
  (v.1, { s with rng := v.2 })

/-- Test `x_chance_in_y(x, y)` on the state's pending draws. -/
def game_state.x_chance_in_y (s : game_state) (x y : Int) : Bool × game_state :=
  let v := Crawl.x_chance_in_y x y s.rng
  (v.1, { s with rng := v.2 })

/-- Test `one_chance_in(a)` on the state's pending draws. -/
def game_state.one_chance_in (s : game_state) (a : Int) : Bool × game_state :=
  s.x_chance_in_y 1 a

/-! ## Outside collaborators -/

/-- Line-of-sight modes passed to `cell_see_cell`. -/
inductive los_type
  | LOS_SOLID
  | LOS_SOLID_SEE
  | LOS_NO_TRANS
  | LOS_ARENA
deriving DecidableEq, Repr, Inhabited

/-- Oracles for the code outside `spl-damage.cc`: visibility, the actor
registry, the resistance library, religion, zap tables and the prompt. -/
structure Ext where
  /-- The function `spell_to_zap`. -/
  spell_to_zap : spell_type → zap_type
  /-- The function `zappy(zap, pow, is_monster, beam)`: the beam it fills in. -/
  zappy : zap_type → Int → Bool → bolt → bolt
  /-- Adjusted damage returned by `check_your_resists`. -/
  your_resists : game_state → Int → beam_type → Int
  /-- Flavoured side effects of `check_your_resists`, run only on request. -/
  your_resist_effects : Int → beam_type → game_state → game_state
  /-- Adjusted damage returned by `mons_adjust_flavoured`. -/
  mons_resists : game_state → Nat → bolt → Int → Int
  /-- Flavoured side effects of `mons_adjust_flavoured`, run only on request. -/
  mons_flavoured_effects : Nat → bolt → Int → game_state → game_state
  /-- New status table of a monster after `monster::expose_to_element`. -/
  mon_expose : beam_type → Int → monster → List mon_enchant
  /-- New duration table of the player after `player::expose_to_element`. -/
  you_expose : beam_type → Int → player → duration_type → Int
  /-- The function `god_protects(agent, target)`. -/
  god_protects : game_state → Option actor_ref → Option Nat → Bool
  /-- The function `mons_atts_aligned`. -/
  mons_atts_aligned : mon_attitude_type → mon_attitude_type → Bool
  /-- The function `mons_aligned`. -/
  mons_aligned : game_state → actor_ref → actor_ref → Bool
  /-- The actors an `actor_near_iterator` centred on a cell visits. -/
  actor_near : game_state → coord_def → List actor_ref
  /-- The cells `apply_area_visible` visits around a cell. -/
  visible_cells : game_state → coord_def → List coord_def
  /-- Whether the player declines at `stop_attack_prompt`. -/
  stop_attack_prompt : game_state → Bool
  /-- The function `mons_should_fire`. -/
  mons_should_fire : bolt → Bool
  /-- The method `player::can_see` for an actor. -/
  you_can_see : game_state → actor_ref → Bool
  /-- The method `player::see_cell`. -/
  you_see_cell : game_state → coord_def → Bool
  /-- The function `cell_see_cell`. -/
  cell_see_cell : game_state → coord_def → coord_def → los_type → Bool
  /-- The function `is_sanctuary`. -/
  is_sanctuary : game_state → coord_def → Bool
  /-- The function `invalid_monster_type`. -/
  invalid_monster_type : monster_type → Bool
  /-- The function `actor_cloud_immune(act, CLOUD_FIRE)`. -/
  actor_cloud_immune_fire : game_state → actor_ref → Bool
  /-- The function `resist_adjust_damage` for any actor. -/
  resist_adjust_damage : game_state → actor_ref → beam_type → Int → Int
  /-- The method `actor::kill_alignment`. -/
  kill_alignment : game_state → actor_ref → kill_category
  /-- The poison strength `stepdown(duration / 5000.0, 2.25)` of the player,
  computed in floating point outside this file. -/
  poison_stepdown : Int → Int
  /-- The player's answer to a `yesno` prompt. -/
  yesno : game_state → String → Bool
  /-- The constant `LOS_DEFAULT_RANGE`. -/
  LOS_DEFAULT_RANGE : Int
  /-- The method `bolt::ignores_monster`. -/
  ignores_monster : game_state → bolt → Nat → Bool
  /-- The cell where a ray found by `find_ray(source, pos, ray, opc_solid)` and
  advanced until it meets an actor stops; nothing when no ray is found. -/
  ray_stop : game_state → coord_def → coord_def → Option coord_def
  /-- The method `bolt::fire`: the beam and the world after the beam has
  resolved. -/
  fire : bolt → game_state → bolt × game_state
  /-- The function `calc_dice(num_dice, max_damage)` with the draws it takes. -/
  calc_dice : Int → Int → List Nat → dice_def × List Nat
  /-- The function `enough_mp(minimum, suppress_msg)`. -/
  enough_mp : game_state → Int → Bool
  /-- The function `calc_spell_power(spell, true)`. -/
  calc_spell_power : game_state → spell_type → Int
  /-- The function `calc_spell_range(spell, pow)`. -/
  calc_spell_range : game_state → spell_type → Int → Int
  /-- The function `player_tracer(zap, pow, beam)`: whether the player goes on. -/
  player_tracer : game_state → zap_type → Int → bolt → Bool
  /-- The function `zapping(zap, pow, beam, true, nullptr, fail)`: its outcome
  and the world after it. -/
  zapping : zap_type → Int → bolt → Bool → game_state → spret × game_state
  /-- The cells a `distance_iterator` around a cell visits, for a value of its
  `fair` flag and a radius. -/
  distance_cells : game_state → coord_def → Bool → Int → List coord_def
  /-- The method `player::see_cell_no_trans`. -/
  see_cell_no_trans : game_state → coord_def → Bool
  /-- The function `mons_is_firewood`. -/
  mons_is_firewood : monster → Bool
  /-- The function `mons_is_conjured`. -/
  mons_is_conjured : monster_type → Bool
  /-- The test `have_passive(passive_t::goldify_corpses)`. -/
  goldify_corpses : game_state → Bool
  /-- Whether `monster_die` leaves a corpse for a monster. -/
  leaves_corpse : game_state → Nat → Bool
  /-- The constant `LOS_RADIUS`. -/
  LOS_RADIUS : Int
  /-- The function `cell_is_solid`. -/
  cell_is_solid : game_state → coord_def → Bool
  /-- The method `bolt::explode(false)`: the beam, with its `beam_cancelled`
  flag, and the world after the explosion or its tracer. -/
  explode : bolt → game_state → bolt × game_state
  /-- The method `bolt::refine_for_explosion`. -/
  refine_for_explosion : bolt → bolt
  /-- The function `in_bounds`. -/
  in_bounds : coord_def → Bool
  /-- Whether `env.markers.property_at(where, MAT_ANY, "veto_shatter")` is
  `"veto"`. -/
  veto_shatter : game_state → coord_def → Bool
  /-- Whether `agent->deity()` is `GOD_FEDHAS`. -/
  deity_is_fedhas : game_state → actor_ref → Bool
  /-- The function `feat_is_tree`. -/
  feat_is_tree : dungeon_feature_type → Bool
  /-- The function `destroy_wall`: the world after the wall is gone. -/
  destroy_wall : coord_def → game_state → game_state
  /-- The function `silenced`. -/
  silenced : game_state → coord_def → Bool
  /-- Whether the player declines at `stop_attack_prompt(hitfunc, verb,
  affects)`, which is handed the predicate that says whom the spell would
  harm. -/
  stop_attack_prompt_hitfunc : game_state → String → (actor_ref → Bool) → Bool
  /-- The method `actor::name(DESC_PLAIN, true)`. -/
  actor_name : game_state → actor_ref → String
  /-- The cells `apply_random_around_square` picks around a cell, for a value
  of its `exclude_center` flag and a maximum number of targets, with the
  draws left after the pick. -/
  random_around_square : game_state → coord_def → Bool → Int → List coord_def × List Nat
  /-- The method `bolt::set_agent`. -/
  set_agent : game_state → actor_ref → bolt → bolt
  /-- The method `bolt::can_affect_wall`. -/
  can_affect_wall : game_state → bolt → coord_def → Bool
  /-- The test `you_worship(GOD_FEDHAS)`. -/
  you_worship_fedhas : game_state → Bool
  /-- The cells an `adjacent_iterator` around a cell visits; the cell itself
  is not among them. -/
  adjacent_cells : game_state → coord_def → List coord_def
  /-- The function `mons_is_tentacle_segment`. -/
  mons_is_tentacle_segment : monster_type → Bool
  /-- The method `bolt::explosion_affect_cell`: the world after the beam has
  affected a cell. -/
  explosion_affect_cell : bolt → coord_def → game_state → game_state
  /-- The method `actor::can_see` for an actor looking at another. -/
  actor_can_see : game_state → actor_ref → actor_ref → Bool
  /-- The cells a `distance_iterator` around a cell visits when the centre is
  not excluded, for a value of its `fair` flag and a radius. -/
  distance_cells_centre : game_state → coord_def → Bool → Int → List coord_def
  /-- The function `poison_player`: the world after the player is poisoned. -/
  poison_player : Int → game_state → game_state
  /-- The function `poison_monster`: the world after a monster is poisoned. -/
  poison_monster : Nat → Int → game_state → game_state

/-- Run an outside world transformer; the call log is not its to change. -/
def ext_step (f : game_state → game_state) (s : game_state) : game_state :=
  { f s with log := s.log }

/-! ## Damage primitives -/

/-- Modelled from the spec: `monster_die` (`mon-death.cc` is not among the
sources), the death cleanup of a monster; each run is recorded. -/
def monster_die (i : Nat) (s : game_state) : game_state :=
  s.emit (Event.monster_die i)

/-- Modelled from the spec: `monster::hurt` (`monster.cc` is not among the
sources): subtract the amount from a live target's hit points and, when asked
to clean up, run the death cleanup if the hit points have reached zero. -/
def monster_hurt (i : Nat) (amount : Int) (cleanup_dead : Bool) (s : game_state) :
    game_state :=
  let s1 := s.emit (Event.hurt i amount)
  let m := s1.mon i
  let s2 := if m.alive then s1.set_mon i { m with hit_points := m.hit_points - amount }
            else s1
  if cleanup_dead && !(s2.mon i).alive then monster_die i s2 else s2

/-- Modelled from the spec: `ouch` (`ouch.cc` is not among the sources):
subtract the damage from the player's hit points. -/
def ouch (dam : Int) (s : game_state) : game_state :=
  let s1 := s.emit (Event.ouch dam)
  { s1 with you := { s1.you with hp := s1.you.hp - dam } }

/-- The method `player::expose_to_element`: a coupled status effect, its
outcome given by the oracle. -/
def you_expose_to_element (E : Ext) (flavour : beam_type) (strength : Int)
    (s : game_state) : game_state :=
  let s1 := s.emit (Event.expose_to_element actor_ref.player flavour strength)
  { s1 with you := { s1.you with duration := E.you_expose flavour strength s1.you } }

/-- The method `monster::expose_to_element`: a coupled status effect, its
outcome given by the oracle. -/
def mon_expose_to_element (E : Ext) (i : Nat) (flavour : beam_type) (strength : Int)
    (s : game_state) : game_state :=
  let s1 := s.emit (Event.expose_to_element (actor_ref.mons i) flavour strength)
  let m := s1.mon i
  s1.set_mon i { m with enchantments := E.mon_expose flavour strength m }

/-- The constant `BASELINE_DELAY`. -/
def BASELINE_DELAY : Int := 10

/-- Modelled from the spec: `player::increase_duration` (`player.cc` is not
among the sources): lengthen a status effect's remaining duration, up to a
cap. -/
def increase_duration (dur : duration_type) (amount cap : Int) (s : game_state) :
    game_state :=
  let s1 := s.emit (Event.increase_duration dur amount cap)
  let old := s1.you.duration dur
  if cap ≠ 0 ∧ cap * BASELINE_DELAY < old then s1
  else
    let raised := old + amount * BASELINE_DELAY
    let capped := if cap ≠ 0 ∧ cap * BASELINE_DELAY < raised then cap * BASELINE_DELAY
                  else raised
    { s1 with you := { s1.you with duration := Function.update s1.you.duration dur capped } }

/-- The mitigation step `check_your_resists(hurted, flavour, name, 0,
doEffects)`: a pure adjustment, with flavoured side effects only on request. -/
def check_your_resists (E : Ext) (hurted : Int) (flavour : beam_type) (doEffects : Bool)
    (s : game_state) : Int × game_state :=
  let s1 := s.emit (Event.check_your_resists hurted flavour doEffects)
  let s2 := if doEffects then ext_step (E.your_resist_effects hurted flavour) s1 else s1
  (E.your_resists s hurted flavour, s2)

/-- The mitigation step `mons_adjust_flavoured(mon, beam, hurted,
doFlavouredEffects)`: a pure adjustment, with flavoured side effects only on
request. -/
def mons_adjust_flavoured (E : Ext) (target : Nat) (beam : bolt) (hurted : Int)
    (doFlavouredEffects : Bool) (s : game_state) : Int × game_state :=
  let s1 := s.emit (Event.mons_adjust_flavoured target hurted doFlavouredEffects)
  let s2 := if doFlavouredEffects
            then ext_step (E.mons_flavoured_effects target beam hurted) s1 else s1
  (E.mons_resists s target beam hurted, s2)

/-- The god-conduct hook `set_attack_conducts`, recorded for its target. -/
def set_attack_conducts (target : Nat) (s : game_state) : game_state :=
  s.emit (Event.set_attack_conducts target)

/-- The first statement of `_player_hurt_monster`: a sanctuary under the
player or the monster is removed. -/
def player_hurt_sanctuary (E : Ext) (mon : Nat) (s : game_state) : game_state :=
  if E.is_sanctuary s s.you.pos || E.is_sanctuary s (s.mon mon).pos
  then s.emit Event.remove_sanctuary else s

/-- The function `_player_hurt_monster(mon, damage, flavour, god_conducts)`. -/
def _player_hurt_monster (E : Ext) (mon : Nat) (damage : Int) (_flavour : beam_type)
    (god_conducts : Bool) (s : game_state) : game_state :=
  let s1 := player_hurt_sanctuary E mon s
  if god_conducts && E.god_protects s1 (some actor_ref.player) (some mon) then s1
  else
    let s2 := if god_conducts then set_attack_conducts mon s1 else s1
    let s3 := if damage ≠ 0 then
                monster_hurt mon damage true
                  (s2.emit (Event.majin_bo_vampirism mon (min damage (s2.mon mon).hit_points)))
              else s2
    if (s3.mon mon).alive then
      let s4 := s3.emit (Event.behaviour_event mon)
      if damage ≠ 0 ∧ E.you_can_see s4 (actor_ref.mons mon) = true
      then s4.emit (Event.print_wounds mon) else s4
    else if damage = 0 then monster_die mon s3
    else s3

/-! ## The line-of-sight engine -/

/-- Cold resistance of an actor, `actor::res_cold`. -/
def game_state.res_cold (s : game_state) : actor_ref → Int
  | actor_ref.player => s.you.res_cold
  | actor_ref.mons i => (s.mon i).res_cold

/-- Negative-energy resistance of an actor, `actor::res_negative_energy`. -/
def game_state.res_negative_energy (s : game_state) : actor_ref → Int
  | actor_ref.player => s.you.res_negative_energy
  | actor_ref.mons i => (s.mon i).res_negative_energy

/-- The method `actor::wont_attack`. -/
def game_state.wont_attack (s : game_state) : actor_ref → Bool
  | actor_ref.player => s.you.wont_attack
  | actor_ref.mons i => (s.mon i).wont_attack

/-- The function `_drain_lifeable(agent, act)`. -/
def _drain_lifeable (E : Ext) (s : game_state) (agent : Option actor_ref)
    (act : actor_ref) : Bool :=
  if 3 ≤ s.res_negative_energy act then false
  else match agent with
    | none => true
    | some a =>
      !((a.is_player && s.wont_attack act)
        || (a.as_monster.isSome && act.is_player && s.wont_attack a)
        || (match a.as_monster, act.as_monster with
            | some mi, some ti =>
              E.mons_atts_aligned (s.mon mi).attitude (s.mon ti).attitude
            | _, _ => false))

/-- The per-spell `vulnerable` predicate chosen by the switch of
`_cast_los_attack_spell`. -/
def los_vulnerable (E : Ext) (spell : spell_type) (s : game_state)
    (caster : Option actor_ref) (act : actor_ref) : Bool :=
  match spell with
  | spell_type.SPELL_OZOCUBUS_REFRIGERATION =>
    act.is_player
      || (decide (s.res_cold act < 3) && !E.god_protects s caster act.as_monster)
  | spell_type.SPELL_DRAIN_LIFE => _drain_lifeable E s caster act
  | spell_type.SPELL_SONIC_WAVE =>
    (some act != caster) && !E.god_protects s caster act.as_monster
  | _ => false

/-- The value a 32-bit `int` holds after an arithmetic result has wrapped
around. -/
def wrap32 (x : Int) : Int :=
  (x + 2147483648) % 4294967296 - 2147483648

/-- The expected value `(1 + num * size) / 2` a tracer uses for a dice
formula, computed in 32-bit `int`s as in the source: the product and the sum
wrap around, the division truncates. -/
def avg_dice (d : dice_def) : Int :=
  Int.tdiv (wrap32 (1 + wrap32 (d.num * d.size))) 2

/-- The block of `_los_spell_damage_player` guarded by `actual && hurted > 0`:
the damage and the coupled status effects applied to the player. -/
def los_player_apply (E : Ext) (agent : Option actor_ref) (beam : bolt) (hurted : Int)
    (s : game_state) : game_state :=
  let s3 := if beam.origin_spell = spell_type.SPELL_OZOCUBUS_REFRIGERATION
            then s.emit (Event.mpr "You feel very cold.") else s
  match agent with
  | some (actor_ref.mons _) =>
    you_expose_to_element E beam.flavour 5 (ouch hurted s3)
  | _ =>
    if beam.origin_spell = spell_type.SPELL_OZOCUBUS_REFRIGERATION then
      let s4 := you_expose_to_element E beam.flavour 5 s3
      let old_duration := s4.you.duration duration_type.DUR_NO_POTIONS
      let d := s4.random2 9
      let s5 := increase_duration duration_type.DUR_NO_POTIONS (7 + d.1) 15 d.2
      let dur_delta := s5.you.duration duration_type.DUR_NO_POTIONS - old_duration
      s5.emit (Event.refrigerate_food dur_delta)
    else s3

/-- The function `_los_spell_damage_player(agent, beam, actual)`. -/
def _los_spell_damage_player (E : Ext) (agent : Option actor_ref) (beam : bolt)
    (actual : Bool) (s : game_state) : Int × game_state :=
  let base := if actual then s.roll beam.damage else (avg_dice beam.damage, s)
  let adj := check_your_resists E base.1 beam.flavour
    (actual && beam.origin_spell != spell_type.SPELL_DRAIN_LIFE) base.2
  let hurted := adj.1
  if actual = true ∧ 0 < hurted then (hurted, los_player_apply E agent beam hurted adj.2)
  else (hurted, adj.2)

/-- The `thrower` that `_los_spell_damage_monster` gives the beam. -/
def los_thrower : Option actor_ref → killer_type
  | some actor_ref.player => killer_type.KILL_YOU
  | some (actor_ref.mons _) => killer_type.KILL_MON
  | none => killer_type.KILL_MISC

/-- The block of `_los_spell_damage_monster` guarded by `actual`: the damage
and the coupled status effect applied to the monster. -/
def los_monster_apply (E : Ext) (target : Nat) (beam1 : bolt) (hurted : Int)
    (s : game_state) : game_state :=
  let s3 := if YOU_KILL beam1.thrower
            then _player_hurt_monster E target hurted beam1.flavour false s
            else if hurted ≠ 0 then monster_hurt target hurted true s
            else s
  if beam1.origin_spell = spell_type.SPELL_OZOCUBUS_REFRIGERATION
      ∧ (s3.mon target).alive = true
  then mon_expose_to_element E target beam1.flavour 5 s3 else s3

/-- The function `_los_spell_damage_monster(agent, target, beam, actual)`; the
beam is passed by reference, so the updated beam is returned too. -/
def _los_spell_damage_monster (E : Ext) (agent : Option actor_ref) (target : Nat)
    (beam : bolt) (actual : Bool) (s : game_state) : Int × bolt × game_state :=
  let beam1 := { beam with thrower := los_thrower agent }
  let s1 := if YOU_KILL beam1.thrower then set_attack_conducts target s else s
  let base := if actual then s1.roll beam1.damage else (avg_dice beam1.damage, s1)
  let adj := mons_adjust_flavoured E target beam1 base.1
    (actual && beam1.origin_spell != spell_type.SPELL_DRAIN_LIFE) base.2
  let hurted := adj.1
  let s4 := if actual then los_monster_apply E target beam1 hurted adj.2 else adj.2
  if beam1.origin_spell = spell_type.SPELL_DRAIN_LIFE ∧ (s4.mon target).summoned = true
  then (0, beam1, s4) else (hurted, beam1, s4)

/-- The spells the switch of `_cast_los_attack_spell` accepts. -/
def is_los_attack_spell (spell : spell_type) : Bool :=
  spell == spell_type.SPELL_OZOCUBUS_REFRIGERATION
    || spell == spell_type.SPELL_DRAIN_LIFE
    || spell == spell_type.SPELL_SONIC_WAVE

/-- The announcement block of `_cast_los_attack_spell`: the assertion, the
confirmation prompt and the failure check for a player caster, the messages
for an actual monster or agentless cast.  `some r` is an early return. -/
def los_announce (E : Ext) (spell : spell_type) (agent : Option actor_ref)
    (actual fail : Bool) (s : game_state) : Except String (Option spret × game_state) :=
  match agent with
  | some actor_ref.player =>
    if actual = false then Except.error "ASSERT(actual)"
    else if spell ≠ spell_type.SPELL_SONIC_WAVE
        ∧ s.you.auto_spell = false ∧ E.stop_attack_prompt s = true then
      Except.ok (some spret.abort, s)
    else if spell ≠ spell_type.SPELL_SONIC_WAVE ∧ fail = true then
      Except.ok (some spret.fail, s)
    else
      Except.ok (none, (s.emit (Event.mpr "player_msg")).emit Event.flash_view_delay)
  | some (actor_ref.mons i) =>
    if actual then
      let s1 := if E.you_can_see s (actor_ref.mons i) then s.emit (Event.mpr "mons_vis_msg")
                else if E.you_see_cell s (s.mon i).pos then s.emit (Event.mpr "mons_invis_msg")
                else s
      Except.ok (none, if E.you_see_cell s1 (s1.mon i).pos
                       then s1.emit Event.flash_view_delay else s1)
    else Except.ok (none, s)
  | none =>
    if actual then
      Except.ok (none, (s.emit (Event.mpr "global_msg")).emit Event.flash_view_delay)
    else Except.ok (none, s)

/-- The tally update made for one target when a monster runs the tracer.  The
power added is `level * dmg / avg_damage`; with an average damage of zero the
division by zero ends the program, which is an error here. -/
def los_tally (aligned : Bool) (level dmg avg : Int) (beam : bolt) : Except String bolt :=
  if avg = 0 then Except.error "division by zero"
  else if aligned then
    Except.ok { beam with friend_info :=
        { count := beam.friend_info.count + 1,
          power := beam.friend_info.power + Int.tdiv (level * dmg) avg } }
  else
    Except.ok { beam with foe_info :=
        { count := beam.foe_info.count + 1,
          power := beam.foe_info.power + Int.tdiv (level * dmg) avg } }

/-- The tally step `if (!actual && mons)` of `_cast_los_attack_spell` for one
target: the beam with the target counted among the friends or the foes of the
monster that runs the tracer, and the beam as it is in every other run. -/
def los_tally_step (agent : Option actor_ref) (actual : Bool)
    (aligned : Nat → Bool) (level dmg avg : Int) (beam : bolt) : Except String bolt :=
  match agent.bind actor_ref.as_monster with
  | some mi =>
    if actual = false then los_tally (aligned mi) level dmg avg beam
    else Except.ok beam
  | none => Except.ok beam

/-- The loop of `_cast_los_attack_spell` over the affected monsters, carrying
the beam, the running total and the state. -/
def los_monsters_loop (E : Ext) (agent : Option actor_ref) (actual : Bool)
    (avg_damage : Int) :
    List Nat → bolt → Int → game_state → Except String (bolt × Int × game_state)
  | [], beam, total, s => Except.ok (beam, total, s)
  | m :: rest, beam, total, s =>
    if (s.mon m).alive = false then
      los_monsters_loop E agent actual avg_damage rest beam total s
    else
      let r := _los_spell_damage_monster E agent m beam actual s
      let this_damage := r.1
      let s1 := r.2.2
      match los_tally_step agent actual
          (fun mi => E.mons_atts_aligned (s1.mon m).attitude (s1.mon mi).attitude)
          (s1.mon m).hit_dice this_damage avg_damage r.2.1 with
      | Except.error e => Except.error e
      | Except.ok beam1 =>
        los_monsters_loop E agent actual avg_damage rest beam1 (total + this_damage) s1

/-- The monsters the actor scan of `_cast_los_attack_spell` puts into
`affected_monsters`, in scan order. -/
def los_affected_monsters (E : Ext) (spell : spell_type) (agent : Option actor_ref)
    (s1 : game_state) : List Nat :=
  (E.actor_near s1 (s1.actor_pos (agent.getD actor_ref.player))).filterMap (fun a =>
    if los_vulnerable E spell s1 agent a then a.as_monster else none)

/-- The block `if (affects_you)` of `_cast_los_attack_spell`: the damage to the
player and its tally. -/
def los_player_phase (E : Ext) (spell : spell_type) (agent : Option actor_ref)
    (actual : Bool) (beam0 : bolt) (s1 : game_state) :
    Except String (bolt × Int × game_state) :=
  let near := E.actor_near s1 (s1.actor_pos (agent.getD actor_ref.player))
  let affects_you :=
    near.any (fun a => los_vulnerable E spell s1 agent a && a.is_player)
  if affects_you then
    let d := _los_spell_damage_player E agent beam0 actual s1
    match los_tally_step agent actual (fun mi => (d.2.mon mi).wont_attack)
        d.2.you.experience_level d.1 (avg_dice beam0.damage) beam0 with
    | Except.error e => Except.error e
    | Except.ok beam1 => Except.ok (beam1, d.1, d.2)
  else Except.ok (beam0, (0 : Int), s1)

/-- The damage phase of `_cast_los_attack_spell`, from the actor scan to the
end of the loop over the affected monsters: the beam with its tallies, the
total damage and the state. -/
def los_damage_phase (E : Ext) (spell : spell_type) (agent : Option actor_ref)
    (actual : Bool) (beam0 : bolt) (s1 : game_state) :
    Except String (bolt × Int × game_state) :=
  let affected_monsters := los_affected_monsters E spell agent s1
  let avg_damage := avg_dice beam0.damage
  match los_player_phase E spell agent actual beam0 s1 with
  | Except.error e => Except.error e
  | Except.ok p =>
    let s2 :=
      if actual = true ∧ affected_monsters ≠ [] then
        p.2.2.emit (Event.mpr "pre_damage_monsters")
      else p.2.2
    los_monsters_loop E agent actual avg_damage affected_monsters p.1 p.2.1 s2

/-- The damage phase of `_cast_los_attack_spell` with its return: the outcome,
the total damage and the final state. -/
def los_resolve (E : Ext) (spell : spell_type) (agent : Option actor_ref)
    (actual : Bool) (beam0 : bolt) (s1 : game_state) :
    Except String (spret × Int × game_state) :=
  match los_damage_phase E spell agent actual beam0 s1 with
  | Except.error e => Except.error e
  | Except.ok q =>
    if actual then Except.ok (spret.success, q.2.1, q.2.2)
    else Except.ok (if E.mons_should_fire q.1 then spret.success else spret.abort,
      q.2.1, q.2.2)

/-- The beam `_cast_los_attack_spell` sets up before its `switch`: the zap's
beam with the agent's identifier and a foe ratio of 80. -/
def los_beam (E : Ext) (spell : spell_type) (pow : Int) (agent : Option actor_ref)
    (s : game_state) : bolt :=
  { E.zappy (E.spell_to_zap spell) pow (agent.bind actor_ref.as_monster).isSome default with
    source_id := (match agent with
                  | some a => s.actor_mid a
                  | none => MID_NOBODY),
    foe_ratio := 80 }

/-- The function `_cast_los_attack_spell(spell, pow, agent, defender, actual,
fail, damage_done)`.  The second component is the value stored through
`damage_done` (nothing on an early return). -/
def _cast_los_attack_spell (E : Ext) (spell : spell_type) (pow : Int)
    (agent : Option actor_ref) (actual fail : Bool) (s : game_state) :
    Except String (spret × Option Int × game_state) :=
  let zap := E.spell_to_zap spell
  if zap = zap_type.NUM_ZAPS then Except.ok (spret.abort, none, s)
  else
    let beam0 : bolt := los_beam E spell pow agent s
    if is_los_attack_spell spell = false then Except.ok (spret.abort, none, s)
    else
      match los_announce E spell agent actual fail s with
      | Except.error e => Except.error e
      | Except.ok (some r, s1) => Except.ok (r, none, s1)
      | Except.ok (none, s1) =>
        match los_resolve E spell agent actual beam0 s1 with
        | Except.error e => Except.error e
        | Except.ok r => Except.ok (r.1, some r.2.1, r.2.2)

/-- The function `trace_los_attack_spell(spell, pow, agent)`; no `damage_done`
pointer is passed, so only the outcome and the state are returned. -/
def trace_los_attack_spell (E : Ext) (spell : spell_type) (pow : Int)
    (agent : Option actor_ref) (s : game_state) : Except String (spret × game_state) :=
  match _cast_los_attack_spell E spell pow agent false false s with
  | Except.error e => Except.error e
  | Except.ok r => Except.ok (r.1, r.2.2)

/-- The function `fire_los_attack_spell(spell, pow, agent, defender, fail,
damage_done)`. -/
def fire_los_attack_spell (E : Ext) (spell : spell_type) (pow : Int)
    (agent : Option actor_ref) (fail : Bool) (s : game_state) :
    Except String (spret × Option Int × game_state) :=
  _cast_los_attack_spell E spell pow agent true fail s

/-- Calls that change an actor's hit points or status effects: `hurt`, `ouch`,
`expose_to_element`, `increase_duration`, death cleanup, enchantment removal,
a fired beam, and a mitigation step asked to apply its flavoured effects. -/
def Event.mutates_actor : Event → Bool
  | Event.ouch _ => true
  | Event.hurt _ _ => true
  | Event.monster_die _ => true
  | Event.expose_to_element _ _ _ => true
  | Event.increase_duration _ _ _ => true
  | Event.del_ench _ _ => true
  | Event.fire _ => true
  | Event.majin_bo_vampirism _ _ => true
  | Event.check_your_resists _ _ doEffects => doEffects
  | Event.mons_adjust_flavoured _ _ doFlavouredEffects => doFlavouredEffects
  | _ => false

/-- The base damage handed to the mitigation step by a logged call, if the
call is one. -/
def Event.mitigation_input : Event → Option Int
  | Event.check_your_resists hurted _ _ => some hurted
  | Event.mons_adjust_flavoured _ hurted _ => some hurted
  | _ => none

/-- Nothing an actor owns has changed between two states, no draw was taken,
and every call logged in between leaves actors alone. -/
def actors_untouched (s s' : game_state) : Prop :=
  s'.you = s.you ∧ s'.mons = s.mons ∧ s'.rng = s.rng
    ∧ ∃ l, s'.log = s.log ++ l ∧ ∀ e ∈ l, Event.mutates_actor e = false

/-- The base damages handed to the mitigation step, in call order. -/
def mitigation_inputs (s : game_state) : List Int :=
  s.log.filterMap Event.mitigation_input

/-! ## Ignite Poison -/

/-- The function `monster_at(where)`: the index of the monster standing on a
cell, if any. -/
def game_state.monster_at (s : game_state) (pos : coord_def) : Option Nat :=
  let i := s.mons.findIdx (fun m => m.pos = pos)
  if i < s.mons.length then some i else none

/-- The function `actor_at(where)`. -/
def game_state.actor_at (s : game_state) (pos : coord_def) : Option actor_ref :=
  if pos = s.you.pos then some actor_ref.player
  else (s.monster_at pos).map actor_ref.mons

/-- The function `cloud_at(where)`: the index of the cloud on a cell, if any. -/
def game_state.cloud_at (s : game_state) (pos : coord_def) : Option Nat :=
  let i := s.clouds.findIdx (fun c => c.pos = pos)
  if i < s.clouds.length then some i else none

/-- The function `invalid_monster(mon)` for a monster that is there. -/
def invalid_monster (E : Ext) (m : monster) : Bool :=
  E.invalid_monster_type m.type

/-- The method `monster::get_ench(ENCH_POISON)`: the poison entry of the status
table, or the `ENCH_NONE` entry. -/
def monster.get_ench (m : monster) (e : enchant_type) : mon_enchant :=
  (m.enchantments.find? (fun x => x.ench = e)).getD
    { ench := enchant_type.ENCH_NONE, degree := 0 }

/-- Modelled from the spec: `monster::del_ench` (`monster.cc` is not among the
sources): remove a status effect from the monster's status table. -/
def del_ench (i : Nat) (e : enchant_type) (s : game_state) : game_state :=
  let s1 := s.emit (Event.del_ench i e)
  let m := s1.mon i
  s1.set_mon i { m with enchantments := m.enchantments.filter (fun x => x.ench ≠ e) }

/-- The function `sgn`. -/
def sgn (x : Int) : Int :=
  if x < 0 then -1 else if 0 < x then 1 else 0

/-- The function `_ignite_tracer_cloud_value(where, agent)`. -/
def _ignite_tracer_cloud_value (E : Ext) (pos : coord_def) (agent : actor_ref)
    (s : game_state) : Int :=
  match s.actor_at pos with
  | some act =>
    let dam := if E.actor_cloud_immune_fire s act then 0
               else E.resist_adjust_damage s act beam_type.BEAM_FIRE 40
    if E.god_protects s (some agent) act.as_monster then 0
    else if E.mons_aligned s act agent then -dam else dam
  | none => 1

/-- The function `_ignite_poison_bog(where, pow, agent)`; the agent is never
null at a call site. -/
def _ignite_poison_bog (E : Ext) (pos : coord_def) (pow : Int) (agent : actor_ref)
    (s : game_state) : Int × game_state :=
  let tracer := decide (pow = -1)
  if s.grd pos ≠ dungeon_feature_type.DNGN_TOXIC_BOG then (0, s)
  else if tracer then
    let value := _ignite_tracer_cloud_value E pos agent s
    (if agent.is_player then sgn value else value, s)
  else
    let d := s.random2 (20 + pow)
    let c : cloud_struct :=
      { pos := pos, type := cloud_type.CLOUD_FIRE, decay := 30 + d.1,
        whose := E.kill_alignment d.2 agent,
        killer := if agent.is_player then killer_type.KILL_YOU_MISSILE
                  else killer_type.KILL_MON_MISSILE,
        source := d.2.actor_mid agent }
    (1, { (d.2.emit (Event.place_cloud cloud_type.CLOUD_FIRE pos (30 + d.1))) with
            clouds := d.2.clouds ++ [c] })

/-- The function `_ignite_poison_clouds(where, pow, agent)`; the agent is never
null at a call site. -/
def _ignite_poison_clouds (E : Ext) (pos : coord_def) (pow : Int) (agent : actor_ref)
    (s : game_state) : Int × game_state :=
  let tracer := decide (pow = -1)
  match s.cloud_at pos with
  | none => (0, s)
  | some ci =>
    let cloud := s.clouds.getD ci default
    if cloud.type ≠ cloud_type.CLOUD_MEPHITIC ∧ cloud.type ≠ cloud_type.CLOUD_POISON
    then (0, s)
    else if tracer then
      let value := _ignite_tracer_cloud_value E pos agent s
      (if agent.is_player then sgn value else value, s)
    else
      let d := s.random2 (20 + pow)
      let c : cloud_struct :=
        { cloud with
          type := cloud_type.CLOUD_FIRE, decay := 30 + d.1,
          whose := E.kill_alignment d.2 agent,
          killer := if agent.is_player then killer_type.KILL_YOU_MISSILE
                    else killer_type.KILL_MON_MISSILE,
          source := d.2.actor_mid agent }
      (1, { d.2 with clouds := d.2.clouds.set ci c })

/-- The tail of `_ignite_poison_monsters` once the damage is known to be
positive: the exposure to fire, the tracer's early return, then the burn. -/
def ignite_monster_burn (E : Ext) (mi : Nat) (agent : actor_ref) (tracer : Bool)
    (damage : Int) (s : game_state) : Int × game_state :=
  let s1 := mon_expose_to_element E mi beam_type.BEAM_FIRE damage s
  if tracer then
    if agent.is_player then
      (if E.mons_aligned s1 (actor_ref.mons mi) agent then -1 else 1, s1)
    else
      (if E.mons_aligned s1 (actor_ref.mons mi) agent then -1 * damage else damage, s1)
  else
    let s2 := if E.you_see_cell s1 (s1.mon mi).pos
              then s1.emit (Event.mpr "seems to burn from within") else s1
    let s3 := monster_hurt mi damage true s2
    if (s3.mon mi).alive then
      let s4 := s3.emit (Event.behaviour_event mi)
      let s5 := del_ench mi enchant_type.ENCH_POISON s4
      (1, s5.emit (Event.print_wounds mi))
    else (1, s3)

/-- The poison strength `pois_str` that `_ignite_poison_monsters` reads off a
monster. -/
def ignite_pois_str (m : monster) : Int :=
  let ench := m.get_ench enchant_type.ENCH_POISON
  if ench.ench = enchant_type.ENCH_NONE then 0 else ench.degree

/-- The base damage of `_ignite_poison_monsters`: the dice `dam_dice` built
with `div_rand_round` and their roll. -/
def ignite_base_dam (pois_str pow : Int) (s : game_state) : Int × game_state :=
  let dr := div_rand_round (pow * 6) 100 s.rng
  let dam_dice : dice_def := { num := pois_str * 2, size := 12 + dr.1 }
  ({ s with rng := dr.2 }).roll dam_dice

/-- The function `_ignite_poison_monsters(where, pow, agent)`; the agent is
never null at a call site.  `pow = -1` marks a tracer run. -/
def _ignite_poison_monsters (E : Ext) (pos : coord_def) (pow : Int) (agent : actor_ref)
    (s : game_state) : Int × game_state :=
  let beam : bolt := { (default : bolt) with flavour := beam_type.BEAM_FIRE }
  let tracer := decide (pow = -1)
  let pow1 := if tracer then 100 else pow
  match s.monster_at pos with
  | none => (0, s)
  | some mi =>
    if invalid_monster E (s.mon mi) || agent == actor_ref.mons mi then (0, s)
    else
      let base := ignite_base_dam (ignite_pois_str (s.mon mi)) pow1 s
      let adj := mons_adjust_flavoured E mi beam base.1 false base.2
      let damage := adj.1
      if damage ≤ 0 then (0, adj.2)
      else ignite_monster_burn E mi agent tracer damage adj.2

/-- The function `_ignite_poison_player(where, pow, agent)`. -/
def _ignite_poison_player (E : Ext) (pos : coord_def) (pow : Int) (agent : actor_ref)
    (s : game_state) : Int × game_state :=
  if agent.is_player || pos ≠ s.you.pos then (0, s)
  else
    let tracer := decide (pow = -1)
    let pow1 := if tracer then 100 else pow
    let pois_str := E.poison_stepdown (s.you.duration duration_type.DUR_POISONING)
    if pois_str = 0 then (0, s)
    else
      let r := roll_dice pois_str (5 + Int.tdiv pow1 7) s.rng
      let s1 := { s with rng := r.2 }
      let damage := E.resist_adjust_damage s1 actor_ref.player beam_type.BEAM_FIRE r.1
      if tracer then
        (if E.mons_aligned s1 actor_ref.player agent then -1 * damage else damage, s1)
      else
        let s2 := s1.emit (Event.mpr "The poison in your system burns!")
        let s3 := ouch damage s2
        let s4 := if 0 < damage then you_expose_to_element E beam_type.BEAM_FIRE 2 s3 else s3
        let s5 := s4.emit (Event.mpr "You are no longer poisoned.")
        (if damage ≠ 0 then 1 else 0,
         { s5 with you := { s5.you with
             duration := Function.update s5.you.duration duration_type.DUR_POISONING 0 } })

/-- The function `apply_area_visible(cf, where)`: the sum of a cell function
over the visible cells, threading the state. -/
def apply_area_visible (cf : coord_def → game_state → Int × game_state) :
    List coord_def → game_state → Int × game_state
  | [], s => (0, s)
  | c :: rest, s =>
    let r := cf c s
    let q := apply_area_visible cf rest r.2
    (r.1 + q.1, q.2)

/-- The cell function of the tracer branch of `cast_ignite_poison`: the four
helpers run with the tracer sentinel `pow = -1`, summed left to right. -/
def ignite_tracer_cell (E : Ext) (agent : actor_ref) (pos : coord_def)
    (s : game_state) : Int × game_state :=
  let a := _ignite_poison_clouds E pos (-1) agent s
  let b := _ignite_poison_monsters E pos (-1) agent a.2
  let c := _ignite_poison_player E pos (-1) agent b.2
  let d := _ignite_poison_bog E pos (-1) agent c.2
  (a.1 + b.1 + c.1 + d.1, d.2)

/-- The cell function of the committing branch of `cast_ignite_poison`. -/
def ignite_actual_cell (E : Ext) (pow : Int) (agent : actor_ref) (pos : coord_def)
    (s : game_state) : Int × game_state :=
  let a := _ignite_poison_clouds E pos pow agent s
  let b := _ignite_poison_monsters E pos pow agent a.2
  let c := _ignite_poison_bog E pos pow agent b.2
  let d := _ignite_poison_player E pos pow agent c.2
  (0, d.2)

/-- The function `_ignite_ally_harm(where)`. -/
def _ignite_ally_harm (E : Ext) (pos : coord_def) (s : game_state) : Int × game_state :=
  if pos = s.you.pos then (0, s)
  else
    let a := _ignite_poison_clouds E pos (-1) actor_ref.player s
    if a.1 < 0 then (1, a.2)
    else
      let b := _ignite_poison_monsters E pos (-1) actor_ref.player a.2
      if b.1 < 0 then (1, b.2)
      else
        let c := _ignite_poison_bog E pos (-1) actor_ref.player b.2
        if c.1 < 0 then (1, c.2) else (0, c.2)

/-- The function `maybe_abort_ignite()`: whether the player chose to abort. -/
def maybe_abort_ignite (E : Ext) (s : game_state) : Bool × game_state :=
  let in_cloud : Bool :=
    match s.cloud_at s.you.pos with
    | some ci =>
      let cloud := s.clouds.getD ci default
      (cloud.type == cloud_type.CLOUD_MEPHITIC || cloud.type == cloud_type.CLOUD_POISON)
        && !E.actor_cloud_immune_fire s actor_ref.player
    | none => false
  if in_cloud && !E.yesno s "Ignite poison anyway?" then (true, s)
  else
    let r := apply_area_visible (_ignite_ally_harm E) (E.visible_cells s s.you.pos) s
    if 0 < r.1 then
      (!E.yesno r.2 "You might harm nearby allies! Ignite poison anyway?", r.2)
    else (false, r.2)

/-- The function `cast_ignite_poison(agent, pow, fail, tracer)`. -/
def cast_ignite_poison (E : Ext) (agent : actor_ref) (pow : Int) (fail tracer : Bool)
    (s : game_state) : spret × game_state :=
  if tracer then
    let work := apply_area_visible (ignite_tracer_cell E agent)
      (E.visible_cells s (s.actor_pos agent)) s
    (if 0 < work.1 then spret.success else spret.abort, work.2)
  else
    let pre : Option spret × game_state :=
      if agent.is_player then
        let ab := if s.you.auto_spell then (false, s) else maybe_abort_ignite E s
        if ab.1 then (some spret.abort, ab.2.emit (Event.canned_msg "MSG_OK"))
        else if fail then (some spret.fail, ab.2)
        else (none, ab.2)
      else (none, s)
    match pre.1 with
    | some r => (r, pre.2)
    | none =>
      let s1 := (pre.2.emit Event.flash_view_delay).emit
        (Event.mpr "ignites the poison in the surroundings!")
      let r := apply_area_visible (ignite_actual_cell E pow agent)
        (E.visible_cells s1 (s1.actor_pos agent)) s1
      (spret.success, r.2)

/-- Calls that take hit points away or clean up after a death: `hurt`, `ouch`,
`monster_die`, and the removal of an enchantment. -/
def Event.harms : Event → Bool
  | Event.ouch _ => true
  | Event.hurt _ _ => true
  | Event.monster_die _ => true
  | Event.del_ench _ _ => true
  | Event.fire _ => true
  | _ => false

/-- Between two states no hit points have changed, for no monster and not for
the player, and no call logged in between harms an actor. -/
def hp_untouched (s s' : game_state) : Prop :=
  (∀ j, (s'.mon j).hit_points = (s.mon j).hit_points) ∧ s'.you.hp = s.you.hp
    ∧ ∃ l, s'.log = s.log ++ l ∧ ∀ e ∈ l, Event.harms e = false

/-! ## A plain world for concrete runs -/

/-- An outside world without resistances, protection or obstacles: mitigation
leaves damage as it is, exposure changes no status, nobody is god-protected,
every cell and actor is visible, prompts are answered with yes, and the
visible actors and cells are the player's and every monster's. -/
def ext_plain : Ext where
  spell_to_zap := fun _ => zap_type.ZAP_OTHER 0
  zappy := fun _ _ _ b => { b with damage := { num := 2, size := 6 } }
  your_resists := fun _ h _ => h
  your_resist_effects := fun _ _ s => s
  mons_resists := fun _ _ _ h => h
  mons_flavoured_effects := fun _ _ _ s => s
  mon_expose := fun _ _ m => m.enchantments
  you_expose := fun _ _ p => p.duration
  god_protects := fun _ _ _ => false
  mons_atts_aligned := fun a b => a == b
  mons_aligned := fun s a b => s.wont_attack a == s.wont_attack b
  actor_near := fun s _ => actor_ref.player :: (List.range s.mons.length).map actor_ref.mons
  visible_cells := fun s _ => s.you.pos :: s.mons.map (fun m => m.pos)
  stop_attack_prompt := fun _ => false
  mons_should_fire := fun b => decide (0 < b.foe_info.count)
  you_can_see := fun _ _ => true
  you_see_cell := fun _ _ => true
  cell_see_cell := fun _ _ _ _ => true
  is_sanctuary := fun _ _ => false
  invalid_monster_type := fun t => t == monster_type.MONS_NO_MONSTER
  actor_cloud_immune_fire := fun _ _ => false
  resist_adjust_damage := fun _ _ _ h => h
  kill_alignment := fun _ a => if a.is_player then kill_category.KC_YOU
                               else kill_category.KC_OTHER
  poison_stepdown := fun d => Int.tdiv d 5000
  yesno := fun _ _ => true
  LOS_DEFAULT_RANGE := 8
  ignores_monster := fun _ _ _ => false
  ray_stop := fun _ _ pos => some pos
  fire := fun b s => (b, s)
  calc_dice := fun n m r => ({ num := n, size := Int.tdiv m n }, r)
  enough_mp := fun s n => decide (n ≤ s.you.magic_points)
  calc_spell_power := fun _ _ => 20
  calc_spell_range := fun _ _ _ => 4
  player_tracer := fun _ _ _ _ => true
  zapping := fun _ _ _ fail s => (if fail then spret.fail else spret.success, s)
  distance_cells := fun s _ _ _ => s.mons.map (fun m => m.pos)
  see_cell_no_trans := fun _ _ => true
  mons_is_firewood := fun _ => false
  mons_is_conjured := fun _ => false
  goldify_corpses := fun _ => false
  leaves_corpse := fun _ _ => true
  LOS_RADIUS := 8
  cell_is_solid := fun _ _ => false
  explode := fun b s => (b, s)
  refine_for_explosion := fun b => if b.ex_size = 0 then { b with ex_size := 1 } else b
  in_bounds := fun _ => true
  veto_shatter := fun _ _ => false
  deity_is_fedhas := fun _ _ => false
  feat_is_tree := fun g => g == dungeon_feature_type.DNGN_TREE
  destroy_wall := fun pos s =>
    { s with grd := fun p => if p = pos then dungeon_feature_type.DNGN_FLOOR else s.grd p }
  silenced := fun _ _ => false
  stop_attack_prompt_hitfunc := fun _ _ _ => false
  actor_name := fun _ a => if a.is_player then "you" else "the monster"
  random_around_square := fun s pos _ n =>
    (((s.mons.filter (fun m => m.alive && grid_distance pos m.pos == 1)).map
        (fun m => m.pos)).take n.toNat, s.rng)
  set_agent := fun s a b => { b with source_id := s.actor_mid a }
  can_affect_wall := fun _ _ _ => false
  you_worship_fedhas := fun _ => false
  adjacent_cells := fun _ p =>
    [⟨p.x - 1, p.y - 1⟩, ⟨p.x, p.y - 1⟩, ⟨p.x + 1, p.y - 1⟩, ⟨p.x - 1, p.y⟩,
     ⟨p.x + 1, p.y⟩, ⟨p.x - 1, p.y + 1⟩, ⟨p.x, p.y + 1⟩, ⟨p.x + 1, p.y + 1⟩]
  mons_is_tentacle_segment := fun _ => false
  explosion_affect_cell := fun _ _ s => s
  actor_can_see := fun _ _ _ => true
  distance_cells_centre := fun s _ _ _ => s.mons.map (fun m => m.pos)
  poison_player := fun _ s => s
  poison_monster := fun _ _ s => s

/-- A hostile monster of an unnamed species with 10 hit points on a cell. -/
def plain_monster (mid : Nat) (pos : coord_def) : monster :=
  { (default : monster) with
    mid := mid, type := monster_type.MONS_OTHER 0, pos := pos,
    hit_points := 10, max_hit_points := 10, hit_dice := 3 }

/-- A player with 20 hit points and 5 magic points on a cell. -/
def plain_player (pos : coord_def) : player :=
  { (default : player) with
    mid := 4294967295, pos := pos, hp := 20, hp_max := 20, magic_points := 5,
    experience_level := 4, wont_attack := true, time_taken := 10 }

/-- A floor-only level holding the given player and monsters. -/
def plain_state (you : player) (mons : List monster) (rng : List Nat) : game_state :=
  { you := you, mons := mons, clouds := [],
    grd := fun _ => dungeon_feature_type.DNGN_FLOOR,
    prev_cmd := command_type.CMD_NO_CMD, rng := rng, log := [] }

/-- The plain world with a `zappy` that leaves the beam without dice. -/
def ext_zero_dice : Ext :=
  { ext_plain with zappy := fun _ _ _ b => { b with damage := { num := 0, size := 0 } } }

/-- The error, if any, in which a `trace_los_attack_spell` call ends. -/
def trace_los_error (E : Ext) (spell : spell_type) (pow : Int)
    (agent : Option actor_ref) (s : game_state) : Option String :=
  match trace_los_attack_spell E spell pow agent s with
  | Except.ok _ => none
  | Except.error e => some e

/-- A monster caster at the origin, a poisoned monster next to it, and the
player further away. -/
def st_ignite : game_state :=
  plain_state (plain_player ⟨5, 5⟩)
    [plain_monster 1 ⟨0, 0⟩,
     { plain_monster 2 ⟨1, 0⟩ with
       wont_attack := true,
       enchantments := [{ ench := enchant_type.ENCH_POISON, degree := 1 }] }]
    [3, 4, 5]

/-! ## Chain spells -/

/-- The constant `AUTOMATIC_HIT` of `beam.h`. -/
def AUTOMATIC_HIT : Int := 1500

/-- The running choice of one hop of `cast_chain_spell`: the closest distance
seen, the tie counter and the chosen cell (`x = -1` while none is chosen). -/
structure chain_scan where
  min_dist : Int
  count : Int
  target : coord_def
deriving DecidableEq, Repr, Inhabited

/-- The end of one pass of the monster loop of `cast_chain_spell`, for a
monster that has passed every filter: the tie counter goes up and the monster
may become the chosen target. -/
def chain_accept (dist : Int) (pos : coord_def) (st : chain_scan) (s : game_state) :
    chain_scan × game_state :=
  let count := st.count + 1
  if dist < st.min_dist then
    let c := s.one_chance_in 10
    if c.1 = false then
      ({ min_dist := dist, count := 0, target := pos }, c.2)
    else ({ st with count := count }, c.2)
  else if st.target.x = -1 then
    ({ st with count := count, target := pos }, s)
  else
    let c := s.one_chance_in count
    if c.1 then ({ st with count := count, target := pos }, c.2)
    else ({ st with count := count }, c.2)

/-- Whether the ray from the source towards a cell, advanced until it meets an
actor, stops on that cell. -/
def chain_ray_reaches (E : Ext) (s : game_state) (source pos : coord_def) : Bool :=
  match E.ray_stop s source pos with
  | none => false
  | some p => p == pos

/-- One pass of the monster loop of `cast_chain_spell` for the monster at an
index. -/
def chain_consider (E : Ext) (caster_pos source : coord_def) (beam : bolt) (mi : Nat)
    (st : chain_scan) (s : game_state) : chain_scan × game_state :=
  let m := s.mon mi
  if invalid_monster E m then (st, s)
  else if E.ignores_monster s beam mi then (st, s)
  else
    let dist0 := grid_distance source m.pos
    if dist0 = 0 then (st, s)
    else
      let j := s.random2 3
      let dist := dist0 + (j.1 - 1)
      if st.min_dist < dist then (st, j.2)
      else if !E.cell_see_cell j.2 source m.pos los_type.LOS_SOLID
          || !E.cell_see_cell j.2 caster_pos m.pos los_type.LOS_SOLID_SEE then (st, j.2)
      else if chain_ray_reaches E j.2 source m.pos = false then (st, j.2)
      else chain_accept dist m.pos st j.2

/-- The monster loop of one hop, over the monsters a `monster_iterator`
visits. -/
def chain_scan_monsters (E : Ext) (caster_pos source : coord_def) (beam : bolt) :
    List Nat → chain_scan → game_state → chain_scan × game_state
  | [], st, s => (st, s)
  | mi :: rest, st, s =>
    let r := chain_consider E caster_pos source beam mi st s
    chain_scan_monsters E caster_pos source beam rest r.1 r.2

/-- The first operand of the player test of a hop, evaluated left to right
with short circuit: `target.x == -1 || dist < min_dist || (dist == min_dist
&& one_chance_in(count + 1))`. -/
def chain_player_pick (dist : Int) (st : chain_scan) (s : game_state) :
    Bool × game_state :=
  if st.target.x = -1 ∨ dist < st.min_dist then (true, s)
  else if dist = st.min_dist then s.one_chance_in (st.count + 1)
  else (false, s)

/-- The player's turn as a candidate at the end of a hop: the cell chosen
after it. -/
def chain_consider_player (E : Ext) (source : coord_def) (st : chain_scan)
    (s : game_state) : coord_def × game_state :=
  let dist0 := grid_distance source s.you.pos
  if dist0 = 0 then (st.target, s)
  else
    let j := s.random2 3
    let dist := dist0 + (j.1 - 1)
    let pick := chain_player_pick dist st j.2
    if pick.1 && E.cell_see_cell pick.2 source pick.2.you.pos los_type.LOS_SOLID
    then (pick.2.you.pos, pick.2)
    else (st.target, pick.2)

/-- Modelled from the spec: the monsters a `monster_iterator` visits
(`act-iter.h` is not among the sources): every live monster, in table order. -/
def monster_iterator (s : game_state) : List Nat :=
  (List.range s.mons.length).filter (fun i => (s.mon i).alive)

/-- The target selection of one hop of `cast_chain_spell`: the chosen cell,
`x = -1` when there is none. -/
def chain_pick_target (E : Ext) (caster_pos source : coord_def) (beam : bolt)
    (s : game_state) : coord_def × game_state :=
  let st0 : chain_scan :=
    { min_dist := E.LOS_DEFAULT_RANGE - 1, count := 0, target := ⟨-1, -1⟩ }
  let r := chain_scan_monsters E caster_pos source beam (monster_iterator s) st0 s
  chain_consider_player E source r.1 r.2

/-- The second `switch` of a hop of `cast_chain_spell`: the damage dice (and,
for the chaos chain, the flavour) the hop gives the beam. -/
def chain_hop_dice (E : Ext) (spell : spell_type) (caster : actor_ref) (pow : Int)
    (b0 : bolt) (s : game_state) : bolt × game_state :=
  match spell with
  | spell_type.SPELL_CHAIN_LIGHTNING =>
    let d := if caster.is_player then E.calc_dice 5 (10 + Int.tdiv (pow * 2) 3) s.rng
             else E.calc_dice 5 (46 + Int.tdiv pow 6) s.rng
    ({ b0 with damage := d.1 }, { s with rng := d.2 })
  | spell_type.SPELL_CHAIN_OF_CHAOS =>
    let d := E.calc_dice 3 (5 + Int.tdiv pow 6) s.rng
    ({ b0 with ench_power := pow, damage := d.1,
               real_flavour := beam_type.BEAM_CHAOS, flavour := beam_type.BEAM_CHAOS },
     { s with rng := d.2 })
  | _ => (b0, s)

/-- The dampening of a hop that lands on the caster's cell: a visual-only
flavour for the chaos chain, and halved dice. -/
def chain_dampen (spell : spell_type) (b : bolt) : bolt :=
  let b1 := if spell = spell_type.SPELL_CHAIN_OF_CHAOS
            then { b with real_flavour := beam_type.BEAM_VISUAL,
                          flavour := beam_type.BEAM_VISUAL }
            else b
  { b1 with damage := { num := max 1 (Int.tdiv b1.damage.num 2),
                        size := max 3 (Int.tdiv b1.damage.size 2) } }

/-- The beam a hop fires: its cells, its dice and flavour, dampened when the
hop lands on the caster's cell. -/
def chain_setup_beam (E : Ext) (spell : spell_type) (caster : actor_ref) (pow : Int)
    (source target : coord_def) (beam : bolt) (s : game_state) : bolt × game_state :=
  let r := chain_hop_dice E spell caster pow { beam with source := source, target := target } s
  if target = r.2.actor_pos caster then (chain_dampen spell r.1, r.2) else r

/-- The method `bolt::fire` as called by the spell code: the call is logged
and the outside world resolves the beam. -/
def fire_beam (E : Ext) (beam : bolt) (s : game_state) : bolt × game_state :=
  let r := E.fire beam s
  (r.1, { r.2 with log := s.log ++ [Event.fire beam] })

/-- The first `switch` of a hop of `cast_chain_spell` that has found a target:
the thunder of a lightning arc, the opening message of a chaos arc. -/
def chain_hop_noise (spell : spell_type) (first see_source : Bool)
    (source : coord_def) (s : game_state) : game_state :=
  match spell with
  | spell_type.SPELL_CHAIN_LIGHTNING =>
    s.emit (Event.noisy spell_type.SPELL_CHAIN_LIGHTNING source)
  | spell_type.SPELL_CHAIN_OF_CHAOS =>
    if first && see_source
    then s.emit (Event.mpr "A swirling arc of seething chaos appears!")
    else s
  | _ => s

/-- The noise and the messages of a hop of `cast_chain_spell` that has found a
target. -/
def chain_hop_announce (spell : spell_type) (first see_source see_targ : Bool)
    (source : coord_def) (s : game_state) : game_state :=
  let s1 := chain_hop_noise spell first see_source source s
  if see_source && !see_targ
  then s1.emit (Event.mpr "arcs out of your line of sight")
  else if !see_source && see_targ
  then s1.emit (Event.mpr "suddenly appears")
  else s1

/-- The `for` loop of `cast_chain_spell`; the fuel bounds the number of
iterations, and running out of it gives nothing. -/
def chain_loop (E : Ext) (spell : spell_type) (caster : actor_ref) :
    Nat → Int → coord_def → Bool → bolt → game_state → Option game_state
  | fuel, pow, source, first, beam, s =>
    if pow ≤ 0 then some s
    else
      match fuel with
      | 0 => none
      | fuel + 1 =>
        let t := chain_pick_target E (s.actor_pos caster) source beam s
        let target := t.1
        let see_source := E.you_see_cell t.2 source
        let see_targ := E.you_see_cell t.2 target
        if target.x = -1 then
          some (if see_source then t.2.emit (Event.mpr "grounds out") else t.2)
        else
          let s2 := chain_hop_announce spell first see_source see_targ source t.2
          let b := chain_setup_beam E spell caster pow source target beam s2
          let f := fire_beam E b.1 b.2
          let d := f.2.random2 13
          chain_loop E spell caster fuel (pow - (8 + d.1)) target false f.1 d.2

/-- The first `switch` of `cast_chain_spell`: the name and flavour of the
beam, or nothing for a spell that is no chain spell (the `die` branch). -/
def chain_init_beam : spell_type → Option bolt
  | spell_type.SPELL_CHAIN_LIGHTNING =>
    some { (default : bolt) with
      name := "lightning arc", aux_source := "chain lightning",
      flavour := beam_type.BEAM_ELECTRICITY }
  | spell_type.SPELL_CHAIN_OF_CHAOS =>
    some { (default : bolt) with
      name := "arc of chaos", aux_source := "chain of chaos",
      flavour := beam_type.BEAM_CHAOS }
  | _ => none

/-- The beam of `cast_chain_spell` before its loop: the beam of the first
`switch` with the caster's identifier, the thrower and the fixed fields, and
with the caster's name as `source_name` when the caster is a monster. -/
def chain_start_beam (E : Ext) (spell_cast : spell_type) (caster : actor_ref)
    (s : game_state) (b0 : bolt) : bolt :=
  { b0 with
    source_id := s.actor_mid caster,
    thrower := if caster.is_player then killer_type.KILL_YOU_MISSILE
               else killer_type.KILL_MON_MISSILE,
    range := 8, hit := AUTOMATIC_HIT, obvious_effect := true, pierce := false,
    is_explosion := false, is_tracer := false, origin_spell := spell_cast,
    source_name := (match caster with
      | actor_ref.mons _ => E.actor_name s caster
      | actor_ref.player => b0.source_name) }

/-- The function `cast_chain_spell(spell_cast, pow, caster, fail)`. -/
def cast_chain_spell (E : Ext) (spell_cast : spell_type) (pow : Int)
    (caster : actor_ref) (fail : Bool) (s : game_state) :
    Except String (spret × game_state) :=
  if fail then Except.ok (spret.fail, s)
  else
    match chain_init_beam spell_cast with
    | none => Except.error "buggy chain spell cast"
    | some b0 =>
      let beam : bolt := chain_start_beam E spell_cast caster s b0
      match chain_loop E spell_cast caster pow.toNat pow (s.actor_pos caster) true beam s with
      | none => Except.error "chain loop did not finish"
      | some s' => Except.ok (spret.success, s')

/-- Whether a logged call is a fired beam. -/
def Event.is_fire : Event → Bool
  | Event.fire _ => true
  | _ => false

/-- The beams fired according to a list of logged calls. -/
def fired_beams (l : List Event) : List bolt :=
  l.filterMap (fun e => match e with
    | Event.fire b => some b
    | _ => none)

/-- Two states differ at most in their pending random draws. -/
def only_rng_differs (s s' : game_state) : Prop :=
  s'.you = s.you ∧ s'.mons = s.mons ∧ s'.clouds = s.clouds ∧ s'.grd = s.grd
    ∧ s'.prev_cmd = s.prev_cmd ∧ s'.log = s.log

/-- The log of the second state extends the log of the first by calls none of
which fires a beam. -/
def adds_no_fire (s s' : game_state) : Prop :=
  ∃ l, s'.log = s.log ++ l ∧ fired_beams l = []

/-- The spells `cast_chain_spell` accepts. -/
def is_chain_spell (spell : spell_type) : Bool :=
  spell == spell_type.SPELL_CHAIN_LIGHTNING || spell == spell_type.SPELL_CHAIN_OF_CHAOS

/-- The number of hops of one `cast_chain_spell` call: the beams it fires. -/
def chain_hops (E : Ext) (spell : spell_type) (pow : Int) (caster : actor_ref)
    (fail : Bool) (s : game_state) : Nat :=
  match cast_chain_spell E spell pow caster fail s with
  | Except.ok r => (fired_beams r.2.log).length - (fired_beams s.log).length
  | Except.error _ => 0

/-- The player at the origin with one monster on the next cell. -/
def st_chain : game_state :=
  plain_state (plain_player ⟨0, 0⟩) [plain_monster 1 ⟨1, 0⟩] [1, 1, 0, 0]

/-- The player at the origin and one monster eight cells away, with a first
draw that leaves the monster's distance as it is. -/
def st_chain_edge : game_state :=
  plain_state (plain_player ⟨0, 0⟩) [plain_monster 1 ⟨8, 0⟩] [1, 7]

/-! ## Shatter -/

/-- The species `_shatter_mon_dice` lists as stone, metal or crystal. -/
def shatter_brittle_type (t : monster_type) : Bool :=
  t == monster_type.MONS_EARTH_ELEMENTAL || t == monster_type.MONS_ROCKSLIME
    || t == monster_type.MONS_USHABTI || t == monster_type.MONS_STATUE
    || t == monster_type.MONS_GARGOYLE || t == monster_type.MONS_IRON_ELEMENTAL
    || t == monster_type.MONS_IRON_GOLEM || t == monster_type.MONS_PEACEKEEPER
    || t == monster_type.MONS_WAR_GARGOYLE || t == monster_type.MONS_SALTLING
    || t == monster_type.MONS_CRYSTAL_GUARDIAN || t == monster_type.MONS_OBSIDIAN_STATUE
    || t == monster_type.MONS_ORANGE_STATUE || t == monster_type.MONS_ROXANNE

/-- The function `_shatter_mon_dice(mon)`. -/
def _shatter_mon_dice (mon : Option monster) : Int :=
  match mon with
  | none => 3
  | some m =>
    if shatter_brittle_type m.type then 3 * 2
    else if m.insubstantial then 1
    else if m.petrifying || m.petrified then 3 * 2
    else if m.skeletal || m.icy then 3 * 2
    else if m.airborne || m.slime then 1
    else 3

/-- The function `shatter_damage(pow, mon)`. -/
def shatter_damage (pow : Int) (mon : Option monster) : dice_def :=
  { num := _shatter_mon_dice mon, size := 5 + Int.tdiv pow 3 }

/-- The function `_shatter_monsters(where, pow, agent)`; the dice are rolled
before the armour. -/
def _shatter_monsters (E : Ext) (pos : coord_def) (pow : Int) (agent : actor_ref)
    (s : game_state) : Int × game_state :=
  match s.monster_at pos with
  | none => (0, s)
  | some mi =>
    if !(s.mon mi).alive || agent == actor_ref.mons mi then (0, s)
    else
      let r := s.roll (shatter_damage pow (some (s.mon mi)))
      let a := r.2.random2 (s.mon mi).armour_class
      let damage := max 0 (r.1 - a.1)
      if agent.is_player then
        (damage, _player_hurt_monster E mi damage beam_type.BEAM_MMISSILE true a.2)
      else if damage ≠ 0 then (damage, monster_hurt mi damage true a.2)
      else (damage, a.2)

/-- The function `_shatter_player_dice()`. -/
def _shatter_player_dice (you : player) : Int :=
  if you.insubstantial then 1
  else if you.petrified || you.petrifying then 6
  else if you.form = transformation.statue || you.form = transformation.ice_beast
      || you.form = transformation.golem || you.species = species_type.SP_GARGOYLE then 6
  else if you.airborne then 1
  else 3

/-- The function `_shatter_player(pow, wielder, devastator)`; the dice are
rolled before the armour. -/
def _shatter_player (pow : Int) (wielder : actor_ref) (_devastator : Bool)
    (s : game_state) : Int × game_state :=
  if wielder.is_player then (0, s)
  else
    let r := s.roll { num := _shatter_player_dice s.you, size := 5 + Int.tdiv pow 3 }
    let a := r.2.random2 s.you.armour_class
    let damage := max 0 (r.1 - a.1)
    if 0 < damage then
      (damage, ouch damage (a.2.emit (Event.mpr "You shudder")))
    else (damage, a.2)

/-- A player god protects every monster; the rest is the plain world. -/
def ext_protected : Ext :=
  { ext_plain with god_protects := fun _ _ _ => true }

/-- The player next to a monster that an earlier effect has left with no hit
points. -/
def st_dead_monster : game_state :=
  plain_state (plain_player ⟨0, 0⟩)
    [{ plain_monster 1 ⟨1, 0⟩ with hit_points := 0 }] []

/-- How often the death cleanup of a monster has run according to the log. -/
def cleanups (i : Nat) (s : game_state) : Nat :=
  s.log.count (Event.monster_die i)

/-! ## Channelled spells: Searing Ray and Maxwell's Coupling -/

/-- The method `CrawlHashTable::exists`. -/
def props_exists (k : prop_key) (p : List (prop_key × prop_value)) : Bool :=
  p.any (fun e => e.1 == k)

/-- The value stored under a key, if any. -/
def props_get (k : prop_key) (p : List (prop_key × prop_value)) : Option prop_value :=
  (p.find? (fun e => e.1 == k)).map (fun e => e.2)

/-- The method `CrawlHashTable::erase`. -/
def props_erase (k : prop_key) (p : List (prop_key × prop_value)) :
    List (prop_key × prop_value) :=
  p.filter (fun e => e.1 != k)

/-- Assignment to `props[key]`. -/
def props_set (k : prop_key) (v : prop_value) (p : List (prop_key × prop_value)) :
    List (prop_key × prop_value) :=
  (k, v) :: props_erase k p

/-- The accessor `props[key].get_int()`, zero for a fresh entry. -/
def props_get_int (k : prop_key) (p : List (prop_key × prop_value)) : Int :=
  match props_get k p with
  | some (prop_value.int n) => n
  | _ => 0

/-- The accessor `props[key].get_coord()`. -/
def props_get_coord (k : prop_key) (p : List (prop_key × prop_value)) : coord_def :=
  match props_get k p with
  | some (prop_value.coord c) => c
  | _ => default

/-- The accessor `props[key].get_bool()`. -/
def props_get_bool (k : prop_key) (p : List (prop_key × prop_value)) : Bool :=
  match props_get k p with
  | some (prop_value.bool b) => b
  | _ => false

/-- The value `you.attribute[ATTR_SEARING_RAY]`. -/
def game_state.searing_ray (s : game_state) : Int :=
  s.you.attributes attribute_type.ATTR_SEARING_RAY

/-- Assignment to `you.attribute[ATTR_SEARING_RAY]`. -/
def game_state.set_searing_ray (s : game_state) (v : Int) : game_state :=
  { s with you := { s.you with
      attributes := Function.update s.you.attributes attribute_type.ATTR_SEARING_RAY v } }

/-- The function `end_searing_ray()`. -/
def end_searing_ray (s : game_state) : game_state :=
  let s1 := s.set_searing_ray 0
  { s1 with you := { s1.you with
      props := props_erase prop_key.searing_ray_aimed_at_spot
        (props_erase prop_key.searing_ray_target s1.you.props) } }

/-- The function `cast_searing_ray(pow, beam, fail)`. -/
def cast_searing_ray (E : Ext) (pow : Int) (beam : bolt) (fail : Bool) (s : game_state) :
    spret × game_state :=
  let r := E.zapping zap_type.ZAP_SEARING_RAY_I pow beam fail s
  if r.1 = spret.success then
    let s1 := r.2.set_searing_ray (-1)
    let s2 := { s1 with you := { s1.you with
      props := props_set prop_key.searing_ray_aimed_at_spot (prop_value.bool beam.aimed_at_spot)
        (props_set prop_key.searing_ray_target (prop_value.coord beam.target) s1.you.props) } }
    (r.1, s2.emit (Event.mpr "(Press % to maintain the ray.)"))
  else r

/-- The zap `zap_type(ZAP_SEARING_RAY_I + offset)`. -/
def searing_ray_zap (offset : Int) : zap_type :=
  if offset = 0 then zap_type.ZAP_SEARING_RAY_I
  else if offset = 1 then zap_type.ZAP_SEARING_RAY_II
  else if offset = 2 then zap_type.ZAP_SEARING_RAY_III
  else zap_type.ZAP_OTHER offset

/-- Modelled from the spec: `dec_mp` (`player.cc` is not among the sources):
spend magic points. -/
def dec_mp (n : Int) (s : game_state) : game_state :=
  let s1 := s.emit (Event.dec_mp n)
  { s1 with you := { s1.you with magic_points := s1.you.magic_points - n } }

/-- The part of `handle_searing_ray` after the assertion: the interruptions,
then the beam of the current stage. -/
def searing_ray_fire (E : Ext) (s : game_state) : game_state :=
  if s.you.confused || s.you.berserk then end_searing_ray s
  else if !E.enough_mp s 1 then
    end_searing_ray (s.emit (Event.mpr
      "Without enough magic to sustain it, your searing ray dissipates."))
  else
    let zap := searing_ray_zap (s.searing_ray - 1)
    let pow := E.calc_spell_power s spell_type.SPELL_SEARING_RAY
    let beam : bolt :=
      { (default : bolt) with
        thrower := killer_type.KILL_YOU_MISSILE,
        range := E.calc_spell_range s spell_type.SPELL_SEARING_RAY pow,
        source := s.you.pos,
        target := props_get_coord prop_key.searing_ray_target s.you.props,
        aimed_at_spot := props_get_bool prop_key.searing_ray_aimed_at_spot s.you.props }
    if !E.player_tracer s zap pow beam then
      end_searing_ray (s.emit (Event.mpr "You stop channeling your searing ray."))
    else
      let beam1 := E.zappy zap pow false beam
      let s1 := (s.emit (Event.aim_battlesphere spell_type.SPELL_SEARING_RAY pow beam1)).emit
        (Event.aim_battlesphere spell_type.SPELL_SEARING_RAY pow beam1)
      let f := fire_beam E beam1 s1
      let s2 := (f.2.emit (Event.trigger_battlesphere f.1)).emit
        (Event.trigger_battlesphere f.1)
      let s3 := dec_mp 1 s2
      let s4 := s3.set_searing_ray (s3.searing_ray + 1)
      if 3 < s4.searing_ray then
        end_searing_ray (s4.emit (Event.mpr "You finish channeling your searing ray."))
      else s4

/-- The function `handle_searing_ray()`; a failed assertion is an error. -/
def handle_searing_ray (E : Ext) (s : game_state) : Except String game_state :=
  if s.searing_ray = 0 then Except.ok s
  else if s.searing_ray = -1 then Except.ok (s.set_searing_ray 1)
  else
    let s1 := if s.prev_cmd ≠ command_type.CMD_WAIT then end_searing_ray s else s
    if 1 ≤ s1.searing_ray ∧ s1.searing_ray < 4 then Except.ok (searing_ray_fire E s1)
    else Except.error "ASSERT_RANGE(you.attribute[ATTR_SEARING_RAY], 1, 4)"

/-- The function `_act_worth_targeting(you, m)` for a monster. -/
def _act_worth_targeting (E : Ext) (s : game_state) (mi : Nat) : Bool :=
  if !E.see_cell_no_trans s (s.mon mi).pos then false
  else !E.mons_is_firewood (s.mon mi) && !E.mons_is_conjured (s.mon mi).type
    && !E.god_protects s (some actor_ref.player) (some mi)

/-- The function `_maxwells_target_check(m)`. -/
def _maxwells_target_check (E : Ext) (s : game_state) (mi : Nat) : Bool :=
  _act_worth_targeting E s mi && !(s.mon mi).wont_attack

/-- The function `_find_maxwells_target(tracer)`. -/
def _find_maxwells_target (E : Ext) (tracer : Bool) (s : game_state) : Option Nat :=
  (E.distance_cells s s.you.pos (!tracer) E.LOS_RADIUS).findSome? (fun c =>
    match s.monster_at c with
    | some mi =>
      if _maxwells_target_check E s mi && (!tracer || E.you_can_see s (actor_ref.mons mi))
      then some mi else none
    | none => none)

/-- The function `_discharge_maxwells_coupling()`. -/
def _discharge_maxwells_coupling (E : Ext) (s : game_state) : game_state :=
  match _find_maxwells_target E false s with
  | none => s.emit (Event.mpr "Your charge dissipates without a target.")
  | some mi =>
    let s1 := s.emit Event.flash_view_delay
    let s2 := set_attack_conducts mi s1
    let s3 := if (s2.mon mi).type = monster_type.MONS_ROYAL_JELLY ∧ (s2.mon mi).summoned = false
              then (s2.emit (Event.mpr "A cloud of jellies burst out")).emit (Event.trj_spawn mi)
              else s2.emit (Event.mpr "The electricity discharges")
    let goldify := E.goldify_corpses s3
    let s4 := s3.emit (Event.mpr (if goldify then " vapourizes and condenses as gold!"
                                  else " vapourizes in an electric haze!"))
    let pos := (s4.mon mi).pos
    let corpse := E.leaves_corpse s4 mi
    let s5 := monster_die mi s4
    let s6 := if corpse && !goldify then s5.emit (Event.destroy_item mi) else s5
    s6.emit (Event.noisy spell_type.SPELL_MAXWELLS_COUPLING pos)

/-- The function `end_maxwells_coupling()`. -/
def end_maxwells_coupling (s : game_state) : game_state :=
  if props_exists prop_key.COUPLING_TIME_KEY s.you.props then
    let s1 := s.emit (Event.mpr "The insufficient charge disappates harmlessly.")
    { s1 with you := { s1.you with
        props := props_erase prop_key.COUPLING_TIME_KEY s1.you.props } }
  else s

/-- The function `handle_maxwells_coupling()`. -/
def handle_maxwells_coupling (E : Ext) (s : game_state) : game_state :=
  if !props_exists prop_key.COUPLING_TIME_KEY s.you.props then s
  else
    let charging_auts_remaining := props_get_int prop_key.COUPLING_TIME_KEY s.you.props
    if charging_auts_remaining < 0 then
      let s1 := s.emit (Event.mpr "You feel charge building up...")
      { s1 with you := { s1.you with
          props := props_set prop_key.COUPLING_TIME_KEY
            (prop_value.int (-(charging_auts_remaining + s1.you.time_taken))) s1.you.props } }
    else if s.prev_cmd ≠ command_type.CMD_WAIT then end_maxwells_coupling s
    else if charging_auts_remaining ≤ s.you.time_taken then
      let s1 := { s with you := { s.you with
          time_taken := charging_auts_remaining,
          props := props_erase prop_key.COUPLING_TIME_KEY s.you.props } }
      _discharge_maxwells_coupling E s1
    else
      let s1 := { s with you := { s.you with
          props := props_set prop_key.COUPLING_TIME_KEY
            (prop_value.int (charging_auts_remaining - s.you.time_taken)) s.you.props } }
      s1.emit (Event.mpr "You feel charge building up...")

/-- A player channelling a searing ray at its first stage whose last command
was not a wait. -/
def st_searing : game_state :=
  { plain_state
      { plain_player ⟨0, 0⟩ with
        attributes := fun a => if a = attribute_type.ATTR_SEARING_RAY then 1 else 0,
        props := [(prop_key.searing_ray_target, prop_value.coord ⟨3, 0⟩),
                  (prop_key.searing_ray_aimed_at_spot, prop_value.bool false)] }
      [plain_monster 1 ⟨3, 0⟩] [] with
    prev_cmd := command_type.CMD_OTHER 0 }

/-- A player holding a finished charge of 5 time units whose last command was
not a wait, with a monster in reach. -/
def st_coupling : game_state :=
  { plain_state
      { plain_player ⟨0, 0⟩ with
        props := [(prop_key.COUPLING_TIME_KEY, prop_value.int 5)] }
      [plain_monster 1 ⟨1, 0⟩] [] with
    prev_cmd := command_type.CMD_OTHER 0 }

/-- A chosen cell, if there is one, is not the source of the hop. -/
def chain_target_ok (source : coord_def) (target : coord_def) : Prop :=
  target.x ≠ -1 → target ≠ source

/-! ## Noise of a chain -/

/-- The plain world in which every ray cast from a cell stops on the cell to
its east: an actor stands there, in the way of whatever lies beyond. -/
def ext_blocked : Ext :=
  { ext_plain with ray_stop := fun _ source _ => some ⟨source.x + 1, source.y⟩ }

/-- A monster, the caster, at the origin, a second monster on the next cell to
the east, and the player two cells beyond that one, in the same row. -/
def st_player_behind : game_state :=
  plain_state (plain_player ⟨3, 0⟩) [plain_monster 1 ⟨0, 0⟩, plain_monster 2 ⟨1, 0⟩]
    [1, 0, 1]

/-- A monster, the caster, at the origin and the player eight cells to the
east of it. -/
def st_player_far : game_state :=
  plain_state (plain_player ⟨8, 0⟩) [plain_monster 1 ⟨0, 0⟩] [1]

/-- The states of a hop when the player's turn as a candidate comes: the scan
of the monsters is over. -/
def chain_scan_result (E : Ext) (caster_pos source : coord_def) (beam : bolt)
    (s : game_state) : chain_scan × game_state :=
  chain_scan_monsters E caster_pos source beam (monster_iterator s)
    { min_dist := E.LOS_DEFAULT_RANGE - 1, count := 0, target := ⟨-1, -1⟩ } s

/-- The player and two monsters at the same distance from the player; the
first three pending draws are fixed, the rest is free. -/
def st_tied (r : List Nat) : game_state :=
  plain_state (plain_player ⟨0, 0⟩) [plain_monster 1 ⟨2, 0⟩, plain_monster 2 ⟨0, 2⟩]
    (1 :: 1 :: 1 :: r)

/-! ## Explosions: Fire Storm and Miasma Breath -/

/-- The method `bolt::explode(false)` as called by the spell code: the call is
logged and the outside world resolves the explosion. -/
def explode (E : Ext) (beam : bolt) (s : game_state) : bolt × game_state :=
  let r := E.explode beam s
  (r.1, { r.2 with log := s.log ++ [Event.explode beam] })

/-- The beams exploded according to a list of logged calls. -/
def exploded (l : List Event) : List bolt :=
  l.filterMap (fun e => match e with
    | Event.explode b => some b
    | _ => none)

/-- The function `setup_fire_storm(source, pow, beam)`. -/
def setup_fire_storm (E : Ext) (source : actor_ref) (pow : Int) (beam : bolt)
    (s : game_state) : bolt × game_state :=
  let b := E.zappy zap_type.ZAP_FIRE_STORM pow (!source.is_player) beam
  let d := s.random2 1000
  ({ b with
      ex_size := 2 + (if d.1 < pow then 1 else 0),
      source_id := s.actor_mid source,
      thrower := if source.is_player then killer_type.KILL_YOU_MISSILE
                 else killer_type.KILL_MON,
      aux_source := "", is_tracer := false,
      origin_spell := spell_type.SPELL_FIRE_STORM }, d.2)

/-- The copy `tempbeam` that `cast_fire_storm` makes of its beam for the
tracer pass. -/
def fire_storm_tempbeam (pow : Int) (beam : bolt) : bolt :=
  { beam with ex_size := if 76 < pow then 3 else 2, is_tracer := true }

/-- The function `cast_fire_storm(pow, beam, fail)`; the beam is passed by
reference, so the updated beam is returned too. -/
def cast_fire_storm (E : Ext) (pow : Int) (beam : bolt) (fail : Bool) (s : game_state) :
    spret × bolt × game_state :=
  if beam.range < grid_distance beam.target beam.source then
    (spret.abort, beam, s.emit (Event.mpr "That is beyond the maximum range."))
  else if E.cell_is_solid s beam.target then
    (spret.abort, beam, s.emit (Event.mpr "You can't place the storm on that."))
  else
    let b := setup_fire_storm E actor_ref.player pow beam s
    let t := explode E (fire_storm_tempbeam pow b.1) b.2
    if t.1.beam_cancelled then (spret.abort, b.1, t.2)
    else if fail then (spret.fail, b.1, t.2)
    else
      let s3 := t.2.emit (Event.apply_beam_conducts b.1)
      let e := explode E (E.refine_for_explosion b.1) s3
      (spret.success, e.1, e.2.emit Event.viewwindow)

/-- The function `setup_miasma_breath(source, pow, beam)`. -/
def setup_miasma_breath (source : actor_ref) (pow : Int) (beam : bolt) (s : game_state) :
    bolt :=
  { beam with
    source_id := s.actor_mid source, name := "foul vapour",
    damage := { num := 3, size := 5 + Int.tdiv pow 24 },
    flavour := beam_type.BEAM_MIASMA, hit := 17 + Int.tdiv pow 20, pierce := true,
    origin_spell := spell_type.SPELL_MIASMA_BREATH, loudness := 0 }

/-- The copy `tempbeam` that `cast_miasma_breath` makes of its beam. -/
def miasma_breath_tempbeam (beam : bolt) : bolt :=
  { beam with is_tracer := false }

/-- The function `cast_miasma_breath(pow, beam)`; the beam is passed by
reference, so the updated beam is returned too. -/
def cast_miasma_breath (E : Ext) (pow : Int) (beam : bolt) (s : game_state) :
    spret × bolt × game_state :=
  if beam.range < grid_distance beam.target beam.source then
    (spret.abort, beam, s.emit (Event.mpr "That is beyond the maximum range."))
  else if E.cell_is_solid s beam.target then
    (spret.abort, beam, s.emit (Event.mpr "You can't place the cloud on that."))
  else
    let b := setup_miasma_breath actor_ref.player pow beam s
    let t := explode E (miasma_breath_tempbeam b) s
    if t.1.beam_cancelled then (spret.abort, b, t.2)
    else
      let s3 := t.2.emit (Event.apply_beam_conducts b)
      let e := explode E (E.refine_for_explosion b) s3
      (spret.success, e.1, e.2.emit Event.viewwindow)

/-- The player alone on a floor level. -/
def st_storm : game_state :=
  plain_state (plain_player ⟨0, 0⟩) [] [10]

/-- A beam aimed from the player's cell at a cell three steps away, within a
range of five. -/
def storm_beam : bolt :=
  { (default : bolt) with range := 5, source := ⟨0, 0⟩, target := ⟨3, 0⟩ }

/-- A world in which an explosion that is no tracer takes a hit point from
every monster, and in which every explosion reports that it was cancelled. -/
def ext_cancelling : Ext :=
  { ext_plain with
    explode := fun b s =>
      ({ b with beam_cancelled := true },
       if b.is_tracer then s
       else { s with
              mons := s.mons.map (fun m => { m with hit_points := m.hit_points - 1 }) }) }

/-- The player with one monster three cells away. -/
def st_breath : game_state :=
  plain_state (plain_player ⟨0, 0⟩) [plain_monster 1 ⟨3, 0⟩] []

/-! ## Shatter: walls and the confirmation prompt -/

/-- The function `destroy_wall(where)` as called by the spell code: the call
is logged and the outside world removes the wall. -/
def destroy_wall (E : Ext) (pos : coord_def) (s : game_state) : game_state :=
  ext_step (E.destroy_wall pos) (s.emit (Event.destroy_wall pos))

/-- The `switch` of `_shatter_walls`: the message for a door or a grate in
view, and the chance in 100 that the feature is destroyed. -/
def shatter_wall_chance (E : Ext) (pos : coord_def) (grid : dungeon_feature_type)
    (s : game_state) : Int × game_state :=
  match grid with
  | dungeon_feature_type.DNGN_CLOSED_DOOR
  | dungeon_feature_type.DNGN_CLOSED_CLEAR_DOOR
  | dungeon_feature_type.DNGN_RUNED_DOOR
  | dungeon_feature_type.DNGN_RUNED_CLEAR_DOOR
  | dungeon_feature_type.DNGN_OPEN_DOOR
  | dungeon_feature_type.DNGN_OPEN_CLEAR_DOOR
  | dungeon_feature_type.DNGN_SEALED_DOOR
  | dungeon_feature_type.DNGN_SEALED_CLEAR_DOOR =>
    (100, if E.you_see_cell s pos then s.emit (Event.mpr "A door shatters!") else s)
  | dungeon_feature_type.DNGN_GRATE =>
    (100, if E.you_see_cell s pos
          then s.emit (Event.mpr "An iron grate is ripped into pieces!") else s)
  | dungeon_feature_type.DNGN_ORCISH_IDOL
  | dungeon_feature_type.DNGN_GRANITE_STATUE => (100, s)
  | dungeon_feature_type.DNGN_METAL_WALL => (15, s)
  | dungeon_feature_type.DNGN_CLEAR_STONE_WALL
  | dungeon_feature_type.DNGN_STONE_WALL => (25, s)
  | dungeon_feature_type.DNGN_CLEAR_ROCK_WALL
  | dungeon_feature_type.DNGN_ROCK_WALL
  | dungeon_feature_type.DNGN_SLIMY_WALL
  | dungeon_feature_type.DNGN_CRYSTAL_WALL
  | dungeon_feature_type.DNGN_TREE => (33, s)
  | _ => (0, s)

/-- The function `_shatter_walls(where, pow, agent)`; the power is not used. -/
def _shatter_walls (E : Ext) (pos : coord_def) (_pow : Int) (agent : actor_ref)
    (s : game_state) : Int × game_state :=
  if !E.in_bounds pos then (0, s)
  else if E.veto_shatter s pos then (0, s)
  else
    let grid := s.grd pos
    let c := shatter_wall_chance E pos grid s
    if E.deity_is_fedhas c.2 agent && E.feat_is_tree grid then (0, c.2)
    else
      let x := c.2.x_chance_in_y c.1 100
      if x.1 then
        (1, destroy_wall E pos (x.2.emit (Event.noisy spell_type.SPELL_SHATTER pos)))
      else (0, x.2)

/-- The function `_shatterable(act)`: the dice count converted to `bool`. -/
def _shatterable (s : game_state) (act : actor_ref) : Bool :=
  match act with
  | actor_ref.player => _shatter_player_dice s.you != 0
  | actor_ref.mons mi => _shatter_mon_dice (some (s.mon mi)) != 0

/-- The predicate `vulnerable` that `cast_shatter` hands to its confirmation
prompt: whether the spell would harm an actor. -/
def shatter_vulnerable (E : Ext) (s : game_state) (act : actor_ref) : Bool :=
  match act with
  | actor_ref.player => false
  | actor_ref.mons mi =>
    !E.god_protects s (some actor_ref.player) (some mi) && _shatterable s act

/-- The loop of `cast_shatter` over the cells around the player: the number of
walls destroyed so far and the state. -/
def shatter_loop (E : Ext) (pow : Int) : List coord_def → Int → game_state → Int × game_state
  | [], dest, s => (dest, s)
  | di :: rest, dest, s =>
    if !E.cell_see_cell s s.you.pos di los_type.LOS_SOLID then
      shatter_loop E pow rest dest s
    else
      let m := _shatter_monsters E di pow actor_ref.player s
      let w := _shatter_walls E di pow actor_ref.player m.2
      shatter_loop E pow rest (dest + w.1) w.2

/-- The function `cast_shatter(pow, fail)`. -/
def cast_shatter (E : Ext) (pow : Int) (fail : Bool) (s : game_state) :
    spret × game_state :=
  if !s.you.auto_spell && E.stop_attack_prompt_hitfunc s "attack" (shatter_vulnerable E s)
  then (spret.abort, s)
  else if fail then (spret.fail, s)
  else
    let silence := E.silenced s s.you.pos
    let s1 := if silence then s.emit (Event.mpr "The dungeon shakes!")
              else (s.emit (Event.noisy spell_type.SPELL_SHATTER s.you.pos)).emit
                (Event.mpr "The dungeon rumbles!")
    let s2 := s1.emit Event.run_animation
    let r := shatter_loop E pow (E.distance_cells s2 s2.you.pos true E.LOS_RADIUS) 0 s2
    if r.1 ≠ 0 ∧ silence = false then (spret.success, r.2.emit (Event.mpr "Ka-crash!"))
    else (spret.success, r.2)

/-- The dice of a roll in which every die shows its highest face, followed by
an armour roll of zero: the draws that give them. -/
def max_rolls (d : dice_def) : List Nat :=
  List.replicate d.num.toNat (d.size.toNat - 1) ++ [0]

/-- The player next to a metal wall, with the given pending draws. -/
def st_metal (r : List Nat) : game_state :=
  { plain_state (plain_player ⟨0, 0⟩) [] r with
    grd := fun p => if p = ⟨1, 0⟩ then dungeon_feature_type.DNGN_METAL_WALL
                    else dungeon_feature_type.DNGN_FLOOR }

/-! ## The tallies of a line-of-sight cast -/

/-- The beam `_cast_los_attack_spell` holds when it returns from the damage
phase, with the tallies of friends and foes; nothing when the call returns
before that phase. -/
def los_final_beam (E : Ext) (spell : spell_type) (pow : Int) (agent : Option actor_ref)
    (actual fail : Bool) (s : game_state) : Option bolt :=
  if E.spell_to_zap spell = zap_type.NUM_ZAPS then none
  else if is_los_attack_spell spell = false then none
  else
    match los_announce E spell agent actual fail s with
    | Except.ok (none, s1) =>
      match los_damage_phase E spell agent actual (los_beam E spell pow agent s) s1 with
      | Except.ok q => some q.1
      | Except.error _ => none
    | _ => none

/-- The player with two hostile monsters in view, neither resistant to
anything. -/
def st_two_hostiles : game_state :=
  plain_state (plain_player ⟨0, 0⟩) [plain_monster 1 ⟨1, 0⟩, plain_monster 2 ⟨0, 1⟩]
    [1, 2, 3, 4, 5, 6]

/-- What a `fire_los_attack_spell` call reports: its outcome, the total damage
stored through `damage_done` (0 when nothing is stored) and the hit points of
the monsters afterwards; nothing when the call ends in an error. -/
def los_cast_report (E : Ext) (spell : spell_type) (pow : Int) (agent : Option actor_ref)
    (fail : Bool) (s : game_state) : Option (spret × Int × List Int) :=
  match fire_los_attack_spell E spell pow agent fail s with
  | Except.ok r => some (r.1, r.2.1.getD 0, r.2.2.mons.map (fun m => m.hit_points))
  | Except.error _ => none

/-! ## Lee's Rapid Deconstruction -/

/-- The function `base_fragmentation_damage(pow)`. -/
def base_fragmentation_damage (pow : Int) : dice_def :=
  { num := 3, size := 5 + Int.tdiv pow 5 }

/-- What `setup_fragmentation_beam` hands back: its return value, the beam,
and the values behind `what`, `should_destroy_wall` and `hole`.  For `what`,
`none` is a null pointer and `some none` a pointer to a null string. -/
structure frag_setup where
  ok : Bool
  beam : bolt
  what : Option (Option String)
  should_destroy_wall : Bool
  hole : Bool
  state : game_state

/-- The statement `if (what && *what == nullptr) *what = v;`. -/
def what_default (what : Option (Option String)) (v : String) : Option (Option String) :=
  match what with
  | some none => some (some v)
  | w => w

/-- The statement `if (what) *what = v;`. -/
def what_set (what : Option (Option String)) (v : String) : Option (Option String) :=
  match what with
  | some _ => some (some v)
  | none => none

/-- The fields `setup_fragmentation_beam` sets before it looks at the target. -/
def frag_init_beam (E : Ext) (beam : bolt) (pow : Int) (caster : actor_ref)
    (target : coord_def) (s : game_state) : bolt :=
  { beam with
    flavour := beam_type.BEAM_FRAG, source_id := s.actor_mid caster,
    thrower := if caster.is_player then killer_type.KILL_YOU else killer_type.KILL_MON,
    ex_size := 1, source := s.you.pos, hit := AUTOMATIC_HIT,
    source_name := E.actor_name s caster,
    aux_source := "by Lee's Rapid Deconstruction",
    target := target, damage := base_fragmentation_damage pow }

/-- The branch of `setup_fragmentation_beam` for a target on the player's own
cell: the beam it returns with, or nothing when control goes on to the
terrain. -/
def frag_player_beam (beam : bolt) (you : player) : Option bolt :=
  if you.form = transformation.statue ∨ you.species = species_type.SP_GARGOYLE then
    some { beam with
      name := "blast of rock fragments",
      damage := if you.species = species_type.SP_GARGOYLE
                then { beam.damage with num := 2 } else beam.damage }
  else if you.petrified || you.petrifying then
    some { beam with name := "blast of petrified fragments" }
  else if you.form = transformation.ice_beast then
    some { beam with name := "icy blast", flavour := beam_type.BEAM_ICE }
  else if you.form = transformation.golem then
    some { beam with name := "blast of armour fragments" }
  else none

/-- The `switch` of `setup_fragmentation_beam` over the type of the monster on
the target cell: the beam, or nothing for `goto do_terrain`. -/
def frag_monster_beam (beam : bolt) (m : monster) : Option bolt :=
  match m.type with
  | monster_type.MONS_TOENAIL_GOLEM =>
    some { beam with name := "blast of toenail fragments" }
  | monster_type.MONS_IRON_ELEMENTAL
  | monster_type.MONS_IRON_GOLEM
  | monster_type.MONS_PEACEKEEPER
  | monster_type.MONS_WAR_GARGOYLE =>
    some { beam with name := "blast of metal fragments",
                     damage := { beam.damage with num := 4 } }
  | monster_type.MONS_EARTH_ELEMENTAL
  | monster_type.MONS_ROCKSLIME
  | monster_type.MONS_USHABTI
  | monster_type.MONS_STATUE
  | monster_type.MONS_GARGOYLE =>
    some { beam with name := "blast of rock fragments" }
  | monster_type.MONS_SALTLING =>
    some { beam with name := "blast of salt crystal fragments" }
  | monster_type.MONS_OBSIDIAN_STATUE =>
    some { beam with ex_size := 2, damage := { beam.damage with num := 4 },
                     name := "blast of obsidian shards" }
  | monster_type.MONS_ORANGE_STATUE =>
    some { beam with ex_size := 2, damage := { beam.damage with num := 4 },
                     name := "blast of orange crystal shards" }
  | monster_type.MONS_CRYSTAL_GUARDIAN =>
    some { beam with ex_size := 2, damage := { beam.damage with num := 4 },
                     name := "blast of crystal shards" }
  | monster_type.MONS_ROXANNE =>
    some { beam with ex_size := 2, damage := { beam.damage with num := 4 },
                     name := "blast of sapphire shards" }
  | _ =>
    if m.petrified || m.petrifying then
      some { beam with name := "blast of petrified fragments" }
    else if m.icy then
      some { beam with name := "icy blast", flavour := beam_type.BEAM_ICE }
    else if m.skeletal then
      some { beam with name := "blast of bone shards" }
    else none

/-- The part of `setup_fragmentation_beam` that looks for an actor to blow up:
the beam it returns with, or nothing when control reaches `do_terrain`. -/
def frag_actor_beam (E : Ext) (beam : bolt) (caster : actor_ref) (target : coord_def)
    (s : game_state) : Option bolt :=
  if target = s.you.pos then frag_player_beam beam s.you
  else
    match s.monster_at target with
    | some mi =>
      if !caster.is_player || E.you_can_see s (actor_ref.mons mi) then
        (frag_monster_beam beam (s.mon mi)).map (fun b => { b with aux_source := b.name })
      else none
    | none => none

/-- The condition under which the stone and rock case of `do_terrain` sets
`should_destroy_wall`, evaluated left to right with short circuit, with the
state after its draws. -/
def frag_stone_destroyed (pow : Int) (grid : dungeon_feature_type) (s : game_state) :
    Bool × game_state :=
  if grid = dungeon_feature_type.DNGN_ORCISH_IDOL
      ∨ grid = dungeon_feature_type.DNGN_GRANITE_STATUE then (true, s)
  else
    let c1 := if 35 ≤ pow ∧ (grid = dungeon_feature_type.DNGN_ROCK_WALL
                  ∨ grid = dungeon_feature_type.DNGN_SLIMY_WALL
                  ∨ grid = dungeon_feature_type.DNGN_CLEAR_ROCK_WALL)
              then s.one_chance_in 3 else (false, s)
    if c1.1 then (true, c1.2)
    else if 50 ≤ pow ∧ (grid = dungeon_feature_type.DNGN_STONE_WALL
                  ∨ grid = dungeon_feature_type.DNGN_CLEAR_STONE_WALL)
    then c1.2.one_chance_in 10 else (false, c1.2)

/-- The end of `setup_fragmentation_beam` after the terrain `switch`: the name
becomes the auxiliary source and the function returns true. -/
def frag_finish (beam : bolt) (what : Option (Option String)) (should_destroy_wall hole : Bool)
    (s : game_state) : frag_setup :=
  { ok := true, beam := { beam with aux_source := beam.name }, what := what,
    should_destroy_wall := should_destroy_wall, hole := hole, state := s }

/-- The label `do_terrain` of `setup_fragmentation_beam`: the `switch` over
the feature of the target cell, and the end of the function. -/
def frag_do_terrain (beam : bolt) (pow : Int) (caster : actor_ref) (quiet : Bool)
    (grid : dungeon_feature_type) (what : Option (Option String))
    (should_destroy_wall hole : Bool) (s : game_state) : frag_setup :=
  match grid with
  | dungeon_feature_type.DNGN_ORCISH_IDOL
  | dungeon_feature_type.DNGN_ROCK_WALL
  | dungeon_feature_type.DNGN_SLIMY_WALL
  | dungeon_feature_type.DNGN_STONE_WALL
  | dungeon_feature_type.DNGN_CLEAR_ROCK_WALL
  | dungeon_feature_type.DNGN_CLEAR_STONE_WALL
  | dungeon_feature_type.DNGN_GRANITE_STATUE =>
    let what1 := if grid = dungeon_feature_type.DNGN_ORCISH_IDOL
                 then what_default what "stone idol" else what
    let what2 := if grid = dungeon_feature_type.DNGN_GRANITE_STATUE then what1
                 else what_default what1 "wall"
    let what3 := what_default what2 "statue"
    let c := frag_stone_destroyed pow grid s
    frag_finish
      { beam with name := "blast of rock fragments", damage := { beam.damage with num := 3 } }
      what3 (if c.1 then true else should_destroy_wall) hole c.2
  | dungeon_feature_type.DNGN_METAL_WALL
  | dungeon_feature_type.DNGN_GRATE =>
    let what1 := if grid = dungeon_feature_type.DNGN_METAL_WALL
                 then what_set what "metal wall" else what
    let what2 := what_default what1 "iron grate"
    let c := if 75 ≤ pow then s.one_chance_in 20 else (false, s)
    frag_finish
      { beam with name := "blast of metal fragments", damage := { beam.damage with num := 4 } }
      what2
      (if c.1 || grid == dungeon_feature_type.DNGN_GRATE then true else should_destroy_wall)
      hole c.2
  | dungeon_feature_type.DNGN_CRYSTAL_WALL =>
    let c := s.one_chance_in 3
    frag_finish
      { beam with ex_size := 2, name := "blast of crystal shards",
                  damage := { beam.damage with num := 4 } }
      (what_set what "crystal wall") (if c.1 then true else should_destroy_wall) hole c.2
  | dungeon_feature_type.DNGN_OPEN_DOOR
  | dungeon_feature_type.DNGN_OPEN_CLEAR_DOOR
  | dungeon_feature_type.DNGN_CLOSED_DOOR
  | dungeon_feature_type.DNGN_CLOSED_CLEAR_DOOR
  | dungeon_feature_type.DNGN_RUNED_DOOR
  | dungeon_feature_type.DNGN_RUNED_CLEAR_DOOR
  | dungeon_feature_type.DNGN_SEALED_DOOR
  | dungeon_feature_type.DNGN_SEALED_CLEAR_DOOR =>
    frag_finish
      { beam with name := "blast of rock fragments", damage := { beam.damage with num := 3 } }
      (what_default (what_set what "stone door frame") "stone arch") true false s
  | dungeon_feature_type.DNGN_STONE_ARCH =>
    frag_finish
      { beam with name := "blast of rock fragments", damage := { beam.damage with num := 3 } }
      (what_default what "stone arch") should_destroy_wall false s
  | _ =>
    { ok := false, beam := beam, what := what, should_destroy_wall := should_destroy_wall,
      hole := hole,
      state := if caster.is_player && !quiet
               then s.emit (Event.mpr "You can't deconstruct that!") else s }

/-- The function `setup_fragmentation_beam(beam, pow, caster, target, quiet,
what, should_destroy_wall, hole)`. -/
def setup_fragmentation_beam (E : Ext) (beam : bolt) (pow : Int) (caster : actor_ref)
    (target : coord_def) (quiet : Bool) (what : Option (Option String))
    (should_destroy_wall hole : Bool) (s : game_state) : frag_setup :=
  let b0 := frag_init_beam E beam pow caster target s
  match frag_actor_beam E b0 caster target s with
  | some b =>
    { ok := true, beam := b, what := what, should_destroy_wall := should_destroy_wall,
      hole := hole, state := s }
  | none => frag_do_terrain b0 pow caster quiet (s.grd target) what should_destroy_wall hole s

/-- The table of the specification: whether the fragmentation of a terrain
feature destroys it, at a power and with the pending draws.  Always for an
orcish idol, a granite statue, an iron grate and every door; for rock, slimy
and clear rock walls when the power is at least 35 and a 1-in-3 draw succeeds;
for stone and clear stone walls when it is at least 50 and a 1-in-10 draw
succeeds; for a metal wall when it is at least 75 and a 1-in-20 draw succeeds;
for a crystal wall when a 1-in-3 draw succeeds; never otherwise. -/
def destroy_table_spec (grid : dungeon_feature_type) (pow : Int) (r : List Nat) : Bool :=
  if grid = dungeon_feature_type.DNGN_ORCISH_IDOL
      ∨ grid = dungeon_feature_type.DNGN_GRANITE_STATUE
      ∨ grid = dungeon_feature_type.DNGN_GRATE
      ∨ grid = dungeon_feature_type.DNGN_OPEN_DOOR
      ∨ grid = dungeon_feature_type.DNGN_OPEN_CLEAR_DOOR
      ∨ grid = dungeon_feature_type.DNGN_CLOSED_DOOR
      ∨ grid = dungeon_feature_type.DNGN_CLOSED_CLEAR_DOOR
      ∨ grid = dungeon_feature_type.DNGN_RUNED_DOOR
      ∨ grid = dungeon_feature_type.DNGN_RUNED_CLEAR_DOOR
      ∨ grid = dungeon_feature_type.DNGN_SEALED_DOOR
      ∨ grid = dungeon_feature_type.DNGN_SEALED_CLEAR_DOOR then true
  else if grid = dungeon_feature_type.DNGN_ROCK_WALL
      ∨ grid = dungeon_feature_type.DNGN_SLIMY_WALL
      ∨ grid = dungeon_feature_type.DNGN_CLEAR_ROCK_WALL then
    decide (35 ≤ pow) && (one_chance_in 3 r).1
  else if grid = dungeon_feature_type.DNGN_STONE_WALL
      ∨ grid = dungeon_feature_type.DNGN_CLEAR_STONE_WALL then
    decide (50 ≤ pow) && (one_chance_in 10 r).1
  else if grid = dungeon_feature_type.DNGN_METAL_WALL then
    decide (75 ≤ pow) && (one_chance_in 20 r).1
  else if grid = dungeon_feature_type.DNGN_CRYSTAL_WALL then (one_chance_in 3 r).1
  else false

/-! ## Freeze and Static Discharge -/

/-- The function `freeze_damage(pow)`. -/
def freeze_damage (pow : Int) : dice_def :=
  { num := 1, size := 3 + Int.tdiv pow 3 }

/-- The branch of `cast_freeze` without a target: the costs are paid and a
message says that nothing is close enough. -/
def freeze_nothing (fail : Bool) (s : game_state) : spret × game_state :=
  if fail then (spret.fail, s)
  else (spret.success, s.emit (Event.canned_msg "MSG_NOTHING_CLOSE_ENOUGH"))

/-- The part of `cast_freeze` after the failure check: the conduct hook, the
roll, the mitigation, the damage and the exposure to cold. -/
def freeze_strike (E : Ext) (pow : Int) (mi : Nat) (s : game_state) : game_state :=
  let s1 := set_attack_conducts mi s
  let beam : bolt :=
    { (default : bolt) with flavour := beam_type.BEAM_COLD, thrower := killer_type.KILL_YOU }
  let r := s1.roll (freeze_damage pow)
  let adj := mons_adjust_flavoured E mi beam r.1 true r.2
  let s3 := adj.2.emit (Event.mpr "You freeze the monster")
  let s4 := _player_hurt_monster E mi adj.1 beam.flavour false s3
  if (s4.mon mi).alive then mon_expose_to_element E mi beam_type.BEAM_COLD r.1 s4 else s4

/-- The function `cast_freeze(pow, mons, fail)`; the monster is given by its
index, or is absent. -/
def cast_freeze (E : Ext) (pow : Int) (mons : Option Nat) (fail : Bool) (s : game_state) :
    spret × game_state :=
  let pow1 := min 25 pow
  match mons with
  | none => freeze_nothing fail s
  | some mi =>
    if (s.mon mi).submerged then freeze_nothing fail s
    else if !s.you.auto_spell && E.stop_attack_prompt s then
      (spret.abort, s.emit (Event.canned_msg "MSG_OK"))
    else if fail then (spret.fail, s)
    else (spret.success, freeze_strike E pow1 mi s)

/-- Modelled from the spec: `random_range(low, high)` of the pseudo-random
source (`random.cc` is not among the sources): a value in `[low, high]`. -/
def random_range (low high : Int) (r : List Nat) : Int × List Nat :=
  let d := random2 (high - low + 1) r
  (low + d.1, d.2)

/-- The loop of `apply_random_around_square` over the cells it has picked: the
function is applied to each in turn and the results are added up. -/
def apply_cells (cf : coord_def → game_state → Option (Int × game_state)) :
    List coord_def → Int → game_state → Option (Int × game_state)
  | [], rv, s => some (rv, s)
  | c :: rest, rv, s =>
    match cf c s with
    | none => none
    | some r => apply_cells cf rest (rv + r.1) r.2

/-- The function `apply_random_around_square(cf, where, exclude_center,
max_targs)`: the outside world picks the cells, then the function is applied
to them. -/
def apply_random_around_square (E : Ext)
    (cf : coord_def → game_state → Option (Int × game_state)) (pos : coord_def)
    (exclude_center : Bool) (max_targs : Int) (s : game_state) :
    Option (Int × game_state) :=
  let p := E.random_around_square s pos exclude_center max_targs
  apply_cells cf p.1 0 { s with rng := p.2 }

/-- Modelled from the spec: `actor::alive` (`monster.cc` and `player.cc` are
not among the sources): a monster with hit points left; the player always. -/
def game_state.actor_alive (s : game_state) : actor_ref → Bool
  | actor_ref.player => true
  | actor_ref.mons i => (s.mon i).alive

/-- The first damage figure of `_discharge_monsters`, for the agent itself or
for another victim; the inner draw is taken before the outer one. -/
def discharge_damage (agent victim : actor_ref) (pow : Int) (s : game_state) :
    Int × game_state :=
  if agent = victim then
    let d := s.random2 (3 + Int.tdiv pow 15)
    (1 + d.1, d.2)
  else
    let i := s.random2 pow
    let d := i.2.random2 (5 + Int.tdiv pow 10 + Int.tdiv i.1 10)
    (3 + d.1, d.2)

/-- The branch of `_discharge_monsters` for the player as the victim. -/
def discharge_player (E : Ext) (pow : Int) (s : game_state) : Int × game_state :=
  let d := s.random2 (3 + Int.tdiv pow 15)
  let c := check_your_resists E (1 + d.1) beam_type.BEAM_ELECTRICITY true d.2
  let s1 := c.2.emit (Event.mpr "You are struck by an arc of lightning")
  let s2 := ouch c.1 s1
  if 0 < c.1 then (c.1, you_expose_to_element E beam_type.BEAM_ELECTRICITY 2 s2)
  else (c.1, s2)

/-- The branch of `_discharge_monsters` for a monster that is neither
resistant nor protected. -/
def discharge_monster (E : Ext) (agent : actor_ref) (mi : Nat) (damage : Int) (beam : bolt)
    (s : game_state) : Int × game_state :=
  let s1 := if agent.is_player then set_attack_conducts mi s else s
  let adj := mons_adjust_flavoured E mi beam damage true s1
  let s2 := adj.2.emit (Event.mpr "The monster is struck by an arc of lightning")
  if agent.is_player then
    (adj.1, _player_hurt_monster E mi adj.1 beam.flavour false s2)
  else if adj.1 ≠ 0 then (adj.1, monster_hurt mi adj.1 true s2)
  else (adj.1, s2)

/-- The part of `_discharge_monsters` that strikes a live victim: the damage
done, or nothing where the function returns 0 at once. -/
def discharge_strike (E : Ext) (agent victim : actor_ref) (pos : coord_def) (pow : Int)
    (s : game_state) : Option Int × game_state :=
  let d := discharge_damage agent victim pow s
  let beam : bolt := { (default : bolt) with flavour := beam_type.BEAM_ELECTRICITY }
  match victim with
  | actor_ref.player =>
    let r := discharge_player E pow (d.2.emit (Event.beam_draw pos))
    (some r.1, r.2)
  | actor_ref.mons mi =>
    let s1 := if (d.2.mon mi).res_elec ≤ 0 then d.2.emit (Event.beam_draw pos) else d.2
    if 0 < (s1.mon mi).res_elec then (none, s1)
    else if E.god_protects s1 (some agent) (some mi) then (none, s1)
    else
      let r := discharge_monster E agent mi d.1 beam s1
      (some r.1, r.2)

/-- The test `(pow >= 10 && !one_chance_in(4)) || (pow >= 3 &&
one_chance_in(10))` of `_discharge_monsters`, evaluated left to right with
short circuit. -/
def discharge_arcs_on (pow : Int) (s : game_state) : Bool × game_state :=
  let c1 := if 10 ≤ pow then ((!(s.one_chance_in 4).1), (s.one_chance_in 4).2)
            else (false, s)
  if c1.1 then (true, c1.2)
  else if 3 ≤ pow then c1.2.one_chance_in 10
  else (false, c1.2)

/-- The function `_discharge_monsters(where, pow, agent)`; the fuel bounds the
depth of the recursion, and running out of it gives nothing. -/
def _discharge_monsters (E : Ext) (agent : actor_ref) :
    Nat → coord_def → Int → game_state → Option (Int × game_state)
  | fuel, pos, pow, s =>
    match s.actor_at pos with
    | none => some (0, s)
    | some victim =>
      if !s.actor_alive victim then some (0, s)
      else
        let h := discharge_strike E agent victim pos pow s
        match h.1 with
        | none => some (0, h.2)
        | some damage =>
          let c := discharge_arcs_on pow h.2
          if c.1 then
            match fuel with
            | 0 => none
            | fuel + 1 =>
              let k := random_range 2 3 c.2.rng
              match apply_random_around_square E
                  (fun w s' => _discharge_monsters E agent fuel w (Int.tdiv pow k.1) s')
                  pos true 1 { c.2 with rng := k.2 } with
              | none => none
              | some r => some (damage + r.1, r.2)
          else if 0 < damage then
            some (damage, c.2.emit (Event.mpr "The lightning grounds out."))
          else some (damage, c.2)

/-- The monster whose hit points a logged call may reduce: the target of a
mitigation step, of `hurt` and of the death cleanup. -/
def Event.hp_target : Event → Option Nat
  | Event.mons_adjust_flavoured t _ _ => some t
  | Event.hurt t _ => some t
  | Event.monster_die t => some t
  | _ => none

/-- In a list of logged calls, every call that may reduce a monster's hit
points comes after a call of the conduct hook `set_attack_conducts` on that
monster. -/
def conducts_before_harm (l : List Event) : Prop :=
  ∀ (l1 l2 : List Event) (e : Event) (t : Nat),
    l = l1 ++ e :: l2 → Event.hp_target e = some t → Event.set_attack_conducts t ∈ l1

/-- The log of the second state extends the log of the first by calls that
satisfy a condition. -/
def adds_events (p : Event → Prop) (s s' : game_state) : Prop :=
  ∃ l, s'.log = s.log ++ l ∧ ∀ e ∈ l, p e

/-- The log of the second state extends the log of the first by calls among
which the conduct hook comes before any harm. -/
def adds_conducted (s s' : game_state) : Prop :=
  ∃ l, s'.log = s.log ++ l ∧ conducts_before_harm l

/-- The player between two monsters, with the given pending draws. -/
def st_discharge : game_state :=
  plain_state (plain_player ⟨0, 0⟩) [plain_monster 1 ⟨1, 0⟩, plain_monster 2 ⟨2, 0⟩]
    [5, 2, 3, 1, 1, 4, 2, 0, 1]

/-- A logged call may reduce the hit points of no monster but the given
one. -/
def Event.about (t : Nat) (e : Event) : Prop :=
  ∀ t', Event.hp_target e = some t' → t' = t

/-! ## Counting the iterations of a chain -/

/-- The `for` loop of `cast_chain_spell` with a counter: the number of
iterations whose body is entered, next to the state `chain_loop` gives. -/
def chain_loop_count (E : Ext) (spell : spell_type) (caster : actor_ref) :
    Nat → Int → coord_def → Bool → bolt → game_state → Option (Nat × game_state)
  | fuel, pow, source, first, beam, s =>
    if pow ≤ 0 then some (0, s)
    else
      match fuel with
      | 0 => none
      | fuel + 1 =>
        let t := chain_pick_target E (s.actor_pos caster) source beam s
        let target := t.1
        let see_source := E.you_see_cell t.2 source
        let see_targ := E.you_see_cell t.2 target
        if target.x = -1 then
          some (1, if see_source then t.2.emit (Event.mpr "grounds out") else t.2)
        else
          let s2 := chain_hop_announce spell first see_source see_targ source t.2
          let b := chain_setup_beam E spell caster pow source target beam s2
          let f := fire_beam E b.1 b.2
          let d := f.2.random2 13
          match chain_loop_count E spell caster fuel (pow - (8 + d.1)) target false f.1 d.2 with
          | none => none
          | some r => some (r.1 + 1, r.2)

/-- The player as the caster at the origin, with a monster on the next cell:
an arc from the monster's cell can come back to the caster. -/
def st_arc_back : game_state :=
  plain_state (plain_player ⟨0, 0⟩) [plain_monster 1 ⟨1, 0⟩] []

/-! ## Irradiate -/

/-- The function `irradiate_damage(pow, random)`.  The initialiser of
`max_dam` is `30 + random ? div_rand_round(pow, 2) : pow / 2`, in which `+`
binds tighter than `?:`, so that the condition is `30 + random`. -/
def irradiate_damage (E : Ext) (pow : Int) (random : Bool) (r : List Nat) :
    dice_def × List Nat :=
  let dice : Int := 6
  let cond : Int := 30 + (if random then 1 else 0)
  let max_dam := if cond ≠ 0 then div_rand_round pow 2 r else (Int.tdiv pow 2, r)
  E.calc_dice dice max_dam.1 max_dam.2

/-! ## The searing ray as a state machine -/

/-- The number of channelled beams a searing ray can still fire from a value
of `you.attribute[ATTR_SEARING_RAY]`. -/
def searing_budget (a : Int) : Nat :=
  if a = -1 ∨ a = 1 then 3 else if a = 2 then 2 else if a = 3 then 1 else 0

/-- The zaps of the stages a searing ray still has ahead of it at a value of
`you.attribute[ATTR_SEARING_RAY]`, in order. -/
def searing_stage_zaps (a : Int) : List zap_type :=
  if a = -1 ∨ a = 1 then
    [zap_type.ZAP_SEARING_RAY_I, zap_type.ZAP_SEARING_RAY_II, zap_type.ZAP_SEARING_RAY_III]
  else if a = 2 then [zap_type.ZAP_SEARING_RAY_II, zap_type.ZAP_SEARING_RAY_III]
  else if a = 3 then [zap_type.ZAP_SEARING_RAY_III]
  else []

/-- A number of calls of `handle_searing_ray` in a row, stopping at the first
failed assertion. -/
def searing_ray_ticks (E : Ext) : Nat → game_state → Except String game_state
  | 0, s => Except.ok s
  | n + 1, s =>
    match handle_searing_ray E s with
    | Except.error e => Except.error e
    | Except.ok s1 => searing_ray_ticks E n s1

/-- The beams fired by a number of calls of `handle_searing_ray` in a row
after a cast of the spell, or nothing when an assertion fails. -/
def searing_ray_run (E : Ext) (pow : Int) (beam : bolt) (n : Nat) (s : game_state) :
    Option (Int × Nat) :=
  match searing_ray_ticks E n (cast_searing_ray E pow beam false s).2 with
  | Except.ok s' => some (s'.searing_ray, (fired_beams s'.log).length)
  | Except.error _ => none

/-- A player who keeps waiting, with 5 magic points and a monster in reach. -/
def st_waiting : game_state :=
  { plain_state (plain_player ⟨0, 0⟩) [plain_monster 1 ⟨3, 0⟩] [] with
    prev_cmd := command_type.CMD_WAIT }

/-! ## Eligible monsters and the target of a hop -/

/-- The jittered distance of a monster from the source of a hop, with the
draw `random2(3)` taken from the state. -/
def chain_jitter_dist (source : coord_def) (mi : Nat) (s : game_state) : Int :=
  grid_distance source (s.mon mi).pos + ((s.random2 3).1 - 1)

/-- Whether a monster passes every filter of the monster loop of
`cast_chain_spell` when its turn comes with the given scan and state: it is
valid, not ignored by the beam, off the source cell, at a jittered distance
within the minimum, seen from the source and from the caster, and first on
the ray from the source. -/
def chain_passes_filters (E : Ext) (caster_pos source : coord_def) (beam : bolt) (mi : Nat)
    (st : chain_scan) (s : game_state) : Bool :=
  !invalid_monster E (s.mon mi) && !E.ignores_monster s beam mi
    && grid_distance source (s.mon mi).pos != 0
    && decide (chain_jitter_dist source mi s ≤ st.min_dist)
    && E.cell_see_cell (s.random2 3).2 source (s.mon mi).pos los_type.LOS_SOLID
    && E.cell_see_cell (s.random2 3).2 caster_pos (s.mon mi).pos los_type.LOS_SOLID_SEE
    && chain_ray_reaches E (s.random2 3).2 source (s.mon mi).pos

/-- Whether a monster that has passed the filters is passed over: it is closer
than the current minimum and the `one_chance_in(10)` draw succeeds. -/
def chain_passed_over (source : coord_def) (mi : Nat) (st : chain_scan) (s : game_state) :
    Bool :=
  decide (chain_jitter_dist source mi s < st.min_dist) && ((s.random2 3).2.one_chance_in 10).1

/-- The player at the origin with one monster on the next cell, and draws
under which the monster's jitter is 0 and the `one_chance_in(10)` draw
succeeds. -/
def st_chain_unlucky : game_state :=
  plain_state (plain_player ⟨0, 0⟩) [plain_monster 1 ⟨1, 0⟩] [1, 0]

/-- The scan and the state of a hop after the monster loop has gone through
the first monsters of the iteration. -/
def chain_scan_upto (E : Ext) (caster_pos source : coord_def) (beam : bolt)
    (pre : List Nat) (s : game_state) : chain_scan × game_state :=
  chain_scan_monsters E caster_pos source beam pre
    { min_dist := E.LOS_DEFAULT_RANGE - 1, count := 0, target := ⟨-1, -1⟩ } s

/-! ## Ignition -/

/-- The function `_ignition_square(agent, beam, square, center)`; the beam is
passed by value. -/
def _ignition_square (E : Ext) (_agent : actor_ref) (beam : bolt) (square : coord_def)
    (center : Bool) (s : game_state) : game_state :=
  let b := { beam with target := square, in_explosion_phase := true }
  let s1 := ext_step (E.explosion_affect_cell b square)
    (s.emit (Event.explosion_affect_cell b square))
  if center then s1.emit (Event.noisy spell_type.SPELL_IGNITION square) else s1

/-- The first loop of `cast_ignition`: the cells of the monsters near the
agent that would attack the player and are neither firewood nor tentacle
segments. -/
def ignition_blast_sources (E : Ext) (agent : actor_ref) (s : game_state) : List coord_def :=
  (E.actor_near s (s.actor_pos agent)).filterMap (fun a =>
    match a with
    | actor_ref.mons mi =>
      if !(s.mon mi).wont_attack && !E.mons_is_firewood (s.mon mi)
          && !E.mons_is_tentacle_segment (s.mon mi).type
      then some (s.mon mi).pos else none
    | actor_ref.player => none)

/-- Whether the loop over the cells next to a blast source keeps a cell: it is
not a wall the beam cannot affect, and holds neither the agent nor a monster
that would not attack the player. -/
def ignition_keeps (E : Ext) (agent : actor_ref) (beam_actual : bolt) (s : game_state)
    (c : coord_def) : Bool :=
  if E.cell_is_solid s c && (!E.can_affect_wall s beam_actual c || E.you_worship_fedhas s)
  then false
  else
    match s.actor_at c with
    | some act =>
      if act == agent
          || (match act with
              | actor_ref.mons mi => (s.mon mi).wont_attack
              | actor_ref.player => false)
      then false else true
    | none => true

/-- The loop of `cast_ignition` over the cells next to one blast source: the
cells kept are added to `blast_adjacents` and drawn. -/
def ignition_adjacents (E : Ext) (agent : actor_ref) (beam_actual : bolt) :
    List coord_def → List coord_def → game_state → List coord_def × game_state
  | [], acc, s => (acc, s)
  | c :: rest, acc, s =>
    if ignition_keeps E agent beam_actual s c then
      ignition_adjacents E agent beam_actual rest (acc ++ [c])
        (s.emit (Event.explosion_draw_cell c))
    else ignition_adjacents E agent beam_actual rest acc s

/-- The loop of `cast_ignition` over the blast sources that fills
`blast_adjacents`. -/
def ignition_mark (E : Ext) (agent : actor_ref) (beam_actual : bolt) :
    List coord_def → List coord_def → game_state → List coord_def × game_state
  | [], acc, s => (acc, s)
  | pos :: rest, acc, s =>
    let r := ignition_adjacents E agent beam_actual (E.adjacent_cells s pos) acc s
    ignition_mark E agent beam_actual rest r.1 (r.2.emit (Event.explosion_draw_cell pos))

/-- One of the two last loops of `cast_ignition`: `_ignition_square` on every
cell of a list. -/
def ignition_blast (E : Ext) (agent : actor_ref) (beam_actual : bolt) (center : Bool) :
    List coord_def → game_state → game_state
  | [], s => s
  | pos :: rest, s =>
    ignition_blast E agent beam_actual center rest
      (_ignition_square E agent beam_actual pos center s)

/-- The function `cast_ignition(agent, pow, fail)`; a failed assertion is an
error.  The visual beam only draws cells, and its calls are recorded as
`explosion_draw_cell`. -/
def cast_ignition (E : Ext) (agent : actor_ref) (pow : Int) (fail : Bool) (s : game_state) :
    Except String (spret × game_state) :=
  if !agent.is_player then Except.error "ASSERT(agent->is_player())"
  else if fail then Except.ok (spret.fail, s)
  else
    let blast_sources := ignition_blast_sources E agent s
    if blast_sources.isEmpty then
      Except.ok (spret.success, s.emit (Event.canned_msg "MSG_NOTHING_HAPPENS"))
    else
      let s1 := s.emit (Event.mpr "The air bursts into flame!")
      let beam_actual : bolt :=
        { E.set_agent s1 agent (E.zappy zap_type.ZAP_IGNITION pow false default) with
          ex_size := 0, origin_spell := spell_type.SPELL_IGNITION }
      let s2 := s1.emit (Event.apply_beam_conducts beam_actual)
      let m := ignition_mark E agent beam_actual blast_sources [] s2
      let s3 := (m.2.emit Event.update_screen).emit (Event.scaled_delay 50)
      let s4 := ignition_blast E agent beam_actual true blast_sources s3
      Except.ok (spret.success, ignition_blast E agent beam_actual false m.1 s4)

/-- The cells handed to the damaging explosion according to a list of logged
calls, in order. -/
def ignition_cells (l : List Event) : List coord_def :=
  l.filterMap (fun e => match e with
    | Event.explosion_affect_cell _ pos => some pos
    | _ => none)

/-- The cells a `cast_ignition` call hands to the damaging explosion, or
nothing when the call ends in an error. -/
def ignition_blasted (E : Ext) (agent : actor_ref) (pow : Int) (fail : Bool)
    (s : game_state) : Option (List coord_def) :=
  match cast_ignition E agent pow fail s with
  | Except.ok r => some (ignition_cells (r.2.log.drop s.log.length))
  | Except.error _ => none

/-- The player with two hostile monsters on neighbouring cells in view, and an
ally next to the first of them. -/
def st_ignition : game_state :=
  plain_state (plain_player ⟨0, 0⟩)
    [plain_monster 1 ⟨2, 0⟩, plain_monster 2 ⟨3, 0⟩,
     { plain_monster 3 ⟨2, 1⟩ with wont_attack := true }] []

/-- A cell holds neither the agent nor a monster that would not attack the
player. -/
def ignition_spared (s : game_state) (agent : actor_ref) (c : coord_def) : Prop :=
  s.actor_at c ≠ some agent
    ∧ ∀ mi, s.actor_at c = some (actor_ref.mons mi) → (s.mon mi).wont_attack = false

/-- Between two states the player and the monsters are the same, and the
calls logged in between hand no cell to the damaging explosion. -/
def ignition_frame (s s' : game_state) : Prop :=
  s'.you = s.you ∧ s'.mons = s.mons ∧ ∃ l, s'.log = s.log ++ l ∧ ignition_cells l = []

/-! ## Olgreb's Toxic Radiance -/

/-- Poison resistance of an actor, `actor::res_poison`. -/
def game_state.res_poison (s : game_state) : actor_ref → Int
  | actor_ref.player => s.you.res_poison
  | actor_ref.mons i => (s.mon i).res_poison

/-- The function `toxic_can_affect`: submerged monsters are out of reach, and
the player is immune only at the third level of poison resistance, a monster
at the first. -/
def toxic_can_affect (s : game_state) (act : actor_ref) : Bool :=
  if (match act with
      | actor_ref.mons mi => (s.mon mi).submerged
      | actor_ref.player => false)
  then false
  else decide (s.res_poison act < (if act.is_player then 3 else 1))

/-- Modelled from the spec: `random2avg(max, rolls)` of the pseudo-random
source: one `random2(max)` draw and `rolls - 1` draws of `random2(max + 1)`,
averaged. -/
def random2avg (max rolls : Int) (r : List Nat) : Int × List Nat :=
  let d := random2 max r
  let rest := (List.range (rolls.toNat - 1)).foldl
    (fun (acc : Int × List Nat) _ =>
      let e := random2 (max + 1) acc.2
      (acc.1 + e.1, e.2)) (d.1, d.2)
  (Int.tdiv rest.1 rolls, rest.2)

/-- Modelled from the spec: `monster::add_ench` (`monster.cc` is not among the
sources): a status effect the monster lacks joins its status table. -/
def add_ench (i : Nat) (e : mon_enchant) (duration : Int) (s : game_state) : game_state :=
  let s1 := s.emit (Event.add_ench i e duration)
  let m := s1.mon i
  if m.enchantments.any (fun x => x.ench = e.ench) then s1
  else s1.set_mon i { m with enchantments := m.enchantments ++ [e] }

/-- The method `monster::has_ench`. -/
def monster.has_ench (m : monster) (e : enchant_type) : Bool :=
  m.enchantments.any (fun x => x.ench = e)

/-- The function `poison_player`, recorded with its amount; its outcome is
the oracle's. -/
def poison_player (E : Ext) (amount : Int) (s : game_state) : game_state :=
  ext_step (E.poison_player amount) (s.emit (Event.poison_player amount))

/-- The function `poison_monster`, recorded with its target and levels; its
outcome is the oracle's. -/
def poison_monster (E : Ext) (mi : Nat) (levels : Int) (s : game_state) : game_state :=
  ext_step (E.poison_monster mi levels) (s.emit (Event.poison_monster mi levels))

/-- The body of the loop of `toxic_radiance_effect` for an actor that passed
both eligibility tests: the damage roll, then `ouch` and poison for the
player, or the conduct hook, `hurt` and poison for a monster.  The flag is
`break_sanctuary`.  The operands of the two arithmetic expressions that draw
twice are taken left to right. -/
def toxic_hit (E : Ext) (agent : actor_ref) (mult : Int) (on_cast : Bool) (pow : Int)
    (a : actor_ref) (break_sanctuary : Bool) (s : game_state) : Bool × game_state :=
  let r1 := roll_dice 1 (1 + Int.tdiv pow 20) s.rng
  let r2 := div_rand_round mult BASELINE_DELAY r1.2
  let s1 := { s with rng := r2.2 }
  let dam := E.resist_adjust_damage s1 a beam_type.BEAM_POISON (r1.1 * r2.1)
  match a with
  | actor_ref.player =>
    if !agent.is_player then
      let s2 := ouch dam s1
      let r3 := roll_dice 2 3 s2.rng
      (break_sanctuary, poison_player E r3.1 { s2 with rng := r3.2 })
    else (break_sanctuary, s1)
  | actor_ref.mons mi =>
    let c : Bool × game_state :=
      if on_cast && agent.is_player then
        let s2 := set_attack_conducts mi s1
        (if E.is_sanctuary s2 (s2.mon mi).pos then true else break_sanctuary, s2)
      else (break_sanctuary, s1)
    let s3 := monster_hurt mi dam true c.2
    if (s3.mon mi).alive then
      let s4 := s3.emit (Event.behaviour_event mi)
      let q := Int.tdiv mult BASELINE_DELAY
      let r3 := roll_dice q 2 s4.rng
      let r4 := roll_dice 1 20 r3.2
      let levels := r3.1 - q + (if r4.1 ≤ Int.tmod mult BASELINE_DELAY then 1 else 0)
      let levels1 := if !(s4.mon mi).has_ench enchant_type.ENCH_POISON then max levels 1
                     else levels
      (c.1, poison_monster E mi levels1 { s4 with rng := r4.2 })
    else (c.1, s3)

/-- The loop of `toxic_radiance_effect` over the actors near the agent: an
actor the poison cannot affect is skipped, and so is one aligned with a
monster agent. -/
def toxic_loop (E : Ext) (agent : actor_ref) (mult : Int) (on_cast : Bool) (pow : Int) :
    List actor_ref → Bool → game_state → Bool × game_state
  | [], break_sanctuary, s => (break_sanctuary, s)
  | a :: rest, break_sanctuary, s =>
    if !toxic_can_affect s a then toxic_loop E agent mult on_cast pow rest break_sanctuary s
    else if !agent.is_player && E.mons_aligned s agent a then
      toxic_loop E agent mult on_cast pow rest break_sanctuary s
    else
      let r := toxic_hit E agent mult on_cast pow a break_sanctuary s
      toxic_loop E agent mult on_cast pow rest r.1 r.2

/-- The function `toxic_radiance_effect(agent, mult, on_cast)`. -/
def toxic_radiance_effect (E : Ext) (agent : actor_ref) (mult : Int) (on_cast : Bool)
    (s : game_state) : game_state :=
  let pow := match agent with
    | actor_ref.player => E.calc_spell_power s spell_type.SPELL_OLGREBS_TOXIC_RADIANCE
    | actor_ref.mons mi => (s.mon mi).hit_dice * 8
  let break_sanctuary := agent.is_player && E.is_sanctuary s s.you.pos
  let r := toxic_loop E agent mult on_cast pow (E.actor_near s (s.actor_pos agent))
    break_sanctuary s
  if r.1 then r.2.emit Event.remove_sanctuary else r.2

/-- The tracer loop of `cast_toxic_radiance`: the first actor near the agent
that the poison can affect and that is not aligned with the agent ends it
with success. -/
def toxic_tracer_loop (E : Ext) (agent : actor_ref) (s : game_state) :
    List actor_ref → spret
  | [] => spret.abort
  | a :: rest =>
    if !toxic_can_affect s a || E.mons_aligned s agent a then toxic_tracer_loop E agent s rest
    else spret.success

/-- The function `cast_toxic_radiance(agent, pow, fail, mon_tracer)`. -/
def cast_toxic_radiance (E : Ext) (agent : actor_ref) (pow : Int) (fail mon_tracer : Bool)
    (s : game_state) : spret × game_state :=
  match agent with
  | actor_ref.player =>
    if !s.you.auto_spell && E.stop_attack_prompt_hitfunc s "poison" (toxic_can_affect s)
    then (spret.abort, s)
    else if fail then (spret.fail, s)
    else
      let s1 := if s.you.duration duration_type.DUR_TOXIC_RADIANCE = 0
                then s.emit (Event.mpr "You begin to radiate toxic energy.")
                else s.emit (Event.mpr "Your toxic radiance grows in intensity.")
      let d := s1.random2 (Int.tdiv pow 20)
      let s2 := increase_duration duration_type.DUR_TOXIC_RADIANCE (2 + d.1) 15 d.2
      let s3 := toxic_radiance_effect E actor_ref.player 10 true s2
      (spret.success, s3.emit Event.flash_view_delay)
  | actor_ref.mons mi =>
    if mon_tracer then
      (toxic_tracer_loop E agent s (E.actor_near s (s.actor_pos agent)), s)
    else
      let s1 := s.emit (Event.mpr " begins to radiate toxic energy.")
      let d := random2avg (Int.tdiv pow 15) 2 s1.rng
      let s2 := add_ench mi { ench := enchant_type.ENCH_TOXIC_RADIANCE, degree := 1 }
        ((4 + d.1) * BASELINE_DELAY) { s1 with rng := d.2 }
      let s3 := toxic_radiance_effect E agent 10 false s2
      (spret.success, s3.emit Event.flash_view_delay)

/-- A logged call that applies damage to an actor: `ouch` for the player,
`hurt` for a monster. -/
def Event.is_damage : Event → Bool
  | Event.ouch _ => true
  | Event.hurt _ _ => true
  | _ => false

/-- The damage calls logged between two states. -/
def damage_calls (s s' : game_state) : List Event :=
  (s'.log.drop s.log.length).filter Event.is_damage

/-- A monster agent next to the player, an ally of the agent and a monster
that resists poison. -/
def st_toxic : game_state :=
  plain_state (plain_player ⟨0, 0⟩)
    [plain_monster 1 ⟨1, 0⟩, plain_monster 2 ⟨2, 0⟩,
     { plain_monster 3 ⟨3, 0⟩ with res_poison := 1 }] [2, 1, 4]

/-- The tracer's answer for the first monster of a state taken as the agent,
next to the damage calls of `toxic_radiance_effect` for the same agent. -/
def toxic_report (E : Ext) (s : game_state) : spret × List Event :=
  ((cast_toxic_radiance E (actor_ref.mons 0) 20 false true s).1,
   damage_calls s (toxic_radiance_effect E (actor_ref.mons 0) 10 false s))

/-! ## Spray rays -/

/-- Modelled from the spec: `coord_def::sgn` of `coord-def.h` (not among the
sources), the signs of both coordinates. -/
def coord_def.sgn (c : coord_def) : coord_def :=
  ⟨Crawl.sgn c.x, Crawl.sgn c.y⟩

/-- Modelled from the spec: `coord_def::rdist` of `coord-def.h` (not among the
sources), the larger of the absolute values of the coordinates. -/
def coord_def.rdist (c : coord_def) : Int :=
  max (c.x.natAbs : Int) (c.y.natAbs : Int)

/-- Difference of two cells, `operator-` of `coord_def`. -/
def coord_def.minus (a b : coord_def) : coord_def :=
  ⟨a.x - b.x, a.y - b.y⟩

/-- The expression `path_taken.back()`; it has no value on an empty path. -/
def path_back (b : bolt) : Except String coord_def :=
  match b.path_taken.getLast? with
  | some c => Except.ok c
  | none => Except.error "path_taken.back() on an empty path"

/-- The beam `base_beam` of `get_spray_rays`, set up from a default beam. -/
def spray_base_beam (E : Ext) (caster : actor_ref) (aim : coord_def) (range : Int)
    (s : game_state) : bolt :=
  { E.set_agent s caster default with
    attitude := (match caster with
      | actor_ref.player => mon_attitude_type.ATT_FRIENDLY
      | actor_ref.mons mi => (s.mon mi).attitude),
    is_tracer := true,
    is_targeting := true,
    dont_stop_player := true,
    friend_info := { (E.set_agent s caster default).friend_info with dont_stop := true },
    foe_info := { (E.set_agent s caster default).foe_info with dont_stop := true },
    range := range,
    source := s.actor_pos caster,
    target := aim,
    is_spread := true }

/-- The four assignments that turn a fired tracer of `get_spray_rays` into a
beam of the returned list; a secondary beam also stops being a targeting
beam. -/
def spray_release (b : bolt) (secondary : Bool) : bolt :=
  { b with
    is_tracer := false,
    is_targeting := if secondary then false else b.is_targeting,
    dont_stop_player := false,
    foe_info := { b.foe_info with dont_stop := false },
    friend_info := { b.friend_info with dont_stop := false } }

/-- The centre beam of `get_spray_rays`: fired at the aim, aimed again at the
cell where it stopped and fired once more; it joins the list unless its path
ends on the caster. -/
def spray_center (E : Ext) (caster : actor_ref) (base_beam : bolt) (s : game_state) :
    Except String (List bolt × game_state) :=
  let f1 := fire_beam E { base_beam with hit := AUTOMATIC_HIT } s
  match path_back f1.1 with
  | Except.error e => Except.error e
  | Except.ok stop =>
    let f2 := fire_beam E { f1.1 with target := stop, hit := 1 } f1.2
    let center_beam := spray_release f2.1 false
    match path_back center_beam with
    | Except.error e => Except.error e
    | Except.ok last =>
      if last ≠ f2.2.actor_pos caster then Except.ok ([center_beam], f2.2)
      else Except.ok ([], f2.2)

/-- The loop of `get_spray_rays` over the cells around the aim: a hostile
monster that is seen, in range and not behind the caster gets a test beam,
and a secondary beam when the test beam stops on a cell that is the target of
no beam of the list. -/
def spray_loop (E : Ext) (caster : actor_ref) (range max_rays : Int) (aim_dir : coord_def)
    (base_beam : bolt) :
    List coord_def → List bolt → Int → game_state → Except String (List bolt × game_state)
  | [], beams, _, s => Except.ok (beams, s)
  | c :: rest, beams, num_targets, s =>
    match s.monster_at c with
    | none => spray_loop E caster range max_rays aim_dir base_beam rest beams num_targets s
    | some mi =>
      let delta := (s.actor_pos caster).minus c
      if E.mons_aligned s caster (actor_ref.mons mi) then
        spray_loop E caster range max_rays aim_dir base_beam rest beams num_targets s
      else if !E.actor_can_see s caster (actor_ref.mons mi) then
        spray_loop E caster range max_rays aim_dir base_beam rest beams num_targets s
      else if delta.rdist > range then
        spray_loop E caster range max_rays aim_dir base_beam rest beams num_targets s
      else if ((aim_dir.x - delta.sgn.x).natAbs : Int) + ((aim_dir.y - delta.sgn.y).natAbs : Int)
          ≥ 2 then
        spray_loop E caster range max_rays aim_dir base_beam rest beams num_targets s
      else
        let t := fire_beam E { base_beam with target := c, hit := AUTOMATIC_HIT } s
        match path_back t.1 with
        | Except.error e => Except.error e
        | Except.ok stop =>
          let duplicate := beams.any (fun b => stop == b.target)
          let r : List bolt × Int × game_state :=
            if !duplicate then
              let f := fire_beam E { base_beam with target := stop } t.2
              (beams ++ [spray_release f.1 true], num_targets + 1, f.2)
            else (beams, num_targets, t.2)
          if r.2.1 = max_rays - 1 then Except.ok (r.1, r.2.2)
          else spray_loop E caster range max_rays aim_dir base_beam rest r.1 r.2.1 r.2.2

/-- The function `get_spray_rays(caster, aim, range, max_rays, max_spacing)`,
with the world after its tracers. -/
def get_spray_rays (E : Ext) (caster : actor_ref) (aim : coord_def)
    (range max_rays max_spacing : Int) (s : game_state) :
    Except String (List bolt × game_state) :=
  let aim_dir := ((s.actor_pos caster).minus aim).sgn
  let base_beam := spray_base_beam E caster aim range s
  match spray_center E caster base_beam s with
  | Except.error e => Except.error e
  | Except.ok c =>
    spray_loop E caster range max_rays aim_dir base_beam
      (E.distance_cells_centre c.2 aim false max_spacing) c.1 0 c.2

/-- A world in which a fired beam travels straight to its target: the path
holds the source and the target, and a tracer keeps its target. -/
def ext_paths : Ext :=
  { ext_plain with fire := fun b s => ({ b with path_taken := [b.source, b.target] }, s) }

/-- The targets of the beams `get_spray_rays` returns. -/
def spray_targets (E : Ext) (caster : actor_ref) (aim : coord_def)
    (range max_rays max_spacing : Int) (s : game_state) : Option (List coord_def) :=
  match get_spray_rays E caster aim range max_rays max_spacing s with
  | Except.ok r => some (r.1.map (fun b => b.target))
  | Except.error _ => none

/-- The player with three hostile monsters ahead, the first of them on the
aimed cell. -/
def st_spray : game_state :=
  plain_state (plain_player ⟨0, 0⟩)
    [plain_monster 1 ⟨3, 0⟩, plain_monster 2 ⟨3, 1⟩, plain_monster 3 ⟨3, -1⟩] []

/-- No monster's hit points differ between two states. -/
def same_hp (s s' : game_state) : Prop :=
  ∀ j, (s'.mon j).hit_points = (s.mon j).hit_points

/-! ## Theorems -/

theorem actors_untouched_refl (s : game_state) : actors_untouched s s :=
  ⟨rfl, rfl, rfl, [], by simp, by simp⟩

theorem actors_untouched_trans {a b c : game_state}
    (h1 : actors_untouched a b) (h2 : actors_untouched b c) : actors_untouched a c := by
  obtain ⟨y1, m1, r1, l1, e1, p1⟩ := h1
  obtain ⟨y2, m2, r2, l2, e2, p2⟩ := h2
  refine ⟨y2.trans y1, m2.trans m1, r2.trans r1, l1 ++ l2, ?_, ?_⟩
  · rw [e2, e1, List.append_assoc]
  · intro e he
    rcases List.mem_append.mp he with h | h
    · exact p1 e h
    · exact p2 e h

theorem actors_untouched_emit (s : game_state) (e : Event)
    (he : Event.mutates_actor e = false) : actors_untouched s (s.emit e) :=
  ⟨rfl, rfl, rfl, [e], rfl, by simpa using he⟩

theorem check_your_resists_tracer (E : Ext) (hurted : Int) (flavour : beam_type)
    (s : game_state) :
    actors_untouched s (check_your_resists E hurted flavour false s).2 := by
  simp only [check_your_resists, Bool.false_eq_true, if_false]
  exact actors_untouched_emit s _ rfl

theorem mons_adjust_flavoured_tracer (E : Ext) (target : Nat) (beam : bolt) (hurted : Int)
    (s : game_state) :
    actors_untouched s (mons_adjust_flavoured E target beam hurted false s).2 := by
  simp only [mons_adjust_flavoured, Bool.false_eq_true, if_false]
  exact actors_untouched_emit s _ rfl

theorem los_spell_damage_player_tracer (E : Ext) (agent : Option actor_ref) (beam : bolt)
    (s : game_state) :
    actors_untouched s (_los_spell_damage_player E agent beam false s).2 := by
  simp only [_los_spell_damage_player, Bool.false_eq_true, if_false, Bool.false_and,
    false_and]
  exact check_your_resists_tracer E _ _ s

theorem los_thrower_not_you (agent : Option actor_ref)
    (h : agent ≠ some actor_ref.player) : YOU_KILL (los_thrower agent) = false := by
  match agent, h with
  | none, _ => rfl
  | some (actor_ref.mons _), _ => rfl
  | some actor_ref.player, h => exact absurd rfl h

theorem los_spell_damage_monster_tracer (E : Ext) (agent : Option actor_ref)
    (h : agent ≠ some actor_ref.player) (target : Nat) (beam : bolt) (s : game_state) :
    actors_untouched s (_los_spell_damage_monster E agent target beam false s).2.2 := by
  have hk := los_thrower_not_you agent h
  simp only [_los_spell_damage_monster, hk, Bool.false_eq_true, if_false, Bool.false_and]
  split <;> dsimp only <;> exact mons_adjust_flavoured_tracer E _ _ _ s

theorem los_tally_step_returns (agent : Option actor_ref) (actual : Bool)
    (aligned : Nat → Bool) (level dmg avg : Int) (beam : bolt)
    (h : agent.bind actor_ref.as_monster = none ∨ actual = true ∨ avg ≠ 0) :
    ∃ b, los_tally_step agent actual aligned level dmg avg beam = Except.ok b := by
  unfold los_tally_step
  cases hm : agent.bind actor_ref.as_monster with
  | none => exact ⟨beam, rfl⟩
  | some mi =>
    dsimp only
    cases actual with
    | true => exact ⟨beam, rfl⟩
    | false =>
      have havg : avg ≠ 0 := by
        rcases h with h | h | h
        · rw [hm] at h
          cases h
        · cases h
        · exact h
      simp only [if_true, los_tally, havg, if_false]
      split
      · exact ⟨_, rfl⟩
      · exact ⟨_, rfl⟩

theorem los_monsters_loop_tracer (E : Ext) (agent : Option actor_ref)
    (h : agent ≠ some actor_ref.player) (avg : Int) (l : List Nat) :
    ∀ (beam : bolt) (total : Int) (s : game_state) (r : bolt × Int × game_state),
      los_monsters_loop E agent false avg l beam total s = Except.ok r →
      actors_untouched s r.2.2 := by
  induction l with
  | nil =>
    intro beam total s r hr
    simp only [los_monsters_loop, Except.ok.injEq] at hr
    rw [← hr]
    exact actors_untouched_refl s
  | cons m rest ih =>
    intro beam total s r hr
    simp only [los_monsters_loop] at hr
    split at hr
    · exact ih _ _ _ _ hr
    · split at hr
      · cases hr
      · exact actors_untouched_trans (los_spell_damage_monster_tracer E agent h m beam s)
          (ih _ _ _ _ hr)

theorem los_monsters_loop_returns (E : Ext) (agent : Option actor_ref) (actual : Bool)
    (avg : Int) (h : agent.bind actor_ref.as_monster = none ∨ actual = true ∨ avg ≠ 0)
    (l : List Nat) :
    ∀ (beam : bolt) (total : Int) (s : game_state),
      ∃ r, los_monsters_loop E agent actual avg l beam total s = Except.ok r := by
  induction l with
  | nil => exact fun beam total s => ⟨_, rfl⟩
  | cons m rest ih =>
    intro beam total s
    simp only [los_monsters_loop]
    split
    · exact ih _ _ _
    · obtain ⟨b, hb⟩ := los_tally_step_returns agent actual
        (fun mi => E.mons_atts_aligned
          ((_los_spell_damage_monster E agent m beam actual s).2.2.mon m).attitude
          ((_los_spell_damage_monster E agent m beam actual s).2.2.mon mi).attitude)
        ((_los_spell_damage_monster E agent m beam actual s).2.2.mon m).hit_dice
        (_los_spell_damage_monster E agent m beam actual s).1 avg
        (_los_spell_damage_monster E agent m beam actual s).2.1 h
      rw [hb]
      exact ih _ _ _

theorem los_announce_tracer (E : Ext) (spell : spell_type) (agent : Option actor_ref)
    (h : agent ≠ some actor_ref.player) (fail : Bool) (s : game_state) :
    los_announce E spell agent false fail s = Except.ok (none, s) := by
  match agent, h with
  | none, _ => rfl
  | some (actor_ref.mons _), _ => rfl
  | some actor_ref.player, h => exact absurd rfl h

theorem los_player_phase_tracer (E : Ext) (spell : spell_type) (agent : Option actor_ref)
    (beam0 : bolt) (s : game_state) (p : bolt × Int × game_state)
    (hp : los_player_phase E spell agent false beam0 s = Except.ok p) :
    actors_untouched s p.2.2 := by
  unfold los_player_phase at hp
  dsimp only at hp
  split at hp
  · split at hp
    · cases hp
    · simp only [Except.ok.injEq] at hp
      rw [← hp]
      exact los_spell_damage_player_tracer E agent _ s
  · simp only [Except.ok.injEq] at hp
    rw [← hp]
    exact actors_untouched_refl s

theorem los_player_phase_returns (E : Ext) (spell : spell_type) (agent : Option actor_ref)
    (actual : Bool) (beam0 : bolt) (s : game_state)
    (h : agent.bind actor_ref.as_monster = none ∨ actual = true
      ∨ avg_dice beam0.damage ≠ 0) :
    ∃ p, los_player_phase E spell agent actual beam0 s = Except.ok p := by
  unfold los_player_phase
  dsimp only
  split
  · obtain ⟨b, hb⟩ := los_tally_step_returns agent actual
      (fun mi => ((_los_spell_damage_player E agent beam0 actual s).2.mon mi).wont_attack)
      (_los_spell_damage_player E agent beam0 actual s).2.you.experience_level
      (_los_spell_damage_player E agent beam0 actual s).1 (avg_dice beam0.damage) beam0 h
    rw [hb]
    exact ⟨_, rfl⟩
  · exact ⟨_, rfl⟩

theorem los_resolve_tracer (E : Ext) (spell : spell_type) (agent : Option actor_ref)
    (h : agent ≠ some actor_ref.player) (beam0 : bolt) (s : game_state)
    (r : spret × Int × game_state)
    (hr : los_resolve E spell agent false beam0 s = Except.ok r) :
    actors_untouched s r.2.2 := by
  unfold los_resolve los_damage_phase at hr
  dsimp only at hr
  cases hp : los_player_phase E spell agent false beam0 s with
  | error e =>
    rw [hp] at hr
    cases hr
  | ok p =>
    rw [hp] at hr
    simp only [Bool.false_eq_true, false_and, if_false] at hr
    cases hq : los_monsters_loop E agent false (avg_dice beam0.damage)
        (los_affected_monsters E spell agent s) p.1 p.2.1 p.2.2 with
    | error e =>
      rw [hq] at hr
      cases hr
    | ok q =>
      rw [hq] at hr
      simp only [Except.ok.injEq] at hr
      rw [← hr]
      exact actors_untouched_trans (los_player_phase_tracer E spell agent beam0 s p hp)
        (los_monsters_loop_tracer E agent h _ _ _ _ _ q hq)

theorem los_resolve_returns (E : Ext) (spell : spell_type) (agent : Option actor_ref)
    (actual : Bool) (beam0 : bolt) (s : game_state)
    (h : agent.bind actor_ref.as_monster = none ∨ actual = true
      ∨ avg_dice beam0.damage ≠ 0) :
    ∃ r, los_resolve E spell agent actual beam0 s = Except.ok r := by
  unfold los_resolve los_damage_phase
  dsimp only
  obtain ⟨p, hp⟩ := los_player_phase_returns E spell agent actual beam0 s h
  rw [hp]
  dsimp only
  obtain ⟨q, hq⟩ := los_monsters_loop_returns E agent actual (avg_dice beam0.damage) h
    (los_affected_monsters E spell agent s) p.1 p.2.1
    (if actual = true ∧ los_affected_monsters E spell agent s ≠ [] then
      p.2.2.emit (Event.mpr "pre_damage_monsters") else p.2.2)
  rw [hq]
  dsimp only
  split
  · exact ⟨_, rfl⟩
  · exact ⟨_, rfl⟩

theorem cast_los_attack_spell_tracer (E : Ext) (spell : spell_type) (pow : Int)
    (agent : Option actor_ref) (h : agent ≠ some actor_ref.player) (fail : Bool)
    (s : game_state) (r : spret × Option Int × game_state)
    (hr : _cast_los_attack_spell E spell pow agent false fail s = Except.ok r) :
    actors_untouched s r.2.2 := by
  unfold _cast_los_attack_spell at hr
  rw [los_announce_tracer E spell agent h fail s] at hr
  dsimp only at hr
  split at hr
  · simp only [Except.ok.injEq] at hr
    rw [← hr]
    exact actors_untouched_refl s
  · split at hr
    · simp only [Except.ok.injEq] at hr
      rw [← hr]
      exact actors_untouched_refl s
    · cases hq : los_resolve E spell agent false (los_beam E spell pow agent s) s with
      | error e =>
        rw [hq] at hr
        cases hr
      | ok q =>
        rw [hq] at hr
        simp only [Except.ok.injEq] at hr
        rw [← hr]
        exact los_resolve_tracer E spell agent h _ s q hq

theorem cast_los_attack_spell_tracer_returns (E : Ext) (spell : spell_type) (pow : Int)
    (agent : Option actor_ref) (h : agent ≠ some actor_ref.player) (fail : Bool)
    (s : game_state)
    (havg : agent = none ∨ avg_dice (los_beam E spell pow agent s).damage ≠ 0) :
    ∃ r, _cast_los_attack_spell E spell pow agent false fail s = Except.ok r := by
  have hcond : agent.bind actor_ref.as_monster = none ∨ false = true
      ∨ avg_dice (los_beam E spell pow agent s).damage ≠ 0 := by
    rcases havg with ha | ha
    · rw [ha]
      exact Or.inl rfl
    · exact Or.inr (Or.inr ha)
  unfold _cast_los_attack_spell
  rw [los_announce_tracer E spell agent h fail s]
  dsimp only
  split
  · exact ⟨_, rfl⟩
  · split
    · exact ⟨_, rfl⟩
    · obtain ⟨q, hq⟩ := los_resolve_returns E spell agent false
        (los_beam E spell pow agent s) s hcond
      rw [hq]
      exact ⟨_, rfl⟩

/-- C1: for every spell, power and agent that is absent or a monster, a run
of `trace_los_attack_spell` that returns leaves the player, every monster and
the pending random draws as they were; the calls it makes never include
`hurt`, `ouch`, `expose_to_element` or `increase_duration`, and every
mitigation call is made with the flavoured effects switched off.  The run
returns whenever no agent is given or the average damage of the beam's dice,
by which the tallies of a monster agent divide, is not zero. -/
theorem trace_los_attack_spell_no_mutation (E : Ext) (spell : spell_type) (pow : Int)
    (agent : Option actor_ref) (s : game_state) (h : agent ≠ some actor_ref.player) :
    (∀ r s', trace_los_attack_spell E spell pow agent s = Except.ok (r, s') →
      s'.you = s.you ∧ s'.mons = s.mons ∧ s'.rng = s.rng
      ∧ ∃ l, s'.log = s.log ++ l ∧ ∀ e ∈ l, Event.mutates_actor e = false)
    ∧ ((agent = none ∨ avg_dice (los_beam E spell pow agent s).damage ≠ 0) →
      ∃ r s', trace_los_attack_spell E spell pow agent s = Except.ok (r, s')) := by
  constructor
  · intro r s' hr
    unfold trace_los_attack_spell at hr
    cases hq : _cast_los_attack_spell E spell pow agent false false s with
    | error e =>
      rw [hq] at hr
      cases hr
    | ok q =>
      rw [hq] at hr
      simp only [Except.ok.injEq, Prod.mk.injEq] at hr
      rw [← hr.2]
      exact cast_los_attack_spell_tracer E spell pow agent h false s q hq
  · intro havg
    obtain ⟨q, hq⟩ := cast_los_attack_spell_tracer_returns E spell pow agent h false s havg
    refine ⟨q.1, q.2.2, ?_⟩
    simp only [trace_los_attack_spell, hq]

/-! ### Base damage handed to the mitigation step -/

theorem mitigation_inputs_emit (s : game_state) (e : Event) :
    mitigation_inputs (s.emit e)
      = mitigation_inputs s ++ (Event.mitigation_input e).toList := by
  simp only [mitigation_inputs, game_state.emit, List.filterMap_append]
  cases h : Event.mitigation_input e <;> simp [List.filterMap, h]

theorem mitigation_inputs_monster_die (i : Nat) (s : game_state) :
    mitigation_inputs (monster_die i s) = mitigation_inputs s := by
  simp [monster_die, mitigation_inputs, game_state.emit, Event.mitigation_input]

theorem mitigation_inputs_monster_hurt (i : Nat) (amount : Int) (c : Bool)
    (s : game_state) :
    mitigation_inputs (monster_hurt i amount c s) = mitigation_inputs s := by
  unfold monster_hurt
  dsimp only
  split <;> split <;>
    simp [monster_die, mitigation_inputs, game_state.emit, game_state.set_mon,
      Event.mitigation_input]

theorem mitigation_inputs_player_hurt_monster (E : Ext) (mon : Nat) (damage : Int)
    (flavour : beam_type) (gc : Bool) (s : game_state) :
    mitigation_inputs (_player_hurt_monster E mon damage flavour gc s)
      = mitigation_inputs s := by
  unfold _player_hurt_monster player_hurt_sanctuary
  dsimp only
  split_ifs <;>
    simp [set_attack_conducts, mitigation_inputs_emit, mitigation_inputs_monster_hurt,
      mitigation_inputs_monster_die, Event.mitigation_input]

theorem mitigation_inputs_mon_expose (E : Ext) (i : Nat) (f : beam_type) (n : Int)
    (s : game_state) :
    mitigation_inputs (mon_expose_to_element E i f n s) = mitigation_inputs s := by
  simp [mon_expose_to_element, mitigation_inputs, game_state.emit, game_state.set_mon,
    Event.mitigation_input]

theorem mitigation_inputs_you_expose (E : Ext) (f : beam_type) (n : Int)
    (s : game_state) :
    mitigation_inputs (you_expose_to_element E f n s) = mitigation_inputs s := by
  simp [you_expose_to_element, mitigation_inputs, game_state.emit, Event.mitigation_input]

theorem mitigation_inputs_ouch (dam : Int) (s : game_state) :
    mitigation_inputs (ouch dam s) = mitigation_inputs s := by
  simp [ouch, mitigation_inputs, game_state.emit, Event.mitigation_input]

theorem mitigation_inputs_increase_duration (d : duration_type) (a c : Int)
    (s : game_state) :
    mitigation_inputs (increase_duration d a c s) = mitigation_inputs s := by
  unfold increase_duration
  dsimp only
  split <;> simp [mitigation_inputs, game_state.emit, Event.mitigation_input]

theorem mitigation_inputs_check_your_resists (E : Ext) (hurted : Int) (f : beam_type)
    (b : Bool) (s : game_state) :
    mitigation_inputs (check_your_resists E hurted f b s).2
      = mitigation_inputs s ++ [hurted] := by
  unfold check_your_resists
  dsimp only
  split <;> simp [mitigation_inputs, game_state.emit, ext_step, Event.mitigation_input]

theorem mitigation_inputs_mons_adjust_flavoured (E : Ext) (t : Nat) (beam : bolt)
    (hurted : Int) (b : Bool) (s : game_state) :
    mitigation_inputs (mons_adjust_flavoured E t beam hurted b s).2
      = mitigation_inputs s ++ [hurted] := by
  unfold mons_adjust_flavoured
  dsimp only
  split <;> simp [mitigation_inputs, game_state.emit, ext_step, Event.mitigation_input]

theorem mitigation_inputs_roll (s : game_state) (d : dice_def) :
    mitigation_inputs (s.roll d).2 = mitigation_inputs s := rfl

theorem mitigation_inputs_random2 (s : game_state) (n : Int) :
    mitigation_inputs (s.random2 n).2 = mitigation_inputs s := rfl

theorem roll_fst (s : game_state) (d : dice_def) :
    (s.roll d).1 = (d.roll s.rng).1 := rfl

theorem mitigation_inputs_ite (c : Prop) [Decidable c] (a b : game_state) :
    mitigation_inputs (if c then a else b)
      = if c then mitigation_inputs a else mitigation_inputs b :=
  apply_ite _ _ _ _

theorem mitigation_inputs_los_player_apply (E : Ext) (agent : Option actor_ref)
    (beam : bolt) (hurted : Int) (s : game_state) :
    mitigation_inputs (los_player_apply E agent beam hurted s) = mitigation_inputs s := by
  unfold los_player_apply
  dsimp only
  split <;>
    simp only [mitigation_inputs_ite, mitigation_inputs_you_expose, mitigation_inputs_ouch,
      mitigation_inputs_emit, Event.mitigation_input, mitigation_inputs_random2,
      mitigation_inputs_increase_duration, Option.toList, List.append_nil, ite_self]

theorem mitigation_inputs_los_monster_apply (E : Ext) (target : Nat) (beam : bolt)
    (hurted : Int) (s : game_state) :
    mitigation_inputs (los_monster_apply E target beam hurted s) = mitigation_inputs s := by
  unfold los_monster_apply
  simp only [mitigation_inputs_ite, mitigation_inputs_mon_expose,
    mitigation_inputs_player_hurt_monster, mitigation_inputs_monster_hurt, ite_self]

theorem los_spell_damage_player_inputs (E : Ext) (agent : Option actor_ref) (beam : bolt)
    (actual : Bool) (s : game_state) :
    mitigation_inputs (_los_spell_damage_player E agent beam actual s).2
      = mitigation_inputs s
          ++ [if actual then (beam.damage.roll s.rng).1 else avg_dice beam.damage] := by
  unfold _los_spell_damage_player
  simp only [apply_ite Prod.snd, mitigation_inputs_ite, mitigation_inputs_los_player_apply,
    mitigation_inputs_check_your_resists, ite_self]
  cases actual <;> simp [mitigation_inputs_roll, roll_fst]

theorem los_spell_damage_monster_inputs (E : Ext) (agent : Option actor_ref)
    (target : Nat) (beam : bolt) (actual : Bool) (s : game_state) :
    mitigation_inputs (_los_spell_damage_monster E agent target beam actual s).2.2
      = mitigation_inputs s
          ++ [if actual then (beam.damage.roll s.rng).1 else avg_dice beam.damage] := by
  unfold _los_spell_damage_monster
  simp only [apply_ite Prod.snd, mitigation_inputs_ite, mitigation_inputs_los_monster_apply,
    mitigation_inputs_mons_adjust_flavoured, ite_self]
  have hr : (if YOU_KILL (los_thrower agent) = true then set_attack_conducts target s
      else s).rng = s.rng := by split <;> rfl
  cases actual <;>
    simp [mitigation_inputs_roll, roll_fst, mitigation_inputs_ite, set_attack_conducts,
      mitigation_inputs_emit, Event.mitigation_input]
  simpa [set_attack_conducts] using congrArg (fun r => (beam.damage.roll r).1) hr

theorem los_spell_damage_monster_tracer_rng (E : Ext) (agent : Option actor_ref)
    (target : Nat) (beam : bolt) (s : game_state) :
    (_los_spell_damage_monster E agent target beam false s).2.2.rng = s.rng := by
  unfold _los_spell_damage_monster
  simp only [apply_ite Prod.snd, apply_ite game_state.rng, ite_self, Bool.false_eq_true,
    if_false, Bool.false_and, mons_adjust_flavoured]
  split <;> rfl

theorem wrap32_of_range (x : Int) (h1 : -2147483648 ≤ x) (h2 : x < 2147483648) :
    wrap32 x = x := by
  unfold wrap32
  omega

theorem avg_dice_of_range (d : dice_def) (h1 : -2147483648 ≤ d.num * d.size)
    (h2 : d.num * d.size < 2147483647) :
    avg_dice d = Int.tdiv (1 + d.num * d.size) 2 := by
  unfold avg_dice
  generalize d.num * d.size = p at h1 h2
  rw [wrap32_of_range p h1 (by omega), wrap32_of_range (1 + p) (by omega) (by omega)]

theorem avg_dice_wraps : avg_dice { num := 65536, size := 65536 } = 0 := by
  decide

/-- C3: for dice whose product `num * size`, and that product plus one, fit
the 32-bit `int` of the source, in tracer mode (`actual = false`) the base
damage the line-of-sight engine hands to the mitigation step, for the player
and for each monster, is exactly `(1 + num * size) / 2` with truncating
integer division, and no random draw is taken; in actual mode the base damage
is the roll of the beam's dice. -/
theorem los_base_damage (E : Ext) (agent : Option actor_ref) (target : Nat)
    (beam : bolt) (s : game_state)
    (hlo : -2147483648 ≤ beam.damage.num * beam.damage.size)
    (hhi : beam.damage.num * beam.damage.size < 2147483647) :
    (mitigation_inputs (_los_spell_damage_player E agent beam false s).2
        = mitigation_inputs s ++ [Int.tdiv (1 + beam.damage.num * beam.damage.size) 2]
      ∧ (_los_spell_damage_player E agent beam false s).2.rng = s.rng)
    ∧ (mitigation_inputs (_los_spell_damage_monster E agent target beam false s).2.2
        = mitigation_inputs s ++ [Int.tdiv (1 + beam.damage.num * beam.damage.size) 2]
      ∧ (_los_spell_damage_monster E agent target beam false s).2.2.rng = s.rng)
    ∧ mitigation_inputs (_los_spell_damage_player E agent beam true s).2
        = mitigation_inputs s ++ [(beam.damage.roll s.rng).1]
    ∧ mitigation_inputs (_los_spell_damage_monster E agent target beam true s).2.2
        = mitigation_inputs s ++ [(beam.damage.roll s.rng).1] := by
  have havg := avg_dice_of_range beam.damage hlo hhi
  refine ⟨⟨?_, ?_⟩, ⟨?_, ?_⟩, ?_, ?_⟩
  · rw [← havg]
    simpa using los_spell_damage_player_inputs E agent beam false s
  · simp [_los_spell_damage_player, check_your_resists, game_state.emit]
  · rw [← havg]
    simpa using los_spell_damage_monster_inputs E agent target beam false s
  · exact los_spell_damage_monster_tracer_rng E agent target beam s
  · simpa using los_spell_damage_player_inputs E agent beam true s
  · simpa using los_spell_damage_monster_inputs E agent target beam true s

/-- C3 witness: a beam of 2d6 handed to the tracer for the player; the base
damage is 6.  Dice of 65536d65536 are outside the bound: their average wraps
to 0. -/
theorem los_base_damage_witness :
    (-2147483648 : Int) ≤ ({ num := 2, size := 6 } : dice_def).num
        * ({ num := 2, size := 6 } : dice_def).size
    ∧ ({ num := 2, size := 6 } : dice_def).num * ({ num := 2, size := 6 } : dice_def).size
        < 2147483647
    ∧ mitigation_inputs (_los_spell_damage_player ext_plain (some (actor_ref.mons 0))
        { (default : bolt) with damage := { num := 2, size := 6 } } false st_ignite).2
        = mitigation_inputs st_ignite ++ [6]
    ∧ avg_dice { num := 65536, size := 65536 } = 0 :=
  ⟨by decide, by decide,
    (los_base_damage ext_plain (some (actor_ref.mons 0)) 1
      { (default : bolt) with damage := { num := 2, size := 6 } } st_ignite
      (by decide) (by decide)).1.1.trans (by decide),
    by decide⟩

/-! ### Ignite Poison as a tracer -/

theorem hp_untouched_refl (s : game_state) : hp_untouched s s :=
  ⟨fun _ => rfl, rfl, [], by simp, by simp⟩

theorem hp_untouched_trans {a b c : game_state}
    (h1 : hp_untouched a b) (h2 : hp_untouched b c) : hp_untouched a c := by
  obtain ⟨m1, y1, l1, e1, p1⟩ := h1
  obtain ⟨m2, y2, l2, e2, p2⟩ := h2
  refine ⟨fun j => (m2 j).trans (m1 j), y2.trans y1, l1 ++ l2, ?_, ?_⟩
  · rw [e2, e1, List.append_assoc]
  · intro e he
    rcases List.mem_append.mp he with h | h
    · exact p1 e h
    · exact p2 e h

theorem hp_untouched_emit (s : game_state) (e : Event) (he : Event.harms e = false) :
    hp_untouched s (s.emit e) :=
  ⟨fun _ => rfl, rfl, [e], rfl, by simpa using he⟩

theorem hp_untouched_of_eq {s s' : game_state} (hm : s'.mons = s.mons)
    (hy : s'.you = s.you) (hl : s'.log = s.log) : hp_untouched s s' :=
  ⟨fun j => by simp only [game_state.mon, hm], by rw [hy], [], by simp [hl], by simp⟩

theorem set_mon_hit_points (s : game_state) (i j : Nat) (m : monster)
    (h : m.hit_points = (s.mon i).hit_points) :
    ((s.set_mon i m).mon j).hit_points = (s.mon j).hit_points := by
  simp only [game_state.mon, game_state.set_mon, List.getD_eq_getElem?_getD,
    List.getElem?_set] at h ⊢
  by_cases hij : i = j
  · subst hij
    by_cases hlt : i < s.mons.length
    · simp [hlt, h]
    · simp [hlt, List.getElem?_eq_none (Nat.le_of_not_lt hlt)]
  · simp [hij]

theorem hp_untouched_mon_expose (E : Ext) (i : Nat) (f : beam_type) (n : Int)
    (s : game_state) : hp_untouched s (mon_expose_to_element E i f n s) := by
  refine ⟨fun j => ?_, rfl, [Event.expose_to_element (actor_ref.mons i) f n], rfl,
    by simp [Event.harms]⟩
  unfold mon_expose_to_element
  exact set_mon_hit_points _ i j _ rfl

theorem ignite_poison_clouds_tracer (E : Ext) (pos : coord_def) (agent : actor_ref)
    (s : game_state) : (_ignite_poison_clouds E pos (-1) agent s).2 = s := by
  unfold _ignite_poison_clouds
  simp only [decide_True, if_true]
  split
  · rfl
  · split <;> rfl

theorem ignite_poison_bog_tracer (E : Ext) (pos : coord_def) (agent : actor_ref)
    (s : game_state) : (_ignite_poison_bog E pos (-1) agent s).2 = s := by
  unfold _ignite_poison_bog
  simp only [decide_True, if_true]
  split <;> rfl

theorem ignite_poison_player_tracer (E : Ext) (pos : coord_def) (agent : actor_ref)
    (s : game_state) :
    hp_untouched s (_ignite_poison_player E pos (-1) agent s).2 := by
  unfold _ignite_poison_player
  simp only [decide_True, if_true]
  split
  · exact hp_untouched_refl s
  · split
    · exact hp_untouched_refl s
    · exact hp_untouched_of_eq rfl rfl rfl

theorem mons_adjust_flavoured_false_hp (E : Ext) (t : Nat) (beam : bolt) (h : Int)
    (s : game_state) : hp_untouched s (mons_adjust_flavoured E t beam h false s).2 := by
  simp only [mons_adjust_flavoured, Bool.false_eq_true, if_false]
  exact hp_untouched_emit s _ rfl

theorem ignite_monster_burn_tracer (E : Ext) (mi : Nat) (agent : actor_ref)
    (damage : Int) (s : game_state) :
    hp_untouched s (ignite_monster_burn E mi agent true damage s).2 := by
  unfold ignite_monster_burn
  simp only [if_true]
  split <;> exact hp_untouched_mon_expose E _ _ _ _

theorem ignite_base_dam_hp (p pow : Int) (s : game_state) :
    hp_untouched s (ignite_base_dam p pow s).2 :=
  hp_untouched_of_eq rfl rfl rfl

theorem ignite_poison_monsters_tracer (E : Ext) (pos : coord_def) (agent : actor_ref)
    (s : game_state) :
    hp_untouched s (_ignite_poison_monsters E pos (-1) agent s).2 := by
  unfold _ignite_poison_monsters
  simp only [decide_True, if_true]
  split
  · exact hp_untouched_refl s
  · split
    · exact hp_untouched_refl s
    · split
      · dsimp only
        exact hp_untouched_trans (ignite_base_dam_hp _ _ s)
          (mons_adjust_flavoured_false_hp E _ _ _ _)
      · exact hp_untouched_trans (hp_untouched_trans (ignite_base_dam_hp _ _ s)
          (mons_adjust_flavoured_false_hp E _ _ _ _)) (ignite_monster_burn_tracer E _ _ _ _)

theorem ignite_tracer_cell_hp (E : Ext) (agent : actor_ref) (pos : coord_def)
    (s : game_state) : hp_untouched s (ignite_tracer_cell E agent pos s).2 := by
  unfold ignite_tracer_cell
  simp only [ignite_poison_clouds_tracer, ignite_poison_bog_tracer]
  exact hp_untouched_trans (ignite_poison_monsters_tracer E pos agent s)
    (ignite_poison_player_tracer E pos agent _)

theorem apply_area_visible_hp (cf : coord_def → game_state → Int × game_state)
    (hcf : ∀ c s, hp_untouched s (cf c s).2) (cells : List coord_def) :
    ∀ s, hp_untouched s (apply_area_visible cf cells s).2 := by
  induction cells with
  | nil => intro s; exact hp_untouched_refl s
  | cons c rest ih =>
    intro s
    simp only [apply_area_visible]
    exact hp_untouched_trans (hcf c s) (ih _)

theorem cast_ignite_poison_tracer_hp (E : Ext) (agent : actor_ref) (pow : Int)
    (fail : Bool) (s : game_state) :
    hp_untouched s (cast_ignite_poison E agent pow fail true s).2 := by
  unfold cast_ignite_poison
  simp only [if_true]
  exact apply_area_visible_hp _ (ignite_tracer_cell_hp E agent) _ s

theorem mons_adjust_flavoured_false_rng (E : Ext) (t : Nat) (beam : bolt) (h : Int)
    (s : game_state) : (mons_adjust_flavoured E t beam h false s).2.rng = s.rng := rfl

theorem ignite_monster_burn_tracer_rng (E : Ext) (mi : Nat) (agent : actor_ref)
    (damage : Int) (s : game_state) :
    (ignite_monster_burn E mi agent true damage s).2.rng = s.rng := by
  unfold ignite_monster_burn
  simp only [if_true]
  split <;> rfl

theorem ignite_base_dam_tracer_rng (p : Int) (s : game_state) :
    (ignite_base_dam p 100 s).2.rng = (roll_dice (p * 2) 18 s.rng).2 := by
  have hd : div_rand_round (100 * 6) 100 s.rng = (6, s.rng) := by
    simp [div_rand_round, Int.tmod, Int.tdiv]
  simp only [ignite_base_dam, hd, game_state.roll, dice_def.roll]
  rfl

theorem ignite_poison_monsters_tracer_rng (E : Ext) (pos : coord_def) (agent : actor_ref)
    (s : game_state) :
    (_ignite_poison_monsters E pos (-1) agent s).2.rng
      = match s.monster_at pos with
        | some mi =>
          if invalid_monster E (s.mon mi) || agent == actor_ref.mons mi then s.rng
          else (roll_dice (ignite_pois_str (s.mon mi) * 2) 18 s.rng).2
        | none => s.rng := by
  unfold _ignite_poison_monsters
  simp only [decide_True, if_true]
  cases hm : s.monster_at pos with
  | none => rfl
  | some mi =>
    dsimp only
    by_cases hc : (invalid_monster E (s.mon mi) || agent == actor_ref.mons mi) = true
    · simp only [hc, if_true]
    · simp only [hc, Bool.false_eq_true, if_false]
      split
      · dsimp only
        rw [mons_adjust_flavoured_false_rng, ignite_base_dam_tracer_rng]
      · rw [ignite_monster_burn_tracer_rng, mons_adjust_flavoured_false_rng,
          ignite_base_dam_tracer_rng]

/-- C2 fails as stated: with a monster caster next to a poisoned monster, the
tracer run of `cast_ignite_poison` takes two random draws for the damage dice
and calls `expose_to_element` on the inspected monster, so the run is not
free of dice rolls or of mutating calls. -/
theorem cast_ignite_poison_tracer_rolls_and_exposes :
    ¬ actors_untouched st_ignite
        (cast_ignite_poison ext_plain (actor_ref.mons 0) 50 false true st_ignite).2
    ∧ st_ignite.rng = [3, 4, 5]
    ∧ (cast_ignite_poison ext_plain (actor_ref.mons 0) 50 false true st_ignite).2.rng = [5]
    ∧ (cast_ignite_poison ext_plain (actor_ref.mons 0) 50 false true st_ignite).2.log
        = [Event.mons_adjust_flavoured 1 9 false,
           Event.expose_to_element (actor_ref.mons 1) beam_type.BEAM_FIRE 9] := by
  refine ⟨?_, by decide, by decide, by decide⟩
  rintro ⟨-, -, hr, -⟩
  revert hr
  decide

/-- C2 (amended): for every agent and world state, `cast_ignite_poison` called
with `tracer = true` leaves the hit points of every monster and of the player
unchanged and never calls `hurt`, `ouch`, `del_ench` or the death cleanup;
its per-cell helper `_ignite_poison_monsters`, run with the tracer sentinel
`pow = -1`, does roll dice: for a valid monster other than the agent it rolls
twice the poison degree in dice of size 18. -/
theorem cast_ignite_poison_tracer_keeps_hit_points (E : Ext) (agent : actor_ref)
    (pow : Int) (fail : Bool) (pos : coord_def) (s : game_state) :
    ((∀ j, ((cast_ignite_poison E agent pow fail true s).2.mon j).hit_points
          = (s.mon j).hit_points)
      ∧ (cast_ignite_poison E agent pow fail true s).2.you.hp = s.you.hp
      ∧ ∃ l, (cast_ignite_poison E agent pow fail true s).2.log = s.log ++ l
          ∧ ∀ e ∈ l, Event.harms e = false)
    ∧ (_ignite_poison_monsters E pos (-1) agent s).2.rng
        = match s.monster_at pos with
          | some mi =>
            if invalid_monster E (s.mon mi) || agent == actor_ref.mons mi then s.rng
            else (roll_dice (ignite_pois_str (s.mon mi) * 2) 18 s.rng).2
          | none => s.rng :=
  ⟨cast_ignite_poison_tracer_hp E agent pow fail s,
   ignite_poison_monsters_tracer_rng E pos agent s⟩

/-! ### Chain spells -/

theorem grid_distance_self (a : coord_def) : grid_distance a a = 0 := by
  simp [grid_distance]

theorem ne_of_grid_distance_ne_zero {a b : coord_def} (h : grid_distance a b ≠ 0) :
    b ≠ a := by
  intro hab
  subst hab
  exact h (grid_distance_self b)

theorem only_rng_differs_refl (s : game_state) : only_rng_differs s s :=
  ⟨rfl, rfl, rfl, rfl, rfl, rfl⟩

theorem only_rng_differs_trans {a b c : game_state} (h1 : only_rng_differs a b)
    (h2 : only_rng_differs b c) : only_rng_differs a c := by
  unfold only_rng_differs at *
  refine ⟨?_, ?_, ?_, ?_, ?_, ?_⟩
  · rw [h2.1, h1.1]
  · rw [h2.2.1, h1.2.1]
  · rw [h2.2.2.1, h1.2.2.1]
  · rw [h2.2.2.2.1, h1.2.2.2.1]
  · rw [h2.2.2.2.2.1, h1.2.2.2.2.1]
  · rw [h2.2.2.2.2.2, h1.2.2.2.2.2]

theorem only_rng_differs_random2 (s : game_state) (n : Int) :
    only_rng_differs s (s.random2 n).2 := ⟨rfl, rfl, rfl, rfl, rfl, rfl⟩

theorem only_rng_differs_one_chance_in (s : game_state) (n : Int) :
    only_rng_differs s (s.one_chance_in n).2 := ⟨rfl, rfl, rfl, rfl, rfl, rfl⟩

theorem chain_accept_spec (source : coord_def) (dist : Int) (pos : coord_def)
    (st : chain_scan) (s : game_state) (hne : pos ≠ source)
    (h : chain_target_ok source st.target) :
    chain_target_ok source (chain_accept dist pos st s).1.target
      ∧ only_rng_differs s (chain_accept dist pos st s).2 := by
  unfold chain_accept
  dsimp only
  split
  · split
    · exact ⟨fun _ => hne, only_rng_differs_one_chance_in s _⟩
    · exact ⟨h, only_rng_differs_one_chance_in s _⟩
  · split
    · exact ⟨fun _ => hne, only_rng_differs_refl s⟩
    · split
      · exact ⟨fun _ => hne, only_rng_differs_one_chance_in s _⟩
      · exact ⟨h, only_rng_differs_one_chance_in s _⟩

theorem chain_consider_spec (E : Ext) (caster_pos source : coord_def) (beam : bolt)
    (mi : Nat) (st : chain_scan) (s : game_state)
    (h : chain_target_ok source st.target) :
    chain_target_ok source (chain_consider E caster_pos source beam mi st s).1.target
      ∧ only_rng_differs s (chain_consider E caster_pos source beam mi st s).2 := by
  unfold chain_consider
  dsimp only
  have hr := only_rng_differs_random2 s 3
  split
  · exact ⟨h, only_rng_differs_refl s⟩
  · split
    · exact ⟨h, only_rng_differs_refl s⟩
    · split
      · exact ⟨h, only_rng_differs_refl s⟩
      · rename_i hd
        have hne : (s.mon mi).pos ≠ source := ne_of_grid_distance_ne_zero hd
        split
        · exact ⟨h, hr⟩
        · split
          · exact ⟨h, hr⟩
          · split
            · exact ⟨h, hr⟩
            · have ha := chain_accept_spec source
                (grid_distance source (s.mon mi).pos + ((s.random2 3).1 - 1))
                (s.mon mi).pos st (s.random2 3).2 hne h
              exact ⟨ha.1, only_rng_differs_trans hr ha.2⟩

theorem chain_scan_monsters_spec (E : Ext) (caster_pos source : coord_def) (beam : bolt)
    (l : List Nat) :
    ∀ (st : chain_scan) (s : game_state), chain_target_ok source st.target →
      chain_target_ok source (chain_scan_monsters E caster_pos source beam l st s).1.target
        ∧ only_rng_differs s (chain_scan_monsters E caster_pos source beam l st s).2 := by
  induction l with
  | nil => intro st s h; exact ⟨h, only_rng_differs_refl s⟩
  | cons mi rest ih =>
    intro st s h
    simp only [chain_scan_monsters]
    have h1 := chain_consider_spec E caster_pos source beam mi st s h
    have h2 := ih _ (chain_consider E caster_pos source beam mi st s).2 h1.1
    exact ⟨h2.1, only_rng_differs_trans h1.2 h2.2⟩

theorem chain_player_pick_rng (dist : Int) (st : chain_scan) (s : game_state) :
    only_rng_differs s (chain_player_pick dist st s).2 := by
  unfold chain_player_pick
  split
  · exact only_rng_differs_refl s
  · split
    · exact only_rng_differs_one_chance_in s _
    · exact only_rng_differs_refl s

theorem chain_consider_player_spec (E : Ext) (source : coord_def) (st : chain_scan)
    (s : game_state) (h : chain_target_ok source st.target) :
    chain_target_ok source (chain_consider_player E source st s).1
      ∧ only_rng_differs s (chain_consider_player E source st s).2 := by
  unfold chain_consider_player
  dsimp only
  split
  · exact ⟨h, only_rng_differs_refl s⟩
  · rename_i hd
    have hne : s.you.pos ≠ source := ne_of_grid_distance_ne_zero hd
    have hp := only_rng_differs_trans (only_rng_differs_random2 s 3)
      (chain_player_pick_rng (grid_distance source s.you.pos + ((s.random2 3).1 - 1)) st
        (s.random2 3).2)
    split
    · refine ⟨fun _ => ?_, hp⟩
      dsimp only
      rw [hp.1]
      exact hne
    · exact ⟨h, hp⟩

theorem chain_pick_target_spec (E : Ext) (caster_pos source : coord_def) (beam : bolt)
    (s : game_state) :
    chain_target_ok source (chain_pick_target E caster_pos source beam s).1
      ∧ only_rng_differs s (chain_pick_target E caster_pos source beam s).2 := by
  unfold chain_pick_target
  dsimp only
  have h0 : chain_target_ok source
      ({ min_dist := E.LOS_DEFAULT_RANGE - 1, count := 0, target := ⟨-1, -1⟩ } :
        chain_scan).target := fun hx => absurd rfl hx
  have h1 := chain_scan_monsters_spec E caster_pos source beam (monster_iterator s) _ s h0
  exact ⟨(chain_consider_player_spec E source _ _ h1.1).1,
    only_rng_differs_trans h1.2 (chain_consider_player_spec E source _ _ h1.1).2⟩

theorem chain_hop_dice_cells (E : Ext) (spell : spell_type) (caster : actor_ref)
    (pow : Int) (b0 : bolt) (s : game_state) :
    (chain_hop_dice E spell caster pow b0 s).1.source = b0.source
      ∧ (chain_hop_dice E spell caster pow b0 s).1.target = b0.target
      ∧ (chain_hop_dice E spell caster pow b0 s).2.log = s.log := by
  unfold chain_hop_dice
  split <;> exact ⟨rfl, rfl, rfl⟩

theorem chain_dampen_cells (spell : spell_type) (b : bolt) :
    (chain_dampen spell b).source = b.source ∧ (chain_dampen spell b).target = b.target := by
  unfold chain_dampen
  dsimp only
  split <;> exact ⟨rfl, rfl⟩

theorem chain_setup_beam_cells (E : Ext) (spell : spell_type) (caster : actor_ref)
    (pow : Int) (source target : coord_def) (beam : bolt) (s : game_state) :
    (chain_setup_beam E spell caster pow source target beam s).1.source = source
      ∧ (chain_setup_beam E spell caster pow source target beam s).1.target = target
      ∧ (chain_setup_beam E spell caster pow source target beam s).2.log = s.log := by
  unfold chain_setup_beam
  dsimp only
  have h := chain_hop_dice_cells E spell caster pow
    { beam with source := source, target := target } s
  split
  · exact ⟨(chain_dampen_cells spell _).1.trans h.1, (chain_dampen_cells spell _).2.trans h.2.1,
      h.2.2⟩
  · exact h

theorem random2_nonneg (n : Int) (r : List Nat) : 0 ≤ (random2 n r).1 := by
  unfold random2
  split
  · exact le_refl _
  · rename_i hn
    cases r with
    | nil => exact le_refl _
    | cons d rest => exact Int.emod_nonneg _ (by omega)

theorem fired_beams_append (l1 l2 : List Event) :
    fired_beams (l1 ++ l2) = fired_beams l1 ++ fired_beams l2 := by
  simp [fired_beams, List.filterMap_append]

theorem adds_no_fire_refl (s : game_state) : adds_no_fire s s :=
  ⟨[], by simp, rfl⟩

theorem adds_no_fire_trans {a b c : game_state} (h1 : adds_no_fire a b)
    (h2 : adds_no_fire b c) : adds_no_fire a c := by
  obtain ⟨l1, e1, f1⟩ := h1
  obtain ⟨l2, e2, f2⟩ := h2
  exact ⟨l1 ++ l2, by rw [e2, e1, List.append_assoc], by rw [fired_beams_append, f1, f2]; rfl⟩

theorem adds_no_fire_emit (s : game_state) (e : Event) (he : Event.is_fire e = false) :
    adds_no_fire s (s.emit e) := by
  refine ⟨[e], rfl, ?_⟩
  cases e <;> simp_all [fired_beams, Event.is_fire]

theorem adds_no_fire_of_log {s s' : game_state} (h : s'.log = s.log) :
    adds_no_fire s s' := ⟨[], by simp [h], rfl⟩

theorem chain_hop_noise_log (spell : spell_type) (first see_source : Bool)
    (source : coord_def) (s : game_state) :
    adds_no_fire s (chain_hop_noise spell first see_source source s) := by
  unfold chain_hop_noise
  split
  · exact adds_no_fire_emit s _ rfl
  · split
    · exact adds_no_fire_emit s _ rfl
    · exact adds_no_fire_refl s
  · exact adds_no_fire_refl s

theorem chain_hop_announce_log (spell : spell_type) (first see_source see_targ : Bool)
    (source : coord_def) (s : game_state) :
    adds_no_fire s (chain_hop_announce spell first see_source see_targ source s) := by
  have h1 := chain_hop_noise_log spell first see_source source s
  unfold chain_hop_announce
  dsimp only
  split
  · exact adds_no_fire_trans h1 (adds_no_fire_emit _ _ rfl)
  · split
    · exact adds_no_fire_trans h1 (adds_no_fire_emit _ _ rfl)
    · exact h1

theorem chain_loop_spec (E : Ext) (spell : spell_type) (caster : actor_ref) :
    ∀ (fuel : Nat) (pow : Int) (source : coord_def) (first : Bool) (beam : bolt)
      (s : game_state), pow ≤ (fuel : Int) →
      ∃ s' l, chain_loop E spell caster fuel pow source first beam s = some s'
        ∧ s'.log = s.log ++ l
        ∧ (∀ b ∈ fired_beams l, b.target ≠ b.source)
        ∧ (pow ≤ 0 → l = [])
        ∧ (0 < pow → 8 * ((fired_beams l).length : Int) ≤ pow + 7) := by
  intro fuel
  induction fuel with
  | zero =>
    intro pow source first beam s hp
    have hp0 : pow ≤ 0 := by simpa using hp
    refine ⟨s, [], ?_, by simp, by simp [fired_beams], fun _ => rfl, fun h => by omega⟩
    unfold chain_loop
    simp [hp0]
  | succ fuel ih =>
    intro pow source first beam s hp
    by_cases hp0 : pow ≤ 0
    · refine ⟨s, [], ?_, by simp, by simp [fired_beams], fun _ => rfl, fun h => by omega⟩
      unfold chain_loop
      simp [hp0]
    · unfold chain_loop
      simp only [hp0, if_false]
      have hpick := chain_pick_target_spec E (s.actor_pos caster) source beam s
      by_cases hx : (chain_pick_target E (s.actor_pos caster) source beam s).1.x = -1
      · simp only [hx, if_true]
        have hg : adds_no_fire s
            (if E.you_see_cell (chain_pick_target E (s.actor_pos caster) source beam s).2 source
                = true
              then (chain_pick_target E (s.actor_pos caster) source beam s).2.emit
                (Event.mpr "grounds out")
              else (chain_pick_target E (s.actor_pos caster) source beam s).2) := by
          split
          · exact adds_no_fire_trans (adds_no_fire_of_log hpick.2.2.2.2.2.2)
              (adds_no_fire_emit _ _ rfl)
          · exact adds_no_fire_of_log hpick.2.2.2.2.2.2
        obtain ⟨l, hl, hf⟩ := hg
        exact ⟨_, l, rfl, hl, by simp [hf], fun h => h.elim,
          fun _ => by rw [hf]; simp; omega⟩
      · simp only [hx, if_false]
        have hne := hpick.1 hx
        have hann := adds_no_fire_trans (adds_no_fire_of_log hpick.2.2.2.2.2.2)
          (chain_hop_announce_log spell first
            (E.you_see_cell (chain_pick_target E (s.actor_pos caster) source beam s).2 source)
            (E.you_see_cell (chain_pick_target E (s.actor_pos caster) source beam s).2
              (chain_pick_target E (s.actor_pos caster) source beam s).1)
            source (chain_pick_target E (s.actor_pos caster) source beam s).2)
        obtain ⟨l1, hl1, hf1⟩ := hann
        generalize chain_hop_announce spell first _ _ source _ = s2 at hl1 ⊢
        have hb := chain_setup_beam_cells E spell caster pow source
          (chain_pick_target E (s.actor_pos caster) source beam s).1 beam s2
        generalize chain_setup_beam E spell caster pow source _ beam s2 = bs at hb ⊢
        have hd := random2_nonneg 13 (fire_beam E bs.1 bs.2).2.rng
        have hfuel : pow - (8 + ((fire_beam E bs.1 bs.2).2.random2 13).1) ≤ (fuel : Int) := by
          have : ((fire_beam E bs.1 bs.2).2.random2 13).1
              = (random2 13 (fire_beam E bs.1 bs.2).2.rng).1 := rfl
          push_cast at hp
          omega
        obtain ⟨s', l2, hrun, hl2, hbeams, hnil, hcount⟩ :=
          ih (pow - (8 + ((fire_beam E bs.1 bs.2).2.random2 13).1))
            (chain_pick_target E (s.actor_pos caster) source beam s).1 false
            (fire_beam E bs.1 bs.2).1 ((fire_beam E bs.1 bs.2).2.random2 13).2 hfuel
        refine ⟨s', l1 ++ [Event.fire bs.1] ++ l2, hrun, ?_, ?_, fun h => h.elim, ?_⟩
        · rw [hl2]
          show (bs.2.log ++ [Event.fire bs.1]) ++ l2 = _
          rw [hb.2.2, hl1]
          simp [List.append_assoc]
        · intro b hbm
          rw [fired_beams_append, fired_beams_append, hf1] at hbm
          simp only [List.nil_append, List.mem_append] at hbm
          rcases hbm with h | h
          · have : b = bs.1 := by simpa [fired_beams] using h
            subst this
            rw [hb.1, hb.2.1]
            exact hne
          · exact hbeams b h
        · intro _
          rw [fired_beams_append, fired_beams_append, hf1]
          have h1 : fired_beams [Event.fire bs.1] = [bs.1] := rfl
          rw [h1]
          simp only [List.nil_append, List.length_append, List.length_singleton]
          have hrd : ((fire_beam E bs.1 bs.2).2.random2 13).1
              = (random2 13 (fire_beam E bs.1 bs.2).2.rng).1 := rfl
          by_cases hq : 0 < pow - (8 + ((fire_beam E bs.1 bs.2).2.random2 13).1)
          · have := hcount hq
            push_cast
            omega
          · have hl0 := hnil (not_lt.mp hq)
            subst hl0
            simp [fired_beams]
            omega

theorem chain_init_beam_some (spell : spell_type) (hs : is_chain_spell spell = true) :
    ∃ b0, chain_init_beam spell = some b0 := by
  have hcases : spell = spell_type.SPELL_CHAIN_LIGHTNING
      ∨ spell = spell_type.SPELL_CHAIN_OF_CHAOS := by
    simpa [is_chain_spell] using hs
  rcases hcases with h | h <;> subst h <;> exact ⟨_, rfl⟩

theorem chain_init_beam_none (spell : spell_type) (hs : is_chain_spell spell = false) :
    chain_init_beam spell = none := by
  cases spell <;> first | rfl | simp [is_chain_spell] at hs

theorem cast_chain_spell_spec (E : Ext) (spell : spell_type) (pow : Int)
    (caster : actor_ref) (s : game_state) (hs : is_chain_spell spell = true) :
    ∃ s' l, cast_chain_spell E spell pow caster false s = Except.ok (spret.success, s')
      ∧ s'.log = s.log ++ l
      ∧ (∀ b ∈ fired_beams l, b.target ≠ b.source)
      ∧ (pow ≤ 0 → l = [])
      ∧ (0 < pow → 8 * ((fired_beams l).length : Int) ≤ pow + 7) := by
  have hfuel : pow ≤ (pow.toNat : Int) := Int.self_le_toNat pow
  obtain ⟨b0, hb0⟩ := chain_init_beam_some spell hs
  unfold cast_chain_spell
  simp only [Bool.false_eq_true, if_false, hb0]
  obtain ⟨s', l, hrun, rest⟩ := chain_loop_spec E spell caster
    pow.toNat pow (s.actor_pos caster) true
      (chain_start_beam E spell caster s b0) s hfuel
  rw [hrun]
  exact ⟨s', l, rfl, rest⟩

theorem cast_chain_spell_buggy (E : Ext) (spell : spell_type) (pow : Int)
    (caster : actor_ref) (s : game_state) (hs : is_chain_spell spell = false) :
    cast_chain_spell E spell pow caster false s = Except.error "buggy chain spell cast" := by
  unfold cast_chain_spell
  simp only [Bool.false_eq_true, if_false, chain_init_beam_none spell hs]

/-- C4: in every hop of a chain the chosen cell, when there is one, differs
from the hop's source cell (monsters and the player are skipped at grid
distance zero), so every beam `cast_chain_spell` fires has a target other than
its source, whatever the random draws; the call ends in an error only for a
spell that is no chain spell. -/
theorem cast_chain_spell_target_differs (E : Ext) (spell : spell_type) (pow : Int)
    (caster : actor_ref) (fail : Bool) (source : coord_def) (beam : bolt)
    (s : game_state) :
    ((chain_pick_target E (s.actor_pos caster) source beam s).1.x = -1
        ∨ (chain_pick_target E (s.actor_pos caster) source beam s).1 ≠ source)
    ∧ match cast_chain_spell E spell pow caster fail s with
      | Except.ok r => ∃ l, r.2.log = s.log ++ l ∧ ∀ b ∈ fired_beams l, b.target ≠ b.source
      | Except.error _ => is_chain_spell spell = false := by
  constructor
  · by_cases hx : (chain_pick_target E (s.actor_pos caster) source beam s).1.x = -1
    · exact Or.inl hx
    · exact Or.inr ((chain_pick_target_spec E (s.actor_pos caster) source beam s).1 hx)
  · cases fail with
    | true =>
      have h : cast_chain_spell E spell pow caster true s = Except.ok (spret.fail, s) := by
        simp [cast_chain_spell]
      rw [h]
      exact ⟨[], by simp, by simp [fired_beams]⟩
    | false =>
      cases hs : is_chain_spell spell with
      | true =>
        obtain ⟨s', l, hrun, hl, hb, -, -⟩ := cast_chain_spell_spec E spell pow caster s hs
        rw [hrun]
        exact ⟨l, hl, hb⟩
      | false =>
        rw [cast_chain_spell_buggy E spell pow caster s hs]

/-- C5 fails as stated: at power 1, with one monster next to the player, chain
lightning fires one beam, which is more than `1 / 8 = 0` hops. -/
theorem chain_hops_exceed_pow_div_8 :
    chain_hops ext_plain spell_type.SPELL_CHAIN_LIGHTNING 1 actor_ref.player false st_chain = 1
    ∧ ¬ ((chain_hops ext_plain spell_type.SPELL_CHAIN_LIGHTNING 1 actor_ref.player false
            st_chain : Int) ≤ Int.tdiv 1 8) := by
  decide

/-- C5 (amended): for every chain spell, initial power `pow > 0` and outcome of
the random draws, `cast_chain_spell` terminates with a result and the number of
beams it fires is at most `pow / 8` rounded up, `(pow + 7) / 8`. -/
theorem chain_hops_le_ceil (E : Ext) (spell : spell_type) (pow : Int)
    (caster : actor_ref) (fail : Bool) (s : game_state)
    (hs : is_chain_spell spell = true) (hp : 0 < pow) :
    (∃ r s', cast_chain_spell E spell pow caster fail s = Except.ok (r, s'))
    ∧ (chain_hops E spell pow caster fail s : Int) ≤ (pow + 7) / 8 := by
  cases fail with
  | true =>
    have h : cast_chain_spell E spell pow caster true s = Except.ok (spret.fail, s) := by
      simp [cast_chain_spell]
    refine ⟨⟨_, _, h⟩, ?_⟩
    simp only [chain_hops, h, Nat.sub_self]
    push_cast
    omega
  | false =>
    obtain ⟨s', l, hrun, hl, -, -, hc⟩ := cast_chain_spell_spec E spell pow caster s hs
    refine ⟨⟨_, _, hrun⟩, ?_⟩
    have := hc hp
    simp only [chain_hops, hrun, hl, fired_beams_append, List.length_append,
      Nat.add_sub_cancel_left]
    omega

theorem chain_hops_le_ceil_witness :
    is_chain_spell spell_type.SPELL_CHAIN_LIGHTNING = true ∧ (0 : Int) < 1
    ∧ (∃ r s', cast_chain_spell ext_plain spell_type.SPELL_CHAIN_LIGHTNING 1
          actor_ref.player false st_chain = Except.ok (r, s'))
    ∧ (chain_hops ext_plain spell_type.SPELL_CHAIN_LIGHTNING 1 actor_ref.player false
          st_chain : Int) ≤ (1 + 7) / 8 :=
  ⟨by decide, by decide,
    chain_hops_le_ceil ext_plain spell_type.SPELL_CHAIN_LIGHTNING 1 actor_ref.player false
      st_chain (by decide) (by decide)⟩

theorem only_rng_differs_eq {s s1 : game_state} (h : only_rng_differs s s1) :
    s1 = { s with rng := s1.rng } := by
  obtain ⟨h1, h2, h3, h4, h5, h6⟩ := h
  cases s1
  cases s
  simp only at h1 h2 h3 h4 h5 h6
  subst h1 h2 h3 h4 h5 h6
  rfl

theorem chain_loop_no_target (E : Ext) (spell : spell_type) (caster : actor_ref)
    (n : Nat) (pow : Int) (source : coord_def) (first : Bool) (beam : bolt)
    (s : game_state) (hp : 0 < pow)
    (hx : (chain_pick_target E (s.actor_pos caster) source beam s).1.x = -1) :
    chain_loop E spell caster (n + 1) pow source first beam s
      = some (if E.you_see_cell (chain_pick_target E (s.actor_pos caster) source beam s).2
                  source = true
              then (chain_pick_target E (s.actor_pos caster) source beam s).2.emit
                (Event.mpr "grounds out")
              else (chain_pick_target E (s.actor_pos caster) source beam s).2) := by
  have hp0 : ¬ pow ≤ 0 := by omega
  unfold chain_loop
  simp only [hp0, if_false, hx, if_true]

theorem trace_los_attack_spell_no_mutation_witness :
    (some (actor_ref.mons 0) : Option actor_ref) ≠ some actor_ref.player
    ∧ avg_dice (los_beam ext_plain spell_type.SPELL_OZOCUBUS_REFRIGERATION 20
        (some (actor_ref.mons 0)) st_ignite).damage = 6
    ∧ trace_los_error ext_zero_dice spell_type.SPELL_OZOCUBUS_REFRIGERATION 20
        (some (actor_ref.mons 0)) st_ignite = some "division by zero"
    ∧ ∃ r s', trace_los_attack_spell ext_plain spell_type.SPELL_OZOCUBUS_REFRIGERATION 20
          (some (actor_ref.mons 0)) st_ignite = Except.ok (r, s')
        ∧ s'.you = st_ignite.you ∧ s'.mons = st_ignite.mons ∧ s'.rng = st_ignite.rng
        ∧ ∃ l, s'.log = st_ignite.log ++ l ∧ ∀ e ∈ l, Event.mutates_actor e = false :=
  have T := trace_los_attack_spell_no_mutation ext_plain
    spell_type.SPELL_OZOCUBUS_REFRIGERATION 20 (some (actor_ref.mons 0)) st_ignite
    (by decide)
  ⟨by decide, by decide, by decide,
    (T.2 (Or.inr (by decide))).elim
      (fun r hr => hr.elim (fun s' h => ⟨r, s', h, T.1 r s' h⟩))⟩

/-! ### Shatter damage -/

theorem shatter_monsters_nonneg (E : Ext) (pos : coord_def) (pow : Int)
    (agent : actor_ref) (s : game_state) : 0 ≤ (_shatter_monsters E pos pow agent s).1 := by
  unfold _shatter_monsters
  split
  · exact le_refl _
  · dsimp only
    split
    · exact le_refl _
    · split
      · exact le_max_left _ _
      · split <;> exact le_max_left _ _

theorem shatter_player_nonneg (pow : Int) (wielder : actor_ref) (devastator : Bool)
    (s : game_state) : 0 ≤ (_shatter_player pow wielder devastator s).1 := by
  unfold _shatter_player
  dsimp only
  split
  · exact le_refl _
  · split <;> exact le_max_left _ _

theorem shatter_monsters_value (E : Ext) (pos : coord_def) (pow : Int)
    (agent : actor_ref) (s : game_state) :
    (_shatter_monsters E pos pow agent s).1
      = match s.monster_at pos with
        | none => 0
        | some mi =>
          if !(s.mon mi).alive || agent == actor_ref.mons mi then 0
          else max 0 ((s.roll (shatter_damage pow (some (s.mon mi)))).1
            - ((s.roll (shatter_damage pow (some (s.mon mi)))).2.random2
                (s.mon mi).armour_class).1) := by
  unfold _shatter_monsters
  cases s.monster_at pos with
  | none => rfl
  | some mi =>
    dsimp only
    split
    · rfl
    · split
      · rfl
      · split <;> rfl

theorem shatter_player_value (pow : Int) (wielder : actor_ref) (devastator : Bool)
    (s : game_state) :
    (_shatter_player pow wielder devastator s).1
      = if wielder.is_player then 0
        else max 0
          ((s.roll { num := _shatter_player_dice s.you, size := 5 + Int.tdiv pow 3 }).1
            - ((s.roll { num := _shatter_player_dice s.you, size := 5 + Int.tdiv pow 3 }).2.random2
                s.you.armour_class).1) := by
  unfold _shatter_player
  dsimp only
  split
  · rfl
  · split <;> rfl

/-- C7: for every power, armour class and outcome of the dice and armour
rolls, the damage returned by `_shatter_monsters` and by `_shatter_player` is
never negative: it is `0` when no target is affected and otherwise
`max(0, dice roll - armour roll)`. -/
theorem shatter_damage_nonneg (E : Ext) (pos : coord_def) (pow : Int)
    (agent wielder : actor_ref) (devastator : Bool) (s : game_state) :
    (0 ≤ (_shatter_monsters E pos pow agent s).1
      ∧ (_shatter_monsters E pos pow agent s).1
          = match s.monster_at pos with
            | none => 0
            | some mi =>
              if !(s.mon mi).alive || agent == actor_ref.mons mi then 0
              else max 0 ((s.roll (shatter_damage pow (some (s.mon mi)))).1
                - ((s.roll (shatter_damage pow (some (s.mon mi)))).2.random2
                    (s.mon mi).armour_class).1))
    ∧ (0 ≤ (_shatter_player pow wielder devastator s).1
      ∧ (_shatter_player pow wielder devastator s).1
          = if wielder.is_player then 0
            else max 0
              ((s.roll { num := _shatter_player_dice s.you, size := 5 + Int.tdiv pow 3 }).1
                - ((s.roll { num := _shatter_player_dice s.you,
                             size := 5 + Int.tdiv pow 3 }).2.random2
                    s.you.armour_class).1)) :=
  ⟨⟨shatter_monsters_nonneg E pos pow agent s, shatter_monsters_value E pos pow agent s⟩,
   ⟨shatter_player_nonneg pow wielder devastator s,
    shatter_player_value pow wielder devastator s⟩⟩

/-! ### Death cleanup in `_player_hurt_monster` -/

theorem cleanups_emit (i : Nat) (s : game_state) (e : Event) :
    cleanups i (s.emit e) = cleanups i s + (if e = Event.monster_die i then 1 else 0) := by
  simp only [cleanups, game_state.emit, List.count_append, List.count_cons, List.count_nil,
    beq_iff_eq]
  simp

theorem cleanups_of_log {s s' : game_state} (i : Nat) (h : s'.log = s.log) :
    cleanups i s' = cleanups i s := by
  simp only [cleanups, h]

theorem cleanups_set_mon (i j : Nat) (m : monster) (s : game_state) :
    cleanups i (s.set_mon j m) = cleanups i s := rfl

theorem monster_hurt_cleanup (i : Nat) (amount : Int) (s : game_state) :
    (((monster_hurt i amount true s).mon i).alive = false →
        cleanups i (monster_hurt i amount true s) = cleanups i s + 1)
    ∧ (((monster_hurt i amount true s).mon i).alive = true →
        cleanups i (monster_hurt i amount true s) = cleanups i s) := by
  unfold monster_hurt
  dsimp only
  generalize hs2 : (if ((s.emit (Event.hurt i amount)).mon i).alive = true
      then (s.emit (Event.hurt i amount)).set_mon i
        { (s.emit (Event.hurt i amount)).mon i with
          hit_points := ((s.emit (Event.hurt i amount)).mon i).hit_points - amount }
      else s.emit (Event.hurt i amount)) = s2
  have hc : cleanups i s2 = cleanups i s := by
    subst hs2
    split
    · simp [cleanups_set_mon, cleanups_emit]
    · simp [cleanups_emit]
  cases ha : (s2.mon i).alive with
  | true =>
    simp only [ha, Bool.not_true, Bool.and_false, Bool.false_eq_true, if_false]
    exact ⟨fun h => by simp at h, fun _ => hc⟩
  | false =>
    simp only [Bool.true_and, Bool.not_false, if_true]
    have hm : ((monster_die i s2).mon i) = s2.mon i := rfl
    rw [hm, ha]
    refine ⟨fun _ => ?_, fun h => by simp at h⟩
    simp [monster_die, cleanups_emit, hc]

theorem monster_hurt_log_dead (i : Nat) (amount : Int) (s : game_state)
    (h : ((monster_hurt i amount true s).mon i).alive = false) :
    (monster_hurt i amount true s).log
      = s.log ++ [Event.hurt i amount, Event.monster_die i] := by
  unfold monster_hurt at h ⊢
  dsimp only at h ⊢
  generalize hs2 : (if ((s.emit (Event.hurt i amount)).mon i).alive = true
      then (s.emit (Event.hurt i amount)).set_mon i
        { (s.emit (Event.hurt i amount)).mon i with
          hit_points := ((s.emit (Event.hurt i amount)).mon i).hit_points - amount }
      else s.emit (Event.hurt i amount)) = s2 at h ⊢
  have hl : s2.log = s.log ++ [Event.hurt i amount] := by
    subst hs2
    split <;> rfl
  cases ha : (s2.mon i).alive with
  | true =>
    simp only [ha, Bool.not_true, Bool.and_false, Bool.false_eq_true, if_false] at h
    cases h
  | false =>
    simp only [Bool.true_and, Bool.not_false, if_true]
    simp [monster_die, game_state.emit, hl]

theorem player_hurt_monster_past_guard (E : Ext) (mon : Nat) (damage : Int)
    (flavour : beam_type) (god_conducts : Bool) (s : game_state)
    (hguard : (god_conducts
      && E.god_protects (player_hurt_sanctuary E mon s) (some actor_ref.player) (some mon))
      = false) :
    (((_player_hurt_monster E mon damage flavour god_conducts s).mon mon).alive = false →
        cleanups mon (_player_hurt_monster E mon damage flavour god_conducts s)
          = cleanups mon s + 1)
    ∧ (((_player_hurt_monster E mon damage flavour god_conducts s).mon mon).alive = true →
        cleanups mon (_player_hurt_monster E mon damage flavour god_conducts s)
          = cleanups mon s)
    ∧ (((_player_hurt_monster E mon damage flavour god_conducts s).mon mon).alive = false →
        damage ≠ 0 →
        ∃ l, (_player_hurt_monster E mon damage flavour god_conducts s).log
          = s.log ++ l ++ [Event.hurt mon damage, Event.monster_die mon])
    ∧ (((_player_hurt_monster E mon damage flavour god_conducts s).mon mon).alive = false →
        damage = 0 →
        (s.mon mon).alive = false
        ∧ ∃ l, (_player_hurt_monster E mon damage flavour god_conducts s).log
            = s.log ++ l ++ [Event.monster_die mon]
          ∧ ∀ e ∈ l, ∀ a, e ≠ Event.hurt mon a) := by
  have h1 : cleanups mon (player_hurt_sanctuary E mon s) = cleanups mon s := by
    unfold player_hurt_sanctuary
    split <;> simp [cleanups_emit]
  have hsl : ∃ l, (player_hurt_sanctuary E mon s).log = s.log ++ l
      ∧ ∀ e ∈ l, ∀ a, e ≠ Event.hurt mon a := by
    unfold player_hurt_sanctuary
    split
    · exact ⟨[Event.remove_sanctuary], rfl, by simp⟩
    · exact ⟨[], by simp, by simp⟩
  have hsm : (player_hurt_sanctuary E mon s).mons = s.mons := by
    unfold player_hurt_sanctuary
    split <;> rfl
  unfold _player_hurt_monster
  simp only [hguard, Bool.false_eq_true, if_false]
  generalize hs2 : (if god_conducts = true
      then set_attack_conducts mon (player_hurt_sanctuary E mon s)
      else player_hurt_sanctuary E mon s) = s2
  have h2 : cleanups mon s2 = cleanups mon s := by
    subst hs2
    split
    · simp [set_attack_conducts, cleanups_emit, h1]
    · exact h1
  have h2l : ∃ l, s2.log = s.log ++ l ∧ ∀ e ∈ l, ∀ a, e ≠ Event.hurt mon a := by
    obtain ⟨l, hl, hn⟩ := hsl
    subst hs2
    split
    · refine ⟨l ++ [Event.set_attack_conducts mon], ?_, ?_⟩
      · simp [set_attack_conducts, game_state.emit, hl]
      · intro e he a
        rcases List.mem_append.mp he with h | h
        · exact hn e h a
        · have : e = Event.set_attack_conducts mon := by simpa using h
          rw [this]
          simp
    · exact ⟨l, hl, hn⟩
  have h2m : s2.mon mon = s.mon mon := by
    subst hs2
    split
    · simp only [game_state.mon, set_attack_conducts, game_state.emit, hsm]
    · simp only [game_state.mon, hsm]
  by_cases hd : damage = 0
  · subst hd
    simp only [ne_eq, not_true_eq_false, if_false, false_and, if_true]
    cases ha : (s2.mon mon).alive with
    | true =>
      simp only [if_true]
      have hm : ((s2.emit (Event.behaviour_event mon)).mon mon) = s2.mon mon := rfl
      rw [hm, ha]
      exact ⟨fun h => by simp at h, fun _ => by simp [cleanups_emit, h2],
        fun h => by simp at h, fun h => by simp at h⟩
    | false =>
      simp only [Bool.false_eq_true, if_false]
      have hm : ((monster_die mon s2).mon mon) = s2.mon mon := rfl
      rw [hm, ha]
      refine ⟨fun _ => by simp [monster_die, cleanups_emit, h2], fun h => by simp at h,
        fun _ hne => hne.elim, fun _ _ => ⟨?_, ?_⟩⟩
      · rw [← h2m]
        exact ha
      · obtain ⟨l, hl, hn⟩ := h2l
        exact ⟨l, by simp [monster_die, game_state.emit, hl], hn⟩
  · simp only [ne_eq, hd, not_false_eq_true, if_true, true_and, if_false]
    have hh := monster_hurt_cleanup mon damage
      (s2.emit (Event.majin_bo_vampirism mon (min damage (s2.mon mon).hit_points)))
    have hld := monster_hurt_log_dead mon damage
      (s2.emit (Event.majin_bo_vampirism mon (min damage (s2.mon mon).hit_points)))
    have h3 : cleanups mon
        (s2.emit (Event.majin_bo_vampirism mon (min damage (s2.mon mon).hit_points)))
        = cleanups mon s := by simp [cleanups_emit, h2]
    rw [h3] at hh
    generalize monster_hurt mon damage true
      (s2.emit (Event.majin_bo_vampirism mon (min damage (s2.mon mon).hit_points))) = s3
      at hh hld ⊢
    cases ha : (s3.mon mon).alive with
    | true =>
      simp only [if_true]
      have hc := hh.2 ha
      split
      · have hm : (((s3.emit (Event.behaviour_event mon)).emit (Event.print_wounds mon)).mon
            mon) = s3.mon mon := rfl
        rw [hm, ha]
        exact ⟨fun h => by simp at h, fun _ => by simp [cleanups_emit, hc],
          fun h => by simp at h, fun h => by simp at h⟩
      · have hm : ((s3.emit (Event.behaviour_event mon)).mon mon) = s3.mon mon := rfl
        rw [hm, ha]
        exact ⟨fun h => by simp at h, fun _ => by simp [cleanups_emit, hc],
          fun h => by simp at h, fun h => by simp at h⟩
    | false =>
      simp only [Bool.false_eq_true, if_false]
      rw [ha]
      refine ⟨fun _ => hh.1 ha, fun h => by simp at h, fun _ _ => ?_,
        fun _ h0 => h0.elim⟩
      obtain ⟨l, hl, -⟩ := h2l
      refine ⟨l ++ [Event.majin_bo_vampirism mon (min damage (s2.mon mon).hit_points)], ?_⟩
      rw [hld ha]
      simp [game_state.emit, hl]

/-- C8: for every monster, damage amount including zero, flavour and value of
`god_conducts`, a monster that is not alive once `_player_hurt_monster` has
applied the damage has had its death cleanup run exactly once by the end of
the call, and a monster that is alive has had none.  With a non-zero damage
the cleanup is the one `hurt` runs: the call's log ends with `hurt` and the
cleanup.  With damage zero the monster was already dead and the cleanup is the
direct `monster_die` that ends the log, no `hurt` being called.  The call is
taken to get to the damage (the protection guard does not return first) or to
start with a live monster. -/
theorem player_hurt_monster_cleanup_once (E : Ext) (mon : Nat) (damage : Int)
    (flavour : beam_type) (god_conducts : Bool) (s : game_state)
    (hg : god_conducts = false
      ∨ E.god_protects (player_hurt_sanctuary E mon s) (some actor_ref.player) (some mon)
          = false
      ∨ (s.mon mon).alive = true) :
    (((_player_hurt_monster E mon damage flavour god_conducts s).mon mon).alive = false →
        cleanups mon (_player_hurt_monster E mon damage flavour god_conducts s)
          = cleanups mon s + 1)
    ∧ (((_player_hurt_monster E mon damage flavour god_conducts s).mon mon).alive = true →
        cleanups mon (_player_hurt_monster E mon damage flavour god_conducts s)
          = cleanups mon s)
    ∧ (((_player_hurt_monster E mon damage flavour god_conducts s).mon mon).alive = false →
        damage ≠ 0 →
        ∃ l, (_player_hurt_monster E mon damage flavour god_conducts s).log
          = s.log ++ l ++ [Event.hurt mon damage, Event.monster_die mon])
    ∧ (((_player_hurt_monster E mon damage flavour god_conducts s).mon mon).alive = false →
        damage = 0 →
        (s.mon mon).alive = false
        ∧ ∃ l, (_player_hurt_monster E mon damage flavour god_conducts s).log
            = s.log ++ l ++ [Event.monster_die mon]
          ∧ ∀ e ∈ l, ∀ a, e ≠ Event.hurt mon a) := by
  by_cases hguard : (god_conducts
      && E.god_protects (player_hurt_sanctuary E mon s) (some actor_ref.player) (some mon))
      = false
  · exact player_hurt_monster_past_guard E mon damage flavour god_conducts s hguard
  · have hgt : (god_conducts
        && E.god_protects (player_hurt_sanctuary E mon s) (some actor_ref.player) (some mon))
        = true := by simpa using hguard
    have hal : (s.mon mon).alive = true := by
      rcases hg with h | h | h
      · rw [h] at hgt
        simp at hgt
      · rw [h] at hgt
        simp at hgt
      · exact h
    have hrun : _player_hurt_monster E mon damage flavour god_conducts s
        = player_hurt_sanctuary E mon s := by
      unfold _player_hurt_monster
      simp only [hgt, if_true]
    have hm : (player_hurt_sanctuary E mon s).mon mon = s.mon mon := by
      unfold player_hurt_sanctuary
      split <;> rfl
    have hc : cleanups mon (player_hurt_sanctuary E mon s) = cleanups mon s := by
      unfold player_hurt_sanctuary
      split <;> simp [cleanups_emit]
    rw [hrun, hm, hal]
    exact ⟨fun h => by simp at h, fun _ => hc, fun h => by simp at h, fun h => by simp at h⟩

theorem player_hurt_monster_cleanup_once_witness :
    (true = false
        ∨ ext_plain.god_protects (player_hurt_sanctuary ext_plain 0 st_chain)
            (some actor_ref.player) (some 0) = false
        ∨ (st_chain.mon 0).alive = true)
    ∧ ((_player_hurt_monster ext_plain 0 12 beam_type.BEAM_MMISSILE true st_chain).mon
          0).alive = false
    ∧ cleanups 0 (_player_hurt_monster ext_plain 0 12 beam_type.BEAM_MMISSILE true st_chain)
        = cleanups 0 st_chain + 1
    ∧ (_player_hurt_monster ext_plain 0 12 beam_type.BEAM_MMISSILE true st_chain).log
        = [Event.set_attack_conducts 0, Event.majin_bo_vampirism 0 10, Event.hurt 0 12,
            Event.monster_die 0]
    ∧ ((_player_hurt_monster ext_plain 0 0 beam_type.BEAM_MMISSILE true
          st_dead_monster).mon 0).alive = false
    ∧ (_player_hurt_monster ext_plain 0 0 beam_type.BEAM_MMISSILE true st_dead_monster).log
        = [Event.set_attack_conducts 0, Event.monster_die 0]
    ∧ ((_player_hurt_monster ext_protected 0 12 beam_type.BEAM_MMISSILE true st_chain).mon
          0).alive = true
    ∧ (_player_hurt_monster ext_protected 0 12 beam_type.BEAM_MMISSILE true st_chain).log
        = [] :=
  ⟨Or.inr (Or.inl (by decide)), by decide,
    (player_hurt_monster_cleanup_once ext_plain 0 12 beam_type.BEAM_MMISSILE true st_chain
      (Or.inr (Or.inl (by decide)))).1 (by decide),
    by decide, by decide, by decide, by decide, by decide⟩

/-! ### Interrupted channels -/

theorem props_exists_erase (k : prop_key) (p : List (prop_key × prop_value)) :
    props_exists k (props_erase k p) = false := by
  simp [props_exists, props_erase]

/-- C9, the code at a failing input: with the ray at its first stage and a
previous command other than wait, `handle_searing_ray` ends the ray and then
runs into its range assertion on the attribute, which is now 0.  Were the
assertion skipped, the rest of the function would still fire a beam, spend a
magic point and set the attribute back to 1. -/
theorem handle_searing_ray_interrupted_asserts :
    st_searing.searing_ray = 1 ∧ st_searing.prev_cmd ≠ command_type.CMD_WAIT
    ∧ handle_searing_ray ext_plain st_searing
        = Except.error "ASSERT_RANGE(you.attribute[ATTR_SEARING_RAY], 1, 4)"
    ∧ (fired_beams (searing_ray_fire ext_plain (end_searing_ray st_searing)).log).length = 1
    ∧ (searing_ray_fire ext_plain (end_searing_ray st_searing)).you.magic_points
        = st_searing.you.magic_points - 1
    ∧ (searing_ray_fire ext_plain (end_searing_ray st_searing)).searing_ray = 1 := by
  refine ⟨by decide, by decide, rfl, by decide, by decide, by decide⟩

theorem handle_searing_ray_interrupted_always_asserts (E : Ext) (s : game_state)
    (hattr : s.searing_ray = 1 ∨ s.searing_ray = 2 ∨ s.searing_ray = 3)
    (hcmd : s.prev_cmd ≠ command_type.CMD_WAIT) :
    handle_searing_ray E s
      = Except.error "ASSERT_RANGE(you.attribute[ATTR_SEARING_RAY], 1, 4)" := by
  have h0 : s.searing_ray ≠ 0 := by omega
  have h1 : s.searing_ray ≠ -1 := by omega
  have he : (end_searing_ray s).searing_ray = 0 := by
    simp [end_searing_ray, game_state.searing_ray, game_state.set_searing_ray]
  unfold handle_searing_ray
  simp only [h0, h1, if_false, hcmd, ne_eq, not_false_eq_true, if_true, he]
  simp

/-- C10: when `handle_maxwells_coupling` finds a stored remaining charge time
that is not negative and the previous command was not a wait, it cancels the
charge: the stored key is erased, `time_taken`, the monsters and the random
draws are untouched, and the only call made is the message that the charge
dissipates, so the discharge that kills a target does not run. -/
theorem handle_maxwells_coupling_interrupted (E : Ext) (s : game_state)
    (hex : props_exists prop_key.COUPLING_TIME_KEY s.you.props = true)
    (hrem : 0 ≤ props_get_int prop_key.COUPLING_TIME_KEY s.you.props)
    (hcmd : s.prev_cmd ≠ command_type.CMD_WAIT) :
    props_exists prop_key.COUPLING_TIME_KEY (handle_maxwells_coupling E s).you.props = false
    ∧ (handle_maxwells_coupling E s).you.time_taken = s.you.time_taken
    ∧ (handle_maxwells_coupling E s).you.hp = s.you.hp
    ∧ (handle_maxwells_coupling E s).mons = s.mons
    ∧ (handle_maxwells_coupling E s).rng = s.rng
    ∧ (handle_maxwells_coupling E s).log
        = s.log ++ [Event.mpr "The insufficient charge disappates harmlessly."] := by
  have hneg : ¬ props_get_int prop_key.COUPLING_TIME_KEY s.you.props < 0 := by omega
  have h : handle_maxwells_coupling E s = end_maxwells_coupling s := by
    unfold handle_maxwells_coupling
    simp only [hex, Bool.not_true, Bool.false_eq_true, if_false, hneg, hcmd, ne_eq,
      not_false_eq_true, if_true]
  rw [h]
  unfold end_maxwells_coupling
  simp only [hex, if_true]
  exact ⟨props_exists_erase _ _, rfl, rfl, rfl, rfl, rfl⟩

theorem handle_maxwells_coupling_interrupted_witness :
    props_exists prop_key.COUPLING_TIME_KEY st_coupling.you.props = true
    ∧ 0 ≤ props_get_int prop_key.COUPLING_TIME_KEY st_coupling.you.props
    ∧ st_coupling.prev_cmd ≠ command_type.CMD_WAIT
    ∧ props_exists prop_key.COUPLING_TIME_KEY
        (handle_maxwells_coupling ext_plain st_coupling).you.props = false
    ∧ (handle_maxwells_coupling ext_plain st_coupling).you.time_taken
        = st_coupling.you.time_taken
    ∧ (handle_maxwells_coupling ext_plain st_coupling).you.hp = st_coupling.you.hp
    ∧ (handle_maxwells_coupling ext_plain st_coupling).mons = st_coupling.mons
    ∧ (handle_maxwells_coupling ext_plain st_coupling).rng = st_coupling.rng
    ∧ (handle_maxwells_coupling ext_plain st_coupling).log
        = st_coupling.log ++ [Event.mpr "The insufficient charge disappates harmlessly."] :=
  ⟨by decide, by decide, by decide,
    handle_maxwells_coupling_interrupted ext_plain st_coupling (by decide) (by decide)
      (by decide)⟩

/-! ### Noise of a chain -/

theorem chain_consider_player_rule (E : Ext) (source : coord_def) (st : chain_scan)
    (s : game_state) :
    (chain_consider_player E source st s).1 = st.target
    ∨ ((chain_consider_player E source st s).1 = s.you.pos
      ∧ grid_distance source s.you.pos ≠ 0
      ∧ E.cell_see_cell (chain_consider_player E source st s).2 source s.you.pos
          los_type.LOS_SOLID = true
      ∧ (st.target.x = -1
        ∨ grid_distance source s.you.pos + ((s.random2 3).1 - 1) < st.min_dist
        ∨ (grid_distance source s.you.pos + ((s.random2 3).1 - 1) = st.min_dist
          ∧ ((s.random2 3).2.one_chance_in (st.count + 1)).1 = true))) := by
  unfold chain_consider_player
  dsimp only
  split
  · exact Or.inl rfl
  · rename_i hd
    have hp := only_rng_differs_trans (only_rng_differs_random2 s 3)
      (chain_player_pick_rng (grid_distance source s.you.pos + ((s.random2 3).1 - 1)) st
        (s.random2 3).2)
    split
    · rename_i hc
      rw [Bool.and_eq_true] at hc
      refine Or.inr ⟨?_, hd, ?_, ?_⟩
      · dsimp only
        rw [hp.1]
      · have h2 := hc.2
        rw [hp.1] at h2
        exact h2
      · have h1 := hc.1
        unfold chain_player_pick at h1
        split at h1
        · rename_i h2
          rcases h2 with h2 | h2
          · exact Or.inl h2
          · exact Or.inr (Or.inl h2)
        · split at h1
          · rename_i h3
            exact Or.inr (Or.inr ⟨h3, h1⟩)
          · simp at h1
    · exact Or.inl rfl

/-- C19 fails as stated. With the caster at the origin, a monster on the next
cell that the draws leave unchosen and the player two cells behind it, the
player is selected although the ray from the source to the player stops on the
monster; and with the player eight cells away and no monster chosen, the
player is selected although the jittered distance, 8, is greater than the
minimum distance, 7, against which monsters are tested. -/
theorem chain_player_picked_against_monster_rules :
    ((chain_pick_target ext_blocked ⟨0, 0⟩ ⟨0, 0⟩ default st_player_behind).1
        = st_player_behind.you.pos
      ∧ chain_ray_reaches ext_blocked st_player_behind ⟨0, 0⟩ st_player_behind.you.pos = false)
    ∧ ((chain_pick_target ext_plain ⟨0, 0⟩ ⟨0, 0⟩ default st_player_far).1
        = st_player_far.you.pos
      ∧ (chain_scan_result ext_plain ⟨0, 0⟩ ⟨0, 0⟩ default st_player_far).1.min_dist
        < grid_distance ⟨0, 0⟩ st_player_far.you.pos
          + (((chain_scan_result ext_plain ⟨0, 0⟩ ⟨0, 0⟩ default
                st_player_far).2.random2 3).1 - 1)) := by
  decide

/-- C19 (amended): in each hop of `cast_chain_spell`, after the scan of the
monsters, either the target the scan chose stays, or the player is selected,
and then the player is not on the source cell, the source cell sees the
player's cell, and one of these holds: the scan chose no monster, the player's
jittered distance is less than the minimum distance of the scan, or it equals
that minimum and a `one_chance_in(count + 1)` draw succeeds. No ray is cast
towards the player, and when the scan chose no monster no distance bound is
applied. -/
theorem chain_pick_target_player_rule (E : Ext) (caster_pos source : coord_def)
    (beam : bolt) (s : game_state) :
    (chain_pick_target E caster_pos source beam s).1
        = (chain_scan_result E caster_pos source beam s).1.target
    ∨ ((chain_pick_target E caster_pos source beam s).1 = s.you.pos
      ∧ grid_distance source s.you.pos ≠ 0
      ∧ E.cell_see_cell (chain_pick_target E caster_pos source beam s).2 source s.you.pos
          los_type.LOS_SOLID = true
      ∧ ((chain_scan_result E caster_pos source beam s).1.target.x = -1
        ∨ grid_distance source s.you.pos
            + (((chain_scan_result E caster_pos source beam s).2.random2 3).1 - 1)
          < (chain_scan_result E caster_pos source beam s).1.min_dist
        ∨ (grid_distance source s.you.pos
              + (((chain_scan_result E caster_pos source beam s).2.random2 3).1 - 1)
            = (chain_scan_result E caster_pos source beam s).1.min_dist
          ∧ (((chain_scan_result E caster_pos source beam s).2.random2 3).2.one_chance_in
              ((chain_scan_result E caster_pos source beam s).1.count + 1)).1 = true))) := by
  have hs := (chain_scan_monsters_spec E caster_pos source beam (monster_iterator s)
    { min_dist := E.LOS_DEFAULT_RANGE - 1, count := 0, target := ⟨-1, -1⟩ } s
    (fun hx => absurd rfl hx)).2
  have h := chain_consider_player_rule E source
    (chain_scan_result E caster_pos source beam s).1
    (chain_scan_result E caster_pos source beam s).2
  have hy : (chain_scan_result E caster_pos source beam s).2.you = s.you := hs.1
  rw [hy] at h
  exact h
/-! ### Ties in the target selection of a chain -/

/-- C20: the pick among tied candidates is not uniform. A candidate adopted as
the new closest one leaves the tie counter at 0, so the next candidate at the
same distance raises it to 1 and `one_chance_in(1)` replaces the pick with
certainty, without a draw. With two monsters at the same jittered distance,
the first of which established the minimum, the second is chosen whatever the
remaining draws are, and none of them is consumed. -/
theorem chain_tie_second_always_wins :
    (∀ (dist : Int) (pos : coord_def) (st : chain_scan) (s : game_state),
        dist < st.min_dist → (s.one_chance_in 10).1 = false →
        chain_accept dist pos st s
          = ({ min_dist := dist, count := 0, target := pos }, (s.one_chance_in 10).2))
    ∧ (∀ (pos : coord_def) (st : chain_scan) (s : game_state),
        st.count = 0 → st.target.x ≠ -1 →
        chain_accept st.min_dist pos st s = ({ st with count := 1, target := pos }, s))
    ∧ (∀ r : List Nat,
        (chain_scan_result ext_plain ⟨0, 0⟩ ⟨0, 0⟩ default (st_tied r)).1.target = ⟨0, 2⟩
        ∧ (chain_pick_target ext_plain ⟨0, 0⟩ ⟨0, 0⟩ default (st_tied r)).1 = ⟨0, 2⟩
        ∧ (chain_pick_target ext_plain ⟨0, 0⟩ ⟨0, 0⟩ default (st_tied r)).2.rng = r) := by
  refine ⟨?_, ?_, ?_⟩
  · intro dist pos st s hlt hc
    unfold chain_accept
    simp only [hlt, if_true, hc]
  · intro pos st s hc hx
    unfold chain_accept
    simp only [lt_irrefl, if_false, hx, hc]
    rfl
  · intro r
    exact ⟨rfl, rfl, rfl⟩

/-! ### Explosions: Fire Storm and Miasma Breath -/

theorem exploded_append (l1 l2 : List Event) :
    exploded (l1 ++ l2) = exploded l1 ++ exploded l2 := by
  simp [exploded, List.filterMap_append]

/-- C16 fails as stated: at power 50 with a draw of 10 the tracer pass of
`cast_fire_storm` explodes a beam of radius 2 and the committing pass one of
radius 3. -/
theorem cast_fire_storm_radii_differ :
    (cast_fire_storm ext_plain 50 storm_beam false st_storm).1 = spret.success
    ∧ (exploded (cast_fire_storm ext_plain 50 storm_beam false st_storm).2.2.log).map
        (fun b => (b.is_tracer, b.ex_size)) = [(true, 2), (false, 3)] := by
  decide

/-- C16 (amended): the tracer pass of `cast_fire_storm` explodes a copy of the
beam whose radius is 3 when `pow > 76` and 2 otherwise, whatever the draw of
`setup_fire_storm`; the committing pass explodes the beam that
`setup_fire_storm` has given the radius `2 + (random2(1000) < pow)`, after
`refine_for_explosion`. Before refinement the two radii are equal exactly when
the draw is below `pow` if and only if `pow > 76`. A call explodes nothing, the
tracer copy only, or the tracer copy and then the refined beam, and the last
whenever it returns success. -/
theorem cast_fire_storm_radii (E : Ext) (pow : Int) (beam : bolt) (fail : Bool)
    (s : game_state) :
    (fire_storm_tempbeam pow (setup_fire_storm E actor_ref.player pow beam s).1).ex_size
        = (if 76 < pow then 3 else 2)
    ∧ (fire_storm_tempbeam pow (setup_fire_storm E actor_ref.player pow beam s).1).is_tracer
        = true
    ∧ (setup_fire_storm E actor_ref.player pow beam s).1.ex_size
        = 2 + (if (s.random2 1000).1 < pow then 1 else 0)
    ∧ (setup_fire_storm E actor_ref.player pow beam s).1.is_tracer = false
    ∧ ((fire_storm_tempbeam pow (setup_fire_storm E actor_ref.player pow beam s).1).ex_size
          = (setup_fire_storm E actor_ref.player pow beam s).1.ex_size
        ↔ ((s.random2 1000).1 < pow ↔ 76 < pow))
    ∧ ∃ l, (cast_fire_storm E pow beam fail s).2.2.log = s.log ++ l
      ∧ (exploded l = []
        ∨ exploded l
            = [fire_storm_tempbeam pow (setup_fire_storm E actor_ref.player pow beam s).1]
        ∨ exploded l
            = [fire_storm_tempbeam pow (setup_fire_storm E actor_ref.player pow beam s).1,
               E.refine_for_explosion (setup_fire_storm E actor_ref.player pow beam s).1])
      ∧ ((cast_fire_storm E pow beam fail s).1 = spret.success →
          exploded l
            = [fire_storm_tempbeam pow (setup_fire_storm E actor_ref.player pow beam s).1,
               E.refine_for_explosion (setup_fire_storm E actor_ref.player pow beam s).1]) := by
  refine ⟨rfl, rfl, rfl, rfl, ?_, ?_⟩
  · show (if 76 < pow then (3 : Int) else 2) = 2 + (if (s.random2 1000).1 < pow then 1 else 0)
      ↔ _
    by_cases h1 : 76 < pow <;> by_cases h2 : (s.random2 1000).1 < pow <;> simp [h1, h2]
  · have hlog : (setup_fire_storm E actor_ref.player pow beam s).2.log = s.log := rfl
    unfold cast_fire_storm
    dsimp only
    generalize setup_fire_storm E actor_ref.player pow beam s = B at hlog ⊢
    split
    · exact ⟨[Event.mpr "That is beyond the maximum range."], rfl, Or.inl rfl,
        fun h => by simp at h⟩
    · split
      · exact ⟨[Event.mpr "You can't place the storm on that."], rfl, Or.inl rfl,
          fun h => by simp at h⟩
      · split
        · exact ⟨[Event.explode (fire_storm_tempbeam pow B.1)],
            by simp [explode, hlog], Or.inr (Or.inl rfl), fun h => by simp at h⟩
        · split
          · exact ⟨[Event.explode (fire_storm_tempbeam pow B.1)],
              by simp [explode, hlog], Or.inr (Or.inl rfl), fun h => by simp at h⟩
          · exact ⟨[Event.explode (fire_storm_tempbeam pow B.1),
              Event.apply_beam_conducts B.1,
              Event.explode (E.refine_for_explosion B.1), Event.viewwindow],
              by simp [explode, game_state.emit, hlog], Or.inr (Or.inr rfl), fun _ => rfl⟩
/-- C15: the explosion `cast_miasma_breath` runs before its cancellation check
is no tracer. For a target within range on a cell that is not solid, the first
call it makes explodes the copy of the beam with `is_tracer` off, on the state
as it was; when that explosion reports a cancellation the call returns abort
with the explosion already applied, and otherwise it explodes the beam a
second time and returns success. -/
theorem cast_miasma_breath_explodes_before_check (E : Ext) (pow : Int) (beam : bolt)
    (s : game_state) (hr : grid_distance beam.target beam.source ≤ beam.range)
    (hs : E.cell_is_solid s beam.target = false) :
    (miasma_breath_tempbeam (setup_miasma_breath actor_ref.player pow beam s)).is_tracer = false
    ∧ (∃ l, (cast_miasma_breath E pow beam s).2.2.log
        = s.log ++ Event.explode
            (miasma_breath_tempbeam (setup_miasma_breath actor_ref.player pow beam s)) :: l)
    ∧ ((E.explode (miasma_breath_tempbeam (setup_miasma_breath actor_ref.player pow beam s))
          s).1.beam_cancelled = true →
        (cast_miasma_breath E pow beam s).1 = spret.abort
        ∧ (cast_miasma_breath E pow beam s).2.2
          = (explode E (miasma_breath_tempbeam
              (setup_miasma_breath actor_ref.player pow beam s)) s).2)
    ∧ ((E.explode (miasma_breath_tempbeam (setup_miasma_breath actor_ref.player pow beam s))
          s).1.beam_cancelled = false →
        (cast_miasma_breath E pow beam s).1 = spret.success
        ∧ ((exploded (cast_miasma_breath E pow beam s).2.2.log).drop
            (exploded s.log).length).map (fun b => b.is_tracer)
          = [false, (E.refine_for_explosion
              (setup_miasma_breath actor_ref.player pow beam s)).is_tracer]) := by
  have hr' : ¬ beam.range < grid_distance beam.target beam.source := not_lt.mpr hr
  refine ⟨rfl, ?_, ?_, ?_⟩
  · unfold cast_miasma_breath
    simp only [hr', if_false, hs, Bool.false_eq_true]
    split
    · exact ⟨[], rfl⟩
    · exact ⟨[Event.apply_beam_conducts (setup_miasma_breath actor_ref.player pow beam s),
          Event.explode (E.refine_for_explosion
            (setup_miasma_breath actor_ref.player pow beam s)), Event.viewwindow],
        by simp [explode, game_state.emit]⟩
  · intro hc
    have hc' : (explode E (miasma_breath_tempbeam
        (setup_miasma_breath actor_ref.player pow beam s)) s).1.beam_cancelled = true := hc
    unfold cast_miasma_breath
    simp only [hr', if_false, hs, Bool.false_eq_true, hc', if_true, and_self]
  · intro hc
    have hc' : (explode E (miasma_breath_tempbeam
        (setup_miasma_breath actor_ref.player pow beam s)) s).1.beam_cancelled = false := hc
    unfold cast_miasma_breath
    simp only [hr', if_false, hs, Bool.false_eq_true, hc', true_and]
    simp [explode, game_state.emit, exploded_append, exploded]
    rfl

theorem cast_miasma_breath_explodes_before_check_witness :
    grid_distance storm_beam.target storm_beam.source ≤ storm_beam.range
    ∧ ext_cancelling.cell_is_solid st_breath storm_beam.target = false
    ∧ (st_breath.mon 0).hit_points = 10
    ∧ ((cast_miasma_breath ext_cancelling 20 storm_beam st_breath).2.2.mon 0).hit_points = 9
    ∧ (cast_miasma_breath ext_cancelling 20 storm_beam st_breath).1 = spret.abort :=
  ⟨by decide, rfl, by decide, by decide,
    ((cast_miasma_breath_explodes_before_check ext_cancelling 20 storm_beam st_breath
      (by decide) rfl).2.2.1 rfl).1⟩

/-! ### Shatter: walls and the confirmation prompt -/

theorem x_chance_15_in_100 (d : Nat) (r : List Nat) :
    (x_chance_in_y 15 100 (d :: r)).1 = decide ((d : Int) % 100 < 15) := by
  simp [x_chance_in_y, random2]

/-- C13: for an in-bounds metal wall without a shatter veto, whatever the
power and the agent, `_shatter_walls` returns 1 and destroys the wall when its
`x_chance_in_y(15, 100)` test succeeds: the calls it makes are exactly the
noise and then `destroy_wall` on the cell, and the map it leaves is the one
`destroy_wall` produces.  When the test fails it returns 0 with no call at
all and the map as it was.  The result is the same at every power, and the
test succeeds for exactly 15 of the 100 values of `random2(100)`. -/
theorem shatter_walls_metal_wall (E : Ext) (pos : coord_def) (pow : Int)
    (agent : actor_ref) (s : game_state)
    (hin : E.in_bounds pos = true) (hv : E.veto_shatter s pos = false)
    (hg : s.grd pos = dungeon_feature_type.DNGN_METAL_WALL)
    (ht : E.feat_is_tree dungeon_feature_type.DNGN_METAL_WALL = false) :
    (_shatter_walls E pos pow agent s).1 = (if (s.x_chance_in_y 15 100).1 then 1 else 0)
    ∧ ((s.x_chance_in_y 15 100).1 = true →
        (_shatter_walls E pos pow agent s).2
          = destroy_wall E pos
              ((s.x_chance_in_y 15 100).2.emit (Event.noisy spell_type.SPELL_SHATTER pos)))
    ∧ ((s.x_chance_in_y 15 100).1 = false →
        (_shatter_walls E pos pow agent s).2 = (s.x_chance_in_y 15 100).2)
    ∧ _shatter_walls E pos pow agent s = _shatter_walls E pos 0 agent s
    ∧ (∀ (d : Nat) (r : List Nat),
        (x_chance_in_y 15 100 (d :: r)).1 = decide ((d : Int) % 100 < 15))
    ∧ ((List.range 100).filter (fun d => (x_chance_in_y 15 100 [d]).1)).length = 15
    ∧ ((s.x_chance_in_y 15 100).1 = true →
        (_shatter_walls E pos pow agent s).2.log
          = s.log ++ [Event.noisy spell_type.SPELL_SHATTER pos, Event.destroy_wall pos]
        ∧ (_shatter_walls E pos pow agent s).2.grd
          = (E.destroy_wall pos
              (((s.x_chance_in_y 15 100).2.emit
                (Event.noisy spell_type.SPELL_SHATTER pos)).emit
                  (Event.destroy_wall pos))).grd)
    ∧ ((s.x_chance_in_y 15 100).1 = false →
        (_shatter_walls E pos pow agent s).2.log = s.log
        ∧ (_shatter_walls E pos pow agent s).2.grd = s.grd) := by
  have hrun : _shatter_walls E pos pow agent s
      = (if (s.x_chance_in_y 15 100).1 = true
          then (1, destroy_wall E pos
            ((s.x_chance_in_y 15 100).2.emit (Event.noisy spell_type.SPELL_SHATTER pos)))
          else (0, (s.x_chance_in_y 15 100).2)) := by
    unfold _shatter_walls
    simp only [hin, hv, hg, shatter_wall_chance, ht, Bool.not_true, Bool.false_eq_true,
      if_false, Bool.and_false]
  have hxl : (s.x_chance_in_y 15 100).2.log = s.log := rfl
  have hxg : (s.x_chance_in_y 15 100).2.grd = s.grd := rfl
  refine ⟨?_, ?_, ?_, rfl, x_chance_15_in_100, by decide, ?_, ?_⟩
  · rw [hrun]
    split <;> rfl
  · intro h
    rw [hrun, if_pos h]
  · intro h
    rw [hrun, if_neg (by simp [h])]
  · intro h
    rw [hrun, if_pos h]
    refine ⟨?_, rfl⟩
    show ((s.x_chance_in_y 15 100).2.log ++ [Event.noisy spell_type.SPELL_SHATTER pos])
      ++ [Event.destroy_wall pos] = _
    rw [hxl, List.append_assoc]
    rfl
  · intro h
    rw [hrun, if_neg (by simp [h])]
    exact ⟨hxl, hxg⟩

theorem shatter_walls_metal_wall_witness :
    ext_plain.in_bounds ⟨1, 0⟩ = true ∧ ext_plain.veto_shatter (st_metal [7]) ⟨1, 0⟩ = false
    ∧ (st_metal [7]).grd ⟨1, 0⟩ = dungeon_feature_type.DNGN_METAL_WALL
    ∧ ext_plain.feat_is_tree dungeon_feature_type.DNGN_METAL_WALL = false
    ∧ (_shatter_walls ext_plain ⟨1, 0⟩ 50 actor_ref.player (st_metal [7])).1 = 1
    ∧ (_shatter_walls ext_plain ⟨1, 0⟩ 50 actor_ref.player (st_metal [7])).2.log
        = (st_metal [7]).log
          ++ [Event.noisy spell_type.SPELL_SHATTER ⟨1, 0⟩, Event.destroy_wall ⟨1, 0⟩]
    ∧ (_shatter_walls ext_plain ⟨1, 0⟩ 50 actor_ref.player (st_metal [7])).2.grd ⟨1, 0⟩
        = dungeon_feature_type.DNGN_FLOOR
    ∧ (_shatter_walls ext_plain ⟨1, 0⟩ 50 actor_ref.player (st_metal [20])).2.log = []
    ∧ (_shatter_walls ext_plain ⟨1, 0⟩ 50 actor_ref.player (st_metal [20])).2.grd ⟨1, 0⟩
        = dungeon_feature_type.DNGN_METAL_WALL :=
  ⟨rfl, rfl, by decide, by decide,
    (shatter_walls_metal_wall ext_plain ⟨1, 0⟩ 50 actor_ref.player (st_metal [7])
      rfl rfl (by decide) (by decide)).1.trans (by decide),
    ((shatter_walls_metal_wall ext_plain ⟨1, 0⟩ 50 actor_ref.player (st_metal [7])
      rfl rfl (by decide) (by decide)).2.2.2.2.2.2.1 (by decide)).1,
    by decide, by decide, by decide⟩

theorem roll_dice_loop_max (size : Int) (hs : 2 ≤ size) :
    ∀ (n : Nat) (acc : Int) (rest : List Nat),
      roll_dice_loop n size acc (List.replicate n (size.toNat - 1) ++ rest)
        = (acc + n * size, rest) := by
  intro n
  induction n with
  | zero =>
    intro acc rest
    simp [roll_dice_loop]
  | succ n ih =>
    intro acc rest
    have h1 : ¬ size ≤ 1 := by omega
    have h2 : ((size.toNat - 1 : Nat) : Int) % size = size - 1 := by
      have : ((size.toNat - 1 : Nat) : Int) = size - 1 := by omega
      rw [this]
      exact Int.emod_eq_of_lt (by omega) (by omega)
    rw [List.replicate_succ, List.cons_append]
    simp only [roll_dice_loop, random2, h1, if_false, h2]
    rw [ih]
    congr 1
    push_cast
    ring

theorem mon_set_mon_self (s : game_state) (i : Nat) (m : monster) (h : i < s.mons.length) :
    (s.set_mon i m).mon i = m := by
  simp [game_state.mon, game_state.set_mon, h]

theorem lt_length_of_alive (s : game_state) (i : Nat) (h : (s.mon i).alive = true) :
    i < s.mons.length := by
  by_contra hlt
  have hd : s.mon i = default := by
    simp [game_state.mon, List.getD_eq_getElem?_getD,
      List.getElem?_eq_none (Nat.le_of_not_lt hlt)]
  rw [hd] at h
  exact absurd h (by decide)

theorem monster_hurt_hit_points (i : Nat) (amount : Int) (cleanup_dead : Bool)
    (s : game_state) (h : (s.mon i).alive = true) :
    ((monster_hurt i amount cleanup_dead s).mon i).hit_points
      = (s.mon i).hit_points - amount := by
  have hlt := lt_length_of_alive s i h
  have h1 : ((s.emit (Event.hurt i amount)).mon i).alive = true := h
  unfold monster_hurt
  simp only [h1, if_true]
  have h2 : (((s.emit (Event.hurt i amount)).set_mon i
      { (s.emit (Event.hurt i amount)).mon i with
        hit_points := ((s.emit (Event.hurt i amount)).mon i).hit_points - amount }).mon i)
      = { s.mon i with hit_points := (s.mon i).hit_points - amount } :=
    mon_set_mon_self _ i _ hlt
  split
  · show ((((s.emit (Event.hurt i amount)).set_mon i _).mon i)).hit_points = _
    rw [h2]
  · rw [h2]

theorem player_hurt_monster_hit_points (E : Ext) (mon : Nat) (damage : Int)
    (flavour : beam_type) (god_conducts : Bool) (s : game_state)
    (hal : (s.mon mon).alive = true)
    (hguard : (god_conducts
      && E.god_protects (player_hurt_sanctuary E mon s) (some actor_ref.player) (some mon))
      = false) :
    ((_player_hurt_monster E mon damage flavour god_conducts s).mon mon).hit_points
      = (s.mon mon).hit_points - damage := by
  have hsan : (player_hurt_sanctuary E mon s).mons = s.mons := by
    unfold player_hurt_sanctuary
    split <;> rfl
  unfold _player_hurt_monster
  simp only [hguard, Bool.false_eq_true, if_false]
  generalize hs2 : (if god_conducts = true
      then set_attack_conducts mon (player_hurt_sanctuary E mon s)
      else player_hurt_sanctuary E mon s) = s2
  have h2 : s2.mons = s.mons := by
    subst hs2
    split
    · exact hsan
    · exact hsan
  have hm2 : s2.mon mon = s.mon mon := by
    simp only [game_state.mon, h2]
  have hs3 : ((if damage ≠ 0 then
        monster_hurt mon damage true
          (s2.emit (Event.majin_bo_vampirism mon (min damage (s2.mon mon).hit_points)))
      else s2).mon mon).hit_points = (s.mon mon).hit_points - damage := by
    by_cases hd : damage = 0
    · simp [hd, hm2]
    · simp only [ne_eq, hd, not_false_eq_true, if_true]
      rw [monster_hurt_hit_points mon damage true _ (by
        show (s2.mon mon).alive = true
        rw [hm2]
        exact hal)]
      show (s2.mon mon).hit_points - damage = _
      rw [hm2]
  generalize (if damage ≠ 0 then
        monster_hurt mon damage true
          (s2.emit (Event.majin_bo_vampirism mon (min damage (s2.mon mon).hit_points)))
      else s2) = s3 at hs3 ⊢
  split
  · split
    · exact hs3
    · exact hs3
  · split
    · exact hs3
    · exact hs3
theorem shatter_mon_dice_pos (mon : Option monster) : 1 ≤ _shatter_mon_dice mon := by
  unfold _shatter_mon_dice
  split
  · decide
  · split_ifs <;> decide

theorem shatter_max_roll (pow : Int) (m : monster) (s : game_state) (r : List Nat)
    (hp : 0 ≤ pow) :
    ({ s with rng := max_rolls (shatter_damage pow (some m)) ++ r } : game_state).roll
        (shatter_damage pow (some m))
      = ((shatter_damage pow (some m)).num * (shatter_damage pow (some m)).size,
          { s with rng := 0 :: r }) := by
  have hn := shatter_mon_dice_pos (some m)
  have hsz : 2 ≤ 5 + Int.tdiv pow 3 := by
    have := Int.tdiv_nonneg hp (by decide : (0 : Int) ≤ 3)
    omega
  have hnum : (shatter_damage pow (some m)).num = _shatter_mon_dice (some m) := rfl
  have hsize : (shatter_damage pow (some m)).size = 5 + Int.tdiv pow 3 := rfl
  have hpos : 0 < (shatter_damage pow (some m)).num ∧ 0 < (shatter_damage pow (some m)).size := by
    rw [hnum, hsize]
    constructor <;> omega
  have hloop := roll_dice_loop_max (shatter_damage pow (some m)).size (by rw [hsize]; exact hsz)
    (shatter_damage pow (some m)).num.toNat 0 (0 :: r)
  have hcast : (((shatter_damage pow (some m)).num.toNat : Nat) : Int)
      = (shatter_damage pow (some m)).num := Int.toNat_of_nonneg (by omega)
  rw [hcast, zero_add] at hloop
  simp only [game_state.roll, dice_def.roll, roll_dice, hpos, and_self, if_true, max_rolls,
    List.append_assoc, List.singleton_append, hloop]

/-- C11: for every power `pow >= 0` and every live monster standing on its
cell, the predicate `vulnerable` that `cast_shatter` hands to its confirmation
prompt holds for the monster if and only if `_shatter_monsters` on the
monster's cell for the player, with every die at its highest face and an
armour roll of zero, takes hit points from the monster; it then takes the
number of dice times their size. The god's protection is taken to depend on
the player and the monsters only. -/
theorem shatter_vulnerable_iff_harmed (E : Ext) (pow : Int) (mi : Nat) (s : game_state)
    (r : List Nat) (hp : 0 ≤ pow) (halive : (s.mon mi).alive = true)
    (hat : s.monster_at (s.mon mi).pos = some mi)
    (hg : ∀ s1 s2 : game_state, s2.you = s1.you → s2.mons = s1.mons →
      E.god_protects s2 (some actor_ref.player) (some mi)
        = E.god_protects s1 (some actor_ref.player) (some mi)) :
    (shatter_vulnerable E s (actor_ref.mons mi) = true ↔
      ((_shatter_monsters E (s.mon mi).pos pow actor_ref.player
          { s with rng := max_rolls (shatter_damage pow (some (s.mon mi))) ++ r }).2.mon
            mi).hit_points < (s.mon mi).hit_points)
    ∧ (shatter_vulnerable E s (actor_ref.mons mi) = true →
      ((_shatter_monsters E (s.mon mi).pos pow actor_ref.player
          { s with rng := max_rolls (shatter_damage pow (some (s.mon mi))) ++ r }).2.mon
            mi).hit_points
        = (s.mon mi).hit_points
          - (shatter_damage pow (some (s.mon mi))).num
            * (shatter_damage pow (some (s.mon mi))).size) := by
  have hn := shatter_mon_dice_pos (some (s.mon mi))
  have hsz : 2 ≤ 5 + Int.tdiv pow 3 := by
    have := Int.tdiv_nonneg hp (by decide : (0 : Int) ≤ 3)
    omega
  have hnum : (shatter_damage pow (some (s.mon mi))).num = _shatter_mon_dice (some (s.mon mi)) :=
    rfl
  have hsize : (shatter_damage pow (some (s.mon mi))).size = 5 + Int.tdiv pow 3 := rfl
  have hdmg : 0 < (shatter_damage pow (some (s.mon mi))).num
      * (shatter_damage pow (some (s.mon mi))).size := by
    rw [hnum, hsize]
    exact Int.mul_pos (by omega) (by omega)
  have hvul : shatter_vulnerable E s (actor_ref.mons mi)
      = !E.god_protects s (some actor_ref.player) (some mi) := by
    have hd : (_shatter_mon_dice (some (s.mon mi)) != 0) = true := by
      simp only [bne_iff_ne, ne_eq]
      omega
    simp only [shatter_vulnerable, _shatterable, hd, Bool.and_true]
  have harm : ∀ a : Int, (random2 a (0 :: r)).1 = 0 := by
    intro a
    unfold random2
    split <;> simp
  -- the run with the highest dice
  have hrun : _shatter_monsters E (s.mon mi).pos pow actor_ref.player
      { s with rng := max_rolls (shatter_damage pow (some (s.mon mi))) ++ r }
      = ((shatter_damage pow (some (s.mon mi))).num * (shatter_damage pow (some (s.mon mi))).size,
          _player_hurt_monster E mi
            ((shatter_damage pow (some (s.mon mi))).num
              * (shatter_damage pow (some (s.mon mi))).size)
            beam_type.BEAM_MMISSILE true
            { s with rng := (random2 (s.mon mi).armour_class (0 :: r)).2 }) := by
    have hat' : ({ s with rng := max_rolls (shatter_damage pow (some (s.mon mi))) ++ r }
        : game_state).monster_at (s.mon mi).pos = some mi := hat
    have hmon : ({ s with rng := max_rolls (shatter_damage pow (some (s.mon mi))) ++ r }
        : game_state).mon mi = s.mon mi := rfl
    unfold _shatter_monsters
    simp only [hat', hmon, halive, shatter_max_roll pow (s.mon mi) s r hp]
    simp only [game_state.random2, harm, sub_zero, max_eq_right (le_of_lt hdmg)]
    simp [actor_ref.is_player]
  rw [hrun, hvul]
  dsimp only
  generalize hs0 : ({ s with rng := (random2 (s.mon mi).armour_class (0 :: r)).2 } : game_state)
    = s0
  have hm0 : s0.mon mi = s.mon mi := by
    subst hs0
    rfl
  have hgp : E.god_protects (player_hurt_sanctuary E mi s0) (some actor_ref.player) (some mi)
      = E.god_protects s (some actor_ref.player) (some mi) := by
    apply hg
    · subst hs0
      unfold player_hurt_sanctuary
      split <;> rfl
    · subst hs0
      unfold player_hurt_sanctuary
      split <;> rfl
  cases hprot : E.god_protects s (some actor_ref.player) (some mi) with
  | false =>
    have hhp := player_hurt_monster_hit_points E mi
      ((shatter_damage pow (some (s.mon mi))).num * (shatter_damage pow (some (s.mon mi))).size)
      beam_type.BEAM_MMISSILE true s0 (by rw [hm0]; exact halive)
      (by rw [hgp, hprot]; rfl)
    rw [hhp, hm0]
    refine ⟨⟨fun _ => by omega, fun _ => rfl⟩, fun _ => rfl⟩
  | true =>
    have hsame : (_player_hurt_monster E mi
        ((shatter_damage pow (some (s.mon mi))).num
          * (shatter_damage pow (some (s.mon mi))).size)
        beam_type.BEAM_MMISSILE true s0) = player_hurt_sanctuary E mi s0 := by
      unfold _player_hurt_monster
      simp only [hgp, hprot, Bool.and_self, if_true]
    have hmm : (player_hurt_sanctuary E mi s0).mon mi = s.mon mi := by
      rw [← hm0]
      unfold player_hurt_sanctuary
      split <;> rfl
    rw [hsame, hmm]
    refine ⟨⟨fun h => by simp at h, fun h => absurd h (lt_irrefl _)⟩, fun h => by simp at h⟩

theorem shatter_vulnerable_iff_harmed_witness :
    (0 : Int) ≤ 20 ∧ (st_chain.mon 0).alive = true
    ∧ st_chain.monster_at (st_chain.mon 0).pos = some 0
    ∧ shatter_vulnerable ext_plain st_chain (actor_ref.mons 0) = true
    ∧ ((_shatter_monsters ext_plain (st_chain.mon 0).pos 20 actor_ref.player
          { st_chain with
            rng := max_rolls (shatter_damage 20 (some (st_chain.mon 0))) ++ [] }).2.mon
            0).hit_points < (st_chain.mon 0).hit_points :=
  ⟨by decide, by decide, by decide, by decide,
    (shatter_vulnerable_iff_harmed ext_plain 20 0 st_chain [] (by decide) (by decide)
      (by decide) (fun _ _ _ _ => rfl)).1.mp (by decide)⟩

/-! ### The tallies of a line-of-sight cast -/

theorem los_tally_step_keeps (agent : Option actor_ref) (actual : Bool)
    (aligned : Nat → Bool) (level dmg avg : Int) (beam : bolt)
    (h : agent.bind actor_ref.as_monster = none ∨ actual = true) :
    los_tally_step agent actual aligned level dmg avg beam = Except.ok beam := by
  unfold los_tally_step
  rcases h with h | h
  · rw [h]
  · subst h
    cases agent.bind actor_ref.as_monster <;> rfl

theorem los_spell_damage_monster_beam (E : Ext) (agent : Option actor_ref) (m : Nat)
    (beam : bolt) (actual : Bool) (s : game_state) :
    (_los_spell_damage_monster E agent m beam actual s).2.1
      = { beam with thrower := los_thrower agent } := by
  unfold _los_spell_damage_monster
  simp only [apply_ite Prod.snd, apply_ite Prod.fst, ite_self]

theorem los_monsters_loop_keeps_tallies (E : Ext) (agent : Option actor_ref)
    (actual : Bool) (avg : Int)
    (h : agent.bind actor_ref.as_monster = none ∨ actual = true) :
    ∀ (l : List Nat) (beam : bolt) (total : Int) (s : game_state)
      (r : bolt × Int × game_state),
      los_monsters_loop E agent actual avg l beam total s = Except.ok r →
      r.1.friend_info = beam.friend_info ∧ r.1.foe_info = beam.foe_info
        ∧ r.1.damage = beam.damage := by
  intro l
  induction l with
  | nil =>
    intro beam total s r hr
    simp only [los_monsters_loop, Except.ok.injEq] at hr
    rw [← hr]
    exact ⟨rfl, rfl, rfl⟩
  | cons m rest ih =>
    intro beam total s r hr
    simp only [los_monsters_loop] at hr
    split at hr
    · exact ih beam total s r hr
    · rw [los_tally_step_keeps agent actual _ _ _ _ _ h] at hr
      have h1 := ih _ _ _ r hr
      rw [los_spell_damage_monster_beam] at h1
      exact h1

theorem los_player_phase_keeps_tallies (E : Ext) (spell : spell_type)
    (agent : Option actor_ref) (actual : Bool) (beam0 : bolt) (s : game_state)
    (h : agent.bind actor_ref.as_monster = none ∨ actual = true)
    (p : bolt × Int × game_state)
    (hp : los_player_phase E spell agent actual beam0 s = Except.ok p) :
    p.1 = beam0 := by
  unfold los_player_phase at hp
  dsimp only at hp
  split at hp
  · rw [los_tally_step_keeps agent actual _ _ _ _ _ h] at hp
    simp only [Except.ok.injEq] at hp
    rw [← hp]
  · simp only [Except.ok.injEq] at hp
    rw [← hp]

theorem los_damage_phase_keeps_tallies (E : Ext) (spell : spell_type)
    (agent : Option actor_ref) (actual : Bool) (beam0 : bolt) (s : game_state)
    (h : agent.bind actor_ref.as_monster = none ∨ actual = true)
    (q : bolt × Int × game_state)
    (hq : los_damage_phase E spell agent actual beam0 s = Except.ok q) :
    q.1.friend_info = beam0.friend_info ∧ q.1.foe_info = beam0.foe_info := by
  unfold los_damage_phase at hq
  dsimp only at hq
  cases hp : los_player_phase E spell agent actual beam0 s with
  | error e =>
    rw [hp] at hq
    cases hq
  | ok p =>
    rw [hp] at hq
    dsimp only at hq
    have h1 := los_monsters_loop_keeps_tallies E agent actual _ h _ _ _ _ q hq
    rw [los_player_phase_keeps_tallies E spell agent actual beam0 s h p hp] at h1
    exact ⟨h1.1, h1.2.1⟩

/-! ### Damage of a line-of-sight cast by the player -/

theorem roll_dice_loop_ge (size : Int) :
    ∀ (n : Nat) (acc : Int) (r : List Nat), acc + n ≤ (roll_dice_loop n size acc r).1 := by
  intro n
  induction n with
  | zero =>
    intro acc r
    simp [roll_dice_loop]
  | succ n ih =>
    intro acc r
    simp only [roll_dice_loop]
    have h1 := ih (acc + (random2 size r).1 + 1) (random2 size r).2
    have h2 := random2_nonneg size r
    push_cast
    omega

theorem roll_dice_ge (num size : Int) (r : List Nat) (hn : 0 < num) (hs : 0 < size) :
    num ≤ (roll_dice num size r).1 := by
  unfold roll_dice
  rw [if_pos ⟨hn, hs⟩]
  have h := roll_dice_loop_ge size num.toNat 0 r
  have h2 : ((num.toNat : Nat) : Int) = num := Int.toNat_of_nonneg (le_of_lt hn)
  omega

theorem mon_set_mon_other (s : game_state) (i j : Nat) (m : monster) (h : j ≠ i) :
    (s.set_mon i m).mon j = s.mon j := by
  simp [game_state.mon, game_state.set_mon, List.getD_eq_getElem?_getD,
    List.getElem?_set_ne (Ne.symm h)]

theorem same_hp_refl (s : game_state) : same_hp s s := fun _ => rfl

theorem same_hp_trans {a b c : game_state} (h1 : same_hp a b) (h2 : same_hp b c) :
    same_hp a c := fun j => (h2 j).trans (h1 j)

theorem same_hp_of_mons {a b : game_state} (h : b.mons = a.mons) : same_hp a b := by
  intro j
  simp only [game_state.mon, h]

theorem monster_hurt_other (i : Nat) (amount : Int) (c : Bool) (s : game_state) (j : Nat)
    (h : j ≠ i) : (monster_hurt i amount c s).mon j = s.mon j := by
  unfold monster_hurt
  dsimp only
  generalize hs2 : (if ((s.emit (Event.hurt i amount)).mon i).alive = true
      then (s.emit (Event.hurt i amount)).set_mon i
        { (s.emit (Event.hurt i amount)).mon i with
          hit_points := ((s.emit (Event.hurt i amount)).mon i).hit_points - amount }
      else s.emit (Event.hurt i amount)) = s2
  have h2 : s2.mon j = s.mon j := by
    subst hs2
    split
    · rw [mon_set_mon_other _ _ _ _ h]
      rfl
    · rfl
  split
  · exact h2
  · exact h2

theorem player_hurt_monster_other (E : Ext) (mon : Nat) (damage : Int)
    (flavour : beam_type) (god_conducts : Bool) (s : game_state) (j : Nat) (h : j ≠ mon) :
    (_player_hurt_monster E mon damage flavour god_conducts s).mon j = s.mon j := by
  have hsan : (player_hurt_sanctuary E mon s).mons = s.mons := by
    unfold player_hurt_sanctuary
    split <;> rfl
  have hsj : (player_hurt_sanctuary E mon s).mon j = s.mon j := by
    simp only [game_state.mon, hsan]
  unfold _player_hurt_monster
  dsimp only
  split
  · exact hsj
  · generalize hs2 : (if god_conducts = true
        then set_attack_conducts mon (player_hurt_sanctuary E mon s)
        else player_hurt_sanctuary E mon s) = s2
    have h2 : s2.mon j = s.mon j := by
      subst hs2
      split
      · exact hsj
      · exact hsj
    generalize hs3 : (if damage ≠ 0 then
        monster_hurt mon damage true
          (s2.emit (Event.majin_bo_vampirism mon (min damage (s2.mon mon).hit_points)))
        else s2) = s3
    have h3 : s3.mon j = s.mon j := by
      subst hs3
      split
      · rw [monster_hurt_other _ _ _ _ _ h]
        exact h2
      · exact h2
    have he : ∀ (x : game_state) (e : Event), (x.emit e).mon j = x.mon j := fun _ _ => rfl
    have hd : ∀ x : game_state, (monster_die mon x).mon j = x.mon j := fun _ => rfl
    repeat' split
    all_goals simp only [he, hd, h3]
theorem mons_adjust_flavoured_same_hp (E : Ext) (t : Nat) (beam : bolt) (h : Int)
    (f : Bool) (s : game_state)
    (hfx : ∀ (t : Nat) (b : bolt) (h : Int) (s' : game_state),
      same_hp s' (E.mons_flavoured_effects t b h s')) :
    same_hp s (mons_adjust_flavoured E t beam h f s).2 := by
  unfold mons_adjust_flavoured
  dsimp only
  split
  · intro j
    exact hfx t beam h (s.emit (Event.mons_adjust_flavoured t h f)) j
  · exact same_hp_refl s

theorem los_monster_apply_hp (E : Ext) (k : Nat) (beam1 : bolt) (hurted : Int)
    (s : game_state) (hk : YOU_KILL beam1.thrower = true) (hal : (s.mon k).alive = true) :
    ((los_monster_apply E k beam1 hurted s).mon k).hit_points
        = (s.mon k).hit_points - hurted
    ∧ ∀ j, j ≠ k →
        ((los_monster_apply E k beam1 hurted s).mon j).hit_points = (s.mon j).hit_points := by
  have h1 := player_hurt_monster_hit_points E k hurted beam1.flavour false s hal rfl
  have h2 := fun j (hj : j ≠ k) =>
    player_hurt_monster_other E k hurted beam1.flavour false s j hj
  unfold los_monster_apply
  simp only [hk, if_true]
  split
  · refine ⟨?_, fun j hj => ?_⟩
    · rw [(hp_untouched_mon_expose E k beam1.flavour 5 _).1 k, h1]
    · rw [(hp_untouched_mon_expose E k beam1.flavour 5 _).1 j, h2 j hj]
  · exact ⟨h1, fun j hj => by rw [h2 j hj]⟩

theorem los_monster_step_hp (E : Ext) (k : Nat) (beam : bolt) (s : game_state)
    (hal : (s.mon k).alive = true)
    (hres : ∀ (s' : game_state) (b : bolt) (h : Int), E.mons_resists s' k b h = h)
    (hfx : ∀ (t : Nat) (b : bolt) (h : Int) (s' : game_state),
      same_hp s' (E.mons_flavoured_effects t b h s')) :
    ((_los_spell_damage_monster E (some actor_ref.player) k beam true s).2.2.mon k).hit_points
        = (s.mon k).hit_points - (beam.damage.roll s.rng).1
    ∧ ∀ j, j ≠ k →
        ((_los_spell_damage_monster E (some actor_ref.player) k beam true s).2.2.mon
          j).hit_points = (s.mon j).hit_points := by
  have hyk : YOU_KILL killer_type.KILL_YOU = true := rfl
  unfold _los_spell_damage_monster
  simp only [los_thrower, hyk, if_true, apply_ite Prod.snd, ite_self]
  generalize hflag : (true && beam.origin_spell != spell_type.SPELL_DRAIN_LIFE) = flag
  generalize hb1 : ({ beam with thrower := killer_type.KILL_YOU } : bolt) = beam1
  have hk : YOU_KILL beam1.thrower = true := by
    rw [← hb1]
    rfl
  generalize hs1 : ((set_attack_conducts k s).roll beam.damage) = base
  have hb : base.1 = (beam.damage.roll s.rng).1 := by
    rw [← hs1]
    rfl
  have hbs : same_hp s base.2 := by
    rw [← hs1]
    exact fun _ => rfl
  have hadj1 : (mons_adjust_flavoured E k beam1 base.1 flag base.2).1 = base.1 := by
    unfold mons_adjust_flavoured
    exact hres _ _ _
  have hadj2 : same_hp s (mons_adjust_flavoured E k beam1 base.1 flag base.2).2 :=
    same_hp_trans hbs (mons_adjust_flavoured_same_hp E k beam1 base.1 flag base.2 hfx)
  generalize mons_adjust_flavoured E k beam1 base.1 flag base.2 = adj at hadj1 hadj2
  have hal2 : (adj.2.mon k).alive = true := by
    unfold monster.alive at hal ⊢
    rw [hadj2 k]
    exact hal
  have hap := los_monster_apply_hp E k beam1 adj.1 adj.2 hk hal2
  refine ⟨?_, fun j hj => ?_⟩
  · rw [hap.1, hadj2 k, hadj1, hb]
  · rw [hap.2 j hj, hadj2 j]

theorem los_monsters_loop_damage (E : Ext) (avg : Int)
    (hfx : ∀ (t : Nat) (b : bolt) (h : Int) (s' : game_state),
      same_hp s' (E.mons_flavoured_effects t b h s')) (l : List Nat) :
    ∀ (beam : bolt) (total : Int) (s : game_state) (r : bolt × Int × game_state),
      (∀ m ∈ l, ∀ (s' : game_state) (b : bolt) (h : Int), E.mons_resists s' m b h = h) →
      0 < beam.damage.num → 0 < beam.damage.size →
      los_monsters_loop E (some actor_ref.player) true avg l beam total s = Except.ok r →
      (∀ j, (r.2.2.mon j).hit_points ≤ (s.mon j).hit_points)
      ∧ ∀ m ∈ l, (s.mon m).alive = true →
          (r.2.2.mon m).hit_points ≤ (s.mon m).hit_points - beam.damage.num := by
  induction l with
  | nil =>
    intro beam total s r _ _ _ hr
    simp only [los_monsters_loop, Except.ok.injEq] at hr
    rw [← hr]
    exact ⟨fun _ => le_refl _, fun m hm => by simp at hm⟩
  | cons k rest ih =>
    intro beam total s r hres hn hsz hr
    have hres1 : ∀ m ∈ rest, ∀ (s' : game_state) (b : bolt) (h : Int),
        E.mons_resists s' m b h = h := fun m hm => hres m (List.mem_cons_of_mem _ hm)
    simp only [los_monsters_loop] at hr
    split at hr
    · rename_i hdead
      have h1 := ih beam total s r hres1 hn hsz hr
      refine ⟨h1.1, fun m hm hal => ?_⟩
      rcases List.mem_cons.mp hm with hmk | hmr
      · rw [hmk, hdead] at hal
        cases hal
      · exact h1.2 m hmr hal
    · rename_i halive
      have hal : (s.mon k).alive = true := by simpa using halive
      rw [los_tally_step_keeps (some actor_ref.player) true _ _ _ _ _ (Or.inr rfl)] at hr
      have hbd : (_los_spell_damage_monster E (some actor_ref.player) k beam true s).2.1.damage
          = beam.damage := by rw [los_spell_damage_monster_beam]
      have h1 := ih _ _ _ r hres1 (by rw [hbd]; exact hn) (by rw [hbd]; exact hsz) hr
      rw [hbd] at h1
      have hstep := los_monster_step_hp E k beam s hal (hres k (List.mem_cons_self _ _)) hfx
      have hroll : beam.damage.num ≤ (beam.damage.roll s.rng).1 :=
        roll_dice_ge beam.damage.num beam.damage.size s.rng hn hsz
      have hle : ∀ j, ((_los_spell_damage_monster E (some actor_ref.player) k beam true
          s).2.2.mon j).hit_points ≤ (s.mon j).hit_points := by
        intro j
        by_cases hj : j = k
        · rw [hj, hstep.1]
          omega
        · rw [hstep.2 j hj]
      refine ⟨fun j => le_trans (h1.1 j) (hle j), fun m hm hal1 => ?_⟩
      by_cases hmk : m = k
      · have := h1.1 k
        rw [hstep.1] at this
        rw [hmk]
        omega
      · have hmr : m ∈ rest := by
          rcases List.mem_cons.mp hm with h | h
          · exact absurd h hmk
          · exact h
        have hal2 : ((_los_spell_damage_monster E (some actor_ref.player) k beam true
            s).2.2.mon m).alive = true := by
          unfold monster.alive at hal1 ⊢
          rw [hstep.2 m hmk]
          exact hal1
        have := h1.2 m hmr hal2
        rw [hstep.2 m hmk] at this
        exact this

theorem los_player_apply_mons (E : Ext) (beam : bolt) (hurted : Int) (s : game_state) :
    (los_player_apply E (some actor_ref.player) beam hurted s).mons = s.mons := by
  unfold los_player_apply
  dsimp only
  split
  · unfold increase_duration you_expose_to_element
    dsimp only
    split <;> simp [game_state.emit, game_state.random2]
  · rfl

theorem los_spell_damage_player_same_hp (E : Ext) (beam : bolt) (s : game_state)
    (hfy : ∀ (h : Int) (f : beam_type) (s' : game_state),
      same_hp s' (E.your_resist_effects h f s')) :
    same_hp s (_los_spell_damage_player E (some actor_ref.player) beam true s).2 := by
  have hbase : same_hp s (s.roll beam.damage).2 := fun _ => rfl
  unfold _los_spell_damage_player
  simp only [if_true, true_and, Bool.true_and]
  generalize s.roll beam.damage = base at hbase
  have hb : same_hp base.2
      (check_your_resists E base.1 beam.flavour
        (beam.origin_spell != spell_type.SPELL_DRAIN_LIFE) base.2).2 := by
    unfold check_your_resists
    dsimp only
    split
    · intro j
      exact hfy _ _ _ j
    · exact same_hp_refl _
  generalize check_your_resists E base.1 beam.flavour
    (beam.origin_spell != spell_type.SPELL_DRAIN_LIFE) base.2 = adj at hb
  split
  · exact same_hp_trans hbase
      (same_hp_trans hb (same_hp_of_mons (los_player_apply_mons E beam adj.1 adj.2)))
  · exact same_hp_trans hbase hb

theorem los_announce_player (E : Ext) (spell : spell_type) (fail : Bool)
    (s s1 : game_state)
    (h : los_announce E spell (some actor_ref.player) true fail s = Except.ok (none, s1)) :
    s1 = (s.emit (Event.mpr "player_msg")).emit Event.flash_view_delay := by
  unfold los_announce at h
  simp only [Bool.true_eq_false, if_false] at h
  split at h
  · simp at h
  · split at h
    · simp at h
    · simp only [Except.ok.injEq, Prod.mk.injEq, true_and] at h
      exact h.symm

theorem fire_los_player_damage (E : Ext) (spell : spell_type) (pow : Int)
    (fail : Bool) (s s1 : game_state)
    (hz : E.spell_to_zap spell ≠ zap_type.NUM_ZAPS)
    (hs : is_los_attack_spell spell = true)
    (hann : los_announce E spell (some actor_ref.player) true fail s = Except.ok (none, s1))
    (hn : 0 < (los_beam E spell pow (some actor_ref.player) s).damage.num)
    (hsz : 0 < (los_beam E spell pow (some actor_ref.player) s).damage.size)
    (hres : ∀ m ∈ los_affected_monsters E spell (some actor_ref.player) s1,
      ∀ (s' : game_state) (b : bolt) (h : Int), E.mons_resists s' m b h = h)
    (hfx : ∀ (t : Nat) (b : bolt) (h : Int) (s' : game_state),
      same_hp s' (E.mons_flavoured_effects t b h s'))
    (hfy : ∀ (h : Int) (f : beam_type) (s' : game_state),
      same_hp s' (E.your_resist_effects h f s')) :
    ∃ d s', fire_los_attack_spell E spell pow (some actor_ref.player) fail s
        = Except.ok (spret.success, some d, s')
      ∧ (∀ j, (s'.mon j).hit_points ≤ (s.mon j).hit_points)
      ∧ ∀ m ∈ los_affected_monsters E spell (some actor_ref.player) s1,
          (s.mon m).alive = true →
          (s'.mon m).hit_points
            ≤ (s.mon m).hit_points
              - (los_beam E spell pow (some actor_ref.player) s).damage.num := by
  have hs1 := los_announce_player E spell fail s s1 hann
  have hs1m : same_hp s s1 := by
    rw [hs1]
    exact fun _ => rfl
  unfold fire_los_attack_spell _cast_los_attack_spell
  simp only [hz, if_false, hs, Bool.true_eq_false, hann]
  unfold los_resolve los_damage_phase
  dsimp only
  generalize hbeam : los_beam E spell pow (some actor_ref.player) s = beam0 at hn hsz
  obtain ⟨p, hp⟩ := los_player_phase_returns E spell (some actor_ref.player) true beam0 s1
    (Or.inr (Or.inl rfl))
  have hpb := los_player_phase_keeps_tallies E spell (some actor_ref.player) true beam0 s1
    (Or.inr rfl) p hp
  have hps : same_hp s1 p.2.2 := by
    unfold los_player_phase at hp
    dsimp only at hp
    split at hp
    · rw [los_tally_step_keeps (some actor_ref.player) true _ _ _ _ _ (Or.inr rfl)] at hp
      simp only [Except.ok.injEq] at hp
      rw [← hp]
      exact los_spell_damage_player_same_hp E beam0 s1 hfy
    · simp only [Except.ok.injEq] at hp
      rw [← hp]
      exact same_hp_refl s1
  rw [hp]
  dsimp only
  generalize hs2 : (if true = true ∧ los_affected_monsters E spell (some actor_ref.player) s1 ≠ []
      then p.2.2.emit (Event.mpr "pre_damage_monsters") else p.2.2) = s2
  have hs2m : same_hp s s2 := by
    rw [← hs2]
    split
    · exact same_hp_trans hs1m (same_hp_trans hps (fun _ => rfl))
    · exact same_hp_trans hs1m hps
  obtain ⟨q, hq⟩ := los_monsters_loop_returns E (some actor_ref.player) true
    (avg_dice beam0.damage) (Or.inr (Or.inl rfl))
    (los_affected_monsters E spell (some actor_ref.player) s1) p.1 p.2.1 s2
  have hd := los_monsters_loop_damage E (avg_dice beam0.damage) hfx
    (los_affected_monsters E spell (some actor_ref.player) s1) p.1 p.2.1 s2 q hres
    (by rw [hpb]; exact hn) (by rw [hpb]; exact hsz) hq
  rw [hpb] at hd
  rw [hq]
  refine ⟨q.2.1, q.2.2, rfl, fun j => ?_, fun m hm hal => ?_⟩
  · rw [← hs2m j]
    exact hd.1 j
  · have hal2 : (s2.mon m).alive = true := by
      unfold monster.alive at hal ⊢
      rw [hs2m m]
      exact hal
    have := hd.2 m hm hal2
    rw [hs2m m] at this
    exact this

/-- C12 fails as stated: Ozocubu's Refrigeration cast by the player at power
20 with two hostile monsters in view, neither resistant, succeeds and takes 9
and 7 of the 10 hit points of the two, yet the foe tally of the beam stays at
power 0. -/
theorem los_player_cast_foe_power_zero :
    los_cast_report ext_plain spell_type.SPELL_OZOCUBUS_REFRIGERATION 20
        (some actor_ref.player) false st_two_hostiles = some (spret.success, 21, [1, 3])
    ∧ (los_final_beam ext_plain spell_type.SPELL_OZOCUBUS_REFRIGERATION 20
        (some actor_ref.player) true false st_two_hostiles).map
        (fun b => decide (0 < b.foe_info.power)) = some false := by
  decide

/-- C12 (amended): in a cast by the player the line-of-sight engine leaves the
tallies of the beam as `zappy` set them, for friends and for foes, whatever
the targets: the tallies are updated only when a monster runs the tracer.
Every monster the cast affects takes non-zero damage when it has no relevant
resistance: if the cast gets past the prompt and the failure check, the dice
have a positive number and size, the mitigation step returns the damage it is
handed for the affected monsters, and the side effects of the mitigation steps
leave the hit points of monsters alone, then the cast succeeds, no monster
gains hit points, and each affected monster that was alive has lost at least
as many hit points as the beam has dice.  In the scenario, Ozocubu's
Refrigeration at power 20 with two hostile monsters in view, neither
resistant, the cast succeeds, both monsters lose hit points, and both tallies
have power 0. -/
theorem los_player_cast_tallies (E : Ext) (spell : spell_type) (pow : Int)
    (actual fail : Bool) (s : game_state) :
    (∀ b, los_final_beam E spell pow (some actor_ref.player) actual fail s = some b →
        b.friend_info = (los_beam E spell pow (some actor_ref.player) s).friend_info
        ∧ b.foe_info = (los_beam E spell pow (some actor_ref.player) s).foe_info)
    ∧ (∀ s1 : game_state,
        E.spell_to_zap spell ≠ zap_type.NUM_ZAPS →
        is_los_attack_spell spell = true →
        los_announce E spell (some actor_ref.player) true fail s = Except.ok (none, s1) →
        0 < (los_beam E spell pow (some actor_ref.player) s).damage.num →
        0 < (los_beam E spell pow (some actor_ref.player) s).damage.size →
        (∀ m ∈ los_affected_monsters E spell (some actor_ref.player) s1,
          ∀ (s' : game_state) (b : bolt) (h : Int), E.mons_resists s' m b h = h) →
        (∀ (t : Nat) (b : bolt) (h : Int) (s' : game_state),
          same_hp s' (E.mons_flavoured_effects t b h s')) →
        (∀ (h : Int) (f : beam_type) (s' : game_state),
          same_hp s' (E.your_resist_effects h f s')) →
        ∃ d s', fire_los_attack_spell E spell pow (some actor_ref.player) fail s
            = Except.ok (spret.success, some d, s')
          ∧ (∀ j, (s'.mon j).hit_points ≤ (s.mon j).hit_points)
          ∧ ∀ m ∈ los_affected_monsters E spell (some actor_ref.player) s1,
              (s.mon m).alive = true →
              (s'.mon m).hit_points
                ≤ (s.mon m).hit_points
                  - (los_beam E spell pow (some actor_ref.player) s).damage.num)
    ∧ (∃ d h0 h1, los_cast_report ext_plain spell_type.SPELL_OZOCUBUS_REFRIGERATION 20
          (some actor_ref.player) false st_two_hostiles = some (spret.success, d, [h0, h1])
        ∧ 0 < d ∧ h0 < (st_two_hostiles.mon 0).hit_points
        ∧ h1 < (st_two_hostiles.mon 1).hit_points)
    ∧ (los_final_beam ext_plain spell_type.SPELL_OZOCUBUS_REFRIGERATION 20
        (some actor_ref.player) true false st_two_hostiles).map
        (fun b => (b.foe_info.power, b.friend_info.power)) = some (0, 0) := by
  refine ⟨?_, ?_, ⟨21, 1, 3, by decide, by decide, by decide, by decide⟩, by decide⟩
  · intro b hb
    unfold los_final_beam at hb
    split at hb
    · exact absurd hb (by simp)
    · split at hb
      · exact absurd hb (by simp)
      · split at hb
        · split at hb
          · rename_i q hq
            rw [← Option.some.inj hb]
            exact los_damage_phase_keeps_tallies E spell (some actor_ref.player) actual _ _
              (Or.inl rfl) q hq
          · exact absurd hb (by simp)
        · exact absurd hb (by simp)
  · intro s1 hz hs hann hn hsz hres hfx hfy
    exact fire_los_player_damage E spell pow fail s s1 hz hs hann hn hsz hres hfx hfy

/-- C12 witness: Ozocubu's Refrigeration at power 20 cast by the player with
two hostile monsters of 10 hit points in view and dice 2d6: both monsters are
affected and each is left with at most 8 hit points. -/
theorem los_player_cast_tallies_witness :
    los_affected_monsters ext_plain spell_type.SPELL_OZOCUBUS_REFRIGERATION
        (some actor_ref.player)
        ((st_two_hostiles.emit (Event.mpr "player_msg")).emit Event.flash_view_delay) = [0, 1]
    ∧ ∃ d s', fire_los_attack_spell ext_plain spell_type.SPELL_OZOCUBUS_REFRIGERATION 20
          (some actor_ref.player) false st_two_hostiles
            = Except.ok (spret.success, some d, s')
        ∧ (s'.mon 0).hit_points ≤ 8 ∧ (s'.mon 1).hit_points ≤ 8 :=
  ⟨by decide,
    ((los_player_cast_tallies ext_plain spell_type.SPELL_OZOCUBUS_REFRIGERATION 20 true false
        st_two_hostiles).2.1
      ((st_two_hostiles.emit (Event.mpr "player_msg")).emit Event.flash_view_delay)
      (by decide) (by decide) rfl (by decide) (by decide)
      (fun _ _ _ _ _ => rfl) (fun _ _ _ _ _ => rfl) (fun _ _ _ _ => rfl)).elim
      (fun d hd => hd.elim (fun s' h =>
        ⟨d, s', h.1, h.2.2 0 (by decide) (by decide), h.2.2 1 (by decide) (by decide)⟩))⟩

/-! ### Lee's Rapid Deconstruction -/

theorem frag_do_terrain_destroys (beam : bolt) (pow : Int) (caster : actor_ref)
    (quiet : Bool) (grid : dungeon_feature_type) (what : Option (Option String))
    (should_destroy_wall hole : Bool) (s : game_state) :
    (frag_do_terrain beam pow caster quiet grid what should_destroy_wall hole
        s).should_destroy_wall
      = (should_destroy_wall || destroy_table_spec grid pow s.rng) := by
  have h3 : (s.one_chance_in 3).1 = (one_chance_in 3 s.rng).1 := rfl
  have h10 : (s.one_chance_in 10).1 = (one_chance_in 10 s.rng).1 := rfl
  have h20 : (s.one_chance_in 20).1 = (one_chance_in 20 s.rng).1 := rfl
  cases grid <;>
    simp only [frag_do_terrain, frag_finish, frag_stone_destroyed, destroy_table_spec,
      reduceCtorEq, or_self, or_false, false_or, or_true, true_or, and_true, and_false,
      if_true, if_false, Bool.or_true, Bool.or_false, beq_self_eq_true, Bool.false_eq_true,
      ite_self, beq_iff_eq] <;>
    first
    | rfl
    | (by_cases hp : 35 ≤ pow <;> simp only [hp, if_true, if_false, h3, decide_True,
        decide_False, Bool.true_and, Bool.false_and, Bool.false_eq_true, Bool.or_false] <;>
        cases (one_chance_in 3 s.rng).1 <;> cases should_destroy_wall <;> rfl)
    | (by_cases hp : 50 ≤ pow <;> simp only [hp, if_true, if_false, h10, decide_True,
        decide_False, Bool.true_and, Bool.false_and, Bool.false_eq_true, Bool.or_false] <;>
        cases (one_chance_in 10 s.rng).1 <;> cases should_destroy_wall <;> rfl)
    | (by_cases hp : 75 ≤ pow <;> simp only [hp, if_true, if_false, h20, decide_True,
        decide_False, Bool.true_and, Bool.false_and, Bool.false_eq_true, Bool.or_false] <;>
        cases (one_chance_in 20 s.rng).1 <;> cases should_destroy_wall <;> rfl)

/-- C14: when `setup_fragmentation_beam` finds no actor to blow up and goes on
to the terrain of the target cell, the `should_destroy_wall` it hands back is
the value passed in, or true in the cases of the table: always for an orcish
idol, a granite statue, an iron grate and every door; for rock, slimy and
clear rock walls when `pow >= 35` and a 1-in-3 draw succeeds; for stone and
clear stone walls when `pow >= 50` and a 1-in-10 draw succeeds; for a metal
wall when `pow >= 75` and a 1-in-20 draw succeeds; for a crystal wall when a
1-in-3 draw succeeds; never for a stone arch or any other feature. -/
theorem setup_fragmentation_beam_destroy_table (E : Ext) (beam : bolt) (pow : Int)
    (caster : actor_ref) (target : coord_def) (quiet : Bool)
    (what : Option (Option String)) (should_destroy_wall hole : Bool) (s : game_state)
    (h : frag_actor_beam E (frag_init_beam E beam pow caster target s) caster target s
      = none) :
    (setup_fragmentation_beam E beam pow caster target quiet what should_destroy_wall hole
        s).should_destroy_wall
      = (should_destroy_wall || destroy_table_spec (s.grd target) pow s.rng) := by
  unfold setup_fragmentation_beam
  simp only [h]
  exact frag_do_terrain_destroys _ pow caster quiet (s.grd target) what should_destroy_wall
    hole s

theorem setup_fragmentation_beam_destroy_table_witness :
    frag_actor_beam ext_plain
        (frag_init_beam ext_plain default 80 actor_ref.player ⟨1, 0⟩ (st_metal [0]))
        actor_ref.player ⟨1, 0⟩ (st_metal [0]) = none
    ∧ destroy_table_spec ((st_metal [0]).grd ⟨1, 0⟩) 80 (st_metal [0]).rng = true
    ∧ destroy_table_spec ((st_metal [0]).grd ⟨1, 0⟩) 74 (st_metal [0]).rng = false
    ∧ (setup_fragmentation_beam ext_plain default 80 actor_ref.player ⟨1, 0⟩ false none false
        true (st_metal [0])).should_destroy_wall = true :=
  ⟨by decide, by decide, by decide,
    (setup_fragmentation_beam_destroy_table ext_plain default 80 actor_ref.player ⟨1, 0⟩ false
      none false true (st_metal [0]) (by decide)).trans (by decide)⟩

/-! ### Conducts before harm -/

theorem conducts_before_harm_of_harmless (l : List Event)
    (h : ∀ e ∈ l, Event.hp_target e = none) : conducts_before_harm l := by
  intro l1 l2 e t hl ht
  have he : e ∈ l := by
    rw [hl]
    simp
  rw [h e he] at ht
  exact absurd ht (by simp)

theorem conducts_before_harm_cons (t : Nat) (l : List Event)
    (h : ∀ e ∈ l, Event.about t e) :
    conducts_before_harm (Event.set_attack_conducts t :: l) := by
  intro l1 l2 e t' hl ht
  cases l1 with
  | nil =>
    simp only [List.nil_append, List.cons.injEq] at hl
    rw [← hl.1] at ht
    exact absurd ht (by simp [Event.hp_target])
  | cons a l1 =>
    simp only [List.cons_append, List.cons.injEq] at hl
    have he : e ∈ l := by
      rw [hl.2]
      simp
    have := h e he t' ht
    subst this
    rw [← hl.1]
    simp

theorem conducts_before_harm_append (l l' : List Event)
    (h1 : conducts_before_harm l) (h2 : conducts_before_harm l') :
    conducts_before_harm (l ++ l') := by
  intro l1 l2 e t hl ht
  rcases List.append_eq_append_iff.mp hl with ⟨a, ha1, ha2⟩ | ⟨c, hc1, hc2⟩
  · -- l1 = l ++ a, l' = a ++ e :: l2
    rw [ha1]
    exact List.mem_append_right _ (h2 a l2 e t ha2 ht)
  · -- l = l1 ++ c, c ++ l' = e :: l2
    cases c with
    | nil =>
      simp only [List.nil_append] at hc2
      simp only [List.append_nil] at hc1
      rw [← hc1]
      exact absurd (h2 [] l2 e t hc2.symm ht) (by simp)
    | cons b c =>
      simp only [List.cons_append, List.cons.injEq] at hc2
      rw [← hc2.1] at hc1
      exact h1 l1 c e t hc1 ht

theorem adds_events_refl (p : Event → Prop) (s : game_state) : adds_events p s s :=
  ⟨[], by simp, by simp⟩

theorem adds_events_trans {p : Event → Prop} {a b c : game_state}
    (h1 : adds_events p a b) (h2 : adds_events p b c) : adds_events p a c := by
  obtain ⟨l1, e1, p1⟩ := h1
  obtain ⟨l2, e2, p2⟩ := h2
  refine ⟨l1 ++ l2, by rw [e2, e1, List.append_assoc], ?_⟩
  intro e he
  rcases List.mem_append.mp he with h | h
  · exact p1 e h
  · exact p2 e h

theorem adds_events_emit (p : Event → Prop) (s : game_state) (e : Event) (he : p e) :
    adds_events p s (s.emit e) :=
  ⟨[e], rfl, by simpa using he⟩

theorem adds_events_of_log (p : Event → Prop) {s s' : game_state} (h : s'.log = s.log) :
    adds_events p s s' :=
  ⟨[], by simp [h], by simp⟩

theorem adds_conducted_refl (s : game_state) : adds_conducted s s :=
  ⟨[], by simp, conducts_before_harm_of_harmless [] (by simp)⟩

theorem adds_conducted_trans {a b c : game_state}
    (h1 : adds_conducted a b) (h2 : adds_conducted b c) : adds_conducted a c := by
  obtain ⟨l1, e1, p1⟩ := h1
  obtain ⟨l2, e2, p2⟩ := h2
  exact ⟨l1 ++ l2, by rw [e2, e1, List.append_assoc], conducts_before_harm_append l1 l2 p1 p2⟩

theorem adds_conducted_of_harmless {s s' : game_state}
    (h : adds_events (fun e => Event.hp_target e = none) s s') : adds_conducted s s' := by
  obtain ⟨l, e, p⟩ := h
  exact ⟨l, e, conducts_before_harm_of_harmless l p⟩

theorem adds_conducted_of_conduct (t : Nat) {s s' : game_state}
    (h : adds_events (Event.about t) (set_attack_conducts t s) s') : adds_conducted s s' := by
  obtain ⟨l, e, p⟩ := h
  refine ⟨Event.set_attack_conducts t :: l, ?_, conducts_before_harm_cons t l p⟩
  rw [e]
  simp [set_attack_conducts, game_state.emit]

theorem about_of_harmless (t : Nat) (e : Event) (h : Event.hp_target e = none) :
    Event.about t e := by
  intro t' ht
  rw [h] at ht
  exact absurd ht (by simp)

theorem monster_hurt_about (i : Nat) (amount : Int) (cleanup_dead : Bool) (s : game_state) :
    adds_events (Event.about i) s (monster_hurt i amount cleanup_dead s) := by
  have habout : Event.about i (Event.hurt i amount) := by
    intro t' ht
    simpa [Event.hp_target] using ht.symm
  have hdie : Event.about i (Event.monster_die i) := by
    intro t' ht
    simpa [Event.hp_target] using ht.symm
  have h1 := adds_events_emit (Event.about i) s (Event.hurt i amount) habout
  unfold monster_hurt
  dsimp only
  generalize hs2 : (if ((s.emit (Event.hurt i amount)).mon i).alive = true
      then (s.emit (Event.hurt i amount)).set_mon i
        { (s.emit (Event.hurt i amount)).mon i with
          hit_points := ((s.emit (Event.hurt i amount)).mon i).hit_points - amount }
      else s.emit (Event.hurt i amount)) = s2
  have h2 : adds_events (Event.about i) s s2 := by
    subst hs2
    split
    · exact adds_events_trans h1 (adds_events_of_log _ rfl)
    · exact h1
  split
  · exact adds_events_trans h2 (adds_events_emit _ _ _ hdie)
  · exact h2

theorem player_hurt_monster_about (E : Ext) (mon : Nat) (damage : Int)
    (flavour : beam_type) (god_conducts : Bool) (s : game_state) :
    adds_events (Event.about mon) s (_player_hurt_monster E mon damage flavour god_conducts s) := by
  have hsan : adds_events (Event.about mon) s (player_hurt_sanctuary E mon s) := by
    unfold player_hurt_sanctuary
    split
    · exact adds_events_emit _ _ _ (about_of_harmless _ _ rfl)
    · exact adds_events_refl _ _
  unfold _player_hurt_monster
  dsimp only
  split
  · exact hsan
  · generalize hs2 : (if god_conducts = true
        then set_attack_conducts mon (player_hurt_sanctuary E mon s)
        else player_hurt_sanctuary E mon s) = s2
    have h2 : adds_events (Event.about mon) s s2 := by
      subst hs2
      split
      · exact adds_events_trans hsan (adds_events_emit _ _ _ (about_of_harmless _ _ rfl))
      · exact hsan
    generalize hs3 : (if damage ≠ 0 then
          monster_hurt mon damage true
            (s2.emit (Event.majin_bo_vampirism mon (min damage (s2.mon mon).hit_points)))
        else s2) = s3
    have h3 : adds_events (Event.about mon) s s3 := by
      subst hs3
      split
      · exact adds_events_trans (adds_events_trans h2
          (adds_events_emit _ _
            (Event.majin_bo_vampirism mon (min damage (s2.mon mon).hit_points))
            (about_of_harmless _ _ rfl))) (monster_hurt_about _ _ _ _)
      · exact h2
    have hdie : Event.about mon (Event.monster_die mon) := by
      intro t' ht
      simpa [Event.hp_target] using ht.symm
    split
    · split
      · exact adds_events_trans h3 (adds_events_trans
          (adds_events_emit _ _ (Event.behaviour_event mon) (about_of_harmless _ _ rfl))
          (adds_events_emit _ _ (Event.print_wounds mon) (about_of_harmless _ _ rfl)))
      · exact adds_events_trans h3 (adds_events_emit _ _ _ (about_of_harmless _ _ rfl))
    · split
      · exact adds_events_trans h3 (adds_events_emit _ _ _ hdie)
      · exact h3

theorem mons_adjust_flavoured_about (E : Ext) (target : Nat) (beam : bolt) (hurted : Int)
    (fx : Bool) (s : game_state) :
    adds_events (Event.about target) s (mons_adjust_flavoured E target beam hurted fx s).2 := by
  have h1 : Event.about target (Event.mons_adjust_flavoured target hurted fx) := by
    intro t' ht
    simpa [Event.hp_target] using ht.symm
  unfold mons_adjust_flavoured
  dsimp only
  split
  · exact adds_events_trans (adds_events_emit _ _ _ h1) (adds_events_of_log _ rfl)
  · exact adds_events_emit _ _ _ h1

theorem mon_expose_about (E : Ext) (i : Nat) (f : beam_type) (n : Int) (s : game_state) :
    adds_events (Event.about i) s (mon_expose_to_element E i f n s) :=
  adds_events_trans
    (adds_events_emit _ _ (Event.expose_to_element (actor_ref.mons i) f n)
      (about_of_harmless _ _ rfl))
    (adds_events_of_log _ rfl)

theorem los_monster_apply_about (E : Ext) (target : Nat) (beam1 : bolt) (hurted : Int)
    (s : game_state) :
    adds_events (Event.about target) s (los_monster_apply E target beam1 hurted s) := by
  unfold los_monster_apply
  dsimp only
  generalize hs3 : (if YOU_KILL beam1.thrower = true
      then _player_hurt_monster E target hurted beam1.flavour false s
      else if hurted ≠ 0 then monster_hurt target hurted true s else s) = s3
  have h3 : adds_events (Event.about target) s s3 := by
    subst hs3
    split
    · exact player_hurt_monster_about _ _ _ _ _ _
    · split
      · exact monster_hurt_about _ _ _ _
      · exact adds_events_refl _ _
  split
  · exact adds_events_trans h3 (mon_expose_about _ _ _ _ _)
  · exact h3

theorem los_spell_damage_monster_conducted (E : Ext) (target : Nat) (beam : bolt)
    (actual : Bool) (s : game_state) :
    adds_conducted s
      (_los_spell_damage_monster E (some actor_ref.player) target beam actual s).2.2 := by
  apply adds_conducted_of_conduct target
  have hk : YOU_KILL (los_thrower (some actor_ref.player)) = true := rfl
  cases actual with
  | false =>
    simp only [_los_spell_damage_monster, hk, if_true, Bool.false_eq_true, if_false,
      apply_ite Prod.snd, ite_self]
    exact mons_adjust_flavoured_about E target _ _ _ _
  | true =>
    simp only [_los_spell_damage_monster, hk, if_true, apply_ite Prod.snd, ite_self]
    have h1 : adds_events (Event.about target) (set_attack_conducts target s)
        ((set_attack_conducts target s).roll beam.damage).2 := adds_events_of_log _ rfl
    exact adds_events_trans (adds_events_trans h1 (mons_adjust_flavoured_about E target _ _ _ _))
      (los_monster_apply_about _ _ _ _ _)

theorem freeze_strike_conducted (E : Ext) (pow : Int) (mi : Nat) (s : game_state) :
    adds_conducted s (freeze_strike E pow mi s) := by
  apply adds_conducted_of_conduct mi
  unfold freeze_strike
  dsimp only
  have h1 : adds_events (Event.about mi) (set_attack_conducts mi s)
      ((set_attack_conducts mi s).roll (freeze_damage pow)).2 := adds_events_of_log _ rfl
  have h2 := adds_events_trans h1 (mons_adjust_flavoured_about E mi
    { (default : bolt) with flavour := beam_type.BEAM_COLD, thrower := killer_type.KILL_YOU }
    ((set_attack_conducts mi s).roll (freeze_damage pow)).1 true
    ((set_attack_conducts mi s).roll (freeze_damage pow)).2)
  have h3 := adds_events_trans h2 (adds_events_emit (Event.about mi) _
    (Event.mpr "You freeze the monster") (about_of_harmless _ _ rfl))
  have h4 := adds_events_trans h3 (player_hurt_monster_about E mi
    (mons_adjust_flavoured E mi
      { (default : bolt) with flavour := beam_type.BEAM_COLD, thrower := killer_type.KILL_YOU }
      ((set_attack_conducts mi s).roll (freeze_damage pow)).1 true
      ((set_attack_conducts mi s).roll (freeze_damage pow)).2).1
    beam_type.BEAM_COLD false _)
  split
  · exact adds_events_trans h4 (mon_expose_about _ _ _ _ _)
  · exact h4

theorem cast_freeze_conducted (E : Ext) (pow : Int) (mons : Option Nat) (fail : Bool)
    (s : game_state) : adds_conducted s (cast_freeze E pow mons fail s).2 := by
  have hn : adds_conducted s (freeze_nothing fail s).2 := by
    unfold freeze_nothing
    split
    · exact adds_conducted_refl s
    · exact adds_conducted_of_harmless (adds_events_emit _ _ _ rfl)
  unfold cast_freeze
  dsimp only
  split
  · exact hn
  · split
    · exact hn
    · split
      · exact adds_conducted_of_harmless (adds_events_emit _ _ _ rfl)
      · split
        · exact adds_conducted_refl s
        · exact freeze_strike_conducted E _ _ s

theorem discharge_damage_log (agent victim : actor_ref) (pow : Int) (s : game_state) :
    (discharge_damage agent victim pow s).2.log = s.log := by
  unfold discharge_damage
  split <;> rfl

theorem discharge_player_conducted (E : Ext) (pow : Int) (s : game_state) :
    adds_conducted s (discharge_player E pow s).2 := by
  apply adds_conducted_of_harmless
  unfold discharge_player
  dsimp only
  have h1 : adds_events (fun e => Event.hp_target e = none) s
      (check_your_resists E (1 + (s.random2 (3 + Int.tdiv pow 15)).1)
        beam_type.BEAM_ELECTRICITY true (s.random2 (3 + Int.tdiv pow 15)).2).2 :=
    adds_events_trans (adds_events_of_log _ rfl)
      (adds_events_trans
        (adds_events_emit _ (s.random2 (3 + Int.tdiv pow 15)).2
          (Event.check_your_resists (1 + (s.random2 (3 + Int.tdiv pow 15)).1)
            beam_type.BEAM_ELECTRICITY true) rfl)
        (adds_events_of_log _ rfl))
  have h2 := adds_events_trans h1 (adds_events_emit (fun e => Event.hp_target e = none) _
    (Event.mpr "You are struck by an arc of lightning") rfl)
  have h3 := adds_events_trans h2 (adds_events_trans
    (adds_events_emit (fun e => Event.hp_target e = none) _
      (Event.ouch (check_your_resists E (1 + (s.random2 (3 + Int.tdiv pow 15)).1)
        beam_type.BEAM_ELECTRICITY true (s.random2 (3 + Int.tdiv pow 15)).2).1) rfl)
    (adds_events_of_log (fun e => Event.hp_target e = none)
      (rfl : (ouch (check_your_resists E (1 + (s.random2 (3 + Int.tdiv pow 15)).1)
          beam_type.BEAM_ELECTRICITY true (s.random2 (3 + Int.tdiv pow 15)).2).1
        ((check_your_resists E (1 + (s.random2 (3 + Int.tdiv pow 15)).1)
          beam_type.BEAM_ELECTRICITY true (s.random2 (3 + Int.tdiv pow 15)).2).2.emit
            (Event.mpr "You are struck by an arc of lightning"))).log = _)))
  split
  · exact adds_events_trans h3 (adds_events_trans
      (adds_events_emit (fun e => Event.hp_target e = none) _
        (Event.expose_to_element actor_ref.player beam_type.BEAM_ELECTRICITY 2) rfl)
      (adds_events_of_log _ rfl))
  · exact h3

theorem discharge_monster_conducted (E : Ext) (mi : Nat) (damage : Int) (beam : bolt)
    (s : game_state) :
    adds_conducted s (discharge_monster E actor_ref.player mi damage beam s).2 := by
  apply adds_conducted_of_conduct mi
  have hp : actor_ref.player.is_player = true := rfl
  simp only [discharge_monster, hp, if_true]
  exact adds_events_trans (adds_events_trans
    (mons_adjust_flavoured_about E mi beam damage true (set_attack_conducts mi s))
    (adds_events_emit (Event.about mi) _
      (Event.mpr "The monster is struck by an arc of lightning") (about_of_harmless _ _ rfl)))
    (player_hurt_monster_about E mi _ _ false _)

theorem discharge_strike_conducted (E : Ext) (victim : actor_ref) (pos : coord_def)
    (pow : Int) (s : game_state) :
    adds_conducted s (discharge_strike E actor_ref.player victim pos pow s).2 := by
  have hd : adds_conducted s (discharge_damage actor_ref.player victim pow s).2 :=
    adds_conducted_of_harmless (adds_events_of_log _ (discharge_damage_log _ _ _ _))
  have hdraw : adds_conducted (discharge_damage actor_ref.player victim pow s).2
      ((discharge_damage actor_ref.player victim pow s).2.emit (Event.beam_draw pos)) :=
    adds_conducted_of_harmless (adds_events_emit _ _ _ rfl)
  unfold discharge_strike
  dsimp only
  cases victim with
  | player =>
    dsimp only
    exact adds_conducted_trans (adds_conducted_trans hd hdraw) (discharge_player_conducted E pow _)
  | mons mi =>
    dsimp only
    generalize hs1 : (if ((discharge_damage actor_ref.player (actor_ref.mons mi) pow s).2.mon
          mi).res_elec ≤ 0
        then (discharge_damage actor_ref.player (actor_ref.mons mi) pow s).2.emit
          (Event.beam_draw pos)
        else (discharge_damage actor_ref.player (actor_ref.mons mi) pow s).2) = s1
    have h1 : adds_conducted s s1 := by
      subst hs1
      split
      · exact adds_conducted_trans hd hdraw
      · exact hd
    split
    · exact h1
    · split
      · exact h1
      · exact adds_conducted_trans h1 (discharge_monster_conducted E mi _ _ s1)

theorem one_chance_in_log (s : game_state) (a : Int) : (s.one_chance_in a).2.log = s.log :=
  rfl

theorem discharge_arcs_on_spec (pow : Int) (s : game_state) :
    (discharge_arcs_on pow s).2.log = s.log
    ∧ ((discharge_arcs_on pow s).1 = true → 3 ≤ pow) := by
  constructor
  · unfold discharge_arcs_on
    dsimp only
    split
    · split
      · rfl
      · split <;> rfl
    · split
      · rfl
      · split <;> rfl
  · intro h
    by_contra h3
    have h10 : ¬ 10 ≤ pow := by omega
    simp [discharge_arcs_on, h10, h3] at h

theorem random2_lt (n : Int) (r : List Nat) (h : 1 < n) : (random2 n r).1 < n := by
  unfold random2
  have h1 : ¬ n ≤ 1 := by omega
  simp only [h1, if_false]
  cases r with
  | nil => exact (by omega : (0 : Int) < n)
  | cons d rest => exact Int.emod_lt_of_pos _ (by omega)

theorem random_range_2_3 (r : List Nat) :
    (random_range 2 3 r).1 = 2 ∨ (random_range 2 3 r).1 = 3 := by
  have h1 := random2_nonneg (3 - 2 + 1) r
  have h2 := random2_lt (3 - 2 + 1) r (by decide)
  unfold random_range
  dsimp only
  omega

theorem apply_cells_conducted
    (cf : coord_def → game_state → Option (Int × game_state))
    (hcf : ∀ c s, ∃ r, cf c s = some r ∧ adds_conducted s r.2) :
    ∀ (cells : List coord_def) (rv : Int) (s : game_state),
      ∃ r, apply_cells cf cells rv s = some r ∧ adds_conducted s r.2 := by
  intro cells
  induction cells with
  | nil =>
    intro rv s
    exact ⟨(rv, s), rfl, adds_conducted_refl s⟩
  | cons c rest ih =>
    intro rv s
    obtain ⟨r1, hr1, hc1⟩ := hcf c s
    obtain ⟨r2, hr2, hc2⟩ := ih (rv + r1.1) r1.2
    refine ⟨r2, ?_, adds_conducted_trans hc1 hc2⟩
    simp only [apply_cells, hr1, hr2]

theorem discharge_monsters_conducted (E : Ext) :
    ∀ (fuel : Nat) (pos : coord_def) (pow : Int) (s : game_state), pow ≤ (fuel : Int) →
      ∃ r, _discharge_monsters E actor_ref.player fuel pos pow s = some r
        ∧ adds_conducted s r.2 := by
  intro fuel
  induction fuel with
  | zero =>
    intro pos pow s hp
    have hp0 : pow ≤ 0 := by simpa using hp
    unfold _discharge_monsters
    cases hv : s.actor_at pos with
    | none => exact ⟨(0, s), rfl, adds_conducted_refl s⟩
    | some victim =>
      dsimp only
      split
      · exact ⟨(0, s), rfl, adds_conducted_refl s⟩
      · have hst := discharge_strike_conducted E victim pos pow s
        cases hh : (discharge_strike E actor_ref.player victim pos pow s).1 with
        | none => exact ⟨(0, _), rfl, hst⟩
        | some damage =>
          dsimp only
          have harc := discharge_arcs_on_spec pow
            (discharge_strike E actor_ref.player victim pos pow s).2
          have hno : (discharge_arcs_on pow
              (discharge_strike E actor_ref.player victim pos pow s).2).1 = false := by
            cases hc : (discharge_arcs_on pow
              (discharge_strike E actor_ref.player victim pos pow s).2).1 with
            | false => rfl
            | true =>
              have := harc.2 hc
              omega
          simp only [hno, Bool.false_eq_true, if_false]
          have harcs : adds_conducted s (discharge_arcs_on pow
              (discharge_strike E actor_ref.player victim pos pow s).2).2 :=
            adds_conducted_trans hst
              (adds_conducted_of_harmless (adds_events_of_log _ harc.1))
          split
          · exact ⟨_, rfl, adds_conducted_trans harcs
              (adds_conducted_of_harmless (adds_events_emit _ _ _ rfl))⟩
          · exact ⟨_, rfl, harcs⟩
  | succ fuel ih =>
    intro pos pow s hp
    unfold _discharge_monsters
    cases hv : s.actor_at pos with
    | none => exact ⟨(0, s), rfl, adds_conducted_refl s⟩
    | some victim =>
      dsimp only
      split
      · exact ⟨(0, s), rfl, adds_conducted_refl s⟩
      · have hst := discharge_strike_conducted E victim pos pow s
        cases hh : (discharge_strike E actor_ref.player victim pos pow s).1 with
        | none => exact ⟨(0, _), rfl, hst⟩
        | some damage =>
          dsimp only
          have harc := discharge_arcs_on_spec pow
            (discharge_strike E actor_ref.player victim pos pow s).2
          have harcs : adds_conducted s (discharge_arcs_on pow
              (discharge_strike E actor_ref.player victim pos pow s).2).2 :=
            adds_conducted_trans hst
              (adds_conducted_of_harmless (adds_events_of_log _ harc.1))
          generalize discharge_arcs_on pow
            (discharge_strike E actor_ref.player victim pos pow s).2 = c at harc harcs ⊢
          split
          · rename_i hc
            have h3 := harc.2 hc
            have hk := random_range_2_3 c.2.rng
            have hfuel : Int.tdiv pow (random_range 2 3 c.2.rng).1 ≤ (fuel : Int) := by
              push_cast at hp
              rcases hk with hk | hk
              · rw [hk, Int.tdiv_eq_ediv (by omega) (by decide)]
                omega
              · rw [hk, Int.tdiv_eq_ediv (by omega) (by decide)]
                omega
            have hrec := apply_cells_conducted
              (fun w s' => _discharge_monsters E actor_ref.player fuel w
                (Int.tdiv pow (random_range 2 3 c.2.rng).1) s')
              (fun w s' => ih w _ s' hfuel)
              (E.random_around_square
                { c.2 with rng := (random_range 2 3 c.2.rng).2 } pos true 1).1 0
              { ({ c.2 with rng := (random_range 2 3 c.2.rng).2 } : game_state) with
                rng := (E.random_around_square
                  { c.2 with rng := (random_range 2 3 c.2.rng).2 } pos true 1).2 }
            obtain ⟨r, hr, hcr⟩ := hrec
            have hr' : apply_random_around_square E
                (fun w s' => _discharge_monsters E actor_ref.player fuel w
                  (Int.tdiv pow (random_range 2 3 c.2.rng).1) s')
                pos true 1 { c.2 with rng := (random_range 2 3 c.2.rng).2 } = some r := hr
            simp only [hr']
            refine ⟨_, rfl, adds_conducted_trans harcs (adds_conducted_trans ?_ hcr)⟩
            exact adds_conducted_of_harmless (adds_events_of_log _ rfl)
          · split
            · exact ⟨_, rfl, adds_conducted_trans harcs
                (adds_conducted_of_harmless (adds_events_emit _ _ _ rfl))⟩
            · exact ⟨_, rfl, harcs⟩

theorem conducts_before_harm_rejects :
    ¬ conducts_before_harm [Event.hurt 0 5, Event.set_attack_conducts 0] := by
  intro h
  have := h [] [Event.set_attack_conducts 0] (Event.hurt 0 5) 0 rfl rfl
  simp at this

/-- C18: in the three player-caused damage paths, `_los_spell_damage_monster`
with the player as the agent, `cast_freeze`, and `_discharge_monsters` with the
player as the agent (arcs included), every call that can reduce a monster's
hit points (the mitigation step `mons_adjust_flavoured`, `hurt`, the death
cleanup) is logged after a call of `set_attack_conducts` on that monster made
by the same invocation; in the first path the conduct hook is the very first
call. `_discharge_monsters` returns a result when given its power as fuel. -/
theorem conducts_precede_harm (E : Ext) :
    (∀ (target : Nat) (beam : bolt) (actual : Bool) (s : game_state),
      ∃ l, (_los_spell_damage_monster E (some actor_ref.player) target beam actual s).2.2.log
          = s.log ++ Event.set_attack_conducts target :: l
        ∧ conducts_before_harm (Event.set_attack_conducts target :: l))
    ∧ (∀ (pow : Int) (mons : Option Nat) (fail : Bool) (s : game_state),
      ∃ l, (cast_freeze E pow mons fail s).2.log = s.log ++ l ∧ conducts_before_harm l)
    ∧ (∀ (pos : coord_def) (pow : Int) (s : game_state),
      ∃ r l, _discharge_monsters E actor_ref.player pow.toNat pos pow s = some r
        ∧ r.2.log = s.log ++ l ∧ conducts_before_harm l) := by
  refine ⟨?_, ?_, ?_⟩
  · intro target beam actual s
    obtain ⟨l, hl, hc⟩ := los_spell_damage_monster_conducted E target beam actual s
    have hfirst : ∃ l', (_los_spell_damage_monster E (some actor_ref.player) target beam
        actual s).2.2.log = s.log ++ Event.set_attack_conducts target :: l' := by
      have hk : YOU_KILL (los_thrower (some actor_ref.player)) = true := rfl
      have h1 : ∀ b : bolt, ∀ h : Int, ∀ fx : Bool, ∀ s0 : game_state,
          adds_events (Event.about target) s0 (mons_adjust_flavoured E target b h fx s0).2 :=
        fun b h fx s0 => mons_adjust_flavoured_about E target b h fx s0
      cases actual with
      | false =>
        simp only [_los_spell_damage_monster, hk, if_true, Bool.false_eq_true, if_false,
          apply_ite Prod.snd, ite_self]
        obtain ⟨l', hl', -⟩ := h1 { beam with thrower := los_thrower (some actor_ref.player) }
          (avg_dice beam.damage) (false && beam.origin_spell != spell_type.SPELL_DRAIN_LIFE)
          (set_attack_conducts target s)
        exact ⟨l', by rw [hl']; simp [set_attack_conducts, game_state.emit]⟩
      | true =>
        simp only [_los_spell_damage_monster, hk, if_true, apply_ite Prod.snd, ite_self]
        have h0 : adds_events (Event.about target) (set_attack_conducts target s)
            ((set_attack_conducts target s).roll beam.damage).2 := adds_events_of_log _ rfl
        obtain ⟨l', hl', -⟩ := adds_events_trans
          (adds_events_trans h0 (mons_adjust_flavoured_about E target
            { beam with thrower := los_thrower (some actor_ref.player) }
            ((set_attack_conducts target s).roll beam.damage).1
            (true && beam.origin_spell != spell_type.SPELL_DRAIN_LIFE)
            ((set_attack_conducts target s).roll beam.damage).2))
          (los_monster_apply_about E target
            { beam with thrower := los_thrower (some actor_ref.player) } _ _)
        exact ⟨l', by rw [hl']; simp [set_attack_conducts, game_state.emit]⟩
    obtain ⟨l', hl'⟩ := hfirst
    have heq : l = Event.set_attack_conducts target :: l' :=
      List.append_cancel_left (hl.symm.trans hl')
    exact ⟨l', hl', heq ▸ hc⟩
  · intro pow mons fail s
    exact cast_freeze_conducted E pow mons fail s
  · intro pos pow s
    obtain ⟨r, hr, l, hl, hc⟩ := discharge_monsters_conducted E pow.toNat pos pow s
      (Int.self_le_toNat pow)
    exact ⟨r, l, hr, hl, hc⟩

/-! ### The dampened arc -/

theorem chain_hop_dice_actor_pos (E : Ext) (spell : spell_type) (caster : actor_ref)
    (pow : Int) (b0 : bolt) (s : game_state) (a : actor_ref) :
    (chain_hop_dice E spell caster pow b0 s).2.actor_pos a = s.actor_pos a := by
  unfold chain_hop_dice
  split <;> rfl

/-- C22 fails as stated: chain lightning cast by the player at power 60 rolls
5d10 on an ordinary hop; on a hop that lands on the caster's cell the dice
are 2d5, with a maximum of 10, not `5 * 10 / 2 = 25`. -/
theorem chain_dampen_not_half :
    (chain_hop_dice ext_plain spell_type.SPELL_CHAIN_LIGHTNING actor_ref.player 60
        { (default : bolt) with source := ⟨1, 0⟩, target := ⟨0, 0⟩ } st_arc_back).1.damage
      = { num := 5, size := 10 }
    ∧ (chain_setup_beam ext_plain spell_type.SPELL_CHAIN_LIGHTNING actor_ref.player 60
        ⟨1, 0⟩ ⟨0, 0⟩ default st_arc_back).1.damage = { num := 2, size := 5 }
    ∧ (2 : Int) * 5 ≠ Int.tdiv (5 * 10) 2 := by
  decide

/-- C22 (amended): when a hop of `cast_chain_spell` selects the caster's own
cell, the number and the size of the dice are both halved: for undampened dice
`(n, s)` the beam is fired with `max(1, n / 2)` dice of size `max(3, s / 2)`,
whose maximum is the product of the two. -/
theorem chain_dampen_dice (E : Ext) (spell : spell_type) (caster : actor_ref) (pow : Int)
    (source : coord_def) (beam : bolt) (s : game_state) :
    (chain_setup_beam E spell caster pow source (s.actor_pos caster) beam s).1.damage
      = { num := max 1 (Int.tdiv (chain_hop_dice E spell caster pow
            { beam with source := source, target := s.actor_pos caster } s).1.damage.num 2),
          size := max 3 (Int.tdiv (chain_hop_dice E spell caster pow
            { beam with source := source, target := s.actor_pos caster } s).1.damage.size 2) }
    ∧ ∀ b : bolt, (chain_dampen spell b).damage
        = { num := max 1 (Int.tdiv b.damage.num 2), size := max 3 (Int.tdiv b.damage.size 2) } := by
  have hd : ∀ b : bolt, (chain_dampen spell b).damage
      = { num := max 1 (Int.tdiv b.damage.num 2), size := max 3 (Int.tdiv b.damage.size 2) } := by
    intro b
    unfold chain_dampen
    dsimp only
    split <;> rfl
  refine ⟨?_, hd⟩
  unfold chain_setup_beam
  simp only [chain_hop_dice_actor_pos, if_true]
  exact hd _

/-! ### Irradiate -/

/-- C30: for every power, both values of the flag `random` and every state of
the random source, `irradiate_damage` hands `calc_dice` six dice and
`div_rand_round(pow, 2)` as the maximum: 30 is not added, `pow / 2` is never
chosen, and the result does not depend on the flag. -/
theorem irradiate_damage_ignores_flag (E : Ext) (pow : Int) (random : Bool) (r : List Nat) :
    irradiate_damage E pow random r
      = E.calc_dice 6 (div_rand_round pow 2 r).1 (div_rand_round pow 2 r).2
    ∧ irradiate_damage E pow true r = irradiate_damage E pow false r := by
  have h : ∀ b : Bool, irradiate_damage E pow b r
      = E.calc_dice 6 (div_rand_round pow 2 r).1 (div_rand_round pow 2 r).2 := by
    intro b
    unfold irradiate_damage
    cases b <;> simp
  exact ⟨h random, (h true).trans (h false).symm⟩
/-! ### Counting the iterations of a chain -/

theorem chain_loop_count_spec (E : Ext) (spell : spell_type) (caster : actor_ref) :
    ∀ (fuel : Nat) (pow : Int) (source : coord_def) (first : Bool) (beam : bolt)
      (s : game_state), pow ≤ (fuel : Int) →
      ∃ n s', chain_loop_count E spell caster fuel pow source first beam s = some (n, s')
        ∧ chain_loop E spell caster fuel pow source first beam s = some s'
        ∧ (pow ≤ 0 → n = 0 ∧ s' = s)
        ∧ (0 < pow → 8 * (n : Int) ≤ pow + 7) := by
  intro fuel
  induction fuel with
  | zero =>
    intro pow source first beam s hp
    have hp0 : pow ≤ 0 := by simpa using hp
    refine ⟨0, s, ?_, ?_, fun _ => ⟨rfl, rfl⟩, fun h => by omega⟩
    · unfold chain_loop_count
      simp [hp0]
    · unfold chain_loop
      simp [hp0]
  | succ fuel ih =>
    intro pow source first beam s hp
    by_cases hp0 : pow ≤ 0
    · refine ⟨0, s, ?_, ?_, fun _ => ⟨rfl, rfl⟩, fun h => by omega⟩
      · unfold chain_loop_count
        simp [hp0]
      · unfold chain_loop
        simp [hp0]
    · unfold chain_loop_count chain_loop
      simp only [hp0, if_false]
      by_cases hx : (chain_pick_target E (s.actor_pos caster) source beam s).1.x = -1
      · simp only [hx, if_true]
        exact ⟨1, _, rfl, rfl, fun h => h.elim, fun _ => by push_cast; omega⟩
      · simp only [hx, if_false]
        generalize chain_hop_announce spell first _ _ source _ = s2
        generalize chain_setup_beam E spell caster pow source _ beam s2 = bs
        have hd := random2_nonneg 13 (fire_beam E bs.1 bs.2).2.rng
        have hrd : ((fire_beam E bs.1 bs.2).2.random2 13).1
            = (random2 13 (fire_beam E bs.1 bs.2).2.rng).1 := rfl
        have hfuel : pow - (8 + ((fire_beam E bs.1 bs.2).2.random2 13).1) ≤ (fuel : Int) := by
          push_cast at hp
          omega
        obtain ⟨n, s', hc, hl, hz, hb⟩ :=
          ih (pow - (8 + ((fire_beam E bs.1 bs.2).2.random2 13).1))
            (chain_pick_target E (s.actor_pos caster) source beam s).1 false
            (fire_beam E bs.1 bs.2).1 ((fire_beam E bs.1 bs.2).2.random2 13).2 hfuel
        refine ⟨n + 1, s', ?_, hl, fun h => h.elim, fun _ => ?_⟩
        · simp only [hc]
        · by_cases hq : 0 < pow - (8 + ((fire_beam E bs.1 bs.2).2.random2 13).1)
          · have := hb hq
            push_cast
            omega
          · have := (hz (not_lt.mp hq)).1
            subst this
            push_cast
            omega

/-- C26: for every chain spell, every integer `pow` and every outcome of the
draws, the loop of `cast_chain_spell` comes to an end: it enters its body at
most `(pow + 7) / 8` times, `pow / 8` rounded up, when `pow > 0`, and not at
all when `pow <= 0`, in which case nothing is fired and the state is as
before. -/
theorem chain_loop_iterations (E : Ext) (spell : spell_type) (caster : actor_ref)
    (pow : Int) (source : coord_def) (first : Bool) (beam : bolt) (s : game_state) :
    ∃ n s', chain_loop_count E spell caster pow.toNat pow source first beam s = some (n, s')
      ∧ chain_loop E spell caster pow.toNat pow source first beam s = some s'
      ∧ (pow ≤ 0 → n = 0 ∧ s' = s)
      ∧ (0 < pow → (n : Int) ≤ (pow + 7) / 8) := by
  obtain ⟨n, s', hc, hl, hz, hb⟩ := chain_loop_count_spec E spell caster pow.toNat pow source
    first beam s (Int.self_le_toNat pow)
  refine ⟨n, s', hc, hl, hz, fun h => ?_⟩
  have := hb h
  omega
/-! ### The depth of a static discharge -/

theorem apply_cells_returns
    (cf : coord_def → game_state → Option (Int × game_state))
    (hcf : ∀ c s, ∃ r, cf c s = some r) :
    ∀ (cells : List coord_def) (rv : Int) (s : game_state),
      ∃ r, apply_cells cf cells rv s = some r := by
  intro cells
  induction cells with
  | nil =>
    intro rv s
    exact ⟨(rv, s), rfl⟩
  | cons c rest ih =>
    intro rv s
    obtain ⟨r1, hr1⟩ := hcf c s
    obtain ⟨r2, hr2⟩ := ih (rv + r1.1) r1.2
    exact ⟨r2, by simp only [apply_cells, hr1, hr2]⟩

theorem discharge_power_drops (pow : Int) (r : List Nat) (h : 3 ≤ pow) :
    0 ≤ Int.tdiv pow (random_range 2 3 r).1
    ∧ 2 * Int.tdiv pow (random_range 2 3 r).1 ≤ pow := by
  rcases random_range_2_3 r with hk | hk
  · rw [hk, Int.tdiv_eq_ediv (by omega) (by decide)]
    omega
  · rw [hk, Int.tdiv_eq_ediv (by omega) (by decide)]
    omega

theorem discharge_monsters_returns (E : Ext) (agent : actor_ref) :
    ∀ (fuel : Nat) (pos : coord_def) (pow : Int) (s : game_state),
      pow < 3 * 2 ^ fuel →
      ∃ r, _discharge_monsters E agent fuel pos pow s = some r := by
  intro fuel
  induction fuel with
  | zero =>
    intro pos pow s hp
    have hp3 : pow < 3 := by simpa using hp
    unfold _discharge_monsters
    cases hv : s.actor_at pos with
    | none => exact ⟨(0, s), rfl⟩
    | some victim =>
      dsimp only
      split
      · exact ⟨(0, s), rfl⟩
      · cases hh : (discharge_strike E agent victim pos pow s).1 with
        | none => exact ⟨(0, _), rfl⟩
        | some damage =>
          dsimp only
          have hno : (discharge_arcs_on pow (discharge_strike E agent victim pos pow s).2).1
              = false := by
            cases hc : (discharge_arcs_on pow
              (discharge_strike E agent victim pos pow s).2).1 with
            | false => rfl
            | true =>
              have := (discharge_arcs_on_spec pow _).2 hc
              omega
          simp only [hno, Bool.false_eq_true, if_false]
          split
          · exact ⟨_, rfl⟩
          · exact ⟨_, rfl⟩
  | succ fuel ih =>
    intro pos pow s hp
    unfold _discharge_monsters
    cases hv : s.actor_at pos with
    | none => exact ⟨(0, s), rfl⟩
    | some victim =>
      dsimp only
      split
      · exact ⟨(0, s), rfl⟩
      · cases hh : (discharge_strike E agent victim pos pow s).1 with
        | none => exact ⟨(0, _), rfl⟩
        | some damage =>
          dsimp only
          have harc := discharge_arcs_on_spec pow (discharge_strike E agent victim pos pow s).2
          generalize discharge_arcs_on pow (discharge_strike E agent victim pos pow s).2 = c
            at harc ⊢
          split
          · rename_i hc
            have h3 := harc.2 hc
            have hdrop := discharge_power_drops pow c.2.rng h3
            have hfuel : Int.tdiv pow (random_range 2 3 c.2.rng).1 < 3 * 2 ^ fuel := by
              have hpow : (3 : Int) * 2 ^ (fuel + 1) = 2 * (3 * 2 ^ fuel) := by ring
              rw [hpow] at hp
              omega
            obtain ⟨r, hr⟩ := apply_cells_returns
              (fun w s' => _discharge_monsters E agent fuel w
                (Int.tdiv pow (random_range 2 3 c.2.rng).1) s')
              (fun w s' => ih w _ s' hfuel)
              (E.random_around_square
                { c.2 with rng := (random_range 2 3 c.2.rng).2 } pos true 1).1 0
              { ({ c.2 with rng := (random_range 2 3 c.2.rng).2 } : game_state) with
                rng := (E.random_around_square
                  { c.2 with rng := (random_range 2 3 c.2.rng).2 } pos true 1).2 }
            have hr' : apply_random_around_square E
                (fun w s' => _discharge_monsters E agent fuel w
                  (Int.tdiv pow (random_range 2 3 c.2.rng).1) s')
                pos true 1 { c.2 with rng := (random_range 2 3 c.2.rng).2 } = some r := hr
            simp only [hr']
            exact ⟨_, rfl⟩
          · split
            · exact ⟨_, rfl⟩
            · exact ⟨_, rfl⟩

theorem lt_three_mul_two_pow_log (pow : Int) : pow < 3 * 2 ^ Nat.log 2 pow.toNat := by
  have h1 : pow.toNat < 2 ^ (Nat.log 2 pow.toNat + 1) :=
    Nat.lt_pow_succ_log_self (by decide) pow.toNat
  have h2 : pow ≤ (pow.toNat : Int) := Int.self_le_toNat pow
  have h3 : ((pow.toNat : Nat) : Int) < 2 * 2 ^ Nat.log 2 pow.toNat := by
    have : (2 : Nat) ^ (Nat.log 2 pow.toNat + 1) = 2 * 2 ^ Nat.log 2 pow.toNat := by ring
    rw [this] at h1
    exact_mod_cast h1
  have h4 : (0 : Int) < 2 ^ Nat.log 2 pow.toNat := by positivity
  omega

/-- C27: the recursion of `_discharge_monsters` comes to an end for every
agent, cell, power and state: a recursive call is made only when the power is
at least 3, with the power divided by 2 or 3, which is not negative and at
most half of it, and a depth of `log2(pow)` nested calls is enough for the
function to return its result. -/
theorem discharge_monsters_depth (E : Ext) (agent : actor_ref) (pos : coord_def)
    (pow : Int) (s : game_state) :
    (∃ r, _discharge_monsters E agent (Nat.log 2 pow.toNat) pos pow s = some r)
    ∧ (∀ s1 : game_state, (discharge_arcs_on pow s1).1 = true → 3 ≤ pow)
    ∧ (∀ r : List Nat, 3 ≤ pow →
        ((random_range 2 3 r).1 = 2 ∨ (random_range 2 3 r).1 = 3)
        ∧ 0 ≤ Int.tdiv pow (random_range 2 3 r).1
        ∧ Int.tdiv pow (random_range 2 3 r).1 < pow) := by
  refine ⟨discharge_monsters_returns E agent _ pos pow s (lt_three_mul_two_pow_log pow),
    fun s1 => (discharge_arcs_on_spec pow s1).2, fun r h => ?_⟩
  have := discharge_power_drops pow r h
  exact ⟨random_range_2_3 r, this.1, by omega⟩
/-! ### The searing ray as a state machine -/

theorem searing_ray_set (s : game_state) (v : Int) : (s.set_searing_ray v).searing_ray = v := by
  simp [game_state.searing_ray, game_state.set_searing_ray]

theorem end_searing_ray_attr (s : game_state) : (end_searing_ray s).searing_ray = 0 := by
  simp [end_searing_ray, game_state.searing_ray, game_state.set_searing_ray]

theorem searing_budget_step (a : Int) (h : a = 1 ∨ a = 2 ∨ a = 3) :
    1 + searing_budget (if 3 < a + 1 then 0 else a + 1) ≤ searing_budget a := by
  rcases h with h | h | h <;> subst h <;> decide

theorem searing_ray_fire_spec (E : Ext)
    (hfire : ∀ (b : bolt) (s : game_state), (E.fire b s).2.searing_ray = s.searing_ray)
    (s : game_state) (h : s.searing_ray = 1 ∨ s.searing_ray = 2 ∨ s.searing_ray = 3) :
    ∃ l, (searing_ray_fire E s).log = s.log ++ l
      ∧ ((searing_ray_fire E s).searing_ray = 0 ∨ (searing_ray_fire E s).searing_ray = 1
        ∨ (searing_ray_fire E s).searing_ray = 2 ∨ (searing_ray_fire E s).searing_ray = 3)
      ∧ (fired_beams l).length + searing_budget (searing_ray_fire E s).searing_ray
          ≤ searing_budget s.searing_ray
      ∧ (∀ b ∈ fired_beams l, ∃ (pow : Int) (b0 : bolt),
          b = E.zappy (searing_ray_zap (s.searing_ray - 1)) pow false b0)
      ∧ ((fired_beams l = [] ∧ (searing_ray_fire E s).searing_ray = 0)
        ∨ (∃ b, fired_beams l = [b]
          ∧ (searing_ray_fire E s).searing_ray
              = (if s.searing_ray = 3 then 0 else s.searing_ray + 1))) := by
  have hb0 : searing_budget 0 = 0 := by decide
  unfold searing_ray_fire
  split
  · exact ⟨[], by simp [end_searing_ray, game_state.set_searing_ray], Or.inl (end_searing_ray_attr _),
      by rw [end_searing_ray_attr, hb0]; simp [fired_beams], by simp [fired_beams],
      Or.inl ⟨rfl, end_searing_ray_attr _⟩⟩
  · split
    · refine ⟨[Event.mpr "Without enough magic to sustain it, your searing ray dissipates."],
        rfl, Or.inl (end_searing_ray_attr _), ?_, by simp [fired_beams],
        Or.inl ⟨rfl, end_searing_ray_attr _⟩⟩
      rw [end_searing_ray_attr, hb0]
      simp [fired_beams]
    · dsimp only
      split
      · refine ⟨[Event.mpr "You stop channeling your searing ray."],
          rfl, Or.inl (end_searing_ray_attr _), ?_, by simp [fired_beams],
          Or.inl ⟨rfl, end_searing_ray_attr _⟩⟩
        rw [end_searing_ray_attr, hb0]
        simp [fired_beams]
      · generalize hbm : E.zappy (searing_ray_zap (s.searing_ray - 1))
          (E.calc_spell_power s spell_type.SPELL_SEARING_RAY) false _ = beam1
        generalize hs1 : (s.emit (Event.aim_battlesphere spell_type.SPELL_SEARING_RAY
          (E.calc_spell_power s spell_type.SPELL_SEARING_RAY) beam1)).emit
          (Event.aim_battlesphere spell_type.SPELL_SEARING_RAY
          (E.calc_spell_power s spell_type.SPELL_SEARING_RAY) beam1) = s1
        have ha1 : s1.searing_ray = s.searing_ray := by
          subst hs1
          rfl
        have hl1 : s1.log = s.log ++ [Event.aim_battlesphere spell_type.SPELL_SEARING_RAY
              (E.calc_spell_power s spell_type.SPELL_SEARING_RAY) beam1,
            Event.aim_battlesphere spell_type.SPELL_SEARING_RAY
              (E.calc_spell_power s spell_type.SPELL_SEARING_RAY) beam1] := by
          subst hs1
          simp [game_state.emit]
        have haf : (fire_beam E beam1 s1).2.searing_ray = s.searing_ray := by
          rw [← ha1]
          exact hfire beam1 s1
        have hlf : (fire_beam E beam1 s1).2.log = s1.log ++ [Event.fire beam1] := rfl
        generalize hf : fire_beam E beam1 s1 = f at haf hlf
        generalize hs3 : dec_mp 1 ((f.2.emit (Event.trigger_battlesphere f.1)).emit
          (Event.trigger_battlesphere f.1)) = s3
        have ha3 : s3.searing_ray = s.searing_ray := by
          subst hs3
          exact haf
        have hl3 : s3.log = s.log ++ [Event.aim_battlesphere spell_type.SPELL_SEARING_RAY
              (E.calc_spell_power s spell_type.SPELL_SEARING_RAY) beam1,
            Event.aim_battlesphere spell_type.SPELL_SEARING_RAY
              (E.calc_spell_power s spell_type.SPELL_SEARING_RAY) beam1,
            Event.fire beam1, Event.trigger_battlesphere f.1, Event.trigger_battlesphere f.1,
            Event.dec_mp 1] := by
          subst hs3
          simp [dec_mp, game_state.emit, hlf, hl1]
        have hstep := searing_budget_step s.searing_ray h
        have hset : (s3.set_searing_ray (s3.searing_ray + 1)).searing_ray = s.searing_ray + 1 := by
          rw [searing_ray_set, ha3]
        have hzap : ∃ (pow : Int) (b0 : bolt),
            beam1 = E.zappy (searing_ray_zap (s.searing_ray - 1)) pow false b0 :=
          ⟨_, _, hbm.symm⟩
        obtain ⟨l3, hl3', hf3⟩ : ∃ l3, s3.log = s.log ++ l3 ∧ fired_beams l3 = [beam1] :=
          ⟨_, hl3, rfl⟩
        split
        · rename_i hgt
          rw [hset] at hgt
          rw [if_pos hgt] at hstep
          refine ⟨l3 ++ [Event.mpr "You finish channeling your searing ray."], ?_,
            Or.inl (end_searing_ray_attr _), ?_, ?_, ?_⟩
          · show (s3.log ++ [Event.mpr "You finish channeling your searing ray."]) = _
            rw [hl3', List.append_assoc]
          · rw [end_searing_ray_attr, fired_beams_append, hf3]
            simpa [fired_beams] using hstep
          · intro b hb
            rw [fired_beams_append, hf3] at hb
            have : b = beam1 := by simpa [fired_beams] using hb
            rw [this]
            exact hzap
          · refine Or.inr ⟨beam1, ?_, ?_⟩
            · rw [fired_beams_append, hf3]
              rfl
            · have h3 : s.searing_ray = 3 := by omega
              rw [end_searing_ray_attr, if_pos h3]
        · rename_i hgt
          rw [hset] at hgt
          rw [if_neg hgt] at hstep
          refine ⟨l3, hl3', ?_, ?_, ?_, ?_⟩
          · rw [hset]
            omega
          · rw [hset, hf3]
            simpa using hstep
          · intro b hb
            rw [hf3] at hb
            have : b = beam1 := by simpa using hb
            rw [this]
            exact hzap
          · refine Or.inr ⟨beam1, hf3, ?_⟩
            have h3 : ¬ s.searing_ray = 3 := by omega
            rw [hset, if_neg h3]

theorem handle_searing_ray_spec (E : Ext)
    (hfire : ∀ (b : bolt) (s : game_state), (E.fire b s).2.searing_ray = s.searing_ray)
    (s s' : game_state) (h : handle_searing_ray E s = Except.ok s') :
    (s'.searing_ray = 0 ∨ s'.searing_ray = 1 ∨ s'.searing_ray = 2 ∨ s'.searing_ray = 3)
    ∧ ∃ l, s'.log = s.log ++ l
      ∧ (fired_beams l).length + searing_budget s'.searing_ray ≤ searing_budget s.searing_ray
      ∧ (s.searing_ray = -1 → s'.searing_ray = 1 ∧ l = [])
      ∧ (∀ b ∈ fired_beams l,
          (s.searing_ray = 1 ∨ s.searing_ray = 2 ∨ s.searing_ray = 3)
          ∧ ∃ (pow : Int) (b0 : bolt),
              b = E.zappy (searing_ray_zap (s.searing_ray - 1)) pow false b0)
      ∧ (s.searing_ray = 0 → s' = s)
      ∧ ((fired_beams l = []
          ∧ (s'.searing_ray = 0 ∨ (s.searing_ray = -1 ∧ s'.searing_ray = 1)))
        ∨ (∃ b, fired_beams l = [b]
          ∧ (s.searing_ray = 1 ∨ s.searing_ray = 2 ∨ s.searing_ray = 3)
          ∧ s'.searing_ray = (if s.searing_ray = 3 then 0 else s.searing_ray + 1))) := by
  unfold handle_searing_ray at h
  by_cases h0 : s.searing_ray = 0
  · rw [if_pos h0] at h
    simp only [Except.ok.injEq] at h
    subst h
    exact ⟨Or.inl h0, [], by simp, by simp [fired_beams], fun h1 => by omega,
      by simp [fired_beams], fun _ => rfl, Or.inl ⟨rfl, Or.inl h0⟩⟩
  · rw [if_neg h0] at h
    by_cases h1 : s.searing_ray = -1
    · rw [if_pos h1] at h
      simp only [Except.ok.injEq] at h
      subst h
      refine ⟨Or.inr (Or.inl (searing_ray_set s 1)), [], by simp [game_state.set_searing_ray],
        ?_, fun _ => ⟨searing_ray_set s 1, rfl⟩, by simp [fired_beams],
        fun hc => absurd hc h0, Or.inl ⟨rfl, Or.inr ⟨h1, searing_ray_set s 1⟩⟩⟩
      rw [searing_ray_set, h1]
      decide
    · rw [if_neg h1] at h
      dsimp only at h
      by_cases hcmd : s.prev_cmd ≠ command_type.CMD_WAIT
      · rw [if_pos hcmd] at h
        have hno : ¬ (1 ≤ (end_searing_ray s).searing_ray
            ∧ (end_searing_ray s).searing_ray < 4) := by
          rw [end_searing_ray_attr]
          omega
        rw [if_neg hno] at h
        cases h
      · rw [if_neg hcmd] at h
        split at h
        · rename_i hr
          have hattr : s.searing_ray = 1 ∨ s.searing_ray = 2 ∨ s.searing_ray = 3 := by omega
          simp only [Except.ok.injEq] at h
          subst h
          obtain ⟨l, hl, hin, hbud, hz, hstep⟩ := searing_ray_fire_spec E hfire s hattr
          refine ⟨hin, l, hl, hbud, fun hc => absurd hc h1, fun b hb => ⟨hattr, hz b hb⟩,
            fun hc => absurd hc h0, ?_⟩
          rcases hstep with ⟨hn, ha⟩ | ⟨b, hb, ha⟩
          · exact Or.inl ⟨hn, Or.inl ha⟩
          · exact Or.inr ⟨b, hb, hattr, ha⟩
        · cases h

theorem searing_stage_zaps_next (a : Int) (h : a = 1 ∨ a = 2 ∨ a = 3) :
    searing_stage_zaps a
      = searing_ray_zap (a - 1) :: searing_stage_zaps (if a = 3 then 0 else a + 1) := by
  rcases h with h | h | h <;> subst h <;> decide

theorem searing_ray_ticks_spec (E : Ext)
    (hfire : ∀ (b : bolt) (s : game_state), (E.fire b s).2.searing_ray = s.searing_ray) :
    ∀ (n : Nat) (s s' : game_state), searing_ray_ticks E n s = Except.ok s' →
      ∃ l, s'.log = s.log ++ l
        ∧ (fired_beams l).length + searing_budget s'.searing_ray
            ≤ searing_budget s.searing_ray
        ∧ List.Forall₂ (fun b z => ∃ (pow : Int) (b0 : bolt), b = E.zappy z pow false b0)
            (fired_beams l)
            ((searing_stage_zaps s.searing_ray).take (fired_beams l).length) := by
  intro n
  induction n with
  | zero =>
    intro s s' h
    simp only [searing_ray_ticks, Except.ok.injEq] at h
    subst h
    exact ⟨[], by simp, by simp [fired_beams], by simp [fired_beams]⟩
  | succ n ih =>
    intro s s' h
    simp only [searing_ray_ticks] at h
    cases h1 : handle_searing_ray E s with
    | error e =>
      rw [h1] at h
      simp at h
    | ok s1 =>
      rw [h1] at h
      obtain ⟨-, l1, hl1, hb1, -, hz1, -, hstep⟩ := handle_searing_ray_spec E hfire s s1 h1
      obtain ⟨l2, hl2, hb2, hf2⟩ := ih s1 s' h
      refine ⟨l1 ++ l2, by rw [hl2, hl1, List.append_assoc], ?_, ?_⟩
      · rw [fired_beams_append, List.length_append]
        omega
      · rw [fired_beams_append]
        rcases hstep with ⟨hn, ha⟩ | ⟨b, hb, hattr, ha⟩
        · rw [hn, List.nil_append]
          rcases ha with ha | ⟨ha, ha1⟩
          · rw [ha] at hf2
            have hnil : fired_beams l2 = [] := by
              have hz : searing_stage_zaps 0 = [] := by decide
              rw [hz, List.take_nil] at hf2
              exact List.forall₂_nil_right_iff.mp hf2
            rw [hnil]
            simp
          · rw [ha1] at hf2
            rw [ha]
            exact hf2
        · rw [hb, List.singleton_append, List.length_cons,
            searing_stage_zaps_next s.searing_ray hattr, List.take_succ_cons]
          rw [ha] at hf2
          exact List.Forall₂.cons (hz1 b (by rw [hb]; simp)).2 hf2

/-- C28: as long as firing a beam leaves `you.attribute[ATTR_SEARING_RAY]`
alone, the channel is a bounded state machine. A successful `cast_searing_ray`
leaves the attribute at -1. Every call of `handle_searing_ray` that returns
normally leaves it in 0, 1, 2 or 3; from -1 it only moves to 1 and makes no
call; from 0 it changes nothing; it fires a beam only at stage 1, 2 or 3, with
the zap of that stage, and a call that fires fires exactly one beam and moves
from stage 1 to 2, from 2 to 3 and from 3 to 0, while a call at a stage that
fires no beam ends the channel at 0. Any number of calls in a row after a
cast fires at most three beams, and these are the zaps of stages 1, 2 and 3
in this order. -/
theorem searing_ray_state_machine (E : Ext)
    (hfire : ∀ (b : bolt) (s : game_state), (E.fire b s).2.searing_ray = s.searing_ray) :
    (∀ (pow : Int) (beam : bolt) (fail : Bool) (s : game_state),
      (cast_searing_ray E pow beam fail s).1 = spret.success →
      (cast_searing_ray E pow beam fail s).2.searing_ray = -1)
    ∧ (∀ s s' : game_state, handle_searing_ray E s = Except.ok s' →
      (s'.searing_ray = 0 ∨ s'.searing_ray = 1 ∨ s'.searing_ray = 2 ∨ s'.searing_ray = 3)
      ∧ ∃ l, s'.log = s.log ++ l
        ∧ (fired_beams l).length + searing_budget s'.searing_ray
            ≤ searing_budget s.searing_ray
        ∧ (s.searing_ray = -1 → s'.searing_ray = 1 ∧ l = [])
        ∧ (∀ b ∈ fired_beams l,
            (s.searing_ray = 1 ∨ s.searing_ray = 2 ∨ s.searing_ray = 3)
            ∧ ∃ (pow : Int) (b0 : bolt),
                b = E.zappy (searing_ray_zap (s.searing_ray - 1)) pow false b0)
        ∧ (s.searing_ray = 0 → s' = s)
        ∧ ((fired_beams l = []
            ∧ (s'.searing_ray = 0 ∨ (s.searing_ray = -1 ∧ s'.searing_ray = 1)))
          ∨ (∃ b, fired_beams l = [b]
            ∧ (s.searing_ray = 1 ∨ s.searing_ray = 2 ∨ s.searing_ray = 3)
            ∧ s'.searing_ray = (if s.searing_ray = 3 then 0 else s.searing_ray + 1))))
    ∧ (∀ (n : Nat) (s s' : game_state), s.searing_ray = -1 →
      searing_ray_ticks E n s = Except.ok s' →
      ∃ l, s'.log = s.log ++ l ∧ (fired_beams l).length ≤ 3
        ∧ List.Forall₂ (fun b z => ∃ (pow : Int) (b0 : bolt), b = E.zappy z pow false b0)
            (fired_beams l)
            ([zap_type.ZAP_SEARING_RAY_I, zap_type.ZAP_SEARING_RAY_II,
              zap_type.ZAP_SEARING_RAY_III].take (fired_beams l).length)) := by
  refine ⟨?_, handle_searing_ray_spec E hfire, ?_⟩
  · intro pow beam fail s hs
    unfold cast_searing_ray at hs ⊢
    dsimp only at hs ⊢
    by_cases hz : (E.zapping zap_type.ZAP_SEARING_RAY_I pow beam fail s).1 = spret.success
    · rw [if_pos hz]
      show ((E.zapping zap_type.ZAP_SEARING_RAY_I pow beam fail s).2.set_searing_ray
        (-1)).searing_ray = -1
      exact searing_ray_set _ _
    · rw [if_neg hz] at hs
      exact absurd hs hz
  · intro n s s' ha h
    obtain ⟨l, hl, hb, hf⟩ := searing_ray_ticks_spec E hfire n s s' h
    have h3 : searing_budget s.searing_ray = 3 := by
      rw [ha]
      decide
    have hz : searing_stage_zaps s.searing_ray
        = [zap_type.ZAP_SEARING_RAY_I, zap_type.ZAP_SEARING_RAY_II,
            zap_type.ZAP_SEARING_RAY_III] := by
      rw [ha]
      decide
    rw [hz] at hf
    exact ⟨l, hl, by omega, hf⟩

theorem searing_ray_state_machine_witness :
    (∀ (b : bolt) (s : game_state), (ext_plain.fire b s).2.searing_ray = s.searing_ray)
    ∧ (cast_searing_ray ext_plain 20 storm_beam false st_waiting).1 = spret.success
    ∧ (cast_searing_ray ext_plain 20 storm_beam false st_waiting).2.searing_ray = -1
    ∧ searing_ray_run ext_plain 20 storm_beam 1 st_waiting = some (1, 0)
    ∧ searing_ray_run ext_plain 20 storm_beam 2 st_waiting = some (2, 1)
    ∧ searing_ray_run ext_plain 20 storm_beam 3 st_waiting = some (3, 2)
    ∧ searing_ray_run ext_plain 20 storm_beam 4 st_waiting = some (0, 3)
    ∧ searing_ray_run ext_plain 20 storm_beam 9 st_waiting = some (0, 3) :=
  ⟨fun _ _ => rfl, by decide,
    (searing_ray_state_machine ext_plain (fun _ _ => rfl)).1 20 storm_beam false st_waiting
      (by decide),
    by decide, by decide, by decide, by decide, by decide⟩

/-! ### Eligible monsters and the target of a hop -/

theorem chain_consider_of_passes (E : Ext) (caster_pos source : coord_def) (beam : bolt)
    (mi : Nat) (st : chain_scan) (s : game_state)
    (h : chain_passes_filters E caster_pos source beam mi st s = true) :
    chain_consider E caster_pos source beam mi st s
      = chain_accept (chain_jitter_dist source mi s) (s.mon mi).pos st (s.random2 3).2 := by
  unfold chain_passes_filters at h
  simp only [Bool.and_eq_true, Bool.not_eq_true', bne_iff_ne, ne_eq, decide_eq_true_eq] at h
  obtain ⟨⟨⟨⟨⟨⟨h1, h2⟩, h3⟩, h4⟩, h5⟩, h6⟩, h7⟩ := h
  have h4' : ¬ st.min_dist < grid_distance source (s.mon mi).pos + ((s.random2 3).1 - 1) := by
    unfold chain_jitter_dist at h4
    omega
  unfold chain_consider
  simp only [h1, h2, h3, h4', h5, h6, h7, Bool.false_eq_true, if_false, Bool.not_true,
    Bool.or_self]
  rfl

theorem chain_accept_keeps_target (dist : Int) (pos : coord_def) (st : chain_scan)
    (s : game_state) (hpos : pos.x ≠ -1) (h : st.target.x ≠ -1) :
    (chain_accept dist pos st s).1.target.x ≠ -1 := by
  unfold chain_accept
  dsimp only
  repeat' split
  all_goals first | exact hpos | exact h

theorem chain_accept_mons (dist : Int) (pos : coord_def) (st : chain_scan)
    (s : game_state) : (chain_accept dist pos st s).2.mons = s.mons := by
  unfold chain_accept
  dsimp only
  repeat' split
  all_goals rfl

theorem chain_consider_mons (E : Ext) (caster_pos source : coord_def) (beam : bolt)
    (mi : Nat) (st : chain_scan) (s : game_state) :
    (chain_consider E caster_pos source beam mi st s).2.mons = s.mons := by
  unfold chain_consider
  dsimp only
  split
  · rfl
  · split
    · rfl
    · split
      · rfl
      · split
        · rfl
        · split
          · rfl
          · split
            · rfl
            · exact chain_accept_mons _ _ _ _

theorem chain_accept_adopts (dist : Int) (pos : coord_def) (st : chain_scan)
    (s : game_state) (hpos : pos.x ≠ -1)
    (h : (decide (dist < st.min_dist) && (s.one_chance_in 10).1) = false) :
    (chain_accept dist pos st s).1.target.x ≠ -1 := by
  by_cases ht : st.target.x = -1
  · unfold chain_accept
    dsimp only
    split
    · rename_i hlt
      have hc : (s.one_chance_in 10).1 = false := by simpa [hlt] using h
      simp only [hc, if_true]
      exact hpos
    · simp only [ht, if_true]
      exact hpos
  · exact chain_accept_keeps_target dist pos st s hpos ht

theorem chain_consider_keeps_target (E : Ext) (caster_pos source : coord_def) (beam : bolt)
    (mi : Nat) (st : chain_scan) (s : game_state) (hpos : (s.mon mi).pos.x ≠ -1)
    (h : st.target.x ≠ -1) :
    (chain_consider E caster_pos source beam mi st s).1.target.x ≠ -1 := by
  unfold chain_consider
  dsimp only
  split
  · exact h
  · split
    · exact h
    · split
      · exact h
      · split
        · exact h
        · split
          · exact h
          · split
            · exact h
            · exact chain_accept_keeps_target _ _ st _ hpos h

theorem chain_scan_monsters_keeps_target (E : Ext) (caster_pos source : coord_def)
    (beam : bolt) (l : List Nat) :
    ∀ (st : chain_scan) (s : game_state), (∀ j, (s.mon j).pos.x ≠ -1) →
      st.target.x ≠ -1 →
      (chain_scan_monsters E caster_pos source beam l st s).1.target.x ≠ -1 := by
  induction l with
  | nil => intro st s _ h; exact h
  | cons mi rest ih =>
    intro st s hpos h
    simp only [chain_scan_monsters]
    have hr := chain_consider_mons E caster_pos source beam mi st s
    refine ih _ _ (fun j => ?_) (chain_consider_keeps_target E caster_pos source beam mi st s
      (hpos mi) h)
    have : (chain_consider E caster_pos source beam mi st s).2.mon j = s.mon j := by
      simp only [game_state.mon, hr]
    rw [this]
    exact hpos j

theorem chain_scan_monsters_append (E : Ext) (caster_pos source : coord_def) (beam : bolt)
    (l1 l2 : List Nat) :
    ∀ (st : chain_scan) (s : game_state),
      chain_scan_monsters E caster_pos source beam (l1 ++ l2) st s
        = chain_scan_monsters E caster_pos source beam l2
            (chain_scan_monsters E caster_pos source beam l1 st s).1
            (chain_scan_monsters E caster_pos source beam l1 st s).2 := by
  induction l1 with
  | nil => intro st s; rfl
  | cons mi rest ih =>
    intro st s
    simp only [List.cons_append, chain_scan_monsters]
    exact ih _ _

theorem chain_consider_player_keeps_target (E : Ext) (source : coord_def) (st : chain_scan)
    (s : game_state) (hyou : s.you.pos.x ≠ -1) (h : st.target.x ≠ -1) :
    (chain_consider_player E source st s).1.x ≠ -1 := by
  rcases chain_consider_player_rule E source st s with h1 | h1
  · rw [h1]
    exact h
  · rw [h1.1]
    exact hyou

theorem chain_scan_upto_frame (E : Ext) (caster_pos source : coord_def) (beam : bolt)
    (pre : List Nat) (s : game_state) :
    only_rng_differs s (chain_scan_upto E caster_pos source beam pre s).2 :=
  (chain_scan_monsters_spec E caster_pos source beam pre _ s (fun hx => absurd rfl hx)).2

/-- C21 fails as stated: with the player as the caster and one monster on the
next cell that passes every filter, a `one_chance_in(10)` draw that succeeds
passes the monster over although no target has been chosen before; the hop
selects no target, and chain lightning at power 8 grounds out without firing
a beam. -/
theorem chain_grounds_out_with_eligible_monster :
    monster_iterator st_chain_unlucky = [0]
    ∧ chain_passes_filters ext_plain ⟨0, 0⟩ ⟨0, 0⟩ default 0
        (chain_scan_upto ext_plain ⟨0, 0⟩ ⟨0, 0⟩ default [] st_chain_unlucky).1
        st_chain_unlucky = true
    ∧ (chain_pick_target ext_plain ⟨0, 0⟩ ⟨0, 0⟩ default st_chain_unlucky).1.x = -1
    ∧ chain_hops ext_plain spell_type.SPELL_CHAIN_LIGHTNING 8 actor_ref.player false
        st_chain_unlucky = 0 := by
  decide

/-- C21 (amended): in a hop of `cast_chain_spell`, if a monster of the
iteration passes every filter when its turn comes (valid, not ignored, off the
source cell, jittered distance within the minimum, seen from source and
caster, first on the ray) and is not passed over, that is, its jittered
distance is not below the current minimum or the `one_chance_in(10)` draw
fails, then the hop selects a target, whatever the other draws. Cells are
taken to have an `x` other than the marker -1. -/
theorem chain_hop_selects_target (E : Ext) (caster_pos source : coord_def) (beam : bolt)
    (s : game_state) (pre post : List Nat) (mi : Nat)
    (hit : monster_iterator s = pre ++ mi :: post)
    (hmon : ∀ j, (s.mon j).pos.x ≠ -1) (hyou : s.you.pos.x ≠ -1)
    (hpass : chain_passes_filters E caster_pos source beam mi
      (chain_scan_upto E caster_pos source beam pre s).1
      (chain_scan_upto E caster_pos source beam pre s).2 = true)
    (hkeep : chain_passed_over source mi
      (chain_scan_upto E caster_pos source beam pre s).1
      (chain_scan_upto E caster_pos source beam pre s).2 = false) :
    (chain_pick_target E caster_pos source beam s).1.x ≠ -1 := by
  have hfr := chain_scan_upto_frame E caster_pos source beam pre s
  have hfull := (chain_scan_monsters_spec E caster_pos source beam (monster_iterator s)
    { min_dist := E.LOS_DEFAULT_RANGE - 1, count := 0, target := ⟨-1, -1⟩ } s
    (fun hx => absurd rfl hx)).2
  have hmon1 : ∀ j, ((chain_scan_upto E caster_pos source beam pre s).2.mon j).pos.x ≠ -1 := by
    intro j
    have : (chain_scan_upto E caster_pos source beam pre s).2.mon j = s.mon j := by
      simp only [game_state.mon, hfr.2.1]
    rw [this]
    exact hmon j
  have hcons := chain_consider_of_passes E caster_pos source beam mi _ _ hpass
  have hadopt : (chain_consider E caster_pos source beam mi
      (chain_scan_upto E caster_pos source beam pre s).1
      (chain_scan_upto E caster_pos source beam pre s).2).1.target.x ≠ -1 := by
    rw [hcons]
    exact chain_accept_adopts _ _ _ _ (hmon1 mi) hkeep
  have hmon2 : ∀ j, ((chain_consider E caster_pos source beam mi
      (chain_scan_upto E caster_pos source beam pre s).1
      (chain_scan_upto E caster_pos source beam pre s).2).2.mon j).pos.x ≠ -1 := by
    intro j
    have : (chain_consider E caster_pos source beam mi
        (chain_scan_upto E caster_pos source beam pre s).1
        (chain_scan_upto E caster_pos source beam pre s).2).2.mon j
        = (chain_scan_upto E caster_pos source beam pre s).2.mon j := by
      simp only [game_state.mon, chain_consider_mons]
    rw [this]
    exact hmon1 j
  have hpost := chain_scan_monsters_keeps_target E caster_pos source beam post _ _ hmon2 hadopt
  have hscan : chain_scan_monsters E caster_pos source beam (monster_iterator s)
      { min_dist := E.LOS_DEFAULT_RANGE - 1, count := 0, target := ⟨-1, -1⟩ } s
      = chain_scan_monsters E caster_pos source beam post
          (chain_consider E caster_pos source beam mi
            (chain_scan_upto E caster_pos source beam pre s).1
            (chain_scan_upto E caster_pos source beam pre s).2).1
          (chain_consider E caster_pos source beam mi
            (chain_scan_upto E caster_pos source beam pre s).1
            (chain_scan_upto E caster_pos source beam pre s).2).2 := by
    rw [hit, chain_scan_monsters_append]
    rfl
  unfold chain_pick_target
  dsimp only
  apply chain_consider_player_keeps_target
  · rw [hfull.1]
    exact hyou
  · rw [hscan]
    exact hpost

theorem chain_hop_selects_target_witness :
    monster_iterator st_chain = [] ++ 0 :: []
    ∧ (∀ j, (st_chain.mon j).pos.x ≠ -1) ∧ st_chain.you.pos.x ≠ -1
    ∧ chain_passes_filters ext_plain ⟨0, 0⟩ ⟨0, 0⟩ default 0
        (chain_scan_upto ext_plain ⟨0, 0⟩ ⟨0, 0⟩ default [] st_chain).1
        (chain_scan_upto ext_plain ⟨0, 0⟩ ⟨0, 0⟩ default [] st_chain).2 = true
    ∧ chain_passed_over ⟨0, 0⟩ 0
        (chain_scan_upto ext_plain ⟨0, 0⟩ ⟨0, 0⟩ default [] st_chain).1
        (chain_scan_upto ext_plain ⟨0, 0⟩ ⟨0, 0⟩ default [] st_chain).2 = false
    ∧ (chain_pick_target ext_plain ⟨0, 0⟩ ⟨0, 0⟩ default st_chain).1.x ≠ -1 :=
  have hmon : ∀ j, (st_chain.mon j).pos.x ≠ -1 := by
    intro j
    cases j with
    | zero => decide
    | succ k => simp [game_state.mon, st_chain, plain_state]
  ⟨by decide, hmon, by decide, by decide, by decide,
    chain_hop_selects_target ext_plain ⟨0, 0⟩ ⟨0, 0⟩ default st_chain [] [] 0 (by decide)
      hmon (by decide) (by decide) (by decide)⟩

/-! ### Ignition -/

theorem ignition_cells_append (l1 l2 : List Event) :
    ignition_cells (l1 ++ l2) = ignition_cells l1 ++ ignition_cells l2 := by
  simp [ignition_cells, List.filterMap_append]

theorem ignition_frame_refl (s : game_state) : ignition_frame s s :=
  ⟨rfl, rfl, [], by simp, rfl⟩

theorem ignition_frame_trans {a b c : game_state} (h1 : ignition_frame a b)
    (h2 : ignition_frame b c) : ignition_frame a c := by
  obtain ⟨y1, m1, l1, e1, c1⟩ := h1
  obtain ⟨y2, m2, l2, e2, c2⟩ := h2
  refine ⟨y2.trans y1, m2.trans m1, l1 ++ l2, ?_, ?_⟩
  · rw [e2, e1, List.append_assoc]
  · rw [ignition_cells_append, c1, c2]
    rfl

theorem ignition_frame_draw (s : game_state) (c : coord_def) :
    ignition_frame s (s.emit (Event.explosion_draw_cell c)) :=
  ⟨rfl, rfl, [Event.explosion_draw_cell c], rfl, rfl⟩

theorem actor_at_of_frame {s s' : game_state} (hy : s'.you = s.you) (hm : s'.mons = s.mons)
    (c : coord_def) : s'.actor_at c = s.actor_at c := by
  simp only [game_state.actor_at, game_state.monster_at, hy, hm]

theorem ignition_keeps_spared (E : Ext) (agent : actor_ref) (b : bolt) (s s' : game_state)
    (c : coord_def) (hy : s'.you = s.you) (hm : s'.mons = s.mons)
    (h : ignition_keeps E agent b s' c = true) : ignition_spared s agent c := by
  have hat := actor_at_of_frame hy hm c
  unfold ignition_spared
  unfold ignition_keeps at h
  split at h
  · exact absurd h (by simp)
  · rw [hat] at h
    cases ha : s.actor_at c with
    | none => exact ⟨by simp, fun mi hmi => by simp at hmi⟩
    | some act =>
      rw [ha] at h
      dsimp only at h
      split at h
      · exact absurd h (by simp)
      · rename_i hno
        simp only [Bool.or_eq_true, beq_iff_eq, not_or] at hno
        refine ⟨fun he => hno.1 (Option.some.inj he), fun mi hmi => ?_⟩
        have hact : act = actor_ref.mons mi := Option.some.inj hmi
        subst hact
        have hw := hno.2
        dsimp only at hw
        have hmon : s'.mon mi = s.mon mi := by simp only [game_state.mon, hm]
        rw [hmon] at hw
        simpa using hw

theorem ignition_adjacents_spec (E : Ext) (agent : actor_ref) (b : bolt) (s0 : game_state)
    (cells : List coord_def) :
    ∀ (acc : List coord_def) (s : game_state), ignition_frame s0 s →
      (∀ c ∈ acc, ignition_spared s0 agent c) →
      ignition_frame s0 (ignition_adjacents E agent b cells acc s).2
      ∧ ∀ c ∈ (ignition_adjacents E agent b cells acc s).1, ignition_spared s0 agent c := by
  induction cells with
  | nil =>
    intro acc s hf ha
    exact ⟨hf, ha⟩
  | cons c rest ih =>
    intro acc s hf ha
    simp only [ignition_adjacents]
    split
    · rename_i hk
      apply ih
      · exact ignition_frame_trans hf (ignition_frame_draw s c)
      · intro c' hc'
        rcases List.mem_append.mp hc' with h | h
        · exact ha c' h
        · have : c' = c := by simpa using h
          rw [this]
          exact ignition_keeps_spared E agent b s0 s c hf.1 hf.2.1 hk
    · exact ih acc s hf ha

theorem ignition_mark_spec (E : Ext) (agent : actor_ref) (b : bolt) (s0 : game_state)
    (sources : List coord_def) :
    ∀ (acc : List coord_def) (s : game_state), ignition_frame s0 s →
      (∀ c ∈ acc, ignition_spared s0 agent c) →
      ignition_frame s0 (ignition_mark E agent b sources acc s).2
      ∧ ∀ c ∈ (ignition_mark E agent b sources acc s).1, ignition_spared s0 agent c := by
  induction sources with
  | nil =>
    intro acc s hf ha
    exact ⟨hf, ha⟩
  | cons pos rest ih =>
    intro acc s hf ha
    simp only [ignition_mark]
    have h1 := ignition_adjacents_spec E agent b s0 (E.adjacent_cells s pos) acc s hf ha
    exact ih _ _ (ignition_frame_trans h1.1 (ignition_frame_draw _ pos)) h1.2

theorem ignition_blast_cells (E : Ext) (agent : actor_ref) (b : bolt) (center : Bool)
    (cells : List coord_def) :
    ∀ s : game_state, ∃ l, (ignition_blast E agent b center cells s).log = s.log ++ l
      ∧ ignition_cells l = cells := by
  induction cells with
  | nil =>
    intro s
    exact ⟨[], by simp [ignition_blast], rfl⟩
  | cons pos rest ih =>
    intro s
    simp only [ignition_blast]
    obtain ⟨l, hl, hc⟩ := ih (_ignition_square E agent b pos center s)
    have hsq : ∃ l1, (_ignition_square E agent b pos center s).log = s.log ++ l1
        ∧ ignition_cells l1 = [pos] := by
      unfold _ignition_square
      dsimp only
      split
      · exact ⟨[Event.explosion_affect_cell
            { b with target := pos, in_explosion_phase := true } pos,
          Event.noisy spell_type.SPELL_IGNITION pos],
          by simp [game_state.emit, ext_step], rfl⟩
      · exact ⟨[Event.explosion_affect_cell
            { b with target := pos, in_explosion_phase := true } pos],
          by simp [game_state.emit, ext_step], rfl⟩
    obtain ⟨l1, hl1, hc1⟩ := hsq
    refine ⟨l1 ++ l, by rw [hl, hl1, List.append_assoc], ?_⟩
    rw [ignition_cells_append, hc1, hc]
    rfl

theorem ignition_blast_sources_hostile (E : Ext) (s : game_state)
    (hwf : ∀ mi, actor_ref.mons mi ∈ E.actor_near s s.you.pos →
      s.actor_at (s.mon mi).pos = some (actor_ref.mons mi)) :
    ∀ c ∈ ignition_blast_sources E actor_ref.player s,
      ∃ mi, s.actor_at c = some (actor_ref.mons mi) ∧ (s.mon mi).wont_attack = false := by
  intro c hc
  unfold ignition_blast_sources at hc
  rw [List.mem_filterMap] at hc
  obtain ⟨a, ha, hsome⟩ := hc
  cases a with
  | player => simp at hsome
  | mons mi =>
    dsimp only at hsome
    split at hsome
    · rename_i hcond
      have hpos : (s.mon mi).pos = c := Option.some.inj hsome
      rw [← hpos]
      refine ⟨mi, hwf mi ha, ?_⟩
      simp only [Bool.and_eq_true, Bool.not_eq_true'] at hcond
      exact hcond.1.1
    · simp at hsome
/-- C24: a non-failing player cast of Ignition returns success, and no cell
it hands to the damaging explosion holds the player or a monster that would
not attack the player; every blast source holds a hostile monster.  The map
is assumed to record each nearby monster at its own position. -/
theorem cast_ignition_spares_allies (E : Ext) (pow : Int) (s : game_state)
    (hwf : ∀ mi, actor_ref.mons mi ∈ E.actor_near s s.you.pos →
      s.actor_at (s.mon mi).pos = some (actor_ref.mons mi)) :
    (∀ c ∈ ignition_blast_sources E actor_ref.player s,
      ∃ mi, s.actor_at c = some (actor_ref.mons mi) ∧ (s.mon mi).wont_attack = false)
    ∧ ∃ s' l, cast_ignition E actor_ref.player pow false s = Except.ok (spret.success, s')
      ∧ s'.log = s.log ++ l
      ∧ ∀ c ∈ ignition_cells l, s.actor_at c ≠ some actor_ref.player
          ∧ ∀ mi, s.actor_at c = some (actor_ref.mons mi) → (s.mon mi).wont_attack = false := by
  have hsrc := ignition_blast_sources_hostile E s hwf
  refine ⟨hsrc, ?_⟩
  unfold cast_ignition
  simp only [actor_ref.is_player, Bool.not_true, Bool.false_eq_true, if_false]
  split
  · exact ⟨_, [Event.canned_msg "MSG_NOTHING_HAPPENS"], rfl, rfl,
      fun c hc => by simp [ignition_cells] at hc⟩
  · generalize hb : ({ E.set_agent (s.emit (Event.mpr "The air bursts into flame!"))
        actor_ref.player (E.zappy zap_type.ZAP_IGNITION pow false default) with
        ex_size := 0, origin_spell := spell_type.SPELL_IGNITION } : bolt) = b
    have hf0 : ignition_frame s
        ((s.emit (Event.mpr "The air bursts into flame!")).emit (Event.apply_beam_conducts b)) :=
      ⟨rfl, rfl, [Event.mpr "The air bursts into flame!", Event.apply_beam_conducts b],
        by simp [game_state.emit], rfl⟩
    have hm := ignition_mark_spec E actor_ref.player b s
      (ignition_blast_sources E actor_ref.player s) [] _ hf0 (fun c hc => by simp at hc)
    generalize ignition_mark E actor_ref.player b (ignition_blast_sources E actor_ref.player s) []
      ((s.emit (Event.mpr "The air bursts into flame!")).emit (Event.apply_beam_conducts b))
      = m at hm
    obtain ⟨⟨_, _, lm, hlm, hcm⟩, hadj⟩ := hm
    obtain ⟨l4, hl4, hc4⟩ := ignition_blast_cells E actor_ref.player b true
      (ignition_blast_sources E actor_ref.player s)
      ((m.2.emit Event.update_screen).emit (Event.scaled_delay 50))
    obtain ⟨l5, hl5, hc5⟩ := ignition_blast_cells E actor_ref.player b false m.1
      (ignition_blast E actor_ref.player b true (ignition_blast_sources E actor_ref.player s)
        ((m.2.emit Event.update_screen).emit (Event.scaled_delay 50)))
    refine ⟨_, lm ++ [Event.update_screen, Event.scaled_delay 50] ++ l4 ++ l5, rfl, ?_, ?_⟩
    · rw [hl5, hl4]
      simp [game_state.emit, hlm]
    · intro c hc
      rw [ignition_cells_append, ignition_cells_append, ignition_cells_append, hcm, hc4, hc5] at hc
      have hc' : c ∈ ignition_blast_sources E actor_ref.player s ∨ c ∈ m.1 := by
        simpa [ignition_cells] using hc
      rcases hc' with h | h
      · obtain ⟨mi, hat, hw⟩ := hsrc c h
        refine ⟨by rw [hat]; simp, fun mj hj => ?_⟩
        rw [hat] at hj
        have : mi = mj := by simpa using hj
        rw [← this]
        exact hw
      · exact hadj c h

/-- C24 witness: the player at the origin with hostile monsters at (2,0) and
(3,0) and an ally at (2,1). -/
theorem cast_ignition_spares_allies_witness :
    (∀ mi, actor_ref.mons mi ∈ ext_plain.actor_near st_ignition st_ignition.you.pos →
      st_ignition.actor_at (st_ignition.mon mi).pos = some (actor_ref.mons mi))
    ∧ (∀ c ∈ ignition_blast_sources ext_plain actor_ref.player st_ignition,
      ∃ mi, st_ignition.actor_at c = some (actor_ref.mons mi)
        ∧ (st_ignition.mon mi).wont_attack = false)
    ∧ ∃ s' l, cast_ignition ext_plain actor_ref.player 20 false st_ignition
        = Except.ok (spret.success, s')
      ∧ s'.log = st_ignition.log ++ l
      ∧ ∀ c ∈ ignition_cells l, st_ignition.actor_at c ≠ some actor_ref.player
          ∧ ∀ mi, st_ignition.actor_at c = some (actor_ref.mons mi) →
            (st_ignition.mon mi).wont_attack = false :=
  have hwf : ∀ mi, actor_ref.mons mi ∈ ext_plain.actor_near st_ignition st_ignition.you.pos →
      st_ignition.actor_at (st_ignition.mon mi).pos = some (actor_ref.mons mi) := by
    intro mi h
    have hlt : mi < 3 := by
      simpa [ext_plain, st_ignition, plain_state] using h
    interval_cases mi <;> decide
  ⟨hwf, cast_ignition_spares_allies ext_plain 20 st_ignition hwf⟩

/-- C29: with hostile monsters on the adjacent cells (2,0) and (3,0), one
cast of Ignition explodes each of the two cells twice, once as a blast source
and once as the neighbour of the other source. -/
theorem cast_ignition_explodes_cell_twice :
    (ignition_blasted ext_plain actor_ref.player 20 false st_ignition).map
        (fun l => (l.count ⟨2, 0⟩, l.count ⟨3, 0⟩, l.count ⟨2, 1⟩, l.count ⟨0, 0⟩))
      = some (2, 2, 0, 0)
    ∧ ignition_blast_sources ext_plain actor_ref.player st_ignition = [⟨2, 0⟩, ⟨3, 0⟩] := by
  decide

/-! ### Olgreb's Toxic Radiance -/

theorem damage_calls_of_log {s s' : game_state} {l : List Event}
    (h : s'.log = s.log ++ l) : damage_calls s s' = l.filter Event.is_damage := by
  simp [damage_calls, h]

theorem toxic_tracer_loop_spec (E : Ext) (agent : actor_ref) (s : game_state)
    (l : List actor_ref) :
    (toxic_tracer_loop E agent s l = spret.success
        ∨ toxic_tracer_loop E agent s l = spret.abort)
    ∧ (toxic_tracer_loop E agent s l = spret.success ↔
        ∃ a ∈ l, toxic_can_affect s a = true ∧ E.mons_aligned s agent a = false) := by
  induction l with
  | nil => simp [toxic_tracer_loop]
  | cons a rest ih =>
    simp only [toxic_tracer_loop]
    by_cases h : (!toxic_can_affect s a || E.mons_aligned s agent a) = true
    · rw [if_pos h]
      refine ⟨ih.1, ih.2.trans ⟨fun ⟨b, hb, he⟩ => ⟨b, List.mem_cons_of_mem _ hb, he⟩, ?_⟩⟩
      rintro ⟨b, hb, he⟩
      rcases List.mem_cons.mp hb with hba | hb
      · subst hba
        simp [he.1, he.2] at h
      · exact ⟨b, hb, he⟩
    · rw [if_neg h]
      refine ⟨Or.inl rfl, fun _ => ⟨a, List.mem_cons_self _ _, ?_⟩, fun _ => rfl⟩
      simpa using h

theorem monster_hurt_log (i : Nat) (amount : Int) (c : Bool) (s : game_state) :
    ∃ l, (monster_hurt i amount c s).log = s.log ++ Event.hurt i amount :: l
      ∧ l.filter Event.is_damage = [] := by
  unfold monster_hurt
  dsimp only
  have h2 : (if ((s.emit (Event.hurt i amount)).mon i).alive = true then
        (s.emit (Event.hurt i amount)).set_mon i
          { (s.emit (Event.hurt i amount)).mon i with
            hit_points := ((s.emit (Event.hurt i amount)).mon i).hit_points - amount }
      else s.emit (Event.hurt i amount)).log = s.log ++ [Event.hurt i amount] := by
    split <;> rfl
  generalize (if ((s.emit (Event.hurt i amount)).mon i).alive = true then
        (s.emit (Event.hurt i amount)).set_mon i
          { (s.emit (Event.hurt i amount)).mon i with
            hit_points := ((s.emit (Event.hurt i amount)).mon i).hit_points - amount }
      else s.emit (Event.hurt i amount)) = s2 at h2
  split
  · exact ⟨[Event.monster_die i], by simp [monster_die, game_state.emit, h2], rfl⟩
  · exact ⟨[], by simp [h2], rfl⟩

theorem toxic_hit_log (E : Ext) (mi : Nat) (mult : Int) (on_cast : Bool) (pow : Int)
    (a : actor_ref) (bs : Bool) (s : game_state) :
    ∃ l, (toxic_hit E (actor_ref.mons mi) mult on_cast pow a bs s).2.log = s.log ++ l
      ∧ l.filter Event.is_damage ≠ [] := by
  cases a with
  | player =>
    simp only [toxic_hit, actor_ref.is_player, Bool.not_false, if_true]
    generalize E.resist_adjust_damage _ _ _ _ = dam
    generalize (roll_dice 2 3 _).1 = amt
    exact ⟨[Event.ouch dam, Event.poison_player amt],
      by simp [poison_player, ext_step, game_state.emit, ouch], by simp [Event.is_damage]⟩
  | mons mj =>
    simp only [toxic_hit, actor_ref.is_player, Bool.and_false, Bool.false_eq_true, if_false]
    generalize hdam : E.resist_adjust_damage _ _ _ _ = dam
    generalize hs1 : ({ s with rng := _ } : game_state) = s1
    have hl1 : s1.log = s.log := by rw [← hs1]
    obtain ⟨l, hl, _⟩ := monster_hurt_log mj dam true s1
    have key : ∀ (lv : Int) (st : game_state),
        st.log = s.log ++ (Event.hurt mj dam :: l ++ [Event.behaviour_event mj]) →
        ∃ l1, (poison_monster E mj lv st).log = s.log ++ l1
          ∧ l1.filter Event.is_damage ≠ [] :=
      fun lv st h =>
        ⟨Event.hurt mj dam :: l ++ [Event.behaviour_event mj, Event.poison_monster mj lv],
          by simp [poison_monster, ext_step, game_state.emit, h], by simp [Event.is_damage]⟩
    split
    · exact key _ _ (by simp [game_state.emit, hl, hl1])
    · exact ⟨Event.hurt mj dam :: l, by rw [hl, hl1], by simp [Event.is_damage]⟩

theorem toxic_loop_none (E : Ext) (agent : actor_ref) (mult : Int) (on_cast : Bool)
    (pow : Int) (s : game_state) (l : List actor_ref) (bs : Bool)
    (h : ∀ a ∈ l, ¬ (toxic_can_affect s a = true ∧ E.mons_aligned s agent a = false))
    (hag : agent.is_player = false) :
    toxic_loop E agent mult on_cast pow l bs s = (bs, s) := by
  induction l with
  | nil => rfl
  | cons a rest ih =>
    have ih1 := ih (fun b hb => h b (List.mem_cons_of_mem _ hb))
    have ha := h a (List.mem_cons_self _ _)
    simp only [toxic_loop, hag, Bool.not_false, Bool.true_and]
    by_cases hc : toxic_can_affect s a = true
    · have hal : E.mons_aligned s agent a = true := by
        cases hx : E.mons_aligned s agent a
        · exact absurd ⟨hc, hx⟩ ha
        · rfl
      simp [hc, hal, ih1]
    · simp [hc, ih1]

theorem toxic_loop_log (E : Ext) (mi : Nat) (mult : Int) (on_cast : Bool)
    (pow : Int) (l : List actor_ref) :
    ∀ (bs : Bool) (s : game_state),
      ∃ l1, (toxic_loop E (actor_ref.mons mi) mult on_cast pow l bs s).2.log = s.log ++ l1 := by
  induction l with
  | nil => exact fun bs s => ⟨[], by simp [toxic_loop]⟩
  | cons a rest ih =>
    intro bs s
    simp only [toxic_loop]
    split
    · exact ih bs s
    · split
      · exact ih bs s
      · obtain ⟨l1, h1, _⟩ := toxic_hit_log E mi mult on_cast pow a bs s
        obtain ⟨l2, h2⟩ := ih (toxic_hit E (actor_ref.mons mi) mult on_cast pow a bs s).1
          (toxic_hit E (actor_ref.mons mi) mult on_cast pow a bs s).2
        exact ⟨l1 ++ l2, by rw [h2, h1, List.append_assoc]⟩

theorem toxic_loop_some (E : Ext) (mi : Nat) (mult : Int) (on_cast : Bool)
    (pow : Int) (s : game_state) (l : List actor_ref) (bs : Bool)
    (h : ∃ a ∈ l, toxic_can_affect s a = true
      ∧ E.mons_aligned s (actor_ref.mons mi) a = false) :
    ∃ l1, (toxic_loop E (actor_ref.mons mi) mult on_cast pow l bs s).2.log = s.log ++ l1
      ∧ l1.filter Event.is_damage ≠ [] := by
  induction l with
  | nil =>
    obtain ⟨a, ha, _⟩ := h
    simp at ha
  | cons a rest ih =>
    simp only [toxic_loop, actor_ref.is_player, Bool.not_false, Bool.true_and]
    by_cases he : toxic_can_affect s a = true ∧ E.mons_aligned s (actor_ref.mons mi) a = false
    · simp only [he.1, he.2, Bool.not_true, Bool.false_eq_true, if_false]
      obtain ⟨l1, h1, hd⟩ := toxic_hit_log E mi mult on_cast pow a bs s
      obtain ⟨l2, h2⟩ := toxic_loop_log E mi mult on_cast pow rest
        (toxic_hit E (actor_ref.mons mi) mult on_cast pow a bs s).1
        (toxic_hit E (actor_ref.mons mi) mult on_cast pow a bs s).2
      refine ⟨l1 ++ l2, by rw [h2, h1, List.append_assoc], ?_⟩
      rw [List.filter_append]
      intro hnil
      exact hd (List.append_eq_nil.mp hnil).1
    · have hrest : ∃ b ∈ rest, toxic_can_affect s b = true
          ∧ E.mons_aligned s (actor_ref.mons mi) b = false := by
        obtain ⟨b, hb, hbe⟩ := h
        rcases List.mem_cons.mp hb with hba | hb
        · subst hba
          exact absurd hbe he
        · exact ⟨b, hb, hbe⟩
      have hskip : (!toxic_can_affect s a) = true
          ∨ E.mons_aligned s (actor_ref.mons mi) a = true := by
        cases hc : toxic_can_affect s a
        · exact Or.inl rfl
        · cases hx : E.mons_aligned s (actor_ref.mons mi) a
          · exact absurd ⟨hc, hx⟩ he
          · exact Or.inr rfl
      rcases hskip with hk | hk
      · rw [if_pos hk]
        exact ih hrest
      · rw [if_pos hk]
        split
        · exact ih hrest
        · exact ih hrest

/-- C25: for a monster agent the tracer of Toxic Radiance leaves the world as
it was and returns success or abort; it returns success exactly when an actor
near the agent can be affected by the poison and is not aligned with the
agent, and exactly when `toxic_radiance_effect`, run for the same agent in
the same state, makes at least one damage call. -/
theorem toxic_tracer_iff_effect_damages (E : Ext) (mi : Nat) (pow mult : Int)
    (fail on_cast : Bool) (s : game_state) :
    (cast_toxic_radiance E (actor_ref.mons mi) pow fail true s).2 = s
    ∧ ((cast_toxic_radiance E (actor_ref.mons mi) pow fail true s).1 = spret.success
      ∨ (cast_toxic_radiance E (actor_ref.mons mi) pow fail true s).1 = spret.abort)
    ∧ ((cast_toxic_radiance E (actor_ref.mons mi) pow fail true s).1 = spret.success ↔
        ∃ a ∈ E.actor_near s (s.actor_pos (actor_ref.mons mi)),
          toxic_can_affect s a = true ∧ E.mons_aligned s (actor_ref.mons mi) a = false)
    ∧ ((cast_toxic_radiance E (actor_ref.mons mi) pow fail true s).1 = spret.success ↔
        damage_calls s (toxic_radiance_effect E (actor_ref.mons mi) mult on_cast s) ≠ []) := by
  have ht := toxic_tracer_loop_spec E (actor_ref.mons mi) s
    (E.actor_near s (s.actor_pos (actor_ref.mons mi)))
  have hc : cast_toxic_radiance E (actor_ref.mons mi) pow fail true s
      = (toxic_tracer_loop E (actor_ref.mons mi) s
          (E.actor_near s (s.actor_pos (actor_ref.mons mi))), s) := by
    simp [cast_toxic_radiance]
  rw [hc]
  refine ⟨rfl, ht.1, ht.2, ht.2.trans ?_⟩
  by_cases he : ∃ a ∈ E.actor_near s (s.actor_pos (actor_ref.mons mi)),
      toxic_can_affect s a = true ∧ E.mons_aligned s (actor_ref.mons mi) a = false
  · obtain ⟨l1, h1, hd⟩ := toxic_loop_some E mi mult on_cast ((s.mon mi).hit_dice * 8) s
      (E.actor_near s (s.actor_pos (actor_ref.mons mi))) false he
    refine ⟨fun _ => ?_, fun _ => he⟩
    unfold toxic_radiance_effect
    simp only [actor_ref.is_player, Bool.false_and]
    split
    · have hlog : ((toxic_loop E (actor_ref.mons mi) mult on_cast ((s.mon mi).hit_dice * 8)
          (E.actor_near s (s.actor_pos (actor_ref.mons mi))) false s).2.emit
            Event.remove_sanctuary).log = s.log ++ (l1 ++ [Event.remove_sanctuary]) := by
        simp [game_state.emit, h1]
      rw [damage_calls_of_log hlog, List.filter_append]
      intro hnil
      exact hd (List.append_eq_nil.mp hnil).1
    · rw [damage_calls_of_log h1]
      exact hd
  · refine ⟨fun h => absurd h he, fun h => ?_⟩
    exfalso
    apply h
    have hn : ∀ a ∈ E.actor_near s (s.actor_pos (actor_ref.mons mi)),
        ¬ (toxic_can_affect s a = true ∧ E.mons_aligned s (actor_ref.mons mi) a = false) :=
      fun a ha hx => he ⟨a, ha, hx⟩
    unfold toxic_radiance_effect
    simp only [actor_ref.is_player, Bool.false_and]
    rw [toxic_loop_none E (actor_ref.mons mi) mult on_cast _ s _ false hn rfl]
    simp [damage_calls]

theorem toxic_report_example :
    toxic_report ext_plain st_toxic = (spret.success, [Event.ouch 1])
    ∧ toxic_report ext_plain
        { st_toxic with you := { st_toxic.you with res_poison := 3 } } = (spret.abort, []) := by
  decide

/-! ### Spray rays -/

theorem path_back_of_ne_nil (b : bolt) (h : b.path_taken ≠ []) :
    ∃ c, path_back b = Except.ok c := by
  unfold path_back
  cases hl : b.path_taken.getLast? with
  | none => exact absurd (List.getLast?_eq_none_iff.mp hl) h
  | some c => exact ⟨c, rfl⟩

theorem fire_beam_fst (E : Ext) (b : bolt) (s : game_state) :
    (fire_beam E b s).1 = (E.fire b s).1 := rfl

theorem spray_release_target (b : bolt) (sec : Bool) : (spray_release b sec).target = b.target :=
  rfl

theorem spray_release_path (b : bolt) (sec : Bool) :
    (spray_release b sec).path_taken = b.path_taken := rfl

theorem spray_center_spec (E : Ext) (caster : actor_ref) (base_beam : bolt) (s : game_state)
    (hpath : ∀ b s, (E.fire b s).1.path_taken ≠ []) :
    ∃ beams s', spray_center E caster base_beam s = Except.ok (beams, s')
      ∧ (beams.map (fun b => b.target)).Nodup := by
  unfold spray_center
  dsimp only
  obtain ⟨c1, h1⟩ := path_back_of_ne_nil (fire_beam E { base_beam with hit := AUTOMATIC_HIT } s).1
    (by rw [fire_beam_fst]; exact hpath _ _)
  rw [h1]
  dsimp only
  generalize hf2 : fire_beam E _ (fire_beam E { base_beam with hit := AUTOMATIC_HIT } s).2 = f2
  obtain ⟨c2, h2⟩ := path_back_of_ne_nil (spray_release f2.1 false)
    (by rw [spray_release_path, ← hf2, fire_beam_fst]; exact hpath _ _)
  rw [h2]
  dsimp only
  split
  · exact ⟨_, _, rfl, by simp⟩
  · exact ⟨_, _, rfl, by simp⟩

theorem spray_loop_spec (E : Ext) (caster : actor_ref) (range max_rays : Int)
    (aim_dir : coord_def) (base_beam : bolt) (hbase : base_beam.is_tracer = true)
    (hfire : ∀ b s, b.is_tracer = true → (E.fire b s).1.target = b.target)
    (hpath : ∀ b s, (E.fire b s).1.path_taken ≠ []) (cells : List coord_def) :
    ∀ (beams : List bolt) (n : Int) (s : game_state),
      (beams.map (fun b => b.target)).Nodup →
      ∃ beams1 s', spray_loop E caster range max_rays aim_dir base_beam cells beams n s
          = Except.ok (beams1, s')
        ∧ (beams1.map (fun b => b.target)).Nodup := by
  induction cells with
  | nil => exact fun beams n s h => ⟨beams, s, rfl, h⟩
  | cons c rest ih =>
    intro beams n s hnd
    unfold spray_loop
    cases hm : s.monster_at c with
    | none => exact ih beams n s hnd
    | some mi =>
      dsimp only
      split
      · exact ih beams n s hnd
      · split
        · exact ih beams n s hnd
        · split
          · exact ih beams n s hnd
          · split
            · exact ih beams n s hnd
            · obtain ⟨stop, hstop⟩ := path_back_of_ne_nil
                (fire_beam E { base_beam with target := c, hit := AUTOMATIC_HIT } s).1
                (by rw [fire_beam_fst]; exact hpath _ _)
              rw [hstop]
              dsimp only
              by_cases hdup : (beams.any (fun b => stop == b.target)) = true
              · simp only [hdup, Bool.not_true, Bool.false_eq_true, if_false]
                split
                · exact ⟨_, _, rfl, hnd⟩
                · exact ih _ _ _ hnd
              · have hdup1 : (!beams.any (fun b => stop == b.target)) = true := by
                  simpa using hdup
                rw [if_pos hdup1]
                have htgt : (spray_release (fire_beam E { base_beam with target := stop }
                    (fire_beam E { base_beam with target := c, hit := AUTOMATIC_HIT } s).2).1
                    true).target = stop := by
                  rw [spray_release_target, fire_beam_fst]
                  exact hfire _ _ hbase
                have hnd1 : ((beams ++ [spray_release (fire_beam E { base_beam with target := stop }
                    (fire_beam E { base_beam with target := c, hit := AUTOMATIC_HIT } s).2).1
                    true]).map (fun b => b.target)).Nodup := by
                  rw [List.map_append, List.map_singleton, htgt]
                  refine List.Nodup.append hnd (List.nodup_singleton _) ?_
                  intro x hx hx1
                  have hxs : x = stop := by simpa using hx1
                  subst hxs
                  apply hdup
                  obtain ⟨b, hb, hbt⟩ := List.mem_map.mp hx
                  exact List.any_eq_true.mpr ⟨b, hb, by simp [hbt]⟩
                dsimp only
                split
                · exact ⟨_, _, rfl, hnd1⟩
                · exact ih _ _ _ hnd1

/-- C23: provided that firing a tracer leaves its target as it was and that
every fired beam has a path, `get_spray_rays` returns a list of beams for
every caster, aim, range, `max_rays` and `max_spacing`, and no two beams of
the list have the same target cell. -/
theorem get_spray_rays_distinct_targets (E : Ext) (caster : actor_ref) (aim : coord_def)
    (range max_rays max_spacing : Int) (s : game_state)
    (hfire : ∀ b s, b.is_tracer = true → (E.fire b s).1.target = b.target)
    (hpath : ∀ b s, (E.fire b s).1.path_taken ≠ []) :
    ∃ beams s', get_spray_rays E caster aim range max_rays max_spacing s
        = Except.ok (beams, s')
      ∧ (beams.map (fun b => b.target)).Nodup := by
  unfold get_spray_rays
  dsimp only
  obtain ⟨b0, s0, h0, hnd0⟩ := spray_center_spec E caster
    (spray_base_beam E caster aim range s) s hpath
  rw [h0]
  exact spray_loop_spec E caster range max_rays _ _ rfl hfire hpath _ _ _ _ hnd0

/-- C23 witness: in a world where beams travel straight to their target, the
player aims at the first of three hostile monsters. -/
theorem get_spray_rays_distinct_targets_witness :
    (∀ b s, b.is_tracer = true → (ext_paths.fire b s).1.target = b.target)
    ∧ (∀ b s, (ext_paths.fire b s).1.path_taken ≠ [])
    ∧ spray_targets ext_paths actor_ref.player ⟨3, 0⟩ 6 5 3 st_spray
        = some [⟨3, 0⟩, ⟨3, 1⟩, ⟨3, -1⟩]
    ∧ ∃ beams s', get_spray_rays ext_paths actor_ref.player ⟨3, 0⟩ 6 5 3 st_spray
        = Except.ok (beams, s')
      ∧ (beams.map (fun b => b.target)).Nodup :=
  ⟨fun _ _ _ => rfl, fun _ _ => by simp [ext_paths], by decide,
    get_spray_rays_distinct_targets ext_paths actor_ref.player ⟨3, 0⟩ 6 5 3 st_spray
      (fun _ _ _ => rfl) (fun _ _ => by simp [ext_paths])⟩

/-! ### A chain with no eligible monster -/

theorem chain_consider_of_fails (E : Ext) (caster_pos source : coord_def) (beam : bolt)
    (mi : Nat) (st : chain_scan) (s : game_state)
    (h : chain_passes_filters E caster_pos source beam mi st s = false) :
    (chain_consider E caster_pos source beam mi st s).1 = st := by
  unfold chain_consider
  dsimp only
  split
  · rfl
  · rename_i h1
    split
    · rfl
    · rename_i h2
      split
      · rfl
      · rename_i h3
        split
        · rfl
        · rename_i h4
          split
          · rfl
          · rename_i h5
            split
            · rfl
            · rename_i h6
              exfalso
              have hp : chain_passes_filters E caster_pos source beam mi st s = true := by
                unfold chain_passes_filters chain_jitter_dist
                simp only [Bool.and_eq_true, Bool.not_eq_true', bne_iff_ne, ne_eq,
                  decide_eq_true_eq]
                simp only [Bool.or_eq_true, Bool.not_eq_true', not_or,
                  Bool.not_eq_false] at h5
                refine ⟨⟨⟨⟨⟨⟨?_, ?_⟩, h3⟩, ?_⟩, h5.1⟩, h5.2⟩, ?_⟩
                · simpa using h1
                · simpa using h2
                · omega
                · simpa using h6
              rw [hp] at h
              cases h

theorem chain_scan_upto_fails (E : Ext) (caster_pos source : coord_def) (beam : bolt)
    (s : game_state) (all : List Nat)
    (hno : ∀ (pre : List Nat) (mi : Nat) (post : List Nat), all = pre ++ mi :: post →
      chain_passes_filters E caster_pos source beam mi
        (chain_scan_upto E caster_pos source beam pre s).1
        (chain_scan_upto E caster_pos source beam pre s).2 = false) :
    ∀ (l pre : List Nat), all = pre ++ l →
      (chain_scan_upto E caster_pos source beam pre s).1
        = { min_dist := E.LOS_DEFAULT_RANGE - 1, count := 0, target := ⟨-1, -1⟩ } →
      (chain_scan_upto E caster_pos source beam (pre ++ l) s).1
        = { min_dist := E.LOS_DEFAULT_RANGE - 1, count := 0, target := ⟨-1, -1⟩ } := by
  intro l
  induction l with
  | nil =>
    intro pre _ h
    rw [List.append_nil]
    exact h
  | cons mi rest ih =>
    intro pre hall h
    have hsplit : pre ++ mi :: rest = (pre ++ [mi]) ++ rest := by simp
    rw [hsplit]
    apply ih (pre ++ [mi]) (by rw [hall, hsplit])
    have hstep : chain_scan_upto E caster_pos source beam (pre ++ [mi]) s
        = chain_consider E caster_pos source beam mi
            (chain_scan_upto E caster_pos source beam pre s).1
            (chain_scan_upto E caster_pos source beam pre s).2 := by
      unfold chain_scan_upto
      rw [chain_scan_monsters_append]
      rfl
    rw [hstep, chain_consider_of_fails E caster_pos source beam mi _ _ (hno pre mi rest hall)]
    exact h

theorem chain_pick_target_of_fails (E : Ext) (s : game_state) (beam : bolt)
    (hno : ∀ (pre : List Nat) (mi : Nat) (post : List Nat),
      monster_iterator s = pre ++ mi :: post →
      chain_passes_filters E s.you.pos s.you.pos beam mi
        (chain_scan_upto E s.you.pos s.you.pos beam pre s).1
        (chain_scan_upto E s.you.pos s.you.pos beam pre s).2 = false) :
    (chain_pick_target E s.you.pos s.you.pos beam s).1 = ⟨-1, -1⟩ := by
  have h0 : chain_target_ok s.you.pos
      ({ min_dist := E.LOS_DEFAULT_RANGE - 1, count := 0, target := ⟨-1, -1⟩ } :
        chain_scan).target := fun hx => absurd rfl hx
  have h1 := chain_scan_upto_fails E s.you.pos s.you.pos beam s (monster_iterator s) hno
    (monster_iterator s) [] rfl rfl
  rw [List.nil_append] at h1
  have h2 := (chain_scan_monsters_spec E s.you.pos s.you.pos beam (monster_iterator s)
    { min_dist := E.LOS_DEFAULT_RANGE - 1, count := 0, target := ⟨-1, -1⟩ } s h0).2
  unfold chain_scan_upto at h1
  unfold chain_pick_target
  dsimp only
  rw [h1]
  unfold chain_consider_player
  dsimp only
  rw [h2.1, grid_distance_self]
  simp

/-- C6: for every chain spell and power `pow > 0` with `fail = false`, when the
caster is the player and no monster of the iteration passes the eligibility
filters of the first hop when its turn comes, under the draws of this run,
`cast_chain_spell` returns success after firing no beam: the player and every
monster are as before, and the only call it may log is the message that the
arc grounds out.  A monster at the edge of the range that the jitter of this
run leaves out of reach counts as not passing. -/
theorem cast_chain_spell_grounds_out (E : Ext) (spell : spell_type) (pow : Int)
    (s : game_state) (b0 : bolt) (hb0 : chain_init_beam spell = some b0) (hp : 0 < pow)
    (hno : ∀ (pre : List Nat) (mi : Nat) (post : List Nat),
      monster_iterator s = pre ++ mi :: post →
      chain_passes_filters E s.you.pos s.you.pos
        (chain_start_beam E spell actor_ref.player s b0) mi
        (chain_scan_upto E s.you.pos s.you.pos
          (chain_start_beam E spell actor_ref.player s b0) pre s).1
        (chain_scan_upto E s.you.pos s.you.pos
          (chain_start_beam E spell actor_ref.player s b0) pre s).2 = false) :
    ∃ s' l, cast_chain_spell E spell pow actor_ref.player false s
        = Except.ok (spret.success, s')
      ∧ s'.you = s.you ∧ s'.mons = s.mons
      ∧ s'.log = s.log ++ l ∧ fired_beams l = []
      ∧ ∀ e ∈ l, e = Event.mpr "grounds out" := by
  obtain ⟨n, hn⟩ : ∃ n, pow.toNat = n + 1 := ⟨pow.toNat - 1, by omega⟩
  unfold cast_chain_spell
  simp only [Bool.false_eq_true, if_false, hb0, hn]
  generalize hbeam : chain_start_beam E spell actor_ref.player s b0 = beam at hno
  have hpick := chain_pick_target_of_fails E s beam hno
  have hrng := (chain_pick_target_spec E s.you.pos s.you.pos beam s).2
  have hx : (chain_pick_target E (s.actor_pos actor_ref.player) (s.actor_pos actor_ref.player)
      beam s).1.x = -1 := by
    show (chain_pick_target E s.you.pos s.you.pos beam s).1.x = -1
    rw [hpick]
  rw [chain_loop_no_target E spell actor_ref.player n pow _ true beam s hp hx]
  show ∃ s' l, Except.ok (spret.success,
      (if E.you_see_cell (chain_pick_target E s.you.pos s.you.pos beam s).2 s.you.pos = true
        then (chain_pick_target E s.you.pos s.you.pos beam s).2.emit (Event.mpr "grounds out")
        else (chain_pick_target E s.you.pos s.you.pos beam s).2)) = _ ∧ _
  by_cases hsee : E.you_see_cell (chain_pick_target E s.you.pos s.you.pos beam s).2 s.you.pos
      = true
  · simp only [hsee, if_true]
    exact ⟨_, [Event.mpr "grounds out"], rfl, hrng.1, hrng.2.1,
      by simp [game_state.emit, hrng.2.2.2.2.2], rfl, by simp⟩
  · simp only [hsee, if_false]
    exact ⟨_, [], rfl, hrng.1, hrng.2.1, by simp [hrng.2.2.2.2.2], rfl, by simp⟩

/-- C6 witness: chain lightning at power 8 with one monster eight cells away
and a jitter of zero; the monster is further than the minimum of seven and
does not pass, and the chain grounds out. -/
theorem cast_chain_spell_grounds_out_witness :
    chain_init_beam spell_type.SPELL_CHAIN_LIGHTNING
        = some { (default : bolt) with
            name := "lightning arc", aux_source := "chain lightning",
            flavour := beam_type.BEAM_ELECTRICITY }
    ∧ (0 : Int) < 8
    ∧ chain_jitter_dist st_chain_edge.you.pos 0 st_chain_edge = 8
    ∧ ∃ s' l, cast_chain_spell ext_plain spell_type.SPELL_CHAIN_LIGHTNING 8
          actor_ref.player false st_chain_edge = Except.ok (spret.success, s')
        ∧ s'.you = st_chain_edge.you ∧ s'.mons = st_chain_edge.mons
        ∧ s'.log = st_chain_edge.log ++ l ∧ fired_beams l = []
        ∧ ∀ e ∈ l, e = Event.mpr "grounds out" :=
  ⟨rfl, by decide, by decide,
    cast_chain_spell_grounds_out ext_plain spell_type.SPELL_CHAIN_LIGHTNING 8 st_chain_edge
      { (default : bolt) with
        name := "lightning arc", aux_source := "chain lightning",
        flavour := beam_type.BEAM_ELECTRICITY } rfl (by decide)
      (by
        intro pre mi post hit
        have hmi : monster_iterator st_chain_edge = [0] := by decide
        rw [hmi] at hit
        cases pre with
        | nil =>
          simp only [List.nil_append, List.cons.injEq] at hit
          rw [← hit.1]
          decide
        | cons a rest =>
          simp only [List.cons_append, List.cons.injEq] at hit
          have := hit.2
          simp at this)⟩

end Crawl
